import Mathlib

/-!
# Kocmoc virtual-analog filters: anti-alias engine, ladder, Sallen-Key, state-variable

A shallow embedding of `iir.cpp`, `ladder.cpp`, `sallenkey.cpp` and `svfilter.cpp`.

Conventions of the embedding:

* `float` is an ordered field `F` (exact arithmetic; rounding, infinities and NaN are not
  modelled).  Division is the field's total division; the one division whose divisor can be zero,
  in `SetFilterIntegrationRate`, is also given with the infinities and NaN of `float`
  (`FloatVal`, `dtFloat`).
* A `float*` buffer is a `List F`; `b[i]` reads with `List.getD b i 0` and `b[i] = v` writes with
  `List.set`.  `new float[n]` yields `n` cells of unspecified content, supplied by the caller of
  the embedding.
* `int order` is a `Nat` (a negative length cannot be allocated); `int oversamplingFactor` is an
  `Int`.
* Functions that live outside the translated files (the C math library, `fastmath.h`, `rand`)
  are parameters.
-/

namespace Kocmoc

/-- The C math library as used by the engines: `sin`, `cos`, `tan`, `sinh`, `asinh`, the
constant `M_PI`, and the `abs` that the unqualified call in the Newton loops resolves to. -/
structure LibM (F : Type) where
  sin : F → F
  cos : F → F
  tan : F → F
  M_PI : F
  sinh : F → F
  asinh : F → F
  abs : F → F

/-- The approximants of `fastmath.h`, which is not among the translated files. -/
structure FastMath (F : Type) where
  TanhPade32 : F → F
  SinhPade34 : F → F
  SinhPade54 : F → F
  CoshPade54 : F → F
  ASinhPade54 : F → F
  dASinhPade54 : F → F

/-- The loop `for(int ii = 0; ii < n; ii++) s = body(ii, s);`. -/
def forLoop {σ : Type} (body : Nat → σ → σ) : Nat → σ → σ
  | 0, s => s
  | n + 1, s => body n (forLoop body n s)

/-- The expression `new float[n]`: `n` cells whose content is whatever `junk` holds. -/
def newFloats {F : Type} (junk : Nat → F) (n : Nat) : List F :=
  (List.range n).map junk

/-! ## `iir.cpp` -/

/-- The members of `class IIRLowpass` (`iir.h`). -/
structure IIRLowpass (F : Type) where
  samplerate : F
  cutoff : F
  order : Nat
  a1 : List F
  a2 : List F
  K : List F
  pa_real : List F
  pa_imag : List F
  p_real : List F
  p_imag : List F
  z : List F

namespace IIRLowpass

variable {F : Type} [Field F]

/-- Body of the loop of `IIRLowpass::InitializeBiquadCascade`. -/
def initBody (ii : Nat) (s : IIRLowpass F) : IIRLowpass F :=
  { s with z := (s.z.set (ii * 2 + 1) 0).set (ii * 2) 0 }

/-- The method `IIRLowpass::InitializeBiquadCascade`. -/
def InitializeBiquadCascade (s : IIRLowpass F) : IIRLowpass F :=
  forLoop initBody (s.order / 2) s

/-- Body of the loop of `IIRLowpass::IIRfilter`: one biquad section acting on the pair
(engine, `out`). -/
def biquad (ii : Nat) (st : IIRLowpass F × F) : IIRLowpass F × F :=
  let s := st.1
  let out := st.2
  let inn := s.K.getD ii 0 * out - s.a1.getD ii 0 * s.z.getD (ii * 2) 0
    - s.a2.getD ii 0 * s.z.getD (ii * 2 + 1) 0
  let out2 := inn + 2 * s.z.getD (ii * 2) 0 + s.z.getD (ii * 2 + 1) 0
  let z1 := s.z.set (ii * 2 + 1) (s.z.getD (ii * 2) 0)
  let z2 := z1.set (ii * 2) inn
  ({ s with z := z2 }, out2)

/-- The method `IIRLowpass::IIRfilter`: the new engine and the returned sample. -/
def IIRfilter (s : IIRLowpass F) (input : F) : IIRLowpass F × F :=
  forLoop biquad (s.order / 2) (s, input)

/-- First loop of `ComputeCoefficients`: Butterworth pole placement. -/
def placeBody (m : LibM F) (ii : Nat) (s : IIRLowpass F) : IIRLowpass F :=
  let k : Nat := s.order / 2 - ii
  let theta := (2 * (k : F) - 1) * m.M_PI / (2 * (s.order : F))
  { s with pa_real := s.pa_real.set ii (-1 * m.sin theta),
           pa_imag := s.pa_imag.set ii (m.cos theta) }

/-- Second loop of `ComputeCoefficients`: scaling by the pre-warped cutoff. -/
def scaleBody (m : LibM F) (Fc : F) (ii : Nat) (s : IIRLowpass F) : IIRLowpass F :=
  { s with pa_real := s.pa_real.set ii (s.pa_real.getD ii 0 * (2 * m.M_PI * Fc)),
           pa_imag := s.pa_imag.set ii (s.pa_imag.getD ii 0 * (2 * m.M_PI * Fc)) }

/-- Third loop of `ComputeCoefficients`: bilinear transform by explicit complex division. -/
def bilinearBody (ii : Nat) (s : IIRLowpass F) : IIRLowpass F :=
  let u := (2 * s.samplerate + s.pa_real.getD ii 0) / (2 * s.samplerate)
  let v := s.pa_imag.getD ii 0 / (2 * s.samplerate)
  let x := (2 * s.samplerate - s.pa_real.getD ii 0) / (2 * s.samplerate)
  let y := -1 * s.pa_imag.getD ii 0 / (2 * s.samplerate)
  let c := 1 / (x * x + y * y)
  { s with p_real := s.p_real.set ii (c * (u * x + v * y)),
           p_imag := s.p_imag.set ii (c * (v * x - u * y)) }

/-- Fourth loop of `ComputeCoefficients`: the cascade coefficients. -/
def coeffBody (ii : Nat) (s : IIRLowpass F) : IIRLowpass F :=
  let a1n := s.a1.set ii (-2 * s.p_real.getD ii 0)
  let a2n := s.a2.set ii
    (s.p_real.getD ii 0 * s.p_real.getD ii 0 + s.p_imag.getD ii 0 * s.p_imag.getD ii 0)
  let Kn := s.K.set ii ((1 + a1n.getD ii 0 + a2n.getD ii 0) / 4)
  { s with a1 := a1n, a2 := a2n, K := Kn }

/-- The method `IIRLowpass::ComputeCoefficients`. -/
def ComputeCoefficients (m : LibM F) (s : IIRLowpass F) : IIRLowpass F :=
  let s1 := forLoop (placeBody m) (s.order / 2) s
  let Fc := s1.samplerate / m.M_PI * m.tan (m.M_PI * s1.cutoff / s1.samplerate)
  let s2 := forLoop (scaleBody m Fc) (s1.order / 2) s1
  let s3 := forLoop bilinearBody (s2.order / 2) s2
  forLoop coeffBody (s3.order / 2) s3

/-- The constructor `IIRLowpass::IIRLowpass(newSamplerate, newCutoff, newOrder)`; `junk k` is the
content of the `k`-th allocated buffer before it is written. -/
def new (m : LibM F) (junk : Nat → Nat → F) (newSamplerate newCutoff : F) (newOrder : Nat) :
    IIRLowpass F :=
  let s : IIRLowpass F :=
    { samplerate := newSamplerate, cutoff := newCutoff, order := newOrder,
      a1 := newFloats (junk 0) (newOrder / 2),
      a2 := newFloats (junk 1) (newOrder / 2),
      K := newFloats (junk 2) (newOrder / 2),
      pa_real := newFloats (junk 3) (newOrder / 2),
      pa_imag := newFloats (junk 4) (newOrder / 2),
      p_real := newFloats (junk 5) (newOrder / 2),
      p_imag := newFloats (junk 6) (newOrder / 2),
      z := newFloats (junk 7) newOrder }
  ComputeCoefficients m (InitializeBiquadCascade s)

/-- The default constructor `IIRLowpass::IIRLowpass()`. -/
def newDefault (m : LibM F) (junk : Nat → Nat → F) : IIRLowpass F :=
  new m junk 44100 440 32

/-- The method `IIRLowpass::SetFilterOrder`. -/
def SetFilterOrder (m : LibM F) (junk : Nat → Nat → F) (newOrder : Nat) (s : IIRLowpass F) :
    IIRLowpass F :=
  let s1 : IIRLowpass F :=
    { s with order := newOrder,
             a1 := newFloats (junk 0) (newOrder / 2),
             a2 := newFloats (junk 1) (newOrder / 2),
             K := newFloats (junk 2) (newOrder / 2),
             pa_real := newFloats (junk 3) (newOrder / 2),
             pa_imag := newFloats (junk 4) (newOrder / 2),
             p_real := newFloats (junk 5) (newOrder / 2),
             p_imag := newFloats (junk 6) (newOrder / 2),
             z := newFloats (junk 7) newOrder }
  ComputeCoefficients m (InitializeBiquadCascade s1)

/-- The method `IIRLowpass::SetFilterSamplerate`. -/
def SetFilterSamplerate (m : LibM F) (newSamplerate : F) (s : IIRLowpass F) : IIRLowpass F :=
  ComputeCoefficients m (InitializeBiquadCascade { s with samplerate := newSamplerate })

/-- The method `IIRLowpass::SetFilterCutoff`. -/
def SetFilterCutoff (m : LibM F) (newCutoff : F) (s : IIRLowpass F) : IIRLowpass F :=
  ComputeCoefficients m (InitializeBiquadCascade { s with cutoff := newCutoff })

/-- The accessor `IIRLowpass::GetFilterCoeffA1`. -/
def GetFilterCoeffA1 (s : IIRLowpass F) : List F := s.a1

/-- The accessor `IIRLowpass::GetFilterCoeffA2`. -/
def GetFilterCoeffA2 (s : IIRLowpass F) : List F := s.a2

/-- The accessor `IIRLowpass::GetFilterCoeffK`. -/
def GetFilterCoeffK (s : IIRLowpass F) : List F := s.K

/-! ### Section `ii` of the design in closed form

The four loops of `ComputeCoefficients` act on each index independently; the definitions below
name the value each statement of the loops assigns for section `ii`. -/

/-- The angle `theta` of the first loop for section `ii`. -/
def thetaOf (m : LibM F) (order ii : Nat) : F :=
  (2 * ((order / 2 - ii : Nat) : F) - 1) * m.M_PI / (2 * (order : F))

/-- The pre-warped cutoff `Fc`. -/
def FcOf (m : LibM F) (samplerate cutoff : F) : F :=
  samplerate / m.M_PI * m.tan (m.M_PI * cutoff / samplerate)

/-- The value of `pa_real[ii]` after the second loop. -/
def paRealOf (m : LibM F) (samplerate cutoff : F) (order ii : Nat) : F :=
  -1 * m.sin (thetaOf m order ii) * (2 * m.M_PI * FcOf m samplerate cutoff)

/-- The value of `pa_imag[ii]` after the second loop. -/
def paImagOf (m : LibM F) (samplerate cutoff : F) (order ii : Nat) : F :=
  m.cos (thetaOf m order ii) * (2 * m.M_PI * FcOf m samplerate cutoff)

/-- The value the third loop assigns to `p_real[ii]` from the analog pole `(par, pai)`. -/
def bilinearRe (samplerate par pai : F) : F :=
  let u := (2 * samplerate + par) / (2 * samplerate)
  let v := pai / (2 * samplerate)
  let x := (2 * samplerate - par) / (2 * samplerate)
  let y := -1 * pai / (2 * samplerate)
  let c := 1 / (x * x + y * y)
  c * (u * x + v * y)

/-- The value the third loop assigns to `p_imag[ii]` from the analog pole `(par, pai)`. -/
def bilinearIm (samplerate par pai : F) : F :=
  let u := (2 * samplerate + par) / (2 * samplerate)
  let v := pai / (2 * samplerate)
  let x := (2 * samplerate - par) / (2 * samplerate)
  let y := -1 * pai / (2 * samplerate)
  let c := 1 / (x * x + y * y)
  c * (v * x - u * y)

/-- The value of `p_real[ii]` after the third loop. -/
def pRealOf (m : LibM F) (samplerate cutoff : F) (order ii : Nat) : F :=
  bilinearRe samplerate (paRealOf m samplerate cutoff order ii)
    (paImagOf m samplerate cutoff order ii)

/-- The value of `p_imag[ii]` after the third loop. -/
def pImagOf (m : LibM F) (samplerate cutoff : F) (order ii : Nat) : F :=
  bilinearIm samplerate (paRealOf m samplerate cutoff order ii)
    (paImagOf m samplerate cutoff order ii)

/-- The value of `a1[ii]` after the fourth loop. -/
def a1Of (m : LibM F) (samplerate cutoff : F) (order ii : Nat) : F :=
  -2 * pRealOf m samplerate cutoff order ii

/-- The value of `a2[ii]` after the fourth loop. -/
def a2Of (m : LibM F) (samplerate cutoff : F) (order ii : Nat) : F :=
  pRealOf m samplerate cutoff order ii * pRealOf m samplerate cutoff order ii
    + pImagOf m samplerate cutoff order ii * pImagOf m samplerate cutoff order ii

/-- The value of `K[ii]` after the fourth loop. -/
def KOf (m : LibM F) (samplerate cutoff : F) (order ii : Nat) : F :=
  (1 + a1Of m samplerate cutoff order ii + a2Of m samplerate cutoff order ii) / 4

/-- The value of `out` on entry to section `ii` of `IIRfilter`, as a function of the engine
before the call: `out` is `input` on entry to section 0 and `in + 2.0*z[ii*2] + z[ii*2+1]` after
each section. -/
def cascadeOut (s : IIRLowpass F) (input : F) : Nat → F
  | 0 => input
  | ii + 1 =>
    let inn := s.K.getD ii 0 * cascadeOut s input ii - s.a1.getD ii 0 * s.z.getD (ii * 2) 0
      - s.a2.getD ii 0 * s.z.getD (ii * 2 + 1) 0
    inn + 2 * s.z.getD (ii * 2) 0 + s.z.getD (ii * 2 + 1) 0

/-- The value of `in` computed in section `ii` of `IIRfilter`. -/
def cascadeIn (s : IIRLowpass F) (input : F) (ii : Nat) : F :=
  s.K.getD ii 0 * cascadeOut s input ii - s.a1.getD ii 0 * s.z.getD (ii * 2) 0
    - s.a2.getD ii 0 * s.z.getD (ii * 2 + 1) 0

/-- The class invariant on buffer sizes: the seven design buffers hold `order/2` cells and the
delay line `order` cells, as allocated by the constructor and by `SetFilterOrder`. -/
def Sized (s : IIRLowpass F) : Prop :=
  s.a1.length = s.order / 2 ∧ s.a2.length = s.order / 2 ∧ s.K.length = s.order / 2 ∧
  s.pa_real.length = s.order / 2 ∧ s.pa_imag.length = s.order / 2 ∧
  s.p_real.length = s.order / 2 ∧ s.p_imag.length = s.order / 2 ∧
  s.z.length = s.order

instance (s : IIRLowpass F) : Decidable (Sized s) := by
  unfold Sized; infer_instance

end IIRLowpass

/-! ## Shared pieces of the three engines -/

section Shared

variable {F : Type} [LinearOrderedField F]

/-- The dither added to the input: `noise = (float)rand() / (float)RAND_MAX` followed by
`noise = 1.0e-6 * 2.0 * (noise - 0.5)`; `rnd` is the value returned by `rand()`. -/
def ditherNoise (RAND_MAX rnd : Nat) : F :=
  1e-6 * 2 * ((rnd : F) / (RAND_MAX : F) - 0.5)

/-- Body of the Newton-Raphson loops.  The loop state is the iterate `x_k` and whether `break`
has been taken; `next x_k` is the right-hand side assigned to `x_k2`. -/
def newtonBody (abs : F → F) (next : F → F) (_ii : Nat) (st : F × Bool) : F × Bool :=
  if st.2 then st
  else
    let x_k2 := next st.1
    if abs (x_k2 - st.1) < 1e-9 then (x_k2, true) else (x_k2, false)

/-- The loop `for(int ii=0; ii < 8; ii++) { x_k2 = next(x_k); if(abs(x_k2 - x_k) < 1.0e-9)
{ x_k = x_k2; break; } x_k = x_k2; }` started at `x0`; the value is the final `x_k`. -/
def newtonRaphson (abs : F → F) (next : F → F) (x0 : F) : F :=
  (forLoop (newtonBody abs next) 8 (x0, false)).1

end Shared

/-! ## `ladder.cpp` -/

/-- The enumeration `LadderFilterMode` (`ladder.h`). -/
inductive LadderFilterMode where
  | LADDER_LOWPASS_MODE
  | LADDER_BANDPASS_MODE
  | LADDER_HIGHPASS_MODE
  deriving DecidableEq, Repr

/-- The enumeration `LadderIntegrationMethod` (`ladder.h`). -/
inductive LadderIntegrationMethod where
  | LADDER_EULER_FULL_TANH
  | LADDER_PREDICTOR_CORRECTOR_FULL_TANH
  | LADDER_PREDICTOR_CORRECTOR_FEEDBACK_TANH
  | LADDER_TRAPEZOIDAL_FEEDBACK_TANH
  deriving DecidableEq, Repr

/-- The members of `class Ladder` (`ladder.h`). -/
structure Ladder (F : Type) where
  cutoffFrequency : F
  Resonance : F
  oversamplingFactor : Int
  filterMode : LadderFilterMode
  sampleRate : F
  dt : F
  integrationMethod : LadderIntegrationMethod
  p0 : F
  p1 : F
  p2 : F
  p3 : F
  ut_1 : F
  out : F
  iir : IIRLowpass F

namespace Ladder

open LadderFilterMode LadderIntegrationMethod

variable {F : Type} [LinearOrderedField F]

/-- The constant `IIR_DOWNSAMPLE_ORDER` of `ladder.cpp`. -/
def IIR_DOWNSAMPLE_ORDER : Nat := 8

/-- The constant `IIR_DOWNSAMPLING_BANDWIDTH` of `ladder.cpp`. -/
def IIR_DOWNSAMPLING_BANDWIDTH : F := 0.9

/-- The method `Ladder::SetFilterIntegrationRate`.  The quotient is the exact one: it is what the
`float` expression computes, up to rounding, as long as `sampleRate * oversamplingFactor` is not
zero.  For a zero divisor the `float` quotient is an infinity and the value stored in `dt` is
the one of `Ladder.dtFloat`, not the one of this definition. -/
def SetFilterIntegrationRate (s : Ladder F) : Ladder F :=
  let dt := 44100 / (s.sampleRate * (s.oversamplingFactor : F)) * s.cutoffFrequency
  if dt < 0 then { s with dt := 0 }
  else if dt > 0.85 then { s with dt := 0.85 }
  else { s with dt := dt }

/-- The constructor `Ladder::Ladder(newCutoff, newResonance, newOversamplingFactor,
newFilterMode, newSampleRate, newIntegrationMethod)`. -/
def new (m : LibM F) (junk : Nat → Nat → F) (newCutoff newResonance : F)
    (newOversamplingFactor : Int) (newFilterMode : LadderFilterMode) (newSampleRate : F)
    (newIntegrationMethod : LadderIntegrationMethod) : Ladder F :=
  SetFilterIntegrationRate
    { cutoffFrequency := newCutoff, Resonance := newResonance,
      oversamplingFactor := newOversamplingFactor, filterMode := newFilterMode,
      sampleRate := newSampleRate, dt := 0,
      integrationMethod := newIntegrationMethod,
      p0 := 0, p1 := 0, p2 := 0, p3 := 0, ut_1 := 0, out := 0,
      iir := IIRLowpass.new m junk (newSampleRate * (newOversamplingFactor : F))
        (IIR_DOWNSAMPLING_BANDWIDTH * newSampleRate / 2) IIR_DOWNSAMPLE_ORDER }

/-- The default constructor `Ladder::Ladder()`. -/
def newDefault (m : LibM F) (junk : Nat → Nat → F) : Ladder F :=
  new m junk 0.25 0.5 2 LADDER_LOWPASS_MODE 44100 LADDER_PREDICTOR_CORRECTOR_FULL_TANH

/-- The method `Ladder::ResetFilterState`. -/
def ResetFilterState (m : LibM F) (s : Ladder F) : Ladder F :=
  let s1 := SetFilterIntegrationRate { s with cutoffFrequency := 0.25, Resonance := 0 }
  let s2 := { s1 with p0 := 0, p1 := 0, p2 := 0, p3 := 0, out := 0, ut_1 := 0 }
  let i1 := IIRLowpass.SetFilterSamplerate m (s2.sampleRate * (s2.oversamplingFactor : F)) s2.iir
  let i2 := IIRLowpass.SetFilterCutoff m (IIR_DOWNSAMPLING_BANDWIDTH * s2.sampleRate / 2) i1
  { s2 with iir := i2 }

/-- The method `Ladder::SetFilterCutoff`. -/
def SetFilterCutoff (newCutoff : F) (s : Ladder F) : Ladder F :=
  SetFilterIntegrationRate { s with cutoffFrequency := newCutoff }

/-- The method `Ladder::SetFilterResonance`. -/
def SetFilterResonance (newResonance : F) (s : Ladder F) : Ladder F :=
  { s with Resonance := newResonance }

/-- The method `Ladder::SetFilterOversamplingFactor`. -/
def SetFilterOversamplingFactor (m : LibM F) (newOversamplingFactor : Int) (s : Ladder F) :
    Ladder F :=
  let s1 := { s with oversamplingFactor := newOversamplingFactor }
  let i1 := IIRLowpass.SetFilterSamplerate m (s1.sampleRate * (s1.oversamplingFactor : F)) s1.iir
  let i2 := IIRLowpass.SetFilterCutoff m (IIR_DOWNSAMPLING_BANDWIDTH * s1.sampleRate / 2) i1
  SetFilterIntegrationRate { s1 with iir := i2 }

/-- The method `Ladder::SetFilterMode`. -/
def SetFilterMode (newFilterMode : LadderFilterMode) (s : Ladder F) : Ladder F :=
  { s with filterMode := newFilterMode }

/-- The method `Ladder::SetFilterSampleRate`. -/
def SetFilterSampleRate (m : LibM F) (newSampleRate : F) (s : Ladder F) : Ladder F :=
  let s1 := { s with sampleRate := newSampleRate }
  let i1 := IIRLowpass.SetFilterSamplerate m (s1.sampleRate * (s1.oversamplingFactor : F)) s1.iir
  let i2 := IIRLowpass.SetFilterCutoff m (IIR_DOWNSAMPLING_BANDWIDTH * s1.sampleRate / 2) i1
  SetFilterIntegrationRate { s1 with iir := i2 }

/-- The method `Ladder::SetFilterIntegrationMethod`. -/
def SetFilterIntegrationMethod (method : LadderIntegrationMethod) (s : Ladder F) : Ladder F :=
  { s with integrationMethod := method }

/-- The getter `Ladder::GetFilterCutoff`. -/
def GetFilterCutoff (s : Ladder F) : F := s.cutoffFrequency

/-- The getter `Ladder::GetFilterResonance`. -/
def GetFilterResonance (s : Ladder F) : F := s.Resonance

/-- The getter `Ladder::GetFilterOversamplingFactor`. -/
def GetFilterOversamplingFactor (s : Ladder F) : Int := s.oversamplingFactor

/-- The getter `Ladder::GetFilterOutput`. -/
def GetFilterOutput (s : Ladder F) : F := s.out

/-- The getter `Ladder::GetFilterMode`. -/
def GetFilterMode (s : Ladder F) : LadderFilterMode := s.filterMode

/-- The getter `Ladder::GetFilterSampleRate`. -/
def GetFilterSampleRate (s : Ladder F) : F := s.sampleRate

/-- The getter `Ladder::GetFilterIntegrationMethod`. -/
def GetFilterIntegrationMethod (s : Ladder F) : LadderIntegrationMethod := s.integrationMethod

/-- The integration `switch` of `Ladder::LadderFilter` for one oversampled tick: the poles after
the selected scheme has run on the (dithered) `input` with feedback amount `fb`. -/
def integrate (m : LibM F) (fm : FastMath F) (fb input : F) (s : Ladder F) : Ladder F :=
  let T := fm.TanhPade32
  let dt := s.dt
  match s.integrationMethod with
  | LADDER_EULER_FULL_TANH =>
    let p0 := s.p0 + dt * (T (input - fb * s.p3) - T s.p0)
    let p1 := s.p1 + dt * (T p0 - T s.p1)
    let p2 := s.p2 + dt * (T p1 - T s.p2)
    let p3 := s.p3 + dt * (T p2 - T s.p3)
    { s with p0 := p0, p1 := p1, p2 := p2, p3 := p3 }
  | LADDER_PREDICTOR_CORRECTOR_FULL_TANH =>
    let p0_prime := s.p0 + dt * (T (s.ut_1 - fb * s.p3) - T s.p0)
    let p1_prime := s.p1 + dt * (T s.p0 - T s.p1)
    let p2_prime := s.p2 + dt * (T s.p1 - T s.p2)
    let p3_prime := s.p3 + dt * (T s.p2 - T s.p3)
    let p3t_1 := s.p3
    let p3 := s.p3 + 0.5 * dt * ((T s.p2 - T s.p3) + (T p2_prime - T p3_prime))
    let p2 := s.p2 + 0.5 * dt * ((T s.p1 - T s.p2) + (T p1_prime - T p2_prime))
    let p1 := s.p1 + 0.5 * dt * ((T s.p0 - T s.p1) + (T p0_prime - T p1_prime))
    let p0 := s.p0 + 0.5 * dt *
      ((T (s.ut_1 - fb * p3t_1) - T s.p0) + (T (input - fb * p3) - T p0_prime))
    { s with p0 := p0, p1 := p1, p2 := p2, p3 := p3 }
  | LADDER_PREDICTOR_CORRECTOR_FEEDBACK_TANH =>
    let p0_prime := s.p0 + dt * (T (s.ut_1 - fb * s.p3) - s.p0)
    let p1_prime := s.p1 + dt * (s.p0 - s.p1)
    let p2_prime := s.p2 + dt * (s.p1 - s.p2)
    let p3_prime := s.p3 + dt * (s.p2 - s.p3)
    let p3t_1 := s.p3
    let p3 := s.p3 + 0.5 * dt * ((s.p2 - s.p3) + (p2_prime - p3_prime))
    let p2 := s.p2 + 0.5 * dt * ((s.p1 - s.p2) + (p1_prime - p2_prime))
    let p1 := s.p1 + 0.5 * dt * ((s.p0 - s.p1) + (p0_prime - p1_prime))
    let p0 := s.p0 + 0.5 * dt *
      ((T (s.ut_1 - fb * p3t_1) - s.p0) + (T (input - fb * p3) - p0_prime))
    { s with p0 := p0, p1 := p1, p2 := p2, p3 := p3 }
  | LADDER_TRAPEZOIDAL_FEEDBACK_TANH =>
    let ut := T (s.ut_1 - fb * s.p3)
    let b := (0.5 * dt) / (1 + 0.5 * dt)
    let c := (1 - 0.5 * dt) / (1 + 0.5 * dt)
    let g := -fb * b * b * b * b
    let D_t := c * s.p3 + (b + c * b) * s.p2 + (b * b + b * b * c) * s.p1
      + (b * b * b + b * b * b * c) * s.p0 + b * b * b * b * ut
    let C_t := T (input - fb * D_t)
    let ut_2 := newtonRaphson m.abs
      (fun x_k =>
        let tanh_g_xk := T (g * x_k)
        let tanh_g_xk2 := g * (1 - T (g * x_k) * T (g * x_k))
        x_k - (x_k + x_k * tanh_g_xk * C_t - tanh_g_xk - C_t) /
          (1 + C_t * (tanh_g_xk + x_k * tanh_g_xk2) - tanh_g_xk2))
      ut
    let p0_prime := s.p0
    let p1_prime := s.p1
    let p2_prime := s.p2
    let p3_prime := s.p3
    let p0 := c * p0_prime + b * (ut + ut_2)
    let p1 := c * p1_prime + b * (p0_prime + p0)
    let p2 := c * p2_prime + b * (p1_prime + p1)
    let p3 := c * p3_prime + b * (p2_prime + p2)
    { s with p0 := p0, p1 := p1, p2 := p2, p3 := p3 }

/-- The filter-mode `switch` of `Ladder::LadderFilter`: the value assigned to `out` before the
downsampling filter. -/
def outputTap (fm : FastMath F) (fb input : F) (s : Ladder F) : F :=
  match s.filterMode with
  | LADDER_LOWPASS_MODE => s.p3
  | LADDER_BANDPASS_MODE => s.p1 - s.p3
  | LADDER_HIGHPASS_MODE => fm.TanhPade32 (input - s.p0 - fb * s.p3)

/-- Body of the oversampling loop of `Ladder::LadderFilter`. -/
def tick (m : LibM F) (fm : FastMath F) (fb input : F) (_nn : Nat) (s : Ladder F) : Ladder F :=
  let s1 := integrate m fm fb input s
  let s2 := { s1 with ut_1 := input }
  let s3 := { s2 with out := outputTap fm fb input s2 }
  if s3.oversamplingFactor > 1 then
    let r := IIRLowpass.IIRfilter s3.iir s3.out
    { s3 with iir := r.1, out := r.2 }
  else s3

/-- The method `Ladder::LadderFilter`; `rnd` is the value `rand()` returns in this call. -/
def LadderFilter (m : LibM F) (fm : FastMath F) (RAND_MAX rnd : Nat) (input : F) (s : Ladder F) :
    Ladder F :=
  let fb := 8 * s.Resonance
  let noise : F := ditherNoise RAND_MAX rnd
  let input := input + noise
  forLoop (tick m fm fb input) s.oversamplingFactor.toNat s

/-- The getter `Ladder::GetFilterLowpass`. -/
def GetFilterLowpass (s : Ladder F) : F := s.p3

/-- The getter `Ladder::GetFilterBandpass`. -/
def GetFilterBandpass (_s : Ladder F) : F := 0

/-- The getter `Ladder::GetFilterHighpass`. -/
def GetFilterHighpass (_s : Ladder F) : F := 0

end Ladder

/-! ## `sallenkey.cpp` -/

/-- The enumeration `SKFilterMode` (`sallenkey.h`). -/
inductive SKFilterMode where
  | SK_LOWPASS_MODE
  | SK_BANDPASS_MODE
  | SK_HIGHPASS_MODE
  deriving DecidableEq, Repr

/-- The enumeration `SKIntegrationMethod` (`sallenkey.h`). -/
inductive SKIntegrationMethod where
  | SK_SEMI_IMPLICIT_EULER
  | SK_PREDICTOR_CORRECTOR
  | SK_TRAPEZOIDAL
  deriving DecidableEq, Repr

/-- The members of `class SKFilter` (`sallenkey.h`). -/
structure SKFilter (F : Type) where
  cutoffFrequency : F
  Resonance : F
  oversamplingFactor : Int
  filterMode : SKFilterMode
  sampleRate : F
  dt : F
  integrationMethod : SKIntegrationMethod
  p0 : F
  p1 : F
  input_lp : F
  input_bp : F
  input_hp : F
  input_lp_t1 : F
  input_bp_t1 : F
  input_hp_t1 : F
  out : F
  iir : IIRLowpass F

namespace SKFilter

open SKFilterMode SKIntegrationMethod

variable {F : Type} [LinearOrderedField F]

/-- The constant `IIR_DOWNSAMPLE_ORDER` of `sallenkey.cpp`. -/
def IIR_DOWNSAMPLE_ORDER : Nat := 8

/-- The constant `IIR_DOWNSAMPLING_BANDWIDTH` of `sallenkey.cpp`. -/
def IIR_DOWNSAMPLING_BANDWIDTH : F := 0.9

/-- The method `SKFilter::SetFilterIntegrationRate`.  The quotient is the exact one: it is what the
`float` expression computes, up to rounding, as long as `sampleRate * oversamplingFactor` is not
zero.  For a zero divisor the `float` quotient is an infinity and the value stored in `dt` is
the one of `SKFilter.dtFloat`, not the one of this definition. -/
def SetFilterIntegrationRate (s : SKFilter F) : SKFilter F :=
  let dt := 44100 / (s.sampleRate * (s.oversamplingFactor : F)) * s.cutoffFrequency
  if dt < 0 then { s with dt := 0 }
  else if dt > 0.35 then { s with dt := 0.35 }
  else { s with dt := dt }

/-- The constructor `SKFilter::SKFilter(newCutoff, newResonance, newOversamplingFactor,
newFilterMode, newSampleRate, newIntegrationMethod)`. -/
def new (m : LibM F) (junk : Nat → Nat → F) (newCutoff newResonance : F)
    (newOversamplingFactor : Int) (newFilterMode : SKFilterMode) (newSampleRate : F)
    (newIntegrationMethod : SKIntegrationMethod) : SKFilter F :=
  SetFilterIntegrationRate
    { cutoffFrequency := newCutoff, Resonance := newResonance,
      oversamplingFactor := newOversamplingFactor, filterMode := newFilterMode,
      sampleRate := newSampleRate, dt := 0,
      integrationMethod := newIntegrationMethod,
      p0 := 0, p1 := 0, out := 0,
      input_lp := 0, input_bp := 0, input_hp := 0,
      input_lp_t1 := 0, input_bp_t1 := 0, input_hp_t1 := 0,
      iir := IIRLowpass.new m junk (newSampleRate * (newOversamplingFactor : F))
        (IIR_DOWNSAMPLING_BANDWIDTH * newSampleRate / 2) IIR_DOWNSAMPLE_ORDER }

/-- The default constructor `SKFilter::SKFilter()`. -/
def newDefault (m : LibM F) (junk : Nat → Nat → F) : SKFilter F :=
  new m junk 0.25 0.5 2 SK_LOWPASS_MODE 44100 SK_TRAPEZOIDAL

/-- The method `SKFilter::ResetFilterState`. -/
def ResetFilterState (m : LibM F) (s : SKFilter F) : SKFilter F :=
  let s1 := SetFilterIntegrationRate { s with cutoffFrequency := 0.25, Resonance := 0.5 }
  let s2 := { s1 with p0 := 0, p1 := 0, out := 0,
                      input_lp := 0, input_bp := 0, input_hp := 0,
                      input_lp_t1 := 0, input_bp_t1 := 0, input_hp_t1 := 0 }
  let i1 := IIRLowpass.SetFilterSamplerate m (s2.sampleRate * (s2.oversamplingFactor : F)) s2.iir
  let i2 := IIRLowpass.SetFilterCutoff m (IIR_DOWNSAMPLING_BANDWIDTH * s2.sampleRate / 2) i1
  { s2 with iir := i2 }

/-- The method `SKFilter::SetFilterCutoff`. -/
def SetFilterCutoff (newCutoff : F) (s : SKFilter F) : SKFilter F :=
  SetFilterIntegrationRate { s with cutoffFrequency := newCutoff }

/-- The method `SKFilter::SetFilterResonance`. -/
def SetFilterResonance (newResonance : F) (s : SKFilter F) : SKFilter F :=
  { s with Resonance := newResonance }

/-- The method `SKFilter::SetFilterOversamplingFactor`. -/
def SetFilterOversamplingFactor (m : LibM F) (newOversamplingFactor : Int) (s : SKFilter F) :
    SKFilter F :=
  let s1 := { s with oversamplingFactor := newOversamplingFactor }
  let i1 := IIRLowpass.SetFilterSamplerate m (s1.sampleRate * (s1.oversamplingFactor : F)) s1.iir
  let i2 := IIRLowpass.SetFilterCutoff m (IIR_DOWNSAMPLING_BANDWIDTH * s1.sampleRate / 2) i1
  SetFilterIntegrationRate { s1 with iir := i2 }

/-- The method `SKFilter::SetFilterMode`. -/
def SetFilterMode (newFilterMode : SKFilterMode) (s : SKFilter F) : SKFilter F :=
  { s with filterMode := newFilterMode }

/-- The method `SKFilter::SetFilterSampleRate`. -/
def SetFilterSampleRate (m : LibM F) (newSampleRate : F) (s : SKFilter F) : SKFilter F :=
  let s1 := { s with sampleRate := newSampleRate }
  let i1 := IIRLowpass.SetFilterSamplerate m (s1.sampleRate * (s1.oversamplingFactor : F)) s1.iir
  let i2 := IIRLowpass.SetFilterCutoff m (IIR_DOWNSAMPLING_BANDWIDTH * s1.sampleRate / 2) i1
  SetFilterIntegrationRate { s1 with iir := i2 }

/-- The method `SKFilter::SetFilterIntegrationMethod`. -/
def SetFilterIntegrationMethod (method : SKIntegrationMethod) (s : SKFilter F) : SKFilter F :=
  { s with integrationMethod := method }

/-- The getter `SKFilter::GetFilterCutoff`. -/
def GetFilterCutoff (s : SKFilter F) : F := s.cutoffFrequency

/-- The getter `SKFilter::GetFilterResonance`. -/
def GetFilterResonance (s : SKFilter F) : F := s.Resonance

/-- The getter `SKFilter::GetFilterOversamplingFactor`. -/
def GetFilterOversamplingFactor (s : SKFilter F) : Int := s.oversamplingFactor

/-- The getter `SKFilter::GetFilterOutput`. -/
def GetFilterOutput (s : SKFilter F) : F := s.out

/-- The getter `SKFilter::GetFilterMode`. -/
def GetFilterMode (s : SKFilter F) : SKFilterMode := s.filterMode

/-- The getter `SKFilter::GetFilterSampleRate`. -/
def GetFilterSampleRate (s : SKFilter F) : F := s.sampleRate

/-- The getter `SKFilter::GetFilterIntegrationMethod`. -/
def GetFilterIntegrationMethod (s : SKFilter F) : SKIntegrationMethod := s.integrationMethod

/-- The filter-mode `switch` at the head of `SKFilter::filter`: routing of the (dithered)
input. -/
def route (input : F) (s : SKFilter F) : SKFilter F :=
  match s.filterMode with
  | SK_LOWPASS_MODE => { s with input_lp := input, input_bp := 0, input_hp := 0 }
  | SK_BANDPASS_MODE => { s with input_lp := 0, input_bp := input, input_hp := 0 }
  | SK_HIGHPASS_MODE => { s with input_lp := 0, input_bp := 0, input_hp := input }

/-- The integration `switch` of `SKFilter::filter` for one oversampled tick. -/
def integrate (m : LibM F) (fm : FastMath F) (res : F) (s : SKFilter F) : SKFilter F :=
  let dt := s.dt
  match s.integrationMethod with
  | SK_SEMI_IMPLICIT_EULER =>
    let fb := s.input_bp + res * s.p1
    let p0 := s.p0 + dt * (s.input_lp - s.p0 - fb)
    let p1 := s.p1 + dt * (p0 + fb - s.p1 - 1 / 4 * fm.SinhPade34 (p0 * 4))
    { s with p0 := p0, p1 := p1, out := p1 }
  | SK_PREDICTOR_CORRECTOR =>
    let fb := s.input_bp_t1 + res * s.p1
    let p0_prime := s.p0 + dt * (s.input_lp_t1 - s.p0 - fb)
    let p1_prime := s.p1 + dt * (s.p0 + fb - s.p1 - 1 / 4 * fm.SinhPade34 (s.p1 * 4))
    let fb_prime := s.input_bp + res * p1_prime
    let p1 := s.p1 + 0.5 * dt * ((s.p0 + fb - s.p1 - 1 / 4 * fm.SinhPade34 (s.p1 * 4)) +
      (p0_prime + fb_prime - p1_prime - 1 / 4 * fm.SinhPade34 (s.p1 * 4)))
    let p0 := s.p0 + 0.5 * dt * ((s.input_lp_t1 - s.p0 - fb) +
      (s.input_lp - p0_prime - fb_prime))
    { s with p0 := p0, p1 := p1, out := p1 }
  | SK_TRAPEZOIDAL =>
    let fb_t := s.input_bp_t1 + res * s.p1
    let alpha := dt / 2
    let A := s.p0 + fb_t - s.p1 - 1 / 4 * fm.SinhPade54 (4 * s.p1) +
      s.p0 / (1 + alpha) + alpha / (1 + alpha) * (s.input_lp_t1 - s.p0 - fb_t + s.input_lp)
    let c := 1 - (alpha - alpha * alpha / (1 + alpha)) * res + alpha
    let D_n := s.p1 + alpha * A + (alpha - alpha * alpha / (1 + alpha)) * s.input_bp
    let x_k := newtonRaphson m.abs
      (fun x_k =>
        x_k - (c * x_k + alpha * 1 / 4 * fm.SinhPade54 (4 * x_k) - D_n) /
          (c + alpha * fm.CoshPade54 (4 * x_k)))
      s.p1
    let p1 := x_k
    let fb := s.input_bp + res * p1
    let p0 := s.p0 / (1 + alpha) +
      alpha / (1 + alpha) * (s.input_lp_t1 - s.p0 - fb_t + s.input_lp - fb)
    { s with p0 := p0, p1 := p1, out := p1 }

/-- Body of the oversampling loop of `SKFilter::filter`. -/
def tick (m : LibM F) (fm : FastMath F) (res : F) (_nn : Nat) (s : SKFilter F) : SKFilter F :=
  let s1 := integrate m fm res s
  if s1.oversamplingFactor > 1 then
    let r := IIRLowpass.IIRfilter s1.iir s1.out
    { s1 with iir := r.1, out := r.2 }
  else s1

/-- The method `SKFilter::filter`; `rnd` is the value `rand()` returns in this call. -/
def filter (m : LibM F) (fm : FastMath F) (RAND_MAX rnd : Nat) (input : F) (s : SKFilter F) :
    SKFilter F :=
  let res := 4 * s.Resonance
  let noise : F := ditherNoise RAND_MAX rnd
  let input := input + noise
  let s1 := route input s
  let s2 := forLoop (tick m fm res) s1.oversamplingFactor.toNat s1
  { s2 with input_lp_t1 := s2.input_lp, input_bp_t1 := s2.input_bp,
            input_hp_t1 := s2.input_hp }

/-- The method `SKFilter::SetFilterLowpassInput`. -/
def SetFilterLowpassInput (input : F) (s : SKFilter F) : SKFilter F :=
  { s with input_lp := input }

/-- The method `SKFilter::SetFilterBandpassInput`. -/
def SetFilterBandpassInput (input : F) (s : SKFilter F) : SKFilter F :=
  { s with input_bp := input }

/-- The method `SKFilter::SetFilterHighpassInput`. -/
def SetFilterHighpassInput (input : F) (s : SKFilter F) : SKFilter F :=
  { s with input_hp := input }

end SKFilter

/-! ## `svfilter.cpp` -/

/-- The enumeration `SVFFilterMode` (`svfilter.h`). -/
inductive SVFFilterMode where
  | SVF_LOWPASS_MODE
  | SVF_BANDPASS_MODE
  | SVF_HIGHPASS_MODE
  deriving DecidableEq, Repr

/-- The enumeration `SVFIntegrationMethod` (`svfilter.h`). -/
inductive SVFIntegrationMethod where
  | SVF_SEMI_IMPLICIT_EULER
  | SVF_PREDICTOR_CORRECTOR
  | SVF_TRAPEZOIDAL
  | SVF_INV_TRAPEZOIDAL
  deriving DecidableEq, Repr

/-- The members of `class SVFilter` (`svfilter.h`). -/
structure SVFilter (F : Type) where
  cutoffFrequency : F
  Resonance : F
  oversamplingFactor : Int
  filterMode : SVFFilterMode
  sampleRate : F
  dt : F
  integrationMethod : SVFIntegrationMethod
  lp : F
  bp : F
  hp : F
  u_t1 : F
  out : F
  iir : IIRLowpass F

namespace SVFilter

open SVFFilterMode SVFIntegrationMethod

variable {F : Type} [LinearOrderedField F]

/-- The constant `IIR_DOWNSAMPLE_ORDER` of `svfilter.cpp`. -/
def IIR_DOWNSAMPLE_ORDER : Nat := 16

/-- The constant `IIR_DOWNSAMPLING_BANDWIDTH` of `svfilter.cpp`. -/
def IIR_DOWNSAMPLING_BANDWIDTH : F := 0.9

/-- The method `SVFilter::SetFilterIntegrationRate`.  The quotient is the exact one: it is what the
`float` expression computes, up to rounding, as long as `sampleRate * oversamplingFactor` is not
zero.  For a zero divisor the `float` quotient is an infinity and the value stored in `dt` is
the one of `SVFilter.dtFloat`, not the one of this definition. -/
def SetFilterIntegrationRate (s : SVFilter F) : SVFilter F :=
  let dt := 44100 / (s.sampleRate * (s.oversamplingFactor : F)) * s.cutoffFrequency
  if dt < 0 then { s with dt := 0 }
  else { s with dt := dt }

/-- The constructor `SVFilter::SVFilter(newCutoff, newResonance, newOversamplingFactor,
newFilterMode, newSampleRate, newIntegrationMethod)`. -/
def new (m : LibM F) (junk : Nat → Nat → F) (newCutoff newResonance : F)
    (newOversamplingFactor : Int) (newFilterMode : SVFFilterMode) (newSampleRate : F)
    (newIntegrationMethod : SVFIntegrationMethod) : SVFilter F :=
  SetFilterIntegrationRate
    { cutoffFrequency := newCutoff, Resonance := newResonance,
      oversamplingFactor := newOversamplingFactor, filterMode := newFilterMode,
      sampleRate := newSampleRate, dt := 0,
      integrationMethod := newIntegrationMethod,
      hp := 0, bp := 0, lp := 0, out := 0, u_t1 := 0,
      iir := IIRLowpass.new m junk (newSampleRate * (newOversamplingFactor : F))
        (IIR_DOWNSAMPLING_BANDWIDTH * newSampleRate / 2) IIR_DOWNSAMPLE_ORDER }

/-- The default constructor `SVFilter::SVFilter()`. -/
def newDefault (m : LibM F) (junk : Nat → Nat → F) : SVFilter F :=
  new m junk 0.25 0.5 2 SVF_LOWPASS_MODE 44100 SVF_TRAPEZOIDAL

/-- The method `SVFilter::ResetFilterState`. -/
def ResetFilterState (m : LibM F) (s : SVFilter F) : SVFilter F :=
  let s1 := SetFilterIntegrationRate { s with cutoffFrequency := 0.25, Resonance := 0.5 }
  let s2 := { s1 with hp := 0, bp := 0, lp := 0, out := 0, u_t1 := 0 }
  let i1 := IIRLowpass.SetFilterSamplerate m (s2.sampleRate * (s2.oversamplingFactor : F)) s2.iir
  let i2 := IIRLowpass.SetFilterCutoff m (IIR_DOWNSAMPLING_BANDWIDTH * s2.sampleRate / 2) i1
  { s2 with iir := i2 }

/-- The method `SVFilter::SetFilterCutoff`. -/
def SetFilterCutoff (newCutoff : F) (s : SVFilter F) : SVFilter F :=
  SetFilterIntegrationRate { s with cutoffFrequency := newCutoff }

/-- The method `SVFilter::SetFilterResonance`. -/
def SetFilterResonance (newResonance : F) (s : SVFilter F) : SVFilter F :=
  { s with Resonance := newResonance }

/-- The method `SVFilter::SetFilterOversamplingFactor`. -/
def SetFilterOversamplingFactor (m : LibM F) (newOversamplingFactor : Int) (s : SVFilter F) :
    SVFilter F :=
  let s1 := { s with oversamplingFactor := newOversamplingFactor }
  let i1 := IIRLowpass.SetFilterSamplerate m (s1.sampleRate * (s1.oversamplingFactor : F)) s1.iir
  let i2 := IIRLowpass.SetFilterCutoff m (IIR_DOWNSAMPLING_BANDWIDTH * s1.sampleRate / 2) i1
  SetFilterIntegrationRate { s1 with iir := i2 }

/-- The method `SVFilter::SetFilterMode`. -/
def SetFilterMode (newFilterMode : SVFFilterMode) (s : SVFilter F) : SVFilter F :=
  { s with filterMode := newFilterMode }

/-- The method `SVFilter::SetFilterSampleRate`. -/
def SetFilterSampleRate (m : LibM F) (newSampleRate : F) (s : SVFilter F) : SVFilter F :=
  let s1 := { s with sampleRate := newSampleRate }
  let i1 := IIRLowpass.SetFilterSamplerate m (s1.sampleRate * (s1.oversamplingFactor : F)) s1.iir
  let i2 := IIRLowpass.SetFilterCutoff m (IIR_DOWNSAMPLING_BANDWIDTH * s1.sampleRate / 2) i1
  SetFilterIntegrationRate { s1 with iir := i2 }

/-- The method `SVFilter::SetFilterIntegrationMethod`. -/
def SetFilterIntegrationMethod (m : LibM F) (method : SVFIntegrationMethod) (s : SVFilter F) :
    SVFilter F :=
  ResetFilterState m { s with integrationMethod := method }

/-- The getter `SVFilter::GetFilterCutoff`. -/
def GetFilterCutoff (s : SVFilter F) : F := s.cutoffFrequency

/-- The getter `SVFilter::GetFilterResonance`. -/
def GetFilterResonance (s : SVFilter F) : F := s.Resonance

/-- The getter `SVFilter::GetFilterOversamplingFactor`. -/
def GetFilterOversamplingFactor (s : SVFilter F) : Int := s.oversamplingFactor

/-- The getter `SVFilter::GetFilterOutput`. -/
def GetFilterOutput (s : SVFilter F) : F := s.out

/-- The getter `SVFilter::GetFilterMode`. -/
def GetFilterMode (s : SVFilter F) : SVFFilterMode := s.filterMode

/-- The getter `SVFilter::GetFilterSampleRate`. -/
def GetFilterSampleRate (s : SVFilter F) : F := s.sampleRate

/-- The getter `SVFilter::GetFilterIntegrationMethod`. -/
def GetFilterIntegrationMethod (s : SVFilter F) : SVFIntegrationMethod := s.integrationMethod

/-- The "clamp integration rate" `switch` of `SVFilter::filter`: the value of the local `dt2`
when the oversampling loop starts. -/
def clampedRate (s : SVFilter F) : F :=
  let dt2 := s.dt
  match s.integrationMethod with
  | SVF_TRAPEZOIDAL => if dt2 > 0.8 then 0.8 else dt2
  | SVF_INV_TRAPEZOIDAL => if dt2 > 1 then 1 else dt2
  | _ => if dt2 > 0.25 then 0.25 else dt2

/-- The integration `switch` of `SVFilter::filter` for one oversampled tick, run with the step
`dt2`. -/
def integrate (m : LibM F) (fm : FastMath F) (fb dt2 input : F) (s : SVFilter F) : SVFilter F :=
  match s.integrationMethod with
  | SVF_SEMI_IMPLICIT_EULER =>
    let beta := 1 - (0.0025 / (s.oversamplingFactor : F))
    let hp := input - s.lp - fb * s.bp - fm.SinhPade54 s.bp
    let bp := s.bp + dt2 * hp
    let bp := bp * beta
    let lp := s.lp + dt2 * bp
    { s with hp := hp, bp := bp, lp := lp }
  | SVF_TRAPEZOIDAL =>
    let alpha := dt2 / 2
    let beta := 1 - (0.0025 / (s.oversamplingFactor : F))
    let alpha2 := dt2 * dt2 / 4 + fb * alpha
    let D_t := (1 - dt2 * dt2 / 4) * s.bp +
      alpha * (s.u_t1 + input - 2 * s.lp - fb * s.bp - fm.SinhPade54 s.bp)
    let x_k := newtonRaphson m.abs
      (fun x_k =>
        x_k - (x_k + alpha * fm.SinhPade54 x_k + alpha2 * x_k - D_t) /
          (1 + alpha * fm.CoshPade54 x_k + alpha2))
      s.bp
    let lp := s.lp + alpha * s.bp
    let bp := beta * x_k
    let lp := lp + alpha * bp
    let hp := input - lp - fb * bp
    { s with hp := hp, bp := bp, lp := lp }
  | SVF_INV_TRAPEZOIDAL =>
    let alpha := dt2 / 2
    let beta := 1 - (0.0025 / (s.oversamplingFactor : F))
    let alpha2 := dt2 * dt2 / 4 + fb * alpha
    let D_t := (1 - dt2 * dt2 / 4) * s.bp +
      alpha * (s.u_t1 + input - 2 * s.lp - fb * s.bp - m.sinh s.bp)
    let y_k := newtonRaphson m.abs
      (fun y_k =>
        y_k - (alpha * y_k + fm.ASinhPade54 y_k * (1 + alpha2) - D_t) /
          (alpha + (1 + alpha2) * fm.dASinhPade54 y_k))
      (m.sinh s.bp)
    let lp := s.lp + alpha * s.bp
    let bp := beta * m.asinh y_k
    let lp := lp + alpha * bp
    let hp := input - lp - fb * bp
    { s with hp := hp, bp := bp, lp := lp }
  | SVF_PREDICTOR_CORRECTOR => s

/-- The filter-mode `switch` of `SVFilter::filter`: the value assigned to `out` before the
downsampling filter. -/
def outputTap (s : SVFilter F) : F :=
  match s.filterMode with
  | SVF_LOWPASS_MODE => s.lp
  | SVF_BANDPASS_MODE => s.bp
  | SVF_HIGHPASS_MODE => s.hp

/-- Body of the oversampling loop of `SVFilter::filter`. -/
def tick (m : LibM F) (fm : FastMath F) (fb dt2 input : F) (_nn : Nat) (s : SVFilter F) :
    SVFilter F :=
  let s1 := integrate m fm fb dt2 input s
  let s2 := { s1 with out := outputTap s1 }
  if s2.oversamplingFactor > 1 then
    let r := IIRLowpass.IIRfilter s2.iir s2.out
    { s2 with iir := r.1, out := r.2 }
  else s2

/-- The method `SVFilter::filter`; `rnd` is the value `rand()` returns in this call. -/
def filter (m : LibM F) (fm : FastMath F) (RAND_MAX rnd : Nat) (input : F) (s : SVFilter F) :
    SVFilter F :=
  let fb := 1 - (3.5 * s.Resonance)
  let dt2 := clampedRate s
  let noise : F := ditherNoise RAND_MAX rnd
  let input := input + noise
  let s1 := forLoop (tick m fm fb dt2 input) s.oversamplingFactor.toNat s
  { s1 with u_t1 := input }

/-- The getter `SVFilter::GetFilterLowpass`. -/
def GetFilterLowpass (s : SVFilter F) : F := s.lp

/-- The getter `SVFilter::GetFilterBandpass`. -/
def GetFilterBandpass (s : SVFilter F) : F := s.bp

/-- The getter `SVFilter::GetFilterHighpass`. -/
def GetFilterHighpass (s : SVFilter F) : F := s.hp

end SVFilter

/-! ## Concrete rational instances used to evaluate the embedding -/

/-- A rational stand-in for the math library (the values are arbitrary). -/
def sampleLibM : LibM ℚ :=
  { sin := fun x => x / 2, cos := fun x => 1 - x / 3, tan := fun x => x, M_PI := 3,
    sinh := fun x => x, asinh := fun x => x, abs := fun x => |x| }

/-- An order-8 engine with zeroed buffers, as allocated, before the design is computed. -/
def sampleRaw : IIRLowpass ℚ :=
  { samplerate := 8, cutoff := 1, order := 8,
    a1 := newFloats (fun _ => 0) 4, a2 := newFloats (fun _ => 0) 4, K := newFloats (fun _ => 0) 4,
    pa_real := newFloats (fun _ => 0) 4, pa_imag := newFloats (fun _ => 0) 4,
    p_real := newFloats (fun _ => 0) 4, p_imag := newFloats (fun _ => 0) 4,
    z := newFloats (fun _ => 0) 8 }

/-- The designed order-8 engine with every delay value equal to `1/4`. -/
def sampleDC : IIRLowpass ℚ :=
  { IIRLowpass.ComputeCoefficients sampleLibM sampleRaw with z := List.replicate 8 (1 / 4) }

namespace IIRLowpass

/-- The engine states a client can produce: a constructed engine, followed by any sequence of
setter calls and `IIRfilter` ticks. -/
inductive Reachable {F : Type} [Field F] (m : LibM F) : IIRLowpass F → Prop
  | construct (junk : Nat → Nat → F) (newSamplerate newCutoff : F) (newOrder : Nat) :
      Reachable m (new m junk newSamplerate newCutoff newOrder)
  | setOrder (junk : Nat → Nat → F) (newOrder : Nat) (s : IIRLowpass F) :
      Reachable m s → Reachable m (SetFilterOrder m junk newOrder s)
  | setSamplerate (newSamplerate : F) (s : IIRLowpass F) :
      Reachable m s → Reachable m (SetFilterSamplerate m newSamplerate s)
  | setCutoff (newCutoff : F) (s : IIRLowpass F) :
      Reachable m s → Reachable m (SetFilterCutoff m newCutoff s)
  | tick (input : F) (s : IIRLowpass F) :
      Reachable m s → Reachable m (IIRfilter s input).1

end IIRLowpass

namespace Ladder
variable {F : Type} [LinearOrderedField F]

/-- The states of a `Ladder` that a client can produce: a constructed engine followed by any
sequence of setter calls, resets and `LadderFilter` ticks. -/
inductive Reachable (m : LibM F) (fm : FastMath F) : Ladder F → Prop
  | construct (junk : Nat → Nat → F) (newCutoff newResonance : F) (newOversamplingFactor : Int)
      (newFilterMode : LadderFilterMode) (newSampleRate : F)
      (newIntegrationMethod : LadderIntegrationMethod) :
      Reachable m fm (new m junk newCutoff newResonance newOversamplingFactor newFilterMode
        newSampleRate newIntegrationMethod)
  | constructDefault (junk : Nat → Nat → F) : Reachable m fm (newDefault m junk)
  | reset (s : Ladder F) : Reachable m fm s → Reachable m fm (ResetFilterState m s)
  | setCutoff (newCutoff : F) (s : Ladder F) :
      Reachable m fm s → Reachable m fm (SetFilterCutoff newCutoff s)
  | setResonance (newResonance : F) (s : Ladder F) :
      Reachable m fm s → Reachable m fm (SetFilterResonance newResonance s)
  | setOversamplingFactor (newOversamplingFactor : Int) (s : Ladder F) :
      Reachable m fm s → Reachable m fm (SetFilterOversamplingFactor m newOversamplingFactor s)
  | setMode (newFilterMode : LadderFilterMode) (s : Ladder F) :
      Reachable m fm s → Reachable m fm (SetFilterMode newFilterMode s)
  | setSampleRate (newSampleRate : F) (s : Ladder F) :
      Reachable m fm s → Reachable m fm (SetFilterSampleRate m newSampleRate s)
  | setIntegrationMethod (method : LadderIntegrationMethod) (s : Ladder F) :
      Reachable m fm s → Reachable m fm (SetFilterIntegrationMethod method s)
  | filter (RAND_MAX rnd : Nat) (input : F) (s : Ladder F) :
      Reachable m fm s → Reachable m fm (LadderFilter m fm RAND_MAX rnd input s)

end Ladder

namespace SKFilter
variable {F : Type} [LinearOrderedField F]

/-- The states of an `SKFilter` that a client can produce: a constructed engine followed by any
sequence of setter calls, resets and `filter` ticks. -/
inductive Reachable (m : LibM F) (fm : FastMath F) : SKFilter F → Prop
  | construct (junk : Nat → Nat → F) (newCutoff newResonance : F) (newOversamplingFactor : Int)
      (newFilterMode : SKFilterMode) (newSampleRate : F)
      (newIntegrationMethod : SKIntegrationMethod) :
      Reachable m fm (new m junk newCutoff newResonance newOversamplingFactor newFilterMode
        newSampleRate newIntegrationMethod)
  | constructDefault (junk : Nat → Nat → F) : Reachable m fm (newDefault m junk)
  | reset (s : SKFilter F) : Reachable m fm s → Reachable m fm (ResetFilterState m s)
  | setCutoff (newCutoff : F) (s : SKFilter F) :
      Reachable m fm s → Reachable m fm (SetFilterCutoff newCutoff s)
  | setResonance (newResonance : F) (s : SKFilter F) :
      Reachable m fm s → Reachable m fm (SetFilterResonance newResonance s)
  | setOversamplingFactor (newOversamplingFactor : Int) (s : SKFilter F) :
      Reachable m fm s → Reachable m fm (SetFilterOversamplingFactor m newOversamplingFactor s)
  | setMode (newFilterMode : SKFilterMode) (s : SKFilter F) :
      Reachable m fm s → Reachable m fm (SetFilterMode newFilterMode s)
  | setSampleRate (newSampleRate : F) (s : SKFilter F) :
      Reachable m fm s → Reachable m fm (SetFilterSampleRate m newSampleRate s)
  | setIntegrationMethod (method : SKIntegrationMethod) (s : SKFilter F) :
      Reachable m fm s → Reachable m fm (SetFilterIntegrationMethod method s)
  | setLowpassInput (input : F) (s : SKFilter F) :
      Reachable m fm s → Reachable m fm (SetFilterLowpassInput input s)
  | setBandpassInput (input : F) (s : SKFilter F) :
      Reachable m fm s → Reachable m fm (SetFilterBandpassInput input s)
  | setHighpassInput (input : F) (s : SKFilter F) :
      Reachable m fm s → Reachable m fm (SetFilterHighpassInput input s)
  | filter (RAND_MAX rnd : Nat) (input : F) (s : SKFilter F) :
      Reachable m fm s → Reachable m fm (SKFilter.filter m fm RAND_MAX rnd input s)

end SKFilter

namespace SVFilter
variable {F : Type} [LinearOrderedField F]

/-- The states of an `SVFilter` that a client can produce: a constructed engine followed by any
sequence of setter calls, resets and `filter` ticks. -/
inductive Reachable (m : LibM F) (fm : FastMath F) : SVFilter F → Prop
  | construct (junk : Nat → Nat → F) (newCutoff newResonance : F) (newOversamplingFactor : Int)
      (newFilterMode : SVFFilterMode) (newSampleRate : F)
      (newIntegrationMethod : SVFIntegrationMethod) :
      Reachable m fm (new m junk newCutoff newResonance newOversamplingFactor newFilterMode
        newSampleRate newIntegrationMethod)
  | constructDefault (junk : Nat → Nat → F) : Reachable m fm (newDefault m junk)
  | reset (s : SVFilter F) : Reachable m fm s → Reachable m fm (ResetFilterState m s)
  | setCutoff (newCutoff : F) (s : SVFilter F) :
      Reachable m fm s → Reachable m fm (SetFilterCutoff newCutoff s)
  | setResonance (newResonance : F) (s : SVFilter F) :
      Reachable m fm s → Reachable m fm (SetFilterResonance newResonance s)
  | setOversamplingFactor (newOversamplingFactor : Int) (s : SVFilter F) :
      Reachable m fm s → Reachable m fm (SetFilterOversamplingFactor m newOversamplingFactor s)
  | setMode (newFilterMode : SVFFilterMode) (s : SVFilter F) :
      Reachable m fm s → Reachable m fm (SetFilterMode newFilterMode s)
  | setSampleRate (newSampleRate : F) (s : SVFilter F) :
      Reachable m fm s → Reachable m fm (SetFilterSampleRate m newSampleRate s)
  | setIntegrationMethod (method : SVFIntegrationMethod) (s : SVFilter F) :
      Reachable m fm s → Reachable m fm (SetFilterIntegrationMethod m method s)
  | filter (RAND_MAX rnd : Nat) (input : F) (s : SVFilter F) :
      Reachable m fm s → Reachable m fm (SVFilter.filter m fm RAND_MAX rnd input s)

end SVFilter

/-- A rational stand-in for the approximants of `fastmath.h` (the values are arbitrary). -/
def sampleFastMath : FastMath ℚ :=
  { TanhPade32 := fun x => x / (1 + x * x), SinhPade34 := fun x => x, SinhPade54 := fun x => x,
    CoshPade54 := fun x => 1 + x * x, ASinhPade54 := fun x => x, dASinhPade54 := fun _ => 1 }

namespace SVFilter
variable {F : Type} [LinearOrderedField F]

/-- The stability ceiling the specification assigns to each integration scheme: 0.8 for
trapezoidal, 1.0 for inverse-trapezoidal, 0.25 for the others. -/
def stepCeiling : SVFIntegrationMethod → F
  | SVFIntegrationMethod.SVF_TRAPEZOIDAL => 0.8
  | SVFIntegrationMethod.SVF_INV_TRAPEZOIDAL => 1
  | SVFIntegrationMethod.SVF_SEMI_IMPLICIT_EULER => 0.25
  | SVFIntegrationMethod.SVF_PREDICTOR_CORRECTOR => 0.25

end SVFilter

namespace Ladder
variable {F : Type} [LinearOrderedField F]

/-- The first two steps of the oversampling loop body of `LadderFilter`: the integration
`switch` followed by `ut_1 = input`.  The poles after these steps are the ones the output tap
reads. -/
def advance (m : LibM F) (fm : FastMath F) (fb input : F) (s : Ladder F) : Ladder F :=
  { integrate m fm fb input s with ut_1 := input }

/-- The raw tap of oversampled tick number `k` (counted from 1) of a call: the output tap read
from the poles after `k` integration steps. -/
def rawTap (m : LibM F) (fm : FastMath F) (fb input : F) (s : Ladder F) (k : Nat) : F :=
  outputTap fm fb input (forLoop (fun _ t => advance m fm fb input t) k s)

/-- The anti-alias engine after it has been ticked with the raw taps 1, …, `k` in this order. -/
def decimated (m : LibM F) (fm : FastMath F) (fb input : F) (s : Ladder F) : Nat → IIRLowpass F
  | 0 => s.iir
  | k + 1 =>
    (IIRLowpass.IIRfilter (decimated m fm fb input s k) (rawTap m fm fb input s (k + 1))).1

end Ladder

/-- The transfer function of a cascade of `n` biquad sections with forward gains `K i` and
feedback coefficients `a1 i`, `a2 i`, as the specification writes it: the product over the
sections of `K·(1 + z⁻¹)² / (1 + a1·z⁻¹ + a2·z⁻²)`. -/
def transferFunction {E : Type} [Field E] (K a1 a2 : Nat → E) (n : Nat) (z : E) : E :=
  ∏ i ∈ Finset.range n, K i * (1 + z⁻¹) ^ 2 / (1 + a1 i * z⁻¹ + a2 i * z⁻¹ ^ 2)

namespace Ladder
variable {F : Type} [LinearOrderedField F]

/-! ### Named pieces of the `LADDER_TRAPEZOIDAL_FEEDBACK_TANH` case -/

/-- The local `b = (0.5*dt)/(1.0 + 0.5*dt)`. -/
def trapB (dt : F) : F := (0.5 * dt) / (1 + 0.5 * dt)

/-- The local `c = (1.0 - 0.5*dt)/(1.0 + 0.5*dt)`. -/
def trapC (dt : F) : F := (1 - 0.5 * dt) / (1 + 0.5 * dt)

/-- The local `ut = TanhPade32(ut_1 - fb*p3)`. -/
def trapUt (fm : FastMath F) (fb : F) (s : Ladder F) : F :=
  fm.TanhPade32 (s.ut_1 - fb * s.p3)

/-- The local `g = -fb*b*b*b*b`, for a given `b`. -/
def trapG (fb b : F) : F := -fb * b * b * b * b

/-- The local `D_t = c*p3 + (b + c*b)*p2 + (b*b+b*b*c)*p1 + (b*b*b+b*b*b*c)*p0 + b*b*b*b*ut`,
for given `b`, `c` and `ut`. -/
def cascadeD (b c ut : F) (s : Ladder F) : F :=
  c * s.p3 + (b + c * b) * s.p2 + (b * b + b * b * c) * s.p1
    + (b * b * b + b * b * b * c) * s.p0 + b * b * b * b * ut

/-- The local `C_t = TanhPade32(input - fb*D_t)`, for a given `D_t`. -/
def trapCt (fm : FastMath F) (fb input D_t : F) : F :=
  fm.TanhPade32 (input - fb * D_t)

/-- The numerator of the Newton-Raphson step,
`x_k + x_k*tanh_g_xk*C_t - tanh_g_xk - C_t` with `tanh_g_xk = TanhPade32(g*x_k)`. -/
def newtonResidual (fm : FastMath F) (g C_t x_k : F) : F :=
  x_k + x_k * fm.TanhPade32 (g * x_k) * C_t - fm.TanhPade32 (g * x_k) - C_t

/-- The denominator of the Newton-Raphson step,
`1.0 + C_t*(tanh_g_xk + x_k*tanh_g_xk2) - tanh_g_xk2` with
`tanh_g_xk2 = g*(1.0 - TanhPade32(g*x_k)*TanhPade32(g*x_k))`. -/
def newtonSlope (fm : FastMath F) (g C_t x_k : F) : F :=
  1 + C_t * (fm.TanhPade32 (g * x_k)
      + x_k * (g * (1 - fm.TanhPade32 (g * x_k) * fm.TanhPade32 (g * x_k))))
    - g * (1 - fm.TanhPade32 (g * x_k) * fm.TanhPade32 (g * x_k))

/-- The local `ut_2`: the value the Newton-Raphson loop leaves in `x_k`. -/
def trapUt2 (m : LibM F) (fm : FastMath F) (fb input : F) (s : Ladder F) : F :=
  newtonRaphson m.abs
    (fun x_k =>
      x_k - newtonResidual fm (trapG fb (trapB s.dt))
          (trapCt fm fb input (cascadeD (trapB s.dt) (trapC s.dt) (trapUt fm fb s) s)) x_k /
        newtonSlope fm (trapG fb (trapB s.dt))
          (trapCt fm fb input (cascadeD (trapB s.dt) (trapC s.dt) (trapUt fm fb s) s)) x_k)
    (trapUt fm fb s)

/-- The four closing assignments `p0 = c*p0_prime + b*(ut + ut_2)`,
`p1 = c*p1_prime + b*(p0_prime + p0)`, `p2 = c*p2_prime + b*(p1_prime + p1)`,
`p3 = c*p3_prime + b*(p2_prime + p2)`, for given `b`, `c`, `ut` and `ut_2`. -/
def trapPoles (b c ut ut_2 : F) (s : Ladder F) : Ladder F :=
  let p0 := c * s.p0 + b * (ut + ut_2)
  let p1 := c * s.p1 + b * (s.p0 + p0)
  let p2 := c * s.p2 + b * (s.p1 + p1)
  let p3 := c * s.p3 + b * (s.p2 + p2)
  { s with p0 := p0, p1 := p1, p2 := p2, p3 := p3 }

end Ladder

/-- An order-2 engine over the reals with zeroed buffers, used as the anti-alias member of
concrete real-valued engine states. -/
def sampleRawReal : IIRLowpass ℝ :=
  ⟨4, 1, 2, [0], [0], [0], [0], [0], [0], [0], [0, 0]⟩

/-- A concrete ladder state over the rationals with the given integration method. -/
def sampleLadder (method : LadderIntegrationMethod) : Ladder ℚ :=
  ⟨1 / 4, 1 / 2, 1, LadderFilterMode.LADDER_LOWPASS_MODE, 44100, 1 / 4, method,
    1 / 10, 1 / 5, 3 / 10, 2 / 5, 1 / 2, 0, sampleRaw⟩

namespace SKFilter
variable {F : Type} [LinearOrderedField F]

/-! ### Named pieces of the `SK_TRAPEZOIDAL` and `SK_PREDICTOR_CORRECTOR` cases -/

/-- The saturating term `1.0/4.0*SinhPade54(4.0*x)` of the trapezoidal case. -/
def sinhTerm (fm : FastMath F) (x : F) : F := 1 / 4 * fm.SinhPade54 (4 * x)

/-- The local `fb_t = input_bp_t1 + res*p1`. -/
def trapFbT (res : F) (s : SKFilter F) : F := s.input_bp_t1 + res * s.p1

/-- The local `A` of the trapezoidal case, with `alpha = dt/2.0`. -/
def trapA (fm : FastMath F) (res : F) (s : SKFilter F) : F :=
  s.p0 + trapFbT res s - s.p1 - 1 / 4 * fm.SinhPade54 (4 * s.p1) +
    s.p0 / (1 + s.dt / 2) +
    s.dt / 2 / (1 + s.dt / 2) * (s.input_lp_t1 - s.p0 - trapFbT res s + s.input_lp)

/-- The local `c = 1.0 - (alpha - alpha*alpha/(1.0 + alpha))*res + alpha`. -/
def trapCoef (res dt : F) : F :=
  1 - (dt / 2 - dt / 2 * (dt / 2) / (1 + dt / 2)) * res + dt / 2

/-- The local `D_n = p1 + alpha*A + (alpha - alpha*alpha/(1.0 + alpha))*input_bp`. -/
def trapDn (fm : FastMath F) (res : F) (s : SKFilter F) : F :=
  s.p1 + s.dt / 2 * trapA fm res s +
    (s.dt / 2 - s.dt / 2 * (s.dt / 2) / (1 + s.dt / 2)) * s.input_bp

/-- The value the Newton-Raphson loop of the trapezoidal case leaves in `x_k`. -/
def trapSolve (m : LibM F) (fm : FastMath F) (res : F) (s : SKFilter F) : F :=
  newtonRaphson m.abs
    (fun x_k =>
      x_k - (trapCoef res s.dt * x_k + s.dt / 2 * 1 / 4 * fm.SinhPade54 (4 * x_k)
          - trapDn fm res s) /
        (trapCoef res s.dt + s.dt / 2 * fm.CoshPade54 (4 * x_k)))
    s.p1

/-- The derivative `f1(p0, p1, fb) = p0 + fb − p1 − (1/4)·SinhPade34(4·p1)` of pole 1 as the
specification of the predictor-corrector scheme writes it. -/
def pcF1 (fm : FastMath F) (p0 p1 fb : F) : F := p0 + fb - p1 - 1 / 4 * fm.SinhPade34 (4 * p1)

/-- The derivative `f0(p0, fb, in_lp) = in_lp − p0 − fb` of pole 0 as the specification of the
predictor-corrector scheme writes it. -/
def pcF0 (p0 fb in_lp : F) : F := in_lp - p0 - fb

/-- The predictor `p0' = p0 + dt·f0(p0, fb, in_lp_t1)` with `fb = in_bp_t1 + res·p1`. -/
def pcP0Prime (res : F) (s : SKFilter F) : F :=
  s.p0 + s.dt * pcF0 s.p0 (s.input_bp_t1 + res * s.p1) s.input_lp_t1

/-- The predictor `p1' = p1 + dt·f1(p0, p1, fb)` with `fb = in_bp_t1 + res·p1`. -/
def pcP1Prime (fm : FastMath F) (res : F) (s : SKFilter F) : F :=
  s.p1 + s.dt * pcF1 fm s.p0 s.p1 (s.input_bp_t1 + res * s.p1)

/-- The corrected pole 1 of a trapezoidal-average correction, as the specification states it:
`p1 + (dt/2)·(f1(p0, p1, fb) + f1(p0', p1', fb'))` with `fb' = in_bp + res·p1'`. -/
def pcSpecP1 (fm : FastMath F) (res : F) (s : SKFilter F) : F :=
  s.p1 + s.dt / 2 * (pcF1 fm s.p0 s.p1 (s.input_bp_t1 + res * s.p1) +
    pcF1 fm (pcP0Prime res s) (pcP1Prime fm res s) (s.input_bp + res * pcP1Prime fm res s))

/-- The corrected pole 0 of a trapezoidal-average correction, as the specification states it:
`p0 + (dt/2)·(f0(p0, fb, in_lp_t1) + f0(p0', fb', in_lp))`. -/
def pcSpecP0 (fm : FastMath F) (res : F) (s : SKFilter F) : F :=
  s.p0 + s.dt / 2 * (pcF0 s.p0 (s.input_bp_t1 + res * s.p1) s.input_lp_t1 +
    pcF0 (pcP0Prime res s) (s.input_bp + res * pcP1Prime fm res s) s.input_lp)

end SKFilter

/-- A concrete Sallen-Key state over the rationals with the given mode and integration
method. -/
def sampleSK (mode : SKFilterMode) (method : SKIntegrationMethod) : SKFilter ℚ :=
  ⟨1 / 4, 0, 1, mode, 44100, 1 / 4, method, 1, 0, 0, 0, 0, 0, 0, 0, 0, sampleRaw⟩

/-- A rational stand-in for `fastmath.h` in which every approximant is linear (`sinh`, `asinh`
and `tanh` as the identity, their derivatives as 1), so that Newton-Raphson is exact. -/
def linearFastMath : FastMath ℚ :=
  { TanhPade32 := fun x => x, SinhPade34 := fun x => x, SinhPade54 := fun x => x,
    CoshPade54 := fun _ => 1, ASinhPade54 := fun x => x, dASinhPade54 := fun _ => 1 }

/-- A Sallen-Key engine in low-pass mode with the predictor-corrector scheme, cutoff 0.25,
resonance 0, no oversampling, after one call `filter(1.0)` in which `rand()` returned
`RAND_MAX/2` (zero dither). -/
def samplePCState : SKFilter ℚ :=
  SKFilter.filter sampleLibM sampleFastMath 100 50 1
    (SKFilter.new sampleLibM (fun _ _ => 0) (1 / 4) 0 1 SKFilterMode.SK_LOWPASS_MODE 44100
      SKIntegrationMethod.SK_PREDICTOR_CORRECTOR)

namespace SVFilter

open SVFFilterMode SVFIntegrationMethod

variable {F : Type} [LinearOrderedField F]

/-! ### Named pieces of the `SVF_TRAPEZOIDAL` and `SVF_INV_TRAPEZOIDAL` cases -/

/-- The local `beta = 1.0 - (0.0025/oversamplingFactor)`, the loss factor. -/
def beta (s : SVFilter F) : F := 1 - (0.0025 / (s.oversamplingFactor : F))

/-- The local `alpha2 = dt2*dt2/4.0 + fb*alpha` with `alpha = dt2/2.0`. -/
def alpha2 (fb dt2 : F) : F := dt2 * dt2 / 4 + fb * (dt2 / 2)

/-- The local `D_t` of the trapezoidal case. -/
def D_t (fm : FastMath F) (fb dt2 input : F) (s : SVFilter F) : F :=
  (1 - dt2 * dt2 / 4) * s.bp +
    dt2 / 2 * (s.u_t1 + input - 2 * s.lp - fb * s.bp - fm.SinhPade54 s.bp)

/-- The local `D_t` of the inverse trapezoidal case, which calls the library `sinh`. -/
def invD_t (m : LibM F) (fb dt2 input : F) (s : SVFilter F) : F :=
  (1 - dt2 * dt2 / 4) * s.bp +
    dt2 / 2 * (s.u_t1 + input - 2 * s.lp - fb * s.bp - m.sinh s.bp)

/-- The numerator `x_k + alpha*SinhPade54(x_k) + alpha2*x_k - D_t` of the Newton step of the
trapezoidal case. -/
def trapResidual (fm : FastMath F) (alpha alpha2 D_t x_k : F) : F :=
  x_k + alpha * fm.SinhPade54 x_k + alpha2 * x_k - D_t

/-- The denominator `1.0 + alpha*CoshPade54(x_k) + alpha2` of the Newton step of the
trapezoidal case. -/
def trapSlope (fm : FastMath F) (alpha alpha2 x_k : F) : F :=
  1 + alpha * fm.CoshPade54 x_k + alpha2

/-- The numerator `alpha*y_k + ASinhPade54(y_k)*(1.0 + alpha2) - D_t` of the Newton step of the
inverse trapezoidal case. -/
def invResidual (fm : FastMath F) (alpha alpha2 D_t y_k : F) : F :=
  alpha * y_k + fm.ASinhPade54 y_k * (1 + alpha2) - D_t

/-- The denominator `alpha + (1.0 + alpha2)*dASinhPade54(y_k)` of the Newton step of the inverse
trapezoidal case. -/
def invSlope (fm : FastMath F) (alpha alpha2 y_k : F) : F :=
  alpha + (1 + alpha2) * fm.dASinhPade54 y_k

/-- The value the Newton-Raphson loop of the trapezoidal case leaves in `x_k`. -/
def trapNewton (m : LibM F) (fm : FastMath F) (fb dt2 input : F) (s : SVFilter F) : F :=
  newtonRaphson m.abs
    (fun x_k =>
      x_k - trapResidual fm (dt2 / 2) (alpha2 fb dt2) (D_t fm fb dt2 input s) x_k /
        trapSlope fm (dt2 / 2) (alpha2 fb dt2) x_k)
    s.bp

/-- The value the Newton-Raphson loop of the inverse trapezoidal case leaves in `y_k`. -/
def invNewton (m : LibM F) (fm : FastMath F) (fb dt2 input : F) (s : SVFilter F) : F :=
  newtonRaphson m.abs
    (fun y_k =>
      y_k - invResidual fm (dt2 / 2) (alpha2 fb dt2) (invD_t m fb dt2 input s) y_k /
        invSlope fm (dt2 / 2) (alpha2 fb dt2) y_k)
    (m.sinh s.bp)

end SVFilter

/-- A state-variable engine as constructed with cutoff 0.25, resonance 0.5, no oversampling,
low-pass mode, sample rate 44100 and the given integration method. -/
def sampleSVF (method : SVFIntegrationMethod) : SVFilter ℚ :=
  SVFilter.new sampleLibM (fun _ _ => 0) (1 / 4) (1 / 2) 1 SVFFilterMode.SVF_LOWPASS_MODE 44100
    method

/-- A concrete state-variable state in mid-run with the given integration method. -/
def sampleSVFState (method : SVFIntegrationMethod) : SVFilter ℚ :=
  ⟨1 / 4, 1 / 2, 1, SVFFilterMode.SVF_LOWPASS_MODE, 44100, 1 / 4, method,
    1 / 10, 1 / 5, 3 / 10, 1 / 2, 1 / 10, sampleRaw⟩

section NewtonSpec

variable {F : Type} [LinearOrderedField F]

/-- The Newton iterates `x_0, x_1, x_2, …` of a loop with right-hand side `next` started at
`x0`: `x_{k+1} = next(x_k)`. -/
def newtonIterate (next : F → F) (x0 : F) : Nat → F
  | 0 => x0
  | k + 1 => next (newtonIterate next x0 k)

/-- The exit behaviour the specification gives to a Newton loop: `r` is `x_{k+1}` for the first
`k < 8` whose test `abs(x_{k+1} - x_k) < 1.0e-9` succeeds, and `x_8` when none of the eight tests
succeeds. -/
def NewtonExit (abs : F → F) (next : F → F) (x0 r : F) : Prop :=
  (∃ k, k < 8 ∧
    (∀ j, j < k → ¬ abs (newtonIterate next x0 (j + 1) - newtonIterate next x0 j) < 1e-9) ∧
    abs (newtonIterate next x0 (k + 1) - newtonIterate next x0 k) < 1e-9 ∧
    r = newtonIterate next x0 (k + 1)) ∨
  ((∀ j, j < 8 → ¬ abs (newtonIterate next x0 (j + 1) - newtonIterate next x0 j) < 1e-9) ∧
    r = newtonIterate next x0 8)

end NewtonSpec

namespace Ladder
variable {F : Type} [LinearOrderedField F]

/-- The right-hand side assigned to `x_k2` in the Newton loop of the
`LADDER_TRAPEZOIDAL_FEEDBACK_TANH` case. -/
def newtonStep (fm : FastMath F) (fb input : F) (s : Ladder F) (x_k : F) : F :=
  x_k - newtonResidual fm (trapG fb (trapB s.dt))
      (trapCt fm fb input (cascadeD (trapB s.dt) (trapC s.dt) (trapUt fm fb s) s)) x_k /
    newtonSlope fm (trapG fb (trapB s.dt))
      (trapCt fm fb input (cascadeD (trapB s.dt) (trapC s.dt) (trapUt fm fb s) s)) x_k

end Ladder

namespace SKFilter
variable {F : Type} [LinearOrderedField F]

/-- The right-hand side assigned to `x_k2` in the Newton loop of the `SK_TRAPEZOIDAL` case. -/
def newtonStep (fm : FastMath F) (res : F) (s : SKFilter F) (x_k : F) : F :=
  x_k - (trapCoef res s.dt * x_k + s.dt / 2 * 1 / 4 * fm.SinhPade54 (4 * x_k)
      - trapDn fm res s) /
    (trapCoef res s.dt + s.dt / 2 * fm.CoshPade54 (4 * x_k))

end SKFilter

namespace SVFilter
variable {F : Type} [LinearOrderedField F]

/-- The right-hand side assigned to `x_k2` in the Newton loop of the `SVF_TRAPEZOIDAL` case. -/
def trapStep (fm : FastMath F) (fb dt2 input : F) (s : SVFilter F) (x_k : F) : F :=
  x_k - trapResidual fm (dt2 / 2) (alpha2 fb dt2) (D_t fm fb dt2 input s) x_k /
    trapSlope fm (dt2 / 2) (alpha2 fb dt2) x_k

/-- The right-hand side assigned to `y_k2` in the Newton loop of the `SVF_INV_TRAPEZOIDAL`
case. -/
def invStep (m : LibM F) (fm : FastMath F) (fb dt2 input : F) (s : SVFilter F) (y_k : F) : F :=
  y_k - invResidual fm (dt2 / 2) (alpha2 fb dt2) (invD_t m fb dt2 input s) y_k /
    invSlope fm (dt2 / 2) (alpha2 fb dt2) y_k

end SVFilter

namespace Ladder
variable {F : Type} [LinearOrderedField F]

/-- The step of the `LADDER_PREDICTOR_CORRECTOR_FULL_TANH` case with its saturation split by the
place it is applied at: `N` saturates the feedback node (`ut_1 - fb*p3` and `input - fb*p3`),
`P` saturates the pole values and the predicted pole values. -/
def pcStepWith (N P : F → F) (fb input : F) (s : Ladder F) : Ladder F :=
  let dt := s.dt
  let p0_prime := s.p0 + dt * (N (s.ut_1 - fb * s.p3) - P s.p0)
  let p1_prime := s.p1 + dt * (P s.p0 - P s.p1)
  let p2_prime := s.p2 + dt * (P s.p1 - P s.p2)
  let p3_prime := s.p3 + dt * (P s.p2 - P s.p3)
  let p3t_1 := s.p3
  let p3 := s.p3 + 0.5 * dt * ((P s.p2 - P s.p3) + (P p2_prime - P p3_prime))
  let p2 := s.p2 + 0.5 * dt * ((P s.p1 - P s.p2) + (P p1_prime - P p2_prime))
  let p1 := s.p1 + 0.5 * dt * ((P s.p0 - P s.p1) + (P p0_prime - P p1_prime))
  let p0 := s.p0 + 0.5 * dt *
    ((N (s.ut_1 - fb * p3t_1) - P s.p0) + (N (input - fb * p3) - P p0_prime))
  { s with p0 := p0, p1 := p1, p2 := p2, p3 := p3 }

end Ladder

/-- A state-variable engine constructed with cutoff 0.125, resonance 0.25, no oversampling,
low-pass mode and the Euler scheme, after one call `filter(1.0)` in which `rand()` returned
`RAND_MAX/2` (zero dither). -/
def sampleSVFRun : SVFilter ℚ :=
  SVFilter.filter sampleLibM sampleFastMath 100 50 1
    (SVFilter.new sampleLibM (fun _ _ => 0) (1 / 8) (1 / 4) 1 SVFFilterMode.SVF_LOWPASS_MODE 44100
      SVFIntegrationMethod.SVF_SEMI_IMPLICIT_EULER)

/-- A state-variable engine constructed with non-default parameters: cutoff 0.5, resonance 0.3,
oversampling factor 4, band-pass mode, sample rate 48000 and the Euler scheme. -/
def sampleSVFCustom : SVFilter ℚ :=
  SVFilter.new sampleLibM (fun _ _ => 0) (1 / 2) (3 / 10) 4 SVFFilterMode.SVF_BANDPASS_MODE 48000
    SVFIntegrationMethod.SVF_SEMI_IMPLICIT_EULER

namespace Ladder
variable {F : Type} [LinearOrderedField F]

/-- The configuration of the owned anti-alias engine that `ladder.cpp` establishes: an engine
produced by the `IIRLowpass` constructor and methods, running at `sampleRate*oversamplingFactor`
with cutoff `IIR_DOWNSAMPLING_BANDWIDTH*sampleRate/2.0` and order `IIR_DOWNSAMPLE_ORDER`. -/
def Configured (m : LibM F) (s : Ladder F) : Prop :=
  IIRLowpass.Reachable m s.iir ∧
  s.iir.samplerate = s.sampleRate * (s.oversamplingFactor : F) ∧
  s.iir.cutoff = IIR_DOWNSAMPLING_BANDWIDTH * s.sampleRate / 2 ∧
  s.iir.order = IIR_DOWNSAMPLE_ORDER

end Ladder

namespace SKFilter
variable {F : Type} [LinearOrderedField F]

/-- The configuration of the owned anti-alias engine that `sallenkey.cpp` establishes. -/
def Configured (m : LibM F) (s : SKFilter F) : Prop :=
  IIRLowpass.Reachable m s.iir ∧
  s.iir.samplerate = s.sampleRate * (s.oversamplingFactor : F) ∧
  s.iir.cutoff = IIR_DOWNSAMPLING_BANDWIDTH * s.sampleRate / 2 ∧
  s.iir.order = IIR_DOWNSAMPLE_ORDER

end SKFilter

namespace SVFilter
variable {F : Type} [LinearOrderedField F]

/-- The configuration of the owned anti-alias engine that `svfilter.cpp` establishes. -/
def Configured (m : LibM F) (s : SVFilter F) : Prop :=
  IIRLowpass.Reachable m s.iir ∧
  s.iir.samplerate = s.sampleRate * (s.oversamplingFactor : F) ∧
  s.iir.cutoff = IIR_DOWNSAMPLING_BANDWIDTH * s.sampleRate / 2 ∧
  s.iir.order = IIR_DOWNSAMPLE_ORDER

end SVFilter

namespace SVFilter
variable {F : Type} [LinearOrderedField F]

/-- A sequence of calls `filter(input)`, one per list entry `(rnd, input)`, where `rnd` is the
value `rand()` returns in that call. -/
def run (m : LibM F) (fm : FastMath F) (RAND_MAX : Nat) (calls : List (Nat × F))
    (s : SVFilter F) : SVFilter F :=
  calls.foldl (fun st call => filter m fm RAND_MAX call.1 call.2 st) s

end SVFilter

/-! ## `DigiDelayPatch.hpp` and `DigiDelayClockedPatch.hpp`

The host framework (`Patch.h`) is not part of the sources: the values of `getSampleRate()` and
`getParameterValue(PARAMETER_A)` are parameters of the constructors.  Accesses to `ringBuffer`
are checked against the allocated size: an access outside the allocation has no value. -/

section RingBuffer

variable {F : Type} [LinearOrderedField F]

/-- The conversion `(int)x` of a `float`: truncation toward zero. -/
def truncToInt [FloorRing F] (x : F) : Int := if 0 ≤ x then ⌊x⌋ else ⌈x⌉

/-- The allocation `new float[n]`; `junk` is the content before the first write.  There is no
buffer for a negative `n`. -/
def allocFloats (junk : Nat → F) (n : Int) : Option (List F) :=
  if 0 ≤ n then some (newFloats junk n.toNat) else none

/-- The write `buf[i] = v`: defined when `0 ≤ i` and `i` is below the allocated size. -/
def storeAt (buf : List F) (i : Int) (v : F) : Option (List F) :=
  if 0 ≤ i ∧ i < (buf.length : Int) then some (buf.set i.toNat v) else none

/-- The read `buf[i]`: defined when `0 ≤ i` and `i` is below the allocated size. -/
def loadAt (buf : List F) (i : Int) : Option F :=
  if 0 ≤ i ∧ i < (buf.length : Int) then some (buf.getD i.toNat 0) else none

/-- Body of the loop `for(int i=0; i<...; i++){ ringBuffer[i] = 0.f; }` of the constructors. -/
def zeroBody (i : Nat) (st : Option (List F)) : Option (List F) :=
  st.bind (fun buf => storeAt buf (i : Int) 0)

end RingBuffer

/-- The members of `class DigiDelayPatch`. -/
structure DigiDelayPatch (F : Type) where
  ringBuffer : List F
  bufferLength : Int
  writePointer : Int
  sampleRate : Int
  time2 : F
  fade_state : Int
  fade_value : F
  fade0_time : F
  fade1_time : F
  hp : F

namespace DigiDelayPatch

variable {F : Type} [LinearOrderedField F]

/-- The constructor `DigiDelayPatch::DigiDelayPatch()`.  `getSampleRate` is the value stored in
the `int` member `sampleRate`, `paramA` the value of `getParameterValue(PARAMETER_A)`, and
`fade_value`, which the constructor does not assign, is whatever the member holds. -/
def new (junk : Nat → F) (getSampleRate : Int) (paramA fade_value : F) :
    Option (DigiDelayPatch F) :=
  let sampleRate := getSampleRate
  let writePointer : Int := 0
  let bufferLength := 2 * sampleRate
  let ringBuffer := allocFloats junk bufferLength
  let ringBuffer := forLoop zeroBody (2 * bufferLength).toNat ringBuffer
  ringBuffer.map fun buf =>
    { ringBuffer := buf, bufferLength := bufferLength, writePointer := writePointer,
      sampleRate := sampleRate, time2 := paramA, fade_state := 0, fade_value := fade_value,
      fade0_time := 0, fade1_time := 0, hp := 0 }

/-- The local `readPointer` of `readDelay` when the first read is made. -/
def readPointer [FloorRing F] (s : DigiDelayPatch F) (time : F) : Int :=
  let readPointer := s.writePointer - truncToInt (time * (s.bufferLength : F))
  if readPointer < 0 then readPointer + s.bufferLength else readPointer

/-- The local `readPointer2` of `readDelay` when the second read is made. -/
def readPointer2 [FloorRing F] (s : DigiDelayPatch F) (time : F) : Int :=
  let readPointer2 := readPointer s time - 1
  if readPointer2 < 0 then readPointer2 + s.bufferLength else readPointer2

/-- The method `DigiDelayPatch::readDelay`. -/
def readDelay [FloorRing F] (s : DigiDelayPatch F) (time : F) : Option F :=
  let frac := time * (s.bufferLength : F) - (truncToInt (time * (s.bufferLength : F)) : F)
  (loadAt s.ringBuffer (readPointer s time)).bind fun v1 =>
    (loadAt s.ringBuffer (readPointer2 s time)).map fun v2 => (1 - frac) * v1 + frac * v2

/-- The value `writePointer` has after the first three lines of `writeDelay`. -/
def nextWritePointer (s : DigiDelayPatch F) : Int :=
  let writePointer := s.writePointer + 1
  if writePointer > s.bufferLength - 1 then writePointer - s.bufferLength else writePointer

/-- The method `DigiDelayPatch::writeDelay`. -/
def writeDelay (input : F) (s : DigiDelayPatch F) : Option (DigiDelayPatch F) :=
  let writePointer := nextWritePointer s
  let hp_input := input
  let hp := s.hp + 0.00005 * (hp_input - s.hp)
  let input := hp - hp_input
  (storeAt s.ringBuffer writePointer input).map fun buf =>
    { s with writePointer := writePointer, hp := hp, ringBuffer := buf }

end DigiDelayPatch

/-- The members of `class DigiDelayClockedPatch`. -/
structure DigiDelayClockedPatch (F : Type) where
  ringBuffer : List F
  bufferLength : Int
  writePointer : Int
  sampleRate : Int
  time2 : F
  fade_state : Int
  fade_value : F
  fade0_time : F
  fade1_time : F
  hp : F
  last_clk : Int
  clk_event_offset : Int
  clk_event : Int
  clk_counter : Int
  clk_period : Int

namespace DigiDelayClockedPatch

variable {F : Type} [LinearOrderedField F]

/-- The constructor `DigiDelayClockedPatch::DigiDelayClockedPatch()`, with the parameters of
`DigiDelayPatch.new`. -/
def new (junk : Nat → F) (getSampleRate : Int) (paramA fade_value : F) :
    Option (DigiDelayClockedPatch F) :=
  let sampleRate := getSampleRate
  let writePointer : Int := 0
  let bufferLength := 2 * sampleRate
  let ringBuffer := allocFloats junk bufferLength
  let ringBuffer := forLoop zeroBody (2 * bufferLength).toNat ringBuffer
  ringBuffer.map fun buf =>
    { ringBuffer := buf, bufferLength := bufferLength, writePointer := writePointer,
      sampleRate := sampleRate, time2 := paramA, fade_state := 0, fade_value := fade_value,
      fade0_time := 0, fade1_time := 0, hp := 0,
      last_clk := 0, clk_event_offset := 0, clk_event := 0, clk_counter := 0, clk_period := 0 }

/-- The local `readPointer` of `readDelay` when the first read is made. -/
def readPointer [FloorRing F] (s : DigiDelayClockedPatch F) (time : F) : Int :=
  let readPointer := s.writePointer - truncToInt (time * (s.bufferLength : F))
  if readPointer < 0 then readPointer + s.bufferLength else readPointer

/-- The local `readPointer2` of `readDelay` when the second read is made. -/
def readPointer2 [FloorRing F] (s : DigiDelayClockedPatch F) (time : F) : Int :=
  let readPointer2 := readPointer s time - 1
  if readPointer2 < 0 then readPointer2 + s.bufferLength else readPointer2

/-- The method `DigiDelayClockedPatch::readDelay`. -/
def readDelay [FloorRing F] (s : DigiDelayClockedPatch F) (time : F) : Option F :=
  let frac := time * (s.bufferLength : F) - (truncToInt (time * (s.bufferLength : F)) : F)
  (loadAt s.ringBuffer (readPointer s time)).bind fun v1 =>
    (loadAt s.ringBuffer (readPointer2 s time)).map fun v2 => (1 - frac) * v1 + frac * v2

/-- The value `writePointer` has after the first three lines of `writeDelay`. -/
def nextWritePointer (s : DigiDelayClockedPatch F) : Int :=
  let writePointer := s.writePointer + 1
  if writePointer > s.bufferLength - 1 then writePointer - s.bufferLength else writePointer

/-- The method `DigiDelayClockedPatch::writeDelay`. -/
def writeDelay (input : F) (s : DigiDelayClockedPatch F) : Option (DigiDelayClockedPatch F) :=
  let writePointer := nextWritePointer s
  let hp_input := input
  let hp := s.hp + 0.00005 * (hp_input - s.hp)
  let input := hp - hp_input
  (storeAt s.ringBuffer writePointer input).map fun buf =>
    { s with writePointer := writePointer, hp := hp, ringBuffer := buf }

end DigiDelayClockedPatch

/-- A delay patch over the rationals with an 8-cell ring buffer and the write head at cell 7. -/
def sampleDelay : DigiDelayPatch ℚ :=
  ⟨[1, 2, 3, 4, 5, 6, 7, 8], 8, 7, 4, 0, 0, 0, 0, 0, 0⟩

/-- A clocked delay patch over the rationals with an 8-cell ring buffer and the write head at
cell 0. -/
def sampleDelayClocked : DigiDelayClockedPatch ℚ :=
  ⟨[1, 2, 3, 4, 5, 6, 7, 8], 8, 0, 4, 0, 0, 0, 0, 0, 0, 0, 0, 0, 0, 0⟩

section IntegerAbs

variable {F : Type} [LinearOrderedField F]

/-- The function `int abs(int)` of `<cstdlib>` applied to a floating argument: the argument is
converted to `int` (truncation toward zero) and the `int` result is converted back for the
comparison with `1.0e-9`.  This is what the unqualified call `abs(x_k2 - x_k)` of the Newton
loops resolves to when no floating overload of `abs` is visible in the global namespace. -/
def cstdlibAbs [FloorRing F] (x : F) : F := ((truncToInt x).natAbs : F)

end IntegerAbs

/-- The rational stand-in for the math library with `abs` the `int abs(int)` of `<cstdlib>`. -/
def cstdlibLibM : LibM ℚ :=
  { sampleLibM with abs := cstdlibAbs }

/-- A rational stand-in for `fastmath.h` made of Taylor polynomials: `x − x³/3` for `tanh`,
`x + x³/6` for `sinh`, `1 + x²/2` for `cosh`, `x − x³/6` for `asinh` and `1 − x²/2` for its
derivative. -/
def taylorFastMath : FastMath ℚ :=
  { TanhPade32 := fun x => x - x * x * x / 3, SinhPade34 := fun x => x + x * x * x / 6,
    SinhPade54 := fun x => x + x * x * x / 6, CoshPade54 := fun x => 1 + x * x / 2,
    ASinhPade54 := fun x => x - x * x * x / 6, dASinhPade54 := fun x => 1 - x * x / 2 }

/-! ## The integration step with the special values of `float`

The engines above compute `dt` with the exact quotient, which is what the `float` expression
yields (up to rounding) as long as `sampleRate * oversamplingFactor` is not zero.  For a zero
divisor the `float` quotient is an infinity and the product with a zero cutoff is NaN; the
definitions below compute the value stored in `dt` with these special values. -/

/-- A `float` as far as the computation of the integration step needs it: a number, an infinity
with its sign, or NaN. -/
inductive FloatVal (F : Type) where
  | num (x : F)
  | inf (negative : Bool)
  | nan

namespace FloatVal

variable {F : Type} [LinearOrderedField F]

/-- The quotient `44100.0 / (sampleRate * oversamplingFactor)`.  A zero divisor yields the
infinity that has the sign of the zero product, negative when exactly one of the two factors is
negative (a zero `sampleRate` counts as `+0`). -/
def rateQuotient (sampleRate : F) (oversamplingFactor : Int) : FloatVal F :=
  if sampleRate * (oversamplingFactor : F) = 0 then
    inf (xor (decide (sampleRate < 0)) (decide (oversamplingFactor < 0)))
  else num (44100 / (sampleRate * (oversamplingFactor : F)))

/-- The product `q * c` with a number `c`: an infinity times zero is NaN. -/
def mul (q : FloatVal F) (c : F) : FloatVal F :=
  match q with
  | num x => num (x * c)
  | inf negative => if c = 0 then nan else inf (xor negative (decide (c < 0)))
  | nan => nan

/-- The test `v < c` with a number `c`; it fails on NaN. -/
def lt (v : FloatVal F) (c : F) : Bool :=
  match v with
  | num x => decide (x < c)
  | inf negative => negative
  | nan => false

/-- The test `v > c` with a number `c`; it fails on NaN. -/
def gt (v : FloatVal F) (c : F) : Bool :=
  match v with
  | num x => decide (x > c)
  | inf negative => !negative
  | nan => false

/-- The property `lo <= v && v <= hi`: it holds of a number in the range, not of an infinity
and not of NaN. -/
def within (lo hi : F) (v : FloatVal F) : Prop :=
  match v with
  | num x => lo ≤ x ∧ x ≤ hi
  | inf _ => False
  | nan => False

end FloatVal

namespace Ladder

variable {F : Type} [LinearOrderedField F]

/-- The value `Ladder::SetFilterIntegrationRate` stores in `dt` for the parameters of `s`,
with the special values of `float`. -/
def dtFloat (s : Ladder F) : FloatVal F :=
  let dt := (FloatVal.rateQuotient s.sampleRate s.oversamplingFactor).mul s.cutoffFrequency
  if dt.lt 0 then FloatVal.num 0
  else if dt.gt 0.85 then FloatVal.num 0.85
  else dt

end Ladder

namespace SKFilter

variable {F : Type} [LinearOrderedField F]

/-- The value `SKFilter::SetFilterIntegrationRate` stores in `dt` for the parameters of `s`,
with the special values of `float`. -/
def dtFloat (s : SKFilter F) : FloatVal F :=
  let dt := (FloatVal.rateQuotient s.sampleRate s.oversamplingFactor).mul s.cutoffFrequency
  if dt.lt 0 then FloatVal.num 0
  else if dt.gt 0.35 then FloatVal.num 0.35
  else dt

end SKFilter

namespace SVFilter

variable {F : Type} [LinearOrderedField F]

/-- The value `SVFilter::SetFilterIntegrationRate` stores in `dt` for the parameters of `s`,
with the special values of `float`. -/
def dtFloat (s : SVFilter F) : FloatVal F :=
  let dt := (FloatVal.rateQuotient s.sampleRate s.oversamplingFactor).mul s.cutoffFrequency
  if dt.lt 0 then FloatVal.num 0
  else dt

end SVFilter

/-! ## Lemmas on loops and buffers -/

theorem forLoop_succ {σ : Type} (body : Nat → σ → σ) (n : Nat) (s : σ) :
    forLoop body (n + 1) s = body n (forLoop body n s) := rfl

theorem forLoop_zero {σ : Type} (body : Nat → σ → σ) (s : σ) : forLoop body 0 s = s := rfl

theorem getD_set_eq {α : Type} (l : List α) (i j : Nat) (v d : α) :
    (l.set i v).getD j d = if i = j ∧ i < l.length then v else l.getD j d := by
  simp only [List.getD_eq_getElem?_getD, List.getElem?_set]
  by_cases h : i = j
  · subst h
    by_cases h2 : i < l.length
    · simp [h2]
    · simp [h2]
      rw [List.getElem?_eq_none (by omega)]; rfl
  · simp [h]

theorem getD_newFloats {F : Type} (junk : Nat → F) (n j : Nat) (d : F) :
    (newFloats junk n).getD j d = if j < n then junk j else d := by
  unfold newFloats
  simp only [List.getD_eq_getElem?_getD, List.getElem?_map, List.getElem?_range]
  split_ifs with h
  · rw [List.getElem?_range h]; rfl
  · rw [List.getElem?_eq_none (by simpa using h)]; rfl

theorem length_newFloats {F : Type} (junk : Nat → F) (n : Nat) :
    (newFloats junk n).length = n := by
  simp [newFloats]

theorem list_ext_getD {α : Type} (d : α) (l₁ l₂ : List α) (hl : l₁.length = l₂.length)
    (h : ∀ j, j < l₁.length → l₁.getD j d = l₂.getD j d) : l₁ = l₂ := by
  apply List.ext_getElem hl
  intro n h1 h2
  have := h n h1
  rwa [List.getD_eq_getElem _ _ h1, List.getD_eq_getElem _ _ h2] at this

namespace IIRLowpass
variable {F : Type} [Field F]

theorem placeLoop_frame (m : LibM F) (n : Nat) (s : IIRLowpass F) :
    (forLoop (placeBody m) n s).samplerate = s.samplerate ∧
    (forLoop (placeBody m) n s).cutoff = s.cutoff ∧
    (forLoop (placeBody m) n s).order = s.order ∧
    (forLoop (placeBody m) n s).a1 = s.a1 ∧
    (forLoop (placeBody m) n s).a2 = s.a2 ∧
    (forLoop (placeBody m) n s).K = s.K ∧
    (forLoop (placeBody m) n s).p_real = s.p_real ∧
    (forLoop (placeBody m) n s).p_imag = s.p_imag ∧
    (forLoop (placeBody m) n s).z = s.z ∧
    (forLoop (placeBody m) n s).pa_real.length = s.pa_real.length ∧
    (forLoop (placeBody m) n s).pa_imag.length = s.pa_imag.length := by
  induction n with
  | zero => simp [forLoop]
  | succ n ih => simpa [forLoop, placeBody] using ih

end IIRLowpass

theorem write_step {α : Type} (n j len : Nat) (v old : α) (f : Nat → α) (hv : n < len → v = f n) :
    (if n = j ∧ n < len then v else (if j < n ∧ j < len then f j else old)) =
      if j < n + 1 ∧ j < len then f j else old := by
  by_cases h1 : n = j
  · subst h1
    by_cases h2 : n < len
    · simp [h2, hv h2]
    · simp [h2]
  · have : (j < n + 1) = (j < n) := by
      apply propext; omega
    simp [h1, this]

namespace IIRLowpass
variable {F : Type} [Field F]

theorem placeLoop_pa (m : LibM F) (n : Nat) (s : IIRLowpass F) (j : Nat) :
    (forLoop (placeBody m) n s).pa_real.getD j 0 =
      (if j < n ∧ j < s.pa_real.length then -1 * m.sin (thetaOf m s.order j)
       else s.pa_real.getD j 0) ∧
    (forLoop (placeBody m) n s).pa_imag.getD j 0 =
      (if j < n ∧ j < s.pa_imag.length then m.cos (thetaOf m s.order j)
       else s.pa_imag.getD j 0) := by
  induction n with
  | zero => simp [forLoop]
  | succ n ih =>
    obtain ⟨-, -, ho, -, -, -, -, -, -, hl1, hl2⟩ := placeLoop_frame m n s
    simp only [forLoop_succ, placeBody, getD_set_eq, ih, ho, hl1, hl2]
    exact ⟨write_step _ _ _ _ _ (fun i => -1 * m.sin (thetaOf m s.order i)) (fun _ => rfl),
      write_step _ _ _ _ _ (fun i => m.cos (thetaOf m s.order i)) (fun _ => rfl)⟩

theorem scaleLoop_frame (m : LibM F) (Fc : F) (n : Nat) (s : IIRLowpass F) :
    (forLoop (scaleBody m Fc) n s).samplerate = s.samplerate ∧
    (forLoop (scaleBody m Fc) n s).cutoff = s.cutoff ∧
    (forLoop (scaleBody m Fc) n s).order = s.order ∧
    (forLoop (scaleBody m Fc) n s).a1 = s.a1 ∧
    (forLoop (scaleBody m Fc) n s).a2 = s.a2 ∧
    (forLoop (scaleBody m Fc) n s).K = s.K ∧
    (forLoop (scaleBody m Fc) n s).p_real = s.p_real ∧
    (forLoop (scaleBody m Fc) n s).p_imag = s.p_imag ∧
    (forLoop (scaleBody m Fc) n s).z = s.z ∧
    (forLoop (scaleBody m Fc) n s).pa_real.length = s.pa_real.length ∧
    (forLoop (scaleBody m Fc) n s).pa_imag.length = s.pa_imag.length := by
  induction n with
  | zero => simp [forLoop]
  | succ n ih => simpa [forLoop, scaleBody] using ih

theorem scaleLoop_pa (m : LibM F) (Fc : F) (n : Nat) (s : IIRLowpass F) (j : Nat) :
    (forLoop (scaleBody m Fc) n s).pa_real.getD j 0 =
      (if j < n ∧ j < s.pa_real.length then s.pa_real.getD j 0 * (2 * m.M_PI * Fc)
       else s.pa_real.getD j 0) ∧
    (forLoop (scaleBody m Fc) n s).pa_imag.getD j 0 =
      (if j < n ∧ j < s.pa_imag.length then s.pa_imag.getD j 0 * (2 * m.M_PI * Fc)
       else s.pa_imag.getD j 0) := by
  induction n generalizing j with
  | zero => simp [forLoop]
  | succ n ih =>
    obtain ⟨-, -, -, -, -, -, -, -, -, hl1, hl2⟩ := scaleLoop_frame m Fc n s
    have e1 := (ih n).1
    have e2 := (ih n).2
    simp only [lt_irrefl, false_and, if_false] at e1 e2
    simp only [forLoop_succ, scaleBody, getD_set_eq, ih j, hl1, hl2, e1, e2]
    exact ⟨write_step _ _ _ _ _ (fun i => s.pa_real.getD i 0 * (2 * m.M_PI * Fc)) (fun _ => rfl),
      write_step _ _ _ _ _ (fun i => s.pa_imag.getD i 0 * (2 * m.M_PI * Fc)) (fun _ => rfl)⟩

theorem bilinearLoop_frame (n : Nat) (s : IIRLowpass F) :
    (forLoop bilinearBody n s).samplerate = s.samplerate ∧
    (forLoop bilinearBody n s).cutoff = s.cutoff ∧
    (forLoop bilinearBody n s).order = s.order ∧
    (forLoop bilinearBody n s).a1 = s.a1 ∧
    (forLoop bilinearBody n s).a2 = s.a2 ∧
    (forLoop bilinearBody n s).K = s.K ∧
    (forLoop bilinearBody n s).pa_real = s.pa_real ∧
    (forLoop bilinearBody n s).pa_imag = s.pa_imag ∧
    (forLoop bilinearBody n s).z = s.z ∧
    (forLoop bilinearBody n s).p_real.length = s.p_real.length ∧
    (forLoop bilinearBody n s).p_imag.length = s.p_imag.length := by
  induction n with
  | zero => simp [forLoop]
  | succ n ih => simpa [forLoop, bilinearBody] using ih

theorem bilinearLoop_p (n : Nat) (s : IIRLowpass F) (j : Nat) :
    (forLoop bilinearBody n s).p_real.getD j 0 =
      (if j < n ∧ j < s.p_real.length then
        bilinearRe s.samplerate (s.pa_real.getD j 0) (s.pa_imag.getD j 0)
       else s.p_real.getD j 0) ∧
    (forLoop bilinearBody n s).p_imag.getD j 0 =
      (if j < n ∧ j < s.p_imag.length then
        bilinearIm s.samplerate (s.pa_real.getD j 0) (s.pa_imag.getD j 0)
       else s.p_imag.getD j 0) := by
  induction n with
  | zero => simp [forLoop]
  | succ n ih =>
    obtain ⟨hs, -, -, -, -, -, hr, hi, -, hl1, hl2⟩ := bilinearLoop_frame n s
    simp only [forLoop_succ, bilinearBody, getD_set_eq, ih, hs, hr, hi, hl1, hl2]
    exact ⟨write_step _ _ _ _ _
        (fun i => bilinearRe s.samplerate (s.pa_real.getD i 0) (s.pa_imag.getD i 0))
        (fun _ => rfl),
      write_step _ _ _ _ _
        (fun i => bilinearIm s.samplerate (s.pa_real.getD i 0) (s.pa_imag.getD i 0))
        (fun _ => rfl)⟩

theorem coeffLoop_frame (n : Nat) (s : IIRLowpass F) :
    (forLoop coeffBody n s).samplerate = s.samplerate ∧
    (forLoop coeffBody n s).cutoff = s.cutoff ∧
    (forLoop coeffBody n s).order = s.order ∧
    (forLoop coeffBody n s).pa_real = s.pa_real ∧
    (forLoop coeffBody n s).pa_imag = s.pa_imag ∧
    (forLoop coeffBody n s).p_real = s.p_real ∧
    (forLoop coeffBody n s).p_imag = s.p_imag ∧
    (forLoop coeffBody n s).z = s.z ∧
    (forLoop coeffBody n s).a1.length = s.a1.length ∧
    (forLoop coeffBody n s).a2.length = s.a2.length ∧
    (forLoop coeffBody n s).K.length = s.K.length := by
  induction n with
  | zero => simp [forLoop]
  | succ n ih => simpa [forLoop, coeffBody] using ih

theorem coeffLoop_a (n : Nat) (s : IIRLowpass F) (j : Nat) :
    (forLoop coeffBody n s).a1.getD j 0 =
      (if j < n ∧ j < s.a1.length then -2 * s.p_real.getD j 0 else s.a1.getD j 0) ∧
    (forLoop coeffBody n s).a2.getD j 0 =
      (if j < n ∧ j < s.a2.length then
        s.p_real.getD j 0 * s.p_real.getD j 0 + s.p_imag.getD j 0 * s.p_imag.getD j 0
       else s.a2.getD j 0) ∧
    (forLoop coeffBody n s).K.getD j 0 =
      (if j < n ∧ j < s.K.length then
        (1 + (if j < s.a1.length then -2 * s.p_real.getD j 0 else s.a1.getD j 0)
           + (if j < s.a2.length then
                s.p_real.getD j 0 * s.p_real.getD j 0 + s.p_imag.getD j 0 * s.p_imag.getD j 0
              else s.a2.getD j 0)) / 4
       else s.K.getD j 0) := by
  induction n generalizing j with
  | zero => simp [forLoop]
  | succ n ih =>
    obtain ⟨-, -, -, -, -, hr, hi, -, hl1, hl2, hl3⟩ := coeffLoop_frame n s
    have e1 := (ih n).1
    have e2 := (ih n).2.1
    simp only [lt_irrefl, false_and, if_false] at e1 e2
    simp only [forLoop_succ, coeffBody, getD_set_eq, ih j, hr, hi, hl1, hl2, hl3, e1, e2,
      true_and]
    exact ⟨write_step _ _ _ _ _ (fun i => -2 * s.p_real.getD i 0) (fun _ => rfl),
      write_step _ _ _ _ _
        (fun i => s.p_real.getD i 0 * s.p_real.getD i 0 + s.p_imag.getD i 0 * s.p_imag.getD i 0)
        (fun _ => rfl),
      write_step _ _ _ _ _
        (fun i => (1 + (if i < s.a1.length then -2 * s.p_real.getD i 0 else s.a1.getD i 0)
           + (if i < s.a2.length then
                s.p_real.getD i 0 * s.p_real.getD i 0 + s.p_imag.getD i 0 * s.p_imag.getD i 0
              else s.a2.getD i 0)) / 4)
        (fun _ => rfl)⟩


theorem initLoop_frame (n : Nat) (s : IIRLowpass F) :
    (forLoop initBody n s).samplerate = s.samplerate ∧
    (forLoop initBody n s).cutoff = s.cutoff ∧
    (forLoop initBody n s).order = s.order ∧
    (forLoop initBody n s).a1 = s.a1 ∧
    (forLoop initBody n s).a2 = s.a2 ∧
    (forLoop initBody n s).K = s.K ∧
    (forLoop initBody n s).pa_real = s.pa_real ∧
    (forLoop initBody n s).pa_imag = s.pa_imag ∧
    (forLoop initBody n s).p_real = s.p_real ∧
    (forLoop initBody n s).p_imag = s.p_imag ∧
    (forLoop initBody n s).z.length = s.z.length := by
  induction n with
  | zero => simp [forLoop]
  | succ n ih => simpa [forLoop, initBody] using ih

theorem initLoop_z (n : Nat) (s : IIRLowpass F) (j : Nat) :
    (forLoop initBody n s).z.getD j 0 =
      if j < n * 2 ∧ j < s.z.length then 0 else s.z.getD j 0 := by
  induction n with
  | zero => simp [forLoop]
  | succ n ih =>
    have hl := (initLoop_frame n s).2.2.2.2.2.2.2.2.2.2
    simp only [forLoop_succ, initBody, getD_set_eq, ih, hl, List.length_set]
    by_cases h1 : n * 2 = j
    · subst h1
      by_cases h2 : n * 2 < s.z.length
      · have h3 : n * 2 < (n + 1) * 2 := by omega
        simp [h2, h3]
      · simp [h2]
    · by_cases h3 : n * 2 + 1 = j
      · subst h3
        by_cases h2 : n * 2 + 1 < s.z.length
        · have h4 : n * 2 + 1 < (n + 1) * 2 := by omega
          simp [h2, h4]
        · simp [h2]
      · have : (j < (n + 1) * 2) = (j < n * 2) := by
          apply propext; omega
        simp [h1, h3, this]

theorem biquadLoop_frame (n : Nat) (s : IIRLowpass F) (x : F) :
    (forLoop biquad n (s, x)).1.samplerate = s.samplerate ∧
    (forLoop biquad n (s, x)).1.cutoff = s.cutoff ∧
    (forLoop biquad n (s, x)).1.order = s.order ∧
    (forLoop biquad n (s, x)).1.a1 = s.a1 ∧
    (forLoop biquad n (s, x)).1.a2 = s.a2 ∧
    (forLoop biquad n (s, x)).1.K = s.K ∧
    (forLoop biquad n (s, x)).1.pa_real = s.pa_real ∧
    (forLoop biquad n (s, x)).1.pa_imag = s.pa_imag ∧
    (forLoop biquad n (s, x)).1.p_real = s.p_real ∧
    (forLoop biquad n (s, x)).1.p_imag = s.p_imag ∧
    (forLoop biquad n (s, x)).1.z.length = s.z.length := by
  induction n with
  | zero => simp [forLoop]
  | succ n ih => simpa [forLoop, biquad] using ih

theorem biquadLoop_spec (n : Nat) (s : IIRLowpass F) (x : F) :
    (forLoop biquad n (s, x)).2 = cascadeOut s x n ∧
    ∀ j, (forLoop biquad n (s, x)).1.z.getD j 0 =
      if j < n * 2 ∧ j < s.z.length then
        (if j % 2 = 0 then cascadeIn s x (j / 2) else s.z.getD (j - 1) 0)
      else s.z.getD j 0 := by
  induction n with
  | zero => simp [forLoop, cascadeOut]
  | succ n ih =>
    obtain ⟨iho, ihz⟩ := ih
    obtain ⟨-, -, -, ha1, ha2, hK, -, -, -, -, hl⟩ := biquadLoop_frame n s x
    have e0 : (forLoop biquad n (s, x)).1.z.getD (n * 2) 0 = s.z.getD (n * 2) 0 := by
      rw [ihz]; simp
    have e1 : (forLoop biquad n (s, x)).1.z.getD (n * 2 + 1) 0 = s.z.getD (n * 2 + 1) 0 := by
      rw [ihz]; simp
    constructor
    · simp only [forLoop_succ, biquad, cascadeOut, iho, ha1, ha2, hK, e0, e1]
    · intro j
      simp only [forLoop_succ, biquad, getD_set_eq, ihz j, iho, ha1, ha2, hK, e0, e1, hl,
        List.length_set]
      by_cases h1 : n * 2 = j
      · subst h1
        by_cases h2 : n * 2 < s.z.length
        · have h3 : n * 2 < (n + 1) * 2 := by omega
          simp [h2, h3, cascadeIn]
        · simp [h2]
      · by_cases h3 : n * 2 + 1 = j
        · subst h3
          by_cases h2 : n * 2 + 1 < s.z.length
          · have h4 : n * 2 + 1 < (n + 1) * 2 := by omega
            have h5 : (n * 2 + 1) % 2 = 1 := by omega
            simp [h2, h4, h5]
          · simp [h2]
        · have : (j < (n + 1) * 2) = (j < n * 2) := by
            apply propext; omega
          simp [h1, h3, this]


theorem ComputeCoefficients_frame (m : LibM F) (s : IIRLowpass F) :
    (ComputeCoefficients m s).samplerate = s.samplerate ∧
    (ComputeCoefficients m s).cutoff = s.cutoff ∧
    (ComputeCoefficients m s).order = s.order ∧
    (ComputeCoefficients m s).z = s.z ∧
    (ComputeCoefficients m s).a1.length = s.a1.length ∧
    (ComputeCoefficients m s).a2.length = s.a2.length ∧
    (ComputeCoefficients m s).K.length = s.K.length ∧
    (ComputeCoefficients m s).pa_real.length = s.pa_real.length ∧
    (ComputeCoefficients m s).pa_imag.length = s.pa_imag.length ∧
    (ComputeCoefficients m s).p_real.length = s.p_real.length ∧
    (ComputeCoefficients m s).p_imag.length = s.p_imag.length := by
  unfold ComputeCoefficients
  simp only [coeffLoop_frame, bilinearLoop_frame, scaleLoop_frame, placeLoop_frame, and_self]

theorem ComputeCoefficients_getD_ge (m : LibM F) (s : IIRLowpass F) (j : Nat)
    (hj : s.order / 2 ≤ j) :
    (ComputeCoefficients m s).a1.getD j 0 = s.a1.getD j 0 ∧
    (ComputeCoefficients m s).a2.getD j 0 = s.a2.getD j 0 ∧
    (ComputeCoefficients m s).K.getD j 0 = s.K.getD j 0 ∧
    (ComputeCoefficients m s).pa_real.getD j 0 = s.pa_real.getD j 0 ∧
    (ComputeCoefficients m s).pa_imag.getD j 0 = s.pa_imag.getD j 0 ∧
    (ComputeCoefficients m s).p_real.getD j 0 = s.p_real.getD j 0 ∧
    (ComputeCoefficients m s).p_imag.getD j 0 = s.p_imag.getD j 0 := by
  have hj2 : ¬ j < s.order / 2 := by omega
  unfold ComputeCoefficients
  simp only [coeffLoop_frame, bilinearLoop_frame, scaleLoop_frame, placeLoop_frame,
    coeffLoop_a, bilinearLoop_p, scaleLoop_pa, placeLoop_pa, hj2, false_and, if_false, and_self]

theorem ComputeCoefficients_getD_lt (m : LibM F) (s : IIRLowpass F) (hs : Sized s) (j : Nat)
    (hj : j < s.order / 2) :
    (ComputeCoefficients m s).a1.getD j 0 = a1Of m s.samplerate s.cutoff s.order j ∧
    (ComputeCoefficients m s).a2.getD j 0 = a2Of m s.samplerate s.cutoff s.order j ∧
    (ComputeCoefficients m s).K.getD j 0 = KOf m s.samplerate s.cutoff s.order j ∧
    (ComputeCoefficients m s).pa_real.getD j 0 = paRealOf m s.samplerate s.cutoff s.order j ∧
    (ComputeCoefficients m s).pa_imag.getD j 0 = paImagOf m s.samplerate s.cutoff s.order j ∧
    (ComputeCoefficients m s).p_real.getD j 0 = pRealOf m s.samplerate s.cutoff s.order j ∧
    (ComputeCoefficients m s).p_imag.getD j 0 = pImagOf m s.samplerate s.cutoff s.order j := by
  obtain ⟨h1, h2, h3, h4, h5, h6, h7, -⟩ := hs
  unfold ComputeCoefficients
  simp only [coeffLoop_frame, bilinearLoop_frame, scaleLoop_frame, placeLoop_frame,
    coeffLoop_a, bilinearLoop_p, scaleLoop_pa, placeLoop_pa, h1, h2, h3, h4, h5, h6, h7, hj,
    and_self, if_true, a1Of, a2Of, KOf, pRealOf, pImagOf, paRealOf, paImagOf, FcOf]

theorem ComputeCoefficients_sized (m : LibM F) (s : IIRLowpass F) (hs : Sized s) :
    Sized (ComputeCoefficients m s) := by
  obtain ⟨e1, e2, e3, e4, e5, e6, e7, e8, e9, e10, e11⟩ := ComputeCoefficients_frame m s
  unfold Sized at *
  rw [e3, e4, e5, e6, e7, e8, e9, e10, e11]
  exact hs

theorem InitializeBiquadCascade_sized (s : IIRLowpass F) (hs : Sized s) :
    Sized (InitializeBiquadCascade s) := by
  obtain ⟨e1, e2, e3, e4, e5, e6, e7, e8, e9, e10, e11⟩ := initLoop_frame (s.order / 2) s
  unfold Sized InitializeBiquadCascade at *
  rw [e3, e4, e5, e6, e7, e8, e9, e10, e11]
  exact hs

theorem IIRfilter_sized (s : IIRLowpass F) (x : F) (hs : Sized s) :
    Sized (IIRfilter s x).1 := by
  obtain ⟨e1, e2, e3, e4, e5, e6, e7, e8, e9, e10, e11⟩ := biquadLoop_frame (s.order / 2) s x
  unfold Sized IIRfilter at *
  rw [e3, e4, e5, e6, e7, e8, e9, e10, e11]
  exact hs

theorem new_sized (m : LibM F) (junk : Nat → Nat → F) (fs fc : F) (N : Nat) :
    Sized (new m junk fs fc N) := by
  unfold new
  apply ComputeCoefficients_sized
  apply InitializeBiquadCascade_sized
  simp [Sized, length_newFloats]

theorem SetFilterOrder_sized (m : LibM F) (junk : Nat → Nat → F) (N : Nat) (s : IIRLowpass F) :
    Sized (SetFilterOrder m junk N s) := by
  unfold SetFilterOrder
  apply ComputeCoefficients_sized
  apply InitializeBiquadCascade_sized
  simp [Sized, length_newFloats]

theorem SetFilterSamplerate_sized (m : LibM F) (fs : F) (s : IIRLowpass F) (hs : Sized s) :
    Sized (SetFilterSamplerate m fs s) := by
  unfold SetFilterSamplerate
  apply ComputeCoefficients_sized
  apply InitializeBiquadCascade_sized
  exact hs

theorem SetFilterCutoff_sized (m : LibM F) (fc : F) (s : IIRLowpass F) (hs : Sized s) :
    Sized (SetFilterCutoff m fc s) := by
  unfold SetFilterCutoff
  apply ComputeCoefficients_sized
  apply InitializeBiquadCascade_sized
  exact hs

end IIRLowpass

namespace IIRLowpass

theorem cascade_dc {F : Type} [LinearOrderedField F] (s : IIRLowpass F) (c : F)
    (hK : ∀ i, i < s.order / 2 → s.K.getD i 0 = (1 + s.a1.getD i 0 + s.a2.getD i 0) / 4)
    (hz : ∀ i, i < s.order / 2 * 2 → s.z.getD i 0 = c / 4) (n : Nat) (hn : n ≤ s.order / 2) :
    cascadeOut s c n = c ∧ (n < s.order / 2 → cascadeIn s c n = c / 4) := by
  induction n with
  | zero =>
    refine ⟨rfl, fun h => ?_⟩
    simp only [cascadeIn, cascadeOut]
    rw [hK 0 h, hz (0 * 2) (by omega), hz (0 * 2 + 1) (by omega)]
    ring
  | succ n ih =>
    obtain ⟨io, ii⟩ := ih (by omega)
    have hc := ii (by omega)
    have e : cascadeOut s c (n + 1) = c := by
      have : cascadeOut s c (n + 1) =
          cascadeIn s c n + 2 * s.z.getD (n * 2) 0 + s.z.getD (n * 2 + 1) 0 := rfl
      rw [this, hc, hz (n * 2) (by omega), hz (n * 2 + 1) (by omega)]
      ring
    refine ⟨e, fun h => ?_⟩
    simp only [cascadeIn]
    rw [e, hK (n + 1) h, hz ((n + 1) * 2) (by omega), hz ((n + 1) * 2 + 1) (by omega)]
    ring

theorem IIRfilter_dc {F : Type} [LinearOrderedField F] (s : IIRLowpass F) (c : F)
    (hK : ∀ i, i < s.order / 2 → s.K.getD i 0 = (1 + s.a1.getD i 0 + s.a2.getD i 0) / 4)
    (hz : ∀ i, i < s.order / 2 * 2 → s.z.getD i 0 = c / 4) :
    (IIRfilter s c).2 = c ∧ (IIRfilter s c).1.z = s.z := by
  have key := cascade_dc s c hK hz
  obtain ⟨so, sz⟩ := biquadLoop_spec (s.order / 2) s c
  constructor
  · unfold IIRfilter
    rw [so]
    exact (key (s.order / 2) (le_refl _)).1
  · apply list_ext_getD 0
    · exact (biquadLoop_frame _ _ _).2.2.2.2.2.2.2.2.2.2
    · intro j _
      unfold IIRfilter
      rw [sz j]
      split_ifs with h1 h2
      · rw [(key (j / 2) (by omega)).2 (by omega)]
        exact (hz j h1.1).symm
      · rw [hz (j - 1) (by omega)]
        exact (hz j h1.1).symm
      · rfl

/-- C1. Unity DC gain of the anti-alias cascade.  Let the coefficients `a1`, `a2`, `K` of the
engine `s` be those `ComputeCoefficients` produces for a sized engine `s₀` of the same order (any
order, cutoff and sample rate), and let every live delay value of `s` equal `c/4`.  Then
`IIRfilter(c)` returns exactly `c` and leaves the delay line as it was, so that every live
delay value still equals `c/4`. -/
theorem C1_unity_dc_gain {F : Type} [LinearOrderedField F] (m : LibM F) (s₀ s : IIRLowpass F)
    (c : F) (hs₀ : Sized s₀) (ho : s.order = s₀.order)
    (ha1 : s.a1 = (ComputeCoefficients m s₀).a1) (ha2 : s.a2 = (ComputeCoefficients m s₀).a2)
    (hK : s.K = (ComputeCoefficients m s₀).K)
    (hz : ∀ i, i < s.order / 2 * 2 → s.z.getD i 0 = c / 4) :
    (IIRfilter s c).2 = c ∧ (IIRfilter s c).1.z = s.z ∧
    ∀ i, i < s.order / 2 * 2 → (IIRfilter s c).1.z.getD i 0 = c / 4 := by
  have hK2 : ∀ i, i < s.order / 2 → s.K.getD i 0 = (1 + s.a1.getD i 0 + s.a2.getD i 0) / 4 := by
    intro i hi
    rw [ho] at hi
    obtain ⟨e1, e2, e3, -⟩ := ComputeCoefficients_getD_lt m s₀ hs₀ i hi
    rw [ha1, ha2, hK, e1, e2, e3, KOf]
  obtain ⟨h1, h2⟩ := IIRfilter_dc s c hK2 hz
  refine ⟨h1, h2, fun i hi => ?_⟩
  rw [h2]
  exact hz i hi

end IIRLowpass

namespace IIRLowpass

theorem C1_unity_dc_gain_witness :
    Sized sampleRaw ∧
    (∀ i, i < sampleDC.order / 2 * 2 → sampleDC.z.getD i 0 = (1 : ℚ) / 4) ∧
    (IIRfilter sampleDC 1).2 = 1 ∧ (IIRfilter sampleDC 1).1.z = sampleDC.z :=
  have h1 : Sized sampleRaw := by decide
  have ho : sampleDC.order = sampleRaw.order := (ComputeCoefficients_frame sampleLibM sampleRaw).2.2.1
  have h2 : ∀ i, i < sampleDC.order / 2 * 2 → sampleDC.z.getD i 0 = (1 : ℚ) / 4 := by
    intro i hi
    rw [ho] at hi
    have hi8 : i < 8 := hi
    interval_cases i <;> rfl
  have h := C1_unity_dc_gain sampleLibM sampleRaw sampleDC 1 h1 ho rfl rfl rfl h2
  ⟨h1, h2, h.1, h.2.1⟩

end IIRLowpass

namespace IIRLowpass

/-- The digital pole of a section lies inside the unit circle when the analog pole has negative
real part (bilinear transform, field arithmetic). -/
theorem bilinear_normSq_lt_one {F : Type} [LinearOrderedField F] (fs par pai : F) (hfs : 0 < fs)
    (hr : par < 0) :
    bilinearRe fs par pai * bilinearRe fs par pai + bilinearIm fs par pai * bilinearIm fs par pai
      < 1 := by
  have hd : (0 : F) < 2 * fs := by linarith
  have hd' : (2 * fs) ≠ 0 := ne_of_gt hd
  set x := (2 * fs - par) / (2 * fs) with hx
  set y := -1 * pai / (2 * fs) with hy
  set u := (2 * fs + par) / (2 * fs) with hu
  set v := pai / (2 * fs) with hv
  have hxpos : 0 < x := div_pos (by linarith) hd
  have hq : 0 < x * x + y * y := by nlinarith [mul_self_nonneg y, mul_pos hxpos hxpos]
  have hq' : x * x + y * y ≠ 0 := ne_of_gt hq
  have e : bilinearRe fs par pai * bilinearRe fs par pai +
      bilinearIm fs par pai * bilinearIm fs par pai = (u * u + v * v) / (x * x + y * y) := by
    simp only [bilinearRe, bilinearIm, ← hx, ← hy, ← hu, ← hv]
    field_simp
    ring
  rw [e, div_lt_one hq]
  have hvy : v * v = y * y := by
    simp only [hv, hy]; ring
  have hux : u * u < x * x := by
    have h1 : u = 1 + par / (2 * fs) := by
      simp only [hu]; field_simp
    have h2 : x = 1 - par / (2 * fs) := by
      simp only [hx]; field_simp
    have h3 : par / (2 * fs) < 0 := div_neg_of_neg_of_pos hr hd
    rw [h1, h2]
    nlinarith
  linarith

theorem theta_bounds (m : LibM ℝ) (hpi : m.M_PI = Real.pi) (N i : Nat) (hi : i < N / 2) :
    0 < thetaOf m N i ∧ thetaOf m N i < Real.pi / 2 := by
  have hN : (0 : ℝ) < (N : ℝ) := by
    have : 0 < N := by omega
    exact_mod_cast this
  have hk1 : (1 : ℝ) ≤ ((N / 2 - i : Nat) : ℝ) := by
    have : 1 ≤ N / 2 - i := by omega
    exact_mod_cast this
  have hk2 : 2 * ((N / 2 - i : Nat) : ℝ) ≤ (N : ℝ) := by
    have : 2 * (N / 2 - i) ≤ N := by omega
    exact_mod_cast this
  unfold thetaOf
  rw [hpi]
  constructor
  · apply div_pos
    · apply mul_pos (by linarith) Real.pi_pos
    · linarith
  · rw [div_lt_div_iff₀ (by linarith) (by norm_num)]
    nlinarith [Real.pi_pos]

theorem Fc_pos (m : LibM ℝ) (htan : m.tan = Real.tan) (hpi : m.M_PI = Real.pi) (fs fc : ℝ)
    (hfs : 0 < fs) (h0 : 0 < fc) (h1 : fc < fs / 2) : 0 < FcOf m fs fc := by
  unfold FcOf
  rw [htan, hpi]
  apply mul_pos (div_pos hfs Real.pi_pos)
  apply Real.tan_pos_of_pos_of_lt_pi_div_two
  · exact div_pos (mul_pos Real.pi_pos h0) hfs
  · rw [div_lt_div_iff₀ hfs (by norm_num)]
    nlinarith [Real.pi_pos]

/-- C2. Stability of the designed cascade.  With the exact `sin`, `cos`, `tan` and `π`, for a
sized engine of sample rate `fs > 0` and cutoff `0 < cutoff < fs/2`, every section `i < N/2`
(so `N ≥ 2`) designed by `ComputeCoefficients` has an analog pole with strictly negative real
part and modulus `2πFc` (with `2πFc > 0`), and a digital pole
strictly inside the unit circle: `a2[i] = p_real[i]² + p_imag[i]² < 1`. -/
theorem C2_stability (m : LibM ℝ) (hsin : m.sin = Real.sin) (hcos : m.cos = Real.cos)
    (htan : m.tan = Real.tan) (hpi : m.M_PI = Real.pi) (s : IIRLowpass ℝ) (hs : Sized s)
    (hfs : 0 < s.samplerate) (hc0 : 0 < s.cutoff)
    (hc1 : s.cutoff < s.samplerate / 2) (i : Nat) (hi : i < s.order / 2) :
    (ComputeCoefficients m s).pa_real.getD i 0 < 0 ∧
    Real.sqrt ((ComputeCoefficients m s).pa_real.getD i 0 ^ 2 +
        (ComputeCoefficients m s).pa_imag.getD i 0 ^ 2) =
      2 * Real.pi * (s.samplerate / Real.pi * Real.tan (Real.pi * s.cutoff / s.samplerate)) ∧
    0 < 2 * Real.pi * (s.samplerate / Real.pi * Real.tan (Real.pi * s.cutoff / s.samplerate)) ∧
    (ComputeCoefficients m s).a2.getD i 0 =
      (ComputeCoefficients m s).p_real.getD i 0 ^ 2 + (ComputeCoefficients m s).p_imag.getD i 0 ^ 2 ∧
    (ComputeCoefficients m s).a2.getD i 0 < 1 := by
  obtain ⟨-, e2, -, e4, e5, e6, e7⟩ := ComputeCoefficients_getD_lt m s hs i hi
  obtain ⟨ht0, ht1⟩ := theta_bounds m hpi s.order i hi
  have hFc := Fc_pos m htan hpi s.samplerate s.cutoff hfs hc0 hc1
  have hFceq : FcOf m s.samplerate s.cutoff =
      s.samplerate / Real.pi * Real.tan (Real.pi * s.cutoff / s.samplerate) := by
    unfold FcOf; rw [htan, hpi]
  have hW : 0 < 2 * Real.pi * FcOf m s.samplerate s.cutoff :=
    mul_pos (mul_pos (by norm_num) Real.pi_pos) hFc
  have hsinpos : 0 < Real.sin (thetaOf m s.order i) :=
    Real.sin_pos_of_pos_of_lt_pi ht0 (by linarith [Real.pi_pos])
  have hre : paRealOf m s.samplerate s.cutoff s.order i < 0 := by
    unfold paRealOf
    rw [hsin, hpi]
    nlinarith [mul_pos hsinpos hW]
  refine ⟨by rw [e4]; exact hre, ?_, by rw [← hFceq]; exact hW, ?_, ?_⟩
  · rw [e4, e5, ← hFceq]
    have hsq : paRealOf m s.samplerate s.cutoff s.order i ^ 2 +
        paImagOf m s.samplerate s.cutoff s.order i ^ 2 =
        (2 * Real.pi * FcOf m s.samplerate s.cutoff) ^ 2 := by
      unfold paRealOf paImagOf
      rw [hsin, hcos, hpi]
      have := Real.sin_sq_add_cos_sq (thetaOf m s.order i)
      linear_combination (2 * Real.pi * FcOf m s.samplerate s.cutoff) ^ 2 * this
    rw [hsq, Real.sqrt_sq (le_of_lt hW)]
  · rw [e2, e6, e7, a2Of]; ring
  · rw [e2, a2Of, pRealOf, pImagOf]
    exact bilinear_normSq_lt_one _ _ _ hfs hre

theorem C2_stability_witness :
    (ComputeCoefficients
        (⟨Real.sin, Real.cos, Real.tan, Real.pi, Real.sinh, Real.arsinh, fun x => |x|⟩ : LibM ℝ)
        (⟨4, 1, 2, [0], [0], [0], [0], [0], [0], [0], [0, 0]⟩ : IIRLowpass ℝ)).a2.getD 0 0 < 1 :=
  (C2_stability
    (⟨Real.sin, Real.cos, Real.tan, Real.pi, Real.sinh, Real.arsinh, fun x => |x|⟩ : LibM ℝ)
    rfl rfl rfl rfl
    (⟨4, 1, 2, [0], [0], [0], [0], [0], [0], [0], [0, 0]⟩ : IIRLowpass ℝ)
    (by simp [Sized]) (by norm_num) (by norm_num) (by norm_num) 0 (by simp)).2.2.2.2

end IIRLowpass

namespace IIRLowpass

theorem bilinear_complex (fs par pai : ℝ) (hfs : fs ≠ 0)
    (hne : 2 * (fs : ℂ) - (⟨par, pai⟩ : ℂ) ≠ 0) :
    (2 * (fs : ℂ) + (⟨par, pai⟩ : ℂ)) / (2 * (fs : ℂ) - (⟨par, pai⟩ : ℂ)) =
      (⟨bilinearRe fs par pai, bilinearIm fs par pai⟩ : ℂ) := by
  have hq : (2 * fs - par) * (2 * fs - par) + pai * pai ≠ 0 := by
    intro h
    apply hne
    have h1 : 2 * fs - par = 0 := by nlinarith [mul_self_nonneg (2 * fs - par), mul_self_nonneg pai]
    have h2 : pai = 0 := by nlinarith [mul_self_nonneg (2 * fs - par), mul_self_nonneg pai]
    apply Complex.ext
    · simp; linarith
    · simp [h2]
  have hd : (2 * fs) ≠ 0 := mul_ne_zero two_ne_zero hfs
  rw [div_eq_iff hne]
  have hx : ((2 * fs - par) / (2 * fs)) * ((2 * fs - par) / (2 * fs)) +
      (-1 * pai / (2 * fs)) * (-1 * pai / (2 * fs)) ≠ 0 := by
    have : ((2 * fs - par) / (2 * fs)) * ((2 * fs - par) / (2 * fs)) +
      (-1 * pai / (2 * fs)) * (-1 * pai / (2 * fs)) =
        ((2 * fs - par) * (2 * fs - par) + pai * pai) / ((2 * fs) * (2 * fs)) := by
      field_simp
    rw [this]
    exact div_ne_zero hq (mul_ne_zero hd hd)
  have hre : bilinearRe fs par pai =
      ((2 * fs + par) * (2 * fs - par) - pai * pai) /
        ((2 * fs - par) * (2 * fs - par) + pai * pai) := by
    simp only [bilinearRe]
    field_simp
    ring
  have him : bilinearIm fs par pai =
      (pai * (2 * fs - par) + (2 * fs + par) * pai) /
        ((2 * fs - par) * (2 * fs - par) + pai * pai) := by
    simp only [bilinearIm]
    field_simp
    ring
  rw [hre, him]
  apply Complex.ext
  · simp only [Complex.add_re, Complex.mul_re, Complex.sub_re, Complex.ofReal_re,
      Complex.ofReal_im, Complex.re_ofNat, Complex.im_ofNat, Complex.sub_im, Complex.mul_im]
    field_simp
    ring
  · simp only [Complex.add_im, Complex.mul_re, Complex.sub_re,
      Complex.ofReal_re, Complex.ofReal_im, Complex.re_ofNat, Complex.im_ofNat, Complex.sub_im,
      Complex.mul_im]
    field_simp
    ring

/-- C4. Coefficient derivation.  For every section `i < N/2` of a sized engine with `fs ≠ 0` and
`2·fs − pa ≠ 0`, where `pa = pa_real[i] + j·pa_imag[i]` is the pre-warped, scaled analog pole
left by `ComputeCoefficients`, the pair `(p_real[i], p_imag[i])` is the complex quotient
`(2·fs + pa)/(2·fs − pa)`, and `a1[i] = −2·p_real[i]`, `a2[i] = p_real[i]² + p_imag[i]²`,
`K[i] = (1 + a1[i] + a2[i])/4`. -/
theorem C4_coefficient_derivation (m : LibM ℝ) (s : IIRLowpass ℝ) (hs : Sized s) (i : Nat)
    (hi : i < s.order / 2) (hfs : s.samplerate ≠ 0)
    (hne : 2 * (s.samplerate : ℂ) - (⟨(ComputeCoefficients m s).pa_real.getD i 0,
      (ComputeCoefficients m s).pa_imag.getD i 0⟩ : ℂ) ≠ 0) :
    (2 * (s.samplerate : ℂ) + (⟨(ComputeCoefficients m s).pa_real.getD i 0,
        (ComputeCoefficients m s).pa_imag.getD i 0⟩ : ℂ)) /
      (2 * (s.samplerate : ℂ) - (⟨(ComputeCoefficients m s).pa_real.getD i 0,
        (ComputeCoefficients m s).pa_imag.getD i 0⟩ : ℂ)) =
      (⟨(ComputeCoefficients m s).p_real.getD i 0,
        (ComputeCoefficients m s).p_imag.getD i 0⟩ : ℂ) ∧
    (ComputeCoefficients m s).a1.getD i 0 = -2 * (ComputeCoefficients m s).p_real.getD i 0 ∧
    (ComputeCoefficients m s).a2.getD i 0 =
      (ComputeCoefficients m s).p_real.getD i 0 ^ 2 +
        (ComputeCoefficients m s).p_imag.getD i 0 ^ 2 ∧
    (ComputeCoefficients m s).K.getD i 0 =
      (1 + (ComputeCoefficients m s).a1.getD i 0 + (ComputeCoefficients m s).a2.getD i 0) / 4 := by
  obtain ⟨e1, e2, e3, e4, e5, e6, e7⟩ := ComputeCoefficients_getD_lt m s hs i hi
  rw [e4, e5] at hne
  rw [e1, e2, e3, e4, e5, e6, e7]
  refine ⟨?_, ?_, ?_, ?_⟩
  · rw [bilinear_complex _ _ _ hfs hne, pRealOf, pImagOf]
  · rw [a1Of]
  · rw [a2Of]; ring
  · rw [KOf]

end IIRLowpass

namespace IIRLowpass

theorem C4_coefficient_derivation_witness :
    (ComputeCoefficients
        (⟨fun _ => 1, fun _ => 0, fun _ => 1, 1, fun x => x, fun x => x, fun x => |x|⟩ : LibM ℝ)
        (⟨1, 1, 2, [0], [0], [0], [0], [0], [0], [0], [0, 0]⟩ : IIRLowpass ℝ)).K.getD 0 0 =
      (1 + (ComputeCoefficients
        (⟨fun _ => 1, fun _ => 0, fun _ => 1, 1, fun x => x, fun x => x, fun x => |x|⟩ : LibM ℝ)
        (⟨1, 1, 2, [0], [0], [0], [0], [0], [0], [0], [0, 0]⟩ : IIRLowpass ℝ)).a1.getD 0 0 +
        (ComputeCoefficients
        (⟨fun _ => 1, fun _ => 0, fun _ => 1, 1, fun x => x, fun x => x, fun x => |x|⟩ : LibM ℝ)
        (⟨1, 1, 2, [0], [0], [0], [0], [0], [0], [0], [0, 0]⟩ : IIRLowpass ℝ)).a2.getD 0 0) / 4 :=
  (C4_coefficient_derivation
    (⟨fun _ => 1, fun _ => 0, fun _ => 1, 1, fun x => x, fun x => x, fun x => |x|⟩ : LibM ℝ)
    (⟨1, 1, 2, [0], [0], [0], [0], [0], [0], [0], [0, 0]⟩ : IIRLowpass ℝ)
    (by simp [Sized]) 0 (by simp) (by simp)
    (by
      intro h
      have h2 := congrArg Complex.re h
      simp [ComputeCoefficients, forLoop, placeBody, scaleBody, bilinearBody, coeffBody] at h2)).2.2.2

end IIRLowpass

namespace IIRLowpass

/-- C5. Section count: the design has exactly `N/2` sections (integer division), for every
order `N ≥ 0`.
* `ComputeCoefficients` changes the length of no buffer and leaves every entry of `a1`, `a2`, `K`
  at an index `j ≥ N/2` as it was; on a sized engine the three buffers have exactly `N/2` entries
  and every entry `j < N/2` is overwritten with the value of the design (whatever it held).
* `IIRfilter` runs the biquad body `N/2` times: it returns the sample leaving section `N/2` of the
  cascade, leaves the delay values at indices `j ≥ 2·(N/2)` as they were, and on a sized engine
  overwrites each of the first `2·(N/2)` delay values (`z[2i]` with the `in` of section `i`,
  `z[2i+1]` with the old `z[2i]`).
* For `N = 8` there are 4 sections, and for `N < 2` `IIRfilter` returns its input and changes
  nothing. -/
theorem C5_section_count {F : Type} [Field F] (m : LibM F) (s : IIRLowpass F) (x : F) :
    ((ComputeCoefficients m s).a1.length = s.a1.length ∧
      (ComputeCoefficients m s).a2.length = s.a2.length ∧
      (ComputeCoefficients m s).K.length = s.K.length) ∧
    (∀ j, s.order / 2 ≤ j →
      (ComputeCoefficients m s).a1.getD j 0 = s.a1.getD j 0 ∧
      (ComputeCoefficients m s).a2.getD j 0 = s.a2.getD j 0 ∧
      (ComputeCoefficients m s).K.getD j 0 = s.K.getD j 0) ∧
    (Sized s →
      ((ComputeCoefficients m s).a1.length = s.order / 2 ∧
        (ComputeCoefficients m s).a2.length = s.order / 2 ∧
        (ComputeCoefficients m s).K.length = s.order / 2) ∧
      ∀ j, j < s.order / 2 →
        (ComputeCoefficients m s).a1.getD j 0 = a1Of m s.samplerate s.cutoff s.order j ∧
        (ComputeCoefficients m s).a2.getD j 0 = a2Of m s.samplerate s.cutoff s.order j ∧
        (ComputeCoefficients m s).K.getD j 0 = KOf m s.samplerate s.cutoff s.order j) ∧
    (IIRfilter s x = forLoop biquad (s.order / 2) (s, x) ∧
      (IIRfilter s x).2 = cascadeOut s x (s.order / 2) ∧
      (IIRfilter s x).1.z.length = s.z.length) ∧
    (∀ j, s.order / 2 * 2 ≤ j → (IIRfilter s x).1.z.getD j 0 = s.z.getD j 0) ∧
    (Sized s → ∀ i, i < s.order / 2 →
      (IIRfilter s x).1.z.getD (i * 2) 0 = cascadeIn s x i ∧
      (IIRfilter s x).1.z.getD (i * 2 + 1) 0 = s.z.getD (i * 2) 0) ∧
    (s.order = 8 → s.order / 2 = 4) ∧
    (s.order < 2 → IIRfilter s x = (s, x)) := by
  obtain ⟨-, -, -, -, l1, l2, l3, -⟩ := ComputeCoefficients_frame m s
  obtain ⟨so, sz⟩ := biquadLoop_spec (s.order / 2) s x
  refine ⟨⟨l1, l2, l3⟩, ?_, ?_, ⟨rfl, so, (biquadLoop_frame _ _ _).2.2.2.2.2.2.2.2.2.2⟩,
    ?_, ?_, ?_, ?_⟩
  · intro j hj
    obtain ⟨e1, e2, e3, -⟩ := ComputeCoefficients_getD_ge m s j hj
    exact ⟨e1, e2, e3⟩
  · intro hs
    refine ⟨⟨by rw [l1]; exact hs.1, by rw [l2]; exact hs.2.1, by rw [l3]; exact hs.2.2.1⟩, ?_⟩
    intro j hj
    obtain ⟨e1, e2, e3, -⟩ := ComputeCoefficients_getD_lt m s hs j hj
    exact ⟨e1, e2, e3⟩
  · intro j hj
    unfold IIRfilter
    rw [sz j]
    have : ¬ j < s.order / 2 * 2 := by omega
    simp [this]
  · intro hs i hi
    have hz : s.z.length = s.order := hs.2.2.2.2.2.2.2
    unfold IIRfilter
    rw [sz (i * 2), sz (i * 2 + 1)]
    have h1 : i * 2 < s.order / 2 * 2 ∧ i * 2 < s.z.length := by omega
    have h2 : i * 2 + 1 < s.order / 2 * 2 ∧ i * 2 + 1 < s.z.length := by omega
    have h3 : (i * 2 + 1) % 2 ≠ 0 := by omega
    have h4 : i * 2 / 2 = i := by omega
    simp [h1, h2, h3, h4]
  · intro h; omega
  · intro h
    have : s.order / 2 = 0 := by omega
    unfold IIRfilter
    rw [this]
    rfl

theorem C5_section_count_witness :
    (ComputeCoefficients sampleLibM sampleRaw).a1.length = 4 ∧
    (ComputeCoefficients sampleLibM sampleRaw).K.getD 3 0 = KOf sampleLibM 8 1 8 3 ∧
    (IIRfilter sampleRaw 1).1.z.getD 7 0 = sampleRaw.z.getD 6 0 :=
  have h := C5_section_count sampleLibM sampleRaw 1
  have hs : Sized sampleRaw := by decide
  ⟨(h.2.2.1 hs).1.1, ((h.2.2.1 hs).2 3 (by decide)).2.2, (h.2.2.2.2.2.1 hs 3 (by decide)).2⟩

end IIRLowpass

namespace IIRLowpass
variable {F : Type} [Field F]

theorem ComputeCoefficients_coeffs_eq (m : LibM F) (s t : IIRLowpass F) (hs : Sized s)
    (ht : Sized t) (h1 : s.samplerate = t.samplerate) (h2 : s.cutoff = t.cutoff)
    (h3 : s.order = t.order) :
    (ComputeCoefficients m s).a1 = (ComputeCoefficients m t).a1 ∧
    (ComputeCoefficients m s).a2 = (ComputeCoefficients m t).a2 ∧
    (ComputeCoefficients m s).K = (ComputeCoefficients m t).K := by
  obtain ⟨-, -, -, -, l1, l2, l3, -⟩ := ComputeCoefficients_frame m s
  obtain ⟨-, -, -, -, k1, k2, k3, -⟩ := ComputeCoefficients_frame m t
  have a := hs.1
  have b := hs.2.1
  have c := hs.2.2.1
  have a' := ht.1
  have b' := ht.2.1
  have c' := ht.2.2.1
  refine ⟨?_, ?_, ?_⟩
  · apply list_ext_getD 0
    · rw [l1, k1, a, a', h3]
    · intro j hj
      rw [l1, a] at hj
      rw [(ComputeCoefficients_getD_lt m s hs j hj).1,
        (ComputeCoefficients_getD_lt m t ht j (h3 ▸ hj)).1, h1, h2, h3]
  · apply list_ext_getD 0
    · rw [l2, k2, b, b', h3]
    · intro j hj
      rw [l2, b] at hj
      rw [(ComputeCoefficients_getD_lt m s hs j hj).2.1,
        (ComputeCoefficients_getD_lt m t ht j (h3 ▸ hj)).2.1, h1, h2, h3]
  · apply list_ext_getD 0
    · rw [l3, k3, c, c', h3]
    · intro j hj
      rw [l3, c] at hj
      rw [(ComputeCoefficients_getD_lt m s hs j hj).2.2.1,
        (ComputeCoefficients_getD_lt m t ht j (h3 ▸ hj)).2.2.1, h1, h2, h3]

theorem InitializeBiquadCascade_frame (s : IIRLowpass F) :
    (InitializeBiquadCascade s).samplerate = s.samplerate ∧
    (InitializeBiquadCascade s).cutoff = s.cutoff ∧
    (InitializeBiquadCascade s).order = s.order :=
  ⟨(initLoop_frame _ s).1, (initLoop_frame _ s).2.1, (initLoop_frame _ s).2.2.1⟩

theorem redesign_z (m : LibM F) (s : IIRLowpass F) (hs : Sized s) (j : Nat)
    (hj : j < s.order / 2 * 2) :
    (ComputeCoefficients m (InitializeBiquadCascade s)).z.getD j 0 = 0 := by
  rw [(ComputeCoefficients_frame m _).2.2.2.1]
  unfold InitializeBiquadCascade
  rw [initLoop_z]
  have hz : s.z.length = s.order := hs.2.2.2.2.2.2.2
  have : j < s.order / 2 * 2 ∧ j < s.z.length := by omega
  simp [this]

theorem redesign_params (m : LibM F) (s : IIRLowpass F) :
    (ComputeCoefficients m (InitializeBiquadCascade s)).samplerate = s.samplerate ∧
    (ComputeCoefficients m (InitializeBiquadCascade s)).cutoff = s.cutoff ∧
    (ComputeCoefficients m (InitializeBiquadCascade s)).order = s.order := by
  obtain ⟨a, b, c, -⟩ := ComputeCoefficients_frame m (InitializeBiquadCascade s)
  obtain ⟨a', b', c'⟩ := InitializeBiquadCascade_frame s
  exact ⟨a.trans a', b.trans b', c.trans c'⟩

theorem redesign_coeffs_eq (m : LibM F) (s t : IIRLowpass F) (hs : Sized s) (ht : Sized t)
    (h1 : s.samplerate = t.samplerate) (h2 : s.cutoff = t.cutoff) (h3 : s.order = t.order) :
    (ComputeCoefficients m (InitializeBiquadCascade s)).a1 =
      (ComputeCoefficients m (InitializeBiquadCascade t)).a1 ∧
    (ComputeCoefficients m (InitializeBiquadCascade s)).a2 =
      (ComputeCoefficients m (InitializeBiquadCascade t)).a2 ∧
    (ComputeCoefficients m (InitializeBiquadCascade s)).K =
      (ComputeCoefficients m (InitializeBiquadCascade t)).K := by
  obtain ⟨a, b, c⟩ := InitializeBiquadCascade_frame s
  obtain ⟨a', b', c'⟩ := InitializeBiquadCascade_frame t
  exact ComputeCoefficients_coeffs_eq m _ _ (InitializeBiquadCascade_sized s hs)
    (InitializeBiquadCascade_sized t ht) (by rw [a, a', h1]) (by rw [b, b', h2])
    (by rw [c, c', h3])

/-- The buffers allocated by the constructor (and by `SetFilterOrder`) before they are written. -/
theorem alloc_sized {G : Type} (junk : Nat → Nat → G) (fs fc : G) (N : Nat) :
    Sized
      ({ samplerate := fs, cutoff := fc, order := N,
         a1 := newFloats (junk 0) (N / 2), a2 := newFloats (junk 1) (N / 2),
         K := newFloats (junk 2) (N / 2), pa_real := newFloats (junk 3) (N / 2),
         pa_imag := newFloats (junk 4) (N / 2), p_real := newFloats (junk 5) (N / 2),
         p_imag := newFloats (junk 6) (N / 2), z := newFloats (junk 7) N } : IIRLowpass G) := by
  simp [Sized, length_newFloats]

theorem Reachable_sized (m : LibM F) (s : IIRLowpass F) (h : Reachable m s) : Sized s := by
  induction h with
  | construct junk fs fc N => exact new_sized m junk fs fc N
  | setOrder junk N s _ _ => exact SetFilterOrder_sized m junk N s
  | setSamplerate fs s _ ih => exact SetFilterSamplerate_sized m fs s ih
  | setCutoff fc s _ ih => exact SetFilterCutoff_sized m fc s ih
  | tick x s _ ih => exact IIRfilter_sized s x ih

/-- The coefficients of a sized engine equal those of a fresh engine built with its parameters
as soon as they equal what `ComputeCoefficients` yields on the engine itself. -/
theorem new_coeffs (m : LibM F) (junk : Nat → Nat → F) (s : IIRLowpass F) (hs : Sized s) :
    (new m junk s.samplerate s.cutoff s.order).a1 = (ComputeCoefficients m s).a1 ∧
    (new m junk s.samplerate s.cutoff s.order).a2 = (ComputeCoefficients m s).a2 ∧
    (new m junk s.samplerate s.cutoff s.order).K = (ComputeCoefficients m s).K := by
  unfold new
  have hi := InitializeBiquadCascade_frame
    ({ samplerate := s.samplerate, cutoff := s.cutoff, order := s.order,
       a1 := newFloats (junk 0) (s.order / 2), a2 := newFloats (junk 1) (s.order / 2),
       K := newFloats (junk 2) (s.order / 2), pa_real := newFloats (junk 3) (s.order / 2),
       pa_imag := newFloats (junk 4) (s.order / 2), p_real := newFloats (junk 5) (s.order / 2),
       p_imag := newFloats (junk 6) (s.order / 2), z := newFloats (junk 7) s.order } :
      IIRLowpass F)
  exact ComputeCoefficients_coeffs_eq m _ s
    (InitializeBiquadCascade_sized _ (alloc_sized junk _ _ _)) hs hi.1 hi.2.1 hi.2.2

theorem Reachable_designed (m : LibM F) (s : IIRLowpass F) (h : Reachable m s) :
    s.a1 = (ComputeCoefficients m s).a1 ∧ s.a2 = (ComputeCoefficients m s).a2 ∧
    s.K = (ComputeCoefficients m s).K := by
  have key : ∀ t : IIRLowpass F, Sized t →
      (ComputeCoefficients m t).a1 = (ComputeCoefficients m (ComputeCoefficients m t)).a1 ∧
      (ComputeCoefficients m t).a2 = (ComputeCoefficients m (ComputeCoefficients m t)).a2 ∧
      (ComputeCoefficients m t).K = (ComputeCoefficients m (ComputeCoefficients m t)).K := by
    intro t ht
    obtain ⟨a, b, c, -⟩ := ComputeCoefficients_frame m t
    exact ComputeCoefficients_coeffs_eq m t _ ht (ComputeCoefficients_sized m t ht) a.symm b.symm
      c.symm
  induction h with
  | construct junk fs fc N =>
    exact key _ (InitializeBiquadCascade_sized _ (alloc_sized junk _ _ _))
  | setOrder junk N s _ _ =>
    exact key _ (InitializeBiquadCascade_sized _ (alloc_sized junk _ _ _))
  | setSamplerate fs s hr _ =>
    exact key _ (InitializeBiquadCascade_sized _ (Reachable_sized m s hr))
  | setCutoff fc s hr _ =>
    exact key _ (InitializeBiquadCascade_sized _ (Reachable_sized m s hr))
  | tick x s hr ih =>
    obtain ⟨f1, f2, f3, f4, f5, f6, -⟩ := biquadLoop_frame (s.order / 2) s x
    have hs := Reachable_sized m s hr
    obtain ⟨c1, c2, c3⟩ := ComputeCoefficients_coeffs_eq m (IIRfilter s x).1 s
      (IIRfilter_sized s x hs) hs f1 f2 f3
    unfold IIRfilter at c1 c2 c3 ⊢
    rw [f4, f5, f6, c1, c2, c3]
    exact ih

end IIRLowpass

namespace IIRLowpass
variable {F : Type} [Field F]

theorem new_unfold (m : LibM F) (junk : Nat → Nat → F) (fs fc : F) (N : Nat) :
    new m junk fs fc N = ComputeCoefficients m (InitializeBiquadCascade
      ({ samplerate := fs, cutoff := fc, order := N,
         a1 := newFloats (junk 0) (N / 2), a2 := newFloats (junk 1) (N / 2),
         K := newFloats (junk 2) (N / 2), pa_real := newFloats (junk 3) (N / 2),
         pa_imag := newFloats (junk 4) (N / 2), p_real := newFloats (junk 5) (N / 2),
         p_imag := newFloats (junk 6) (N / 2), z := newFloats (junk 7) N } : IIRLowpass F)) :=
  rfl

theorem new_live_z (m : LibM F) (junk : Nat → Nat → F) (fs fc : F) (N j : Nat)
    (hj : j < N / 2 * 2) : (new m junk fs fc N).z.getD j 0 = 0 := by
  rw [new_unfold]
  exact redesign_z m _ (alloc_sized junk fs fc N) j hj

/-- C6. Reconfiguration equals fresh construction.  For every sized engine `s` (the buffer sizes
every constructed engine has), each of `SetFilterCutoff(c)`, `SetFilterSamplerate(r)` and
`SetFilterOrder(n)` yields the updated parameter triple, the same coefficient buffers `a1`, `a2`,
`K` as a newly constructed engine with that triple, and live delay values that are all zero, as
in the new engine.  Moreover every engine reachable from a constructor by setter calls and
`IIRfilter` ticks holds the coefficients of a new engine built from its current
`(samplerate, cutoff, order)`: they do not depend on the history of calls or samples. -/
theorem C6_reconfiguration_is_construction (m : LibM F) (junk junk2 : Nat → Nat → F)
    (s : IIRLowpass F) (hs : Sized s) (c r : F) (n : Nat) :
    ((SetFilterCutoff m c s).samplerate = s.samplerate ∧
      (SetFilterCutoff m c s).cutoff = c ∧ (SetFilterCutoff m c s).order = s.order ∧
      (SetFilterCutoff m c s).a1 = (new m junk s.samplerate c s.order).a1 ∧
      (SetFilterCutoff m c s).a2 = (new m junk s.samplerate c s.order).a2 ∧
      (SetFilterCutoff m c s).K = (new m junk s.samplerate c s.order).K ∧
      ∀ j, j < s.order / 2 * 2 →
        (SetFilterCutoff m c s).z.getD j 0 = 0 ∧
        (new m junk s.samplerate c s.order).z.getD j 0 = 0) ∧
    ((SetFilterSamplerate m r s).samplerate = r ∧
      (SetFilterSamplerate m r s).cutoff = s.cutoff ∧
      (SetFilterSamplerate m r s).order = s.order ∧
      (SetFilterSamplerate m r s).a1 = (new m junk r s.cutoff s.order).a1 ∧
      (SetFilterSamplerate m r s).a2 = (new m junk r s.cutoff s.order).a2 ∧
      (SetFilterSamplerate m r s).K = (new m junk r s.cutoff s.order).K ∧
      ∀ j, j < s.order / 2 * 2 →
        (SetFilterSamplerate m r s).z.getD j 0 = 0 ∧
        (new m junk r s.cutoff s.order).z.getD j 0 = 0) ∧
    ((SetFilterOrder m junk2 n s).samplerate = s.samplerate ∧
      (SetFilterOrder m junk2 n s).cutoff = s.cutoff ∧
      (SetFilterOrder m junk2 n s).order = n ∧
      (SetFilterOrder m junk2 n s).a1 = (new m junk s.samplerate s.cutoff n).a1 ∧
      (SetFilterOrder m junk2 n s).a2 = (new m junk s.samplerate s.cutoff n).a2 ∧
      (SetFilterOrder m junk2 n s).K = (new m junk s.samplerate s.cutoff n).K ∧
      ∀ j, j < n / 2 * 2 →
        (SetFilterOrder m junk2 n s).z.getD j 0 = 0 ∧
        (new m junk s.samplerate s.cutoff n).z.getD j 0 = 0) ∧
    (∀ t, Reachable m t →
      t.a1 = (new m junk t.samplerate t.cutoff t.order).a1 ∧
      t.a2 = (new m junk t.samplerate t.cutoff t.order).a2 ∧
      t.K = (new m junk t.samplerate t.cutoff t.order).K) := by
  refine ⟨?_, ?_, ?_, ?_⟩
  · have hs' : Sized ({ s with cutoff := c } : IIRLowpass F) := hs
    obtain ⟨p1, p2, p3⟩ := redesign_params m ({ s with cutoff := c } : IIRLowpass F)
    obtain ⟨q1, q2, q3⟩ := redesign_coeffs_eq m ({ s with cutoff := c } : IIRLowpass F) _ hs'
      (alloc_sized junk s.samplerate c s.order) rfl rfl rfl
    exact ⟨p1, p2, p3, q1, q2, q3, fun j hj =>
      ⟨redesign_z m _ hs' j hj, new_live_z m junk _ _ _ j hj⟩⟩
  · have hs' : Sized ({ s with samplerate := r } : IIRLowpass F) := hs
    obtain ⟨p1, p2, p3⟩ := redesign_params m ({ s with samplerate := r } : IIRLowpass F)
    obtain ⟨q1, q2, q3⟩ := redesign_coeffs_eq m ({ s with samplerate := r } : IIRLowpass F) _ hs'
      (alloc_sized junk r s.cutoff s.order) rfl rfl rfl
    exact ⟨p1, p2, p3, q1, q2, q3, fun j hj =>
      ⟨redesign_z m _ hs' j hj, new_live_z m junk _ _ _ j hj⟩⟩
  · have e : SetFilterOrder m junk2 n s = new m junk2 s.samplerate s.cutoff n := rfl
    rw [e]
    obtain ⟨p1, p2, p3⟩ := redesign_params m
      ({ samplerate := s.samplerate, cutoff := s.cutoff, order := n,
         a1 := newFloats (junk2 0) (n / 2), a2 := newFloats (junk2 1) (n / 2),
         K := newFloats (junk2 2) (n / 2), pa_real := newFloats (junk2 3) (n / 2),
         pa_imag := newFloats (junk2 4) (n / 2), p_real := newFloats (junk2 5) (n / 2),
         p_imag := newFloats (junk2 6) (n / 2), z := newFloats (junk2 7) n } : IIRLowpass F)
    obtain ⟨q1, q2, q3⟩ := redesign_coeffs_eq m _ _
      (alloc_sized junk2 s.samplerate s.cutoff n) (alloc_sized junk s.samplerate s.cutoff n)
      rfl rfl rfl
    exact ⟨p1, p2, p3, q1, q2, q3, fun j hj =>
      ⟨new_live_z m junk2 _ _ _ j hj, new_live_z m junk _ _ _ j hj⟩⟩
  · intro t ht
    obtain ⟨d1, d2, d3⟩ := Reachable_designed m t ht
    obtain ⟨n1, n2, n3⟩ := new_coeffs m junk t (Reachable_sized m t ht)
    exact ⟨d1.trans n1.symm, d2.trans n2.symm, d3.trans n3.symm⟩

theorem C6_reconfiguration_is_construction_witness :
    (SetFilterCutoff sampleLibM 2 sampleRaw).a1 = (new sampleLibM (fun _ _ => 7) 8 2 8).a1 ∧
    (SetFilterOrder sampleLibM (fun _ _ => 5) 6 sampleRaw).K =
      (new sampleLibM (fun _ _ => 7) 8 1 6).K :=
  have h := C6_reconfiguration_is_construction sampleLibM (fun _ _ => 7) (fun _ _ => 5)
    sampleRaw (by decide) 2 3 6
  ⟨h.1.2.2.2.1, h.2.2.1.2.2.2.2.2.1⟩

end IIRLowpass

namespace Ladder
variable {F : Type} [LinearOrderedField F]

theorem ladder_SetFilterIntegrationRate_frame (s : Ladder F) :
    (SetFilterIntegrationRate s).cutoffFrequency = s.cutoffFrequency ∧
    (SetFilterIntegrationRate s).sampleRate = s.sampleRate ∧
    (SetFilterIntegrationRate s).oversamplingFactor = s.oversamplingFactor := by
  unfold SetFilterIntegrationRate
  dsimp only
  split_ifs <;> simp

theorem ladder_SetFilterIntegrationRate_dt (s : Ladder F) :
    (SetFilterIntegrationRate s).dt =
      max 0 (min 0.85 (44100 / (s.sampleRate * (s.oversamplingFactor : F)) * s.cutoffFrequency))
      := by
  unfold SetFilterIntegrationRate
  have h85 : (0 : F) < 0.85 := by norm_num
  dsimp only
  split_ifs with h1 h2
  · simp only []
    rw [min_eq_right (by linarith), max_eq_left (le_of_lt h1)]
  · simp only []
    rw [min_eq_left (le_of_lt h2), max_eq_right (le_of_lt h85)]
  · simp only []
    rw [min_eq_right (not_lt.mp h2), max_eq_right (not_lt.mp h1)]

theorem ladder_tick_frame (m : LibM F) (fm : FastMath F) (fb input : F) (nn : Nat) (s : Ladder F) :
    (tick m fm fb input nn s).cutoffFrequency = s.cutoffFrequency ∧
    (tick m fm fb input nn s).sampleRate = s.sampleRate ∧
    (tick m fm fb input nn s).oversamplingFactor = s.oversamplingFactor ∧
    (tick m fm fb input nn s).dt = s.dt ∧
    (tick m fm fb input nn s).Resonance = s.Resonance ∧
    (tick m fm fb input nn s).filterMode = s.filterMode ∧
    (tick m fm fb input nn s).integrationMethod = s.integrationMethod := by
  unfold tick integrate
  cases s.integrationMethod <;> dsimp only <;> split_ifs <;> simp

theorem ladder_LadderFilter_frame (m : LibM F) (fm : FastMath F) (RAND_MAX rnd : Nat) (input : F)
    (s : Ladder F) :
    (LadderFilter m fm RAND_MAX rnd input s).cutoffFrequency = s.cutoffFrequency ∧
    (LadderFilter m fm RAND_MAX rnd input s).sampleRate = s.sampleRate ∧
    (LadderFilter m fm RAND_MAX rnd input s).oversamplingFactor = s.oversamplingFactor ∧
    (LadderFilter m fm RAND_MAX rnd input s).dt = s.dt ∧
    (LadderFilter m fm RAND_MAX rnd input s).Resonance = s.Resonance ∧
    (LadderFilter m fm RAND_MAX rnd input s).filterMode = s.filterMode ∧
    (LadderFilter m fm RAND_MAX rnd input s).integrationMethod = s.integrationMethod := by
  unfold LadderFilter
  simp only []
  generalize s.oversamplingFactor.toNat = n
  induction n with
  | zero => simp [forLoop]
  | succ n ih =>
    rw [forLoop_succ]
    obtain ⟨a, b, c, d, e, f, g⟩ := ladder_tick_frame m fm (8 * s.Resonance)
      (input + ditherNoise RAND_MAX rnd) n
      (forLoop (tick m fm (8 * s.Resonance) (input + ditherNoise RAND_MAX rnd)) n s)
    rw [a, b, c, d, e, f, g]
    exact ih

end Ladder

namespace Ladder
variable {F : Type} [LinearOrderedField F]

theorem ladder_SetFilterIntegrationRate_inv (s : Ladder F) :
    (SetFilterIntegrationRate s).dt =
      max 0 (min 0.85 (44100 / ((SetFilterIntegrationRate s).sampleRate *
        ((SetFilterIntegrationRate s).oversamplingFactor : F)) *
          (SetFilterIntegrationRate s).cutoffFrequency)) := by
  obtain ⟨a, b, c⟩ := ladder_SetFilterIntegrationRate_frame s
  rw [a, b, c]
  exact ladder_SetFilterIntegrationRate_dt s

theorem ladder_Reachable_rate (m : LibM F) (fm : FastMath F) (s : Ladder F) (h : Reachable m fm s) :
    s.dt = max 0 (min 0.85
      (44100 / (s.sampleRate * (s.oversamplingFactor : F)) * s.cutoffFrequency)) := by
  induction h with
  | construct junk c r o mode sr meth => exact ladder_SetFilterIntegrationRate_inv _
  | constructDefault junk => exact ladder_SetFilterIntegrationRate_inv _
  | reset s _ _ =>
    exact ladder_SetFilterIntegrationRate_inv ({ s with cutoffFrequency := 0.25, Resonance := 0 })
  | setCutoff c s _ _ => exact ladder_SetFilterIntegrationRate_inv _
  | setResonance r s _ ih => exact ih
  | setOversamplingFactor o s _ _ => exact ladder_SetFilterIntegrationRate_inv _
  | setMode mode s _ ih => exact ih
  | setSampleRate sr s _ _ => exact ladder_SetFilterIntegrationRate_inv _
  | setIntegrationMethod meth s _ ih => exact ih
  | filter rmax rnd x s _ ih =>
    obtain ⟨a, b, c, d, -⟩ := ladder_LadderFilter_frame m fm rmax rnd x s
    rw [a, b, c, d]
    exact ih

end Ladder

namespace SKFilter
variable {F : Type} [LinearOrderedField F]

theorem sk_SetFilterIntegrationRate_frame (s : SKFilter F) :
    (SetFilterIntegrationRate s).cutoffFrequency = s.cutoffFrequency ∧
    (SetFilterIntegrationRate s).sampleRate = s.sampleRate ∧
    (SetFilterIntegrationRate s).oversamplingFactor = s.oversamplingFactor := by
  unfold SetFilterIntegrationRate
  dsimp only
  split_ifs <;> simp

theorem sk_SetFilterIntegrationRate_dt (s : SKFilter F) :
    (SetFilterIntegrationRate s).dt =
      max 0 (min 0.35 (44100 / (s.sampleRate * (s.oversamplingFactor : F)) * s.cutoffFrequency))
      := by
  unfold SetFilterIntegrationRate
  have h35 : (0 : F) < 0.35 := by norm_num
  dsimp only
  split_ifs with h1 h2
  · simp only []
    rw [min_eq_right (by linarith), max_eq_left (le_of_lt h1)]
  · simp only []
    rw [min_eq_left (le_of_lt h2), max_eq_right (le_of_lt h35)]
  · simp only []
    rw [min_eq_right (not_lt.mp h2), max_eq_right (not_lt.mp h1)]

theorem sk_SetFilterIntegrationRate_inv (s : SKFilter F) :
    (SetFilterIntegrationRate s).dt =
      max 0 (min 0.35 (44100 / ((SetFilterIntegrationRate s).sampleRate *
        ((SetFilterIntegrationRate s).oversamplingFactor : F)) *
          (SetFilterIntegrationRate s).cutoffFrequency)) := by
  obtain ⟨a, b, c⟩ := sk_SetFilterIntegrationRate_frame s
  rw [a, b, c]
  exact sk_SetFilterIntegrationRate_dt s

theorem sk_tick_frame (m : LibM F) (fm : FastMath F) (res : F) (nn : Nat) (s : SKFilter F) :
    (tick m fm res nn s).cutoffFrequency = s.cutoffFrequency ∧
    (tick m fm res nn s).sampleRate = s.sampleRate ∧
    (tick m fm res nn s).oversamplingFactor = s.oversamplingFactor ∧
    (tick m fm res nn s).dt = s.dt ∧
    (tick m fm res nn s).Resonance = s.Resonance ∧
    (tick m fm res nn s).filterMode = s.filterMode ∧
    (tick m fm res nn s).integrationMethod = s.integrationMethod ∧
    (tick m fm res nn s).input_lp = s.input_lp ∧
    (tick m fm res nn s).input_bp = s.input_bp ∧
    (tick m fm res nn s).input_hp = s.input_hp ∧
    (tick m fm res nn s).input_lp_t1 = s.input_lp_t1 ∧
    (tick m fm res nn s).input_bp_t1 = s.input_bp_t1 ∧
    (tick m fm res nn s).input_hp_t1 = s.input_hp_t1 := by
  unfold tick integrate
  cases s.integrationMethod <;> dsimp only <;> split_ifs <;> simp

theorem sk_tickLoop_frame (m : LibM F) (fm : FastMath F) (res : F) (n : Nat) (s : SKFilter F) :
    (forLoop (tick m fm res) n s).cutoffFrequency = s.cutoffFrequency ∧
    (forLoop (tick m fm res) n s).sampleRate = s.sampleRate ∧
    (forLoop (tick m fm res) n s).oversamplingFactor = s.oversamplingFactor ∧
    (forLoop (tick m fm res) n s).dt = s.dt ∧
    (forLoop (tick m fm res) n s).Resonance = s.Resonance ∧
    (forLoop (tick m fm res) n s).filterMode = s.filterMode ∧
    (forLoop (tick m fm res) n s).integrationMethod = s.integrationMethod ∧
    (forLoop (tick m fm res) n s).input_lp = s.input_lp ∧
    (forLoop (tick m fm res) n s).input_bp = s.input_bp ∧
    (forLoop (tick m fm res) n s).input_hp = s.input_hp ∧
    (forLoop (tick m fm res) n s).input_lp_t1 = s.input_lp_t1 ∧
    (forLoop (tick m fm res) n s).input_bp_t1 = s.input_bp_t1 ∧
    (forLoop (tick m fm res) n s).input_hp_t1 = s.input_hp_t1 := by
  induction n with
  | zero => simp [forLoop]
  | succ n ih =>
    rw [forLoop_succ]
    obtain ⟨a1, a2, a3, a4, a5, a6, a7, a8, a9, a10, a11, a12, a13⟩ :=
      sk_tick_frame m fm res n (forLoop (tick m fm res) n s)
    rw [a1, a2, a3, a4, a5, a6, a7, a8, a9, a10, a11, a12, a13]
    exact ih

theorem sk_route_frame (input : F) (s : SKFilter F) :
    (route input s).cutoffFrequency = s.cutoffFrequency ∧
    (route input s).sampleRate = s.sampleRate ∧
    (route input s).oversamplingFactor = s.oversamplingFactor ∧
    (route input s).dt = s.dt ∧
    (route input s).Resonance = s.Resonance ∧
    (route input s).filterMode = s.filterMode ∧
    (route input s).integrationMethod = s.integrationMethod := by
  unfold route
  cases s.filterMode <;> simp

theorem sk_filter_frame (m : LibM F) (fm : FastMath F) (RAND_MAX rnd : Nat) (input : F)
    (s : SKFilter F) :
    (filter m fm RAND_MAX rnd input s).cutoffFrequency = s.cutoffFrequency ∧
    (filter m fm RAND_MAX rnd input s).sampleRate = s.sampleRate ∧
    (filter m fm RAND_MAX rnd input s).oversamplingFactor = s.oversamplingFactor ∧
    (filter m fm RAND_MAX rnd input s).dt = s.dt ∧
    (filter m fm RAND_MAX rnd input s).Resonance = s.Resonance ∧
    (filter m fm RAND_MAX rnd input s).filterMode = s.filterMode ∧
    (filter m fm RAND_MAX rnd input s).integrationMethod = s.integrationMethod := by
  obtain ⟨r1, r2, r3, r4, r5, r6, r7⟩ := sk_route_frame (input + ditherNoise RAND_MAX rnd) s
  obtain ⟨a1, a2, a3, a4, a5, a6, a7, -⟩ := sk_tickLoop_frame m fm (4 * s.Resonance)
    (route (input + ditherNoise RAND_MAX rnd) s).oversamplingFactor.toNat
    (route (input + ditherNoise RAND_MAX rnd) s)
  unfold filter
  dsimp only
  rw [a1, a2, a3, a4, a5, a6, a7, r1, r2, r3, r4, r5, r6, r7]
  simp

theorem sk_Reachable_rate (m : LibM F) (fm : FastMath F) (s : SKFilter F) (h : Reachable m fm s) :
    s.dt = max 0 (min 0.35
      (44100 / (s.sampleRate * (s.oversamplingFactor : F)) * s.cutoffFrequency)) := by
  induction h with
  | construct junk c r o mode sr meth => exact sk_SetFilterIntegrationRate_inv _
  | constructDefault junk => exact sk_SetFilterIntegrationRate_inv _
  | reset s _ _ =>
    exact sk_SetFilterIntegrationRate_inv ({ s with cutoffFrequency := 0.25, Resonance := 0.5 })
  | setCutoff c s _ _ => exact sk_SetFilterIntegrationRate_inv _
  | setResonance r s _ ih => exact ih
  | setOversamplingFactor o s _ _ => exact sk_SetFilterIntegrationRate_inv _
  | setMode mode s _ ih => exact ih
  | setSampleRate sr s _ _ => exact sk_SetFilterIntegrationRate_inv _
  | setIntegrationMethod meth s _ ih => exact ih
  | setLowpassInput x s _ ih => exact ih
  | setBandpassInput x s _ ih => exact ih
  | setHighpassInput x s _ ih => exact ih
  | filter rmax rnd x s _ ih =>
    obtain ⟨a, b, c, d, -⟩ := sk_filter_frame m fm rmax rnd x s
    rw [a, b, c, d]
    exact ih

end SKFilter

namespace SVFilter
variable {F : Type} [LinearOrderedField F]

theorem svf_SetFilterIntegrationRate_frame (s : SVFilter F) :
    (SetFilterIntegrationRate s).cutoffFrequency = s.cutoffFrequency ∧
    (SetFilterIntegrationRate s).sampleRate = s.sampleRate ∧
    (SetFilterIntegrationRate s).oversamplingFactor = s.oversamplingFactor ∧
    (SetFilterIntegrationRate s).integrationMethod = s.integrationMethod := by
  unfold SetFilterIntegrationRate
  dsimp only
  split_ifs <;> simp

theorem svf_SetFilterIntegrationRate_dt (s : SVFilter F) :
    (SetFilterIntegrationRate s).dt =
      max 0 (44100 / (s.sampleRate * (s.oversamplingFactor : F)) * s.cutoffFrequency) := by
  unfold SetFilterIntegrationRate
  dsimp only
  split_ifs with h1
  · simp only []
    rw [max_eq_left (le_of_lt h1)]
  · simp only []
    rw [max_eq_right (not_lt.mp h1)]

end SVFilter

theorem rate_gain_pos {F : Type} [LinearOrderedField F] (sr : F) (o : Int) (hsr : 0 < sr)
    (ho : 1 ≤ o) : (0 : F) < 44100 / (sr * (o : F)) := by
  have : (0 : F) < (o : F) := by
    have : (0 : Int) < o := by omega
    exact_mod_cast this
  exact div_pos (by norm_num) (mul_pos hsr this)

/-- C8. Monotone cutoff mapping.  For each of the three engines, with `sampleRate > 0` and
`oversamplingFactor ≥ 1` fixed, the `dt` stored by `SetFilterCutoff` is a non-decreasing function
of the cutoff, and it equals `44100/(sampleRate·oversamplingFactor)·cutoff` whenever that value
lies inside the clamp range (`[0, 0.85]` for the ladder, `[0, 0.35]` for Sallen-Key, `[0, ∞)`
for the state-variable filter). -/
theorem C8_monotone_cutoff_mapping {F : Type} [LinearOrderedField F] (l : Ladder F)
    (k : SKFilter F) (v : SVFilter F) (hl : 0 < l.sampleRate) (hlo : 1 ≤ l.oversamplingFactor)
    (hk : 0 < k.sampleRate) (hko : 1 ≤ k.oversamplingFactor)
    (hv : 0 < v.sampleRate) (hvo : 1 ≤ v.oversamplingFactor) (c₁ c₂ c : F) (h12 : c₁ ≤ c₂) :
    ((Ladder.SetFilterCutoff c₁ l).dt ≤ (Ladder.SetFilterCutoff c₂ l).dt ∧
      (0 ≤ 44100 / (l.sampleRate * (l.oversamplingFactor : F)) * c →
        44100 / (l.sampleRate * (l.oversamplingFactor : F)) * c ≤ 0.85 →
        (Ladder.SetFilterCutoff c l).dt =
          44100 / (l.sampleRate * (l.oversamplingFactor : F)) * c)) ∧
    ((SKFilter.SetFilterCutoff c₁ k).dt ≤ (SKFilter.SetFilterCutoff c₂ k).dt ∧
      (0 ≤ 44100 / (k.sampleRate * (k.oversamplingFactor : F)) * c →
        44100 / (k.sampleRate * (k.oversamplingFactor : F)) * c ≤ 0.35 →
        (SKFilter.SetFilterCutoff c k).dt =
          44100 / (k.sampleRate * (k.oversamplingFactor : F)) * c)) ∧
    ((SVFilter.SetFilterCutoff c₁ v).dt ≤ (SVFilter.SetFilterCutoff c₂ v).dt ∧
      (0 ≤ 44100 / (v.sampleRate * (v.oversamplingFactor : F)) * c →
        (SVFilter.SetFilterCutoff c v).dt =
          44100 / (v.sampleRate * (v.oversamplingFactor : F)) * c)) := by
  have gl := rate_gain_pos l.sampleRate l.oversamplingFactor hl hlo
  have gk := rate_gain_pos k.sampleRate k.oversamplingFactor hk hko
  have gv := rate_gain_pos v.sampleRate v.oversamplingFactor hv hvo
  refine ⟨⟨?_, ?_⟩, ⟨?_, ?_⟩, ⟨?_, ?_⟩⟩
  · unfold Ladder.SetFilterCutoff
    rw [Ladder.ladder_SetFilterIntegrationRate_dt, Ladder.ladder_SetFilterIntegrationRate_dt]
    exact max_le_max (le_refl _) (min_le_min (le_refl _) (mul_le_mul_of_nonneg_left h12 gl.le))
  · intro h0 h1
    unfold Ladder.SetFilterCutoff
    rw [Ladder.ladder_SetFilterIntegrationRate_dt]
    dsimp only
    rw [min_eq_right h1, max_eq_right h0]
  · unfold SKFilter.SetFilterCutoff
    rw [SKFilter.sk_SetFilterIntegrationRate_dt, SKFilter.sk_SetFilterIntegrationRate_dt]
    exact max_le_max (le_refl _) (min_le_min (le_refl _) (mul_le_mul_of_nonneg_left h12 gk.le))
  · intro h0 h1
    unfold SKFilter.SetFilterCutoff
    rw [SKFilter.sk_SetFilterIntegrationRate_dt]
    dsimp only
    rw [min_eq_right h1, max_eq_right h0]
  · unfold SVFilter.SetFilterCutoff
    rw [SVFilter.svf_SetFilterIntegrationRate_dt, SVFilter.svf_SetFilterIntegrationRate_dt]
    exact max_le_max (le_refl _) (mul_le_mul_of_nonneg_left h12 gv.le)
  · intro h0
    unfold SVFilter.SetFilterCutoff
    rw [SVFilter.svf_SetFilterIntegrationRate_dt]
    dsimp only
    rw [max_eq_right h0]

theorem C8_monotone_cutoff_mapping_witness :
    (Ladder.SetFilterCutoff (1 / 10) (Ladder.newDefault sampleLibM (fun _ _ => 0))).dt ≤
      (Ladder.SetFilterCutoff (1 / 5) (Ladder.newDefault sampleLibM (fun _ _ => 0))).dt ∧
    (SKFilter.SetFilterCutoff (1 / 10) (SKFilter.newDefault sampleLibM (fun _ _ => 0))).dt ≤
      (SKFilter.SetFilterCutoff (1 / 5) (SKFilter.newDefault sampleLibM (fun _ _ => 0))).dt ∧
    (SVFilter.SetFilterCutoff (1 / 10) (SVFilter.newDefault sampleLibM (fun _ _ => 0))).dt ≤
      (SVFilter.SetFilterCutoff (1 / 5) (SVFilter.newDefault sampleLibM (fun _ _ => 0))).dt :=
  have hl : (0 : ℚ) < (Ladder.newDefault sampleLibM (fun _ _ => 0)).sampleRate := by
    rw [show (Ladder.newDefault sampleLibM (fun _ _ => 0)).sampleRate = 44100 from
      (Ladder.ladder_SetFilterIntegrationRate_frame _).2.1]
    norm_num
  have hlo : 1 ≤ (Ladder.newDefault sampleLibM (fun _ _ => 0)).oversamplingFactor := by
    rw [show (Ladder.newDefault sampleLibM (fun _ _ => 0)).oversamplingFactor = 2 from
      (Ladder.ladder_SetFilterIntegrationRate_frame _).2.2]
    norm_num
  have hk : (0 : ℚ) < (SKFilter.newDefault sampleLibM (fun _ _ => 0)).sampleRate := by
    rw [show (SKFilter.newDefault sampleLibM (fun _ _ => 0)).sampleRate = 44100 from
      (SKFilter.sk_SetFilterIntegrationRate_frame _).2.1]
    norm_num
  have hko : 1 ≤ (SKFilter.newDefault sampleLibM (fun _ _ => 0)).oversamplingFactor := by
    rw [show (SKFilter.newDefault sampleLibM (fun _ _ => 0)).oversamplingFactor = 2 from
      (SKFilter.sk_SetFilterIntegrationRate_frame _).2.2]
    norm_num
  have hv : (0 : ℚ) < (SVFilter.newDefault sampleLibM (fun _ _ => 0)).sampleRate := by
    rw [show (SVFilter.newDefault sampleLibM (fun _ _ => 0)).sampleRate = 44100 from
      (SVFilter.svf_SetFilterIntegrationRate_frame _).2.1]
    norm_num
  have hvo : 1 ≤ (SVFilter.newDefault sampleLibM (fun _ _ => 0)).oversamplingFactor := by
    rw [show (SVFilter.newDefault sampleLibM (fun _ _ => 0)).oversamplingFactor = 2 from
      (SVFilter.svf_SetFilterIntegrationRate_frame _).2.2.1]
    norm_num
  have h := C8_monotone_cutoff_mapping (Ladder.newDefault sampleLibM (fun _ _ => 0))
    (SKFilter.newDefault sampleLibM (fun _ _ => 0)) (SVFilter.newDefault sampleLibM (fun _ _ => 0))
    hl hlo hk hko hv hvo (1 / 10) (1 / 5) 0 (by norm_num)
  ⟨h.1.1, h.2.1.1, h.2.2.1⟩

namespace SVFilter
variable {F : Type} [LinearOrderedField F]

theorem svf_SetFilterIntegrationRate_nonneg (s : SVFilter F) :
    0 ≤ (SetFilterIntegrationRate s).dt := by
  rw [svf_SetFilterIntegrationRate_dt]
  exact le_max_left _ _

theorem svf_tick_frame (m : LibM F) (fm : FastMath F) (fb dt2 input : F) (nn : Nat)
    (s : SVFilter F) :
    (tick m fm fb dt2 input nn s).cutoffFrequency = s.cutoffFrequency ∧
    (tick m fm fb dt2 input nn s).sampleRate = s.sampleRate ∧
    (tick m fm fb dt2 input nn s).oversamplingFactor = s.oversamplingFactor ∧
    (tick m fm fb dt2 input nn s).dt = s.dt ∧
    (tick m fm fb dt2 input nn s).Resonance = s.Resonance ∧
    (tick m fm fb dt2 input nn s).filterMode = s.filterMode ∧
    (tick m fm fb dt2 input nn s).integrationMethod = s.integrationMethod ∧
    (tick m fm fb dt2 input nn s).u_t1 = s.u_t1 := by
  obtain ⟨cf, r, o, fmode, sr, dt, meth, lp, bp, hp, u, out, iir⟩ := s
  unfold tick integrate
  cases meth <;> dsimp only <;> split_ifs <;> simp

theorem svf_tickLoop_frame (m : LibM F) (fm : FastMath F) (fb dt2 input : F) (n : Nat)
    (s : SVFilter F) :
    (forLoop (tick m fm fb dt2 input) n s).cutoffFrequency = s.cutoffFrequency ∧
    (forLoop (tick m fm fb dt2 input) n s).sampleRate = s.sampleRate ∧
    (forLoop (tick m fm fb dt2 input) n s).oversamplingFactor = s.oversamplingFactor ∧
    (forLoop (tick m fm fb dt2 input) n s).dt = s.dt ∧
    (forLoop (tick m fm fb dt2 input) n s).Resonance = s.Resonance ∧
    (forLoop (tick m fm fb dt2 input) n s).filterMode = s.filterMode ∧
    (forLoop (tick m fm fb dt2 input) n s).integrationMethod = s.integrationMethod ∧
    (forLoop (tick m fm fb dt2 input) n s).u_t1 = s.u_t1 := by
  induction n with
  | zero => simp [forLoop]
  | succ n ih =>
    rw [forLoop_succ]
    obtain ⟨a1, a2, a3, a4, a5, a6, a7, a8⟩ :=
      svf_tick_frame m fm fb dt2 input n (forLoop (tick m fm fb dt2 input) n s)
    rw [a1, a2, a3, a4, a5, a6, a7, a8]
    exact ih

theorem svf_filter_frame (m : LibM F) (fm : FastMath F) (RAND_MAX rnd : Nat) (input : F)
    (s : SVFilter F) :
    (filter m fm RAND_MAX rnd input s).cutoffFrequency = s.cutoffFrequency ∧
    (filter m fm RAND_MAX rnd input s).sampleRate = s.sampleRate ∧
    (filter m fm RAND_MAX rnd input s).oversamplingFactor = s.oversamplingFactor ∧
    (filter m fm RAND_MAX rnd input s).dt = s.dt ∧
    (filter m fm RAND_MAX rnd input s).Resonance = s.Resonance ∧
    (filter m fm RAND_MAX rnd input s).filterMode = s.filterMode ∧
    (filter m fm RAND_MAX rnd input s).integrationMethod = s.integrationMethod := by
  obtain ⟨a1, a2, a3, a4, a5, a6, a7, -⟩ := svf_tickLoop_frame m fm (1 - 3.5 * s.Resonance)
    (clampedRate s) (input + ditherNoise RAND_MAX rnd) s.oversamplingFactor.toNat s
  unfold filter
  dsimp only
  exact ⟨a1, a2, a3, a4, a5, a6, a7⟩

theorem svf_Reachable_dt_nonneg (m : LibM F) (fm : FastMath F) (s : SVFilter F)
    (h : Reachable m fm s) : 0 ≤ s.dt := by
  induction h with
  | construct junk c r o mode sr meth => exact svf_SetFilterIntegrationRate_nonneg _
  | constructDefault junk => exact svf_SetFilterIntegrationRate_nonneg _
  | reset s _ _ =>
    exact svf_SetFilterIntegrationRate_nonneg ({ s with cutoffFrequency := 0.25, Resonance := 0.5 })
  | setCutoff c s _ _ => exact svf_SetFilterIntegrationRate_nonneg _
  | setResonance r s _ ih => exact ih
  | setOversamplingFactor o s _ _ => exact svf_SetFilterIntegrationRate_nonneg _
  | setMode mode s _ ih => exact ih
  | setSampleRate sr s _ _ => exact svf_SetFilterIntegrationRate_nonneg _
  | setIntegrationMethod meth s _ _ =>
    exact svf_SetFilterIntegrationRate_nonneg
      ({ s with integrationMethod := meth, cutoffFrequency := 0.25, Resonance := 0.5 })
  | filter rmax rnd x s _ ih =>
    rw [(svf_filter_frame m fm rmax rnd x s).2.2.2.1]
    exact ih

theorem svf_clampedRate_eq_min (s : SVFilter F) :
    clampedRate s = min s.dt (stepCeiling s.integrationMethod) := by
  unfold clampedRate stepCeiling
  cases s.integrationMethod <;> dsimp only <;> split_ifs with h
  all_goals first
    | exact (min_eq_right (le_of_lt h)).symm
    | exact (min_eq_left (not_lt.mp h)).symm

/-- C9. State-variable step ceilings.  In `SVFilter::filter` every oversampled tick of a call
runs with the step `dt2 = min(dt, ceiling)`, where `ceiling` is 0.8 for `SVF_TRAPEZOIDAL`, 1.0
for `SVF_INV_TRAPEZOIDAL` and 0.25 for `SVF_SEMI_IMPLICIT_EULER` and `SVF_PREDICTOR_CORRECTOR`;
and in every state reachable from a constructor (any cutoff, sample rate and oversampling
factor) `0 ≤ dt2 ≤ ceiling`. -/
theorem C9_step_ceilings (m : LibM F) (fm : FastMath F) (RAND_MAX rnd : Nat) (input : F)
    (s : SVFilter F) :
    clampedRate s = min s.dt (stepCeiling s.integrationMethod) ∧
    (stepCeiling SVFIntegrationMethod.SVF_TRAPEZOIDAL = (0.8 : F) ∧
      stepCeiling SVFIntegrationMethod.SVF_INV_TRAPEZOIDAL = (1 : F) ∧
      stepCeiling SVFIntegrationMethod.SVF_SEMI_IMPLICIT_EULER = (0.25 : F) ∧
      stepCeiling SVFIntegrationMethod.SVF_PREDICTOR_CORRECTOR = (0.25 : F)) ∧
    filter m fm RAND_MAX rnd input s =
      { forLoop
          (tick m fm (1 - 3.5 * s.Resonance) (min s.dt (stepCeiling s.integrationMethod))
            (input + ditherNoise RAND_MAX rnd))
          s.oversamplingFactor.toNat s with
        u_t1 := input + ditherNoise RAND_MAX rnd } ∧
    (Reachable m fm s →
      0 ≤ clampedRate s ∧ clampedRate s ≤ stepCeiling s.integrationMethod) := by
  refine ⟨svf_clampedRate_eq_min s, ⟨rfl, rfl, rfl, rfl⟩, ?_, ?_⟩
  · rw [← svf_clampedRate_eq_min s]
    rfl
  · intro h
    have h0 := svf_Reachable_dt_nonneg m fm s h
    rw [svf_clampedRate_eq_min s]
    refine ⟨le_min h0 ?_, min_le_right _ _⟩
    unfold stepCeiling
    cases s.integrationMethod <;> norm_num

theorem C9_step_ceilings_witness :
    0 ≤ clampedRate (SVFilter.newDefault sampleLibM (fun _ _ => 0)) ∧
    clampedRate (SVFilter.newDefault sampleLibM (fun _ _ => 0)) ≤
      stepCeiling (SVFilter.newDefault sampleLibM (fun _ _ => 0)).integrationMethod :=
  (C9_step_ceilings sampleLibM sampleFastMath 100 37 1
    (SVFilter.newDefault sampleLibM (fun _ _ => 0))).2.2.2
    (Reachable.constructDefault (fun _ _ => 0))

end SVFilter

namespace Ladder
variable {F : Type} [LinearOrderedField F]

theorem ladder_integrate_with (m : LibM F) (fm : FastMath F) (fb input : F) (t : Ladder F) (o : F)
    (e : IIRLowpass F) :
    integrate m fm fb input { t with out := o, iir := e } =
      { integrate m fm fb input t with out := o, iir := e } := by
  obtain ⟨cf, r, ov, fmode, sr, dt, meth, p0, p1, p2, p3, u, out, iir⟩ := t
  cases meth <;> rfl

theorem ladder_outputTap_with (fm : FastMath F) (fb input : F) (t : Ladder F) (o u : F)
    (e : IIRLowpass F) :
    outputTap fm fb input { t with out := o, iir := e, ut_1 := u } = outputTap fm fb input t := by
  obtain ⟨cf, r, ov, fmode, sr, dt, meth, p0, p1, p2, p3, u', out, iir⟩ := t
  cases fmode <;> rfl

theorem ladder_advance_frame (m : LibM F) (fm : FastMath F) (fb input : F) (s : Ladder F) :
    (advance m fm fb input s).oversamplingFactor = s.oversamplingFactor ∧
    (advance m fm fb input s).iir = s.iir ∧ (advance m fm fb input s).out = s.out := by
  obtain ⟨cf, r, ov, fmode, sr, dt, meth, p0, p1, p2, p3, u, out, iir⟩ := s
  cases meth <;> exact ⟨rfl, rfl, rfl⟩

theorem ladder_advanceLoop_frame (m : LibM F) (fm : FastMath F) (fb input : F) (k : Nat)
    (s : Ladder F) :
    (forLoop (fun _ t => advance m fm fb input t) k s).oversamplingFactor =
      s.oversamplingFactor ∧
    (forLoop (fun _ t => advance m fm fb input t) k s).iir = s.iir ∧
    (forLoop (fun _ t => advance m fm fb input t) k s).out = s.out := by
  induction k with
  | zero => exact ⟨rfl, rfl, rfl⟩
  | succ k ih =>
    rw [forLoop_succ]
    obtain ⟨a, b, c⟩ := ladder_advance_frame m fm fb input
      (forLoop (fun _ t => advance m fm fb input t) k s)
    rw [a, b, c]
    exact ih

theorem ladder_tick_with (m : LibM F) (fm : FastMath F) (fb input : F) (nn : Nat) (t : Ladder F)
    (o : F) (e : IIRLowpass F) :
    tick m fm fb input nn { t with out := o, iir := e } =
      if t.oversamplingFactor > 1 then
        { advance m fm fb input t with
          iir := (IIRLowpass.IIRfilter e (outputTap fm fb input (advance m fm fb input t))).1,
          out := (IIRLowpass.IIRfilter e (outputTap fm fb input (advance m fm fb input t))).2 }
      else
        { advance m fm fb input t with
          iir := e, out := outputTap fm fb input (advance m fm fb input t) } := by
  obtain ⟨cf, r, ov, fmode, sr, dt, meth, p0, p1, p2, p3, u, out, iir⟩ := t
  cases meth <;> cases fmode <;> rfl

end Ladder

namespace Ladder
variable {F : Type} [LinearOrderedField F]

theorem ladder_tickLoop_single (m : LibM F) (fm : FastMath F) (fb input : F) (s : Ladder F)
    (h : ¬ s.oversamplingFactor > 1) (k : Nat) :
    forLoop (tick m fm fb input) k s =
      { forLoop (fun _ t => advance m fm fb input t) k s with
        out := if k = 0 then s.out else rawTap m fm fb input s k, iir := s.iir } := by
  induction k with
  | zero => rfl
  | succ k ih =>
    rw [forLoop_succ, ih, ladder_tick_with]
    have ho := (ladder_advanceLoop_frame m fm fb input k s).1
    rw [ho, if_neg h]
    simp only [Nat.succ_ne_zero, if_false]
    rfl

theorem ladder_tickLoop_over (m : LibM F) (fm : FastMath F) (fb input : F) (s : Ladder F)
    (h : s.oversamplingFactor > 1) (k : Nat) :
    forLoop (tick m fm fb input) k s =
      { forLoop (fun _ t => advance m fm fb input t) k s with
        out := if k = 0 then s.out
          else (IIRLowpass.IIRfilter (decimated m fm fb input s (k - 1))
            (rawTap m fm fb input s k)).2,
        iir := decimated m fm fb input s k } := by
  induction k with
  | zero => rfl
  | succ k ih =>
    rw [forLoop_succ, ih, ladder_tick_with]
    have ho := (ladder_advanceLoop_frame m fm fb input k s).1
    rw [ho, if_pos h]
    simp only [Nat.succ_ne_zero, if_false]
    rfl

/-- C10. Ladder output tap.  With `fb = 8·Resonance` and `input` the dithered input of the
call:
* the raw tap read after an oversampled tick is `p3` in low-pass mode, `p1 − p3` in band-pass
  mode and `TanhPade32(input − p0 − fb·p3)` in high-pass mode, from the poles just updated;
* with `oversamplingFactor = 1`, `GetFilterOutput` returns exactly the raw tap of the single
  tick and the anti-alias engine is left as it was;
* with `oversamplingFactor = n > 1`, the anti-alias engine has been ticked with the raw taps
  1, …, `n` in this order (`n` ticks), and `GetFilterOutput` returns the output of the last of
  these ticks. -/
theorem C10_ladder_output_tap (m : LibM F) (fm : FastMath F) (RAND_MAX rnd : Nat) (input : F)
    (s : Ladder F) :
    (∀ t : Ladder F,
      (t.filterMode = LadderFilterMode.LADDER_LOWPASS_MODE →
        outputTap fm (8 * s.Resonance) (input + ditherNoise RAND_MAX rnd) t = t.p3) ∧
      (t.filterMode = LadderFilterMode.LADDER_BANDPASS_MODE →
        outputTap fm (8 * s.Resonance) (input + ditherNoise RAND_MAX rnd) t = t.p1 - t.p3) ∧
      (t.filterMode = LadderFilterMode.LADDER_HIGHPASS_MODE →
        outputTap fm (8 * s.Resonance) (input + ditherNoise RAND_MAX rnd) t =
          fm.TanhPade32 (input + ditherNoise RAND_MAX rnd - t.p0 - 8 * s.Resonance * t.p3))) ∧
    (s.oversamplingFactor = 1 →
      GetFilterOutput (LadderFilter m fm RAND_MAX rnd input s) =
        outputTap fm (8 * s.Resonance) (input + ditherNoise RAND_MAX rnd)
          (advance m fm (8 * s.Resonance) (input + ditherNoise RAND_MAX rnd) s) ∧
      (LadderFilter m fm RAND_MAX rnd input s).iir = s.iir) ∧
    (s.oversamplingFactor > 1 →
      (LadderFilter m fm RAND_MAX rnd input s).iir =
        decimated m fm (8 * s.Resonance) (input + ditherNoise RAND_MAX rnd) s
          s.oversamplingFactor.toNat ∧
      GetFilterOutput (LadderFilter m fm RAND_MAX rnd input s) =
        (IIRLowpass.IIRfilter
          (decimated m fm (8 * s.Resonance) (input + ditherNoise RAND_MAX rnd) s
            (s.oversamplingFactor.toNat - 1))
          (rawTap m fm (8 * s.Resonance) (input + ditherNoise RAND_MAX rnd) s
            s.oversamplingFactor.toNat)).2) := by
  refine ⟨?_, ?_, ?_⟩
  · intro t
    obtain ⟨cf, r, ov, fmode, sr, dt, meth, p0, p1, p2, p3, u, out, iir⟩ := t
    refine ⟨?_, ?_, ?_⟩ <;> intro h <;> simp only [] at h <;> subst h <;> rfl
  · intro h1
    have hn : ¬ s.oversamplingFactor > 1 := by omega
    have ht : s.oversamplingFactor.toNat = 1 := by rw [h1]; rfl
    unfold LadderFilter GetFilterOutput
    dsimp only
    rw [ht, ladder_tickLoop_single m fm _ _ s hn 1]
    exact ⟨rfl, rfl⟩
  · intro h1
    have ht : s.oversamplingFactor.toNat ≠ 0 := by omega
    unfold LadderFilter GetFilterOutput
    dsimp only
    rw [ladder_tickLoop_over m fm _ _ s h1]
    dsimp only
    rw [if_neg ht]
    exact ⟨rfl, rfl⟩

theorem C10_ladder_output_tap_witness :
    GetFilterOutput (LadderFilter sampleLibM sampleFastMath 100 37 1
        (SetFilterOversamplingFactor sampleLibM 1 (newDefault sampleLibM (fun _ _ => 0)))) =
      outputTap sampleFastMath
        (8 * (SetFilterOversamplingFactor sampleLibM 1
          (newDefault sampleLibM (fun _ _ => 0))).Resonance)
        (1 + ditherNoise 100 37)
        (advance sampleLibM sampleFastMath
          (8 * (SetFilterOversamplingFactor sampleLibM 1
            (newDefault sampleLibM (fun _ _ => 0))).Resonance)
          (1 + ditherNoise 100 37)
          (SetFilterOversamplingFactor sampleLibM 1 (newDefault sampleLibM (fun _ _ => 0)))) :=
  ((C10_ladder_output_tap sampleLibM sampleFastMath 100 37 1
    (SetFilterOversamplingFactor sampleLibM 1 (newDefault sampleLibM (fun _ _ => 0)))).2.1
      (ladder_SetFilterIntegrationRate_frame _).2.2).1

end Ladder

theorem prod_one_sub_root (n : ℕ) (hn : 0 < n) (ζ η : ℂ) (hζ : IsPrimitiveRoot ζ n)
    (hη : η ^ n = -1) : ∏ k ∈ Finset.range n, (1 - ζ ^ k * η) = 2 := by
  have hroots : Polynomial.nthRoots n (-1 : ℂ) = (Multiset.range n).map (ζ ^ · * η) :=
    hζ.nthRoots_eq hη
  have hmonic : (Polynomial.X ^ n - Polynomial.C (-1 : ℂ)).Monic :=
    Polynomial.monic_X_pow_sub_C (-1 : ℂ) (ne_of_gt hn)
  have hr : (Polynomial.X ^ n - Polynomial.C (-1 : ℂ)).roots = Polynomial.nthRoots n (-1 : ℂ) :=
    rfl
  have hcard : Multiset.card (Polynomial.X ^ n - Polynomial.C (-1 : ℂ)).roots =
      (Polynomial.X ^ n - Polynomial.C (-1 : ℂ)).natDegree := by
    rw [Polynomial.natDegree_X_pow_sub_C, hr, hroots]
    simp
  have hprod := Polynomial.prod_multiset_X_sub_C_of_monic_of_roots_card_eq hmonic hcard
  rw [hr, hroots, Multiset.map_map] at hprod
  have he := congrArg (Polynomial.eval 1) hprod
  rw [Polynomial.eval_multiset_prod, Multiset.map_map] at he
  simp only [Function.comp, Polynomial.eval_sub, Polynomial.eval_X, Polynomial.eval_C,
    Polynomial.eval_pow, one_pow, sub_neg_eq_add] at he
  rw [Finset.prod_eq_multiset_prod]
  simp only [Finset.range_val]
  rw [he]
  norm_num

theorem normSq_one_sub_exp (x : ℝ) :
    Complex.normSq (1 - Complex.exp ((x : ℂ) * Complex.I)) = 4 * Real.sin (x / 2) ^ 2 := by
  rw [Complex.exp_mul_I, ← Complex.ofReal_cos, ← Complex.ofReal_sin, Complex.normSq_apply]
  simp only [Complex.sub_re, Complex.one_re, Complex.add_re, Complex.ofReal_re, Complex.mul_re,
    Complex.I_re, mul_zero, Complex.ofReal_im, Complex.I_im, mul_one, sub_self, add_zero,
    Complex.sub_im, Complex.one_im, Complex.add_im, Complex.mul_im, zero_add, zero_sub]
  have h1 : Real.cos x = 1 - 2 * Real.sin (x / 2) ^ 2 := by
    have := Real.cos_two_mul (x / 2)
    have h2 := Real.sin_sq_add_cos_sq (x / 2)
    rw [show 2 * (x / 2) = x by ring] at this
    rw [this]; nlinarith
  have h3 : Real.sin x = 2 * Real.sin (x / 2) * Real.cos (x / 2) := by
    have := Real.sin_two_mul (x / 2)
    rw [show 2 * (x / 2) = x by ring] at this
    exact this
  have h2 := Real.sin_sq_add_cos_sq (x / 2)
  rw [h1, h3]
  nlinarith

theorem prod_four_sin_sq (n : ℕ) (hn : 0 < n) :
    ∏ k ∈ Finset.range n, (4 * Real.sin ((2 * (k : ℝ) + 1) * Real.pi / (2 * n)) ^ 2) = 4 := by
  have hn0 : (n : ℂ) ≠ 0 := by exact_mod_cast (ne_of_gt hn)
  have hζ := Complex.isPrimitiveRoot_exp n (ne_of_gt hn)
  have hη : (Complex.exp (Real.pi * Complex.I / n)) ^ n = -1 := by
    rw [← Complex.exp_nat_mul]
    rw [show (n : ℂ) * (Real.pi * Complex.I / n) = Real.pi * Complex.I by field_simp]
    exact Complex.exp_pi_mul_I
  have h := prod_one_sub_root n hn _ _ hζ hη
  have h2 := congrArg Complex.normSq h
  rw [map_prod] at h2
  have e : ∀ k ∈ Finset.range n,
      Complex.normSq (1 - Complex.exp (2 * Real.pi * Complex.I / n) ^ k *
        Complex.exp (Real.pi * Complex.I / n)) =
      4 * Real.sin ((2 * (k : ℝ) + 1) * Real.pi / (2 * n)) ^ 2 := by
    intro k _
    rw [← Complex.exp_nat_mul, ← Complex.exp_add]
    have : (k : ℂ) * (2 * Real.pi * Complex.I / n) + Real.pi * Complex.I / n =
        (((2 * (k : ℝ) + 1) * Real.pi / n : ℝ) : ℂ) * Complex.I := by
      push_cast
      field_simp
      ring
    rw [this, normSq_one_sub_exp]
    have harg : (2 * (k : ℝ) + 1) * Real.pi / n / 2 = (2 * (k : ℝ) + 1) * Real.pi / (2 * n) := by
      rw [div_div, mul_comm (n : ℝ) 2]
    rw [harg]
  rw [Finset.prod_congr rfl e] at h2
  rw [h2]
  simp [Complex.normSq_apply]
  norm_num

theorem prod_four_sin_sq_half (M : ℕ) (hM : 0 < M) :
    ∏ k ∈ Finset.range M, (4 * Real.sin ((2 * (k : ℝ) + 1) * Real.pi / (2 * (2 * M : ℕ))) ^ 2)
      = 2 := by
  have h := prod_four_sin_sq (2 * M) (by omega)
  rw [two_mul M, Finset.prod_range_add] at h
  rw [← two_mul M] at h
  have hM0 : (M : ℝ) ≠ 0 := by exact_mod_cast (ne_of_gt hM)
  have e : ∏ x ∈ Finset.range M,
      (4 * Real.sin ((2 * ((M + x : ℕ) : ℝ) + 1) * Real.pi / (2 * (2 * M : ℕ))) ^ 2) =
      ∏ k ∈ Finset.range M,
        (4 * Real.sin ((2 * (k : ℝ) + 1) * Real.pi / (2 * (2 * M : ℕ))) ^ 2) := by
    rw [← Finset.prod_range_reflect]
    apply Finset.prod_congr rfl
    intro j hj
    have hj' : j < M := Finset.mem_range.mp hj
    have hc : ((M + (M - 1 - j) : ℕ) : ℝ) = 2 * (M : ℝ) - 1 - j := by
      have : M + (M - 1 - j) = 2 * M - 1 - j := by omega
      rw [this]
      rw [Nat.cast_sub (by omega), Nat.cast_sub (by omega)]
      push_cast
      ring
    rw [hc]
    have harg : (2 * (2 * (M : ℝ) - 1 - j) + 1) * Real.pi / (2 * ((2 * M : ℕ) : ℝ)) =
        Real.pi - (2 * (j : ℝ) + 1) * Real.pi / (2 * ((2 * M : ℕ) : ℝ)) := by
      push_cast
      field_simp
      ring
    rw [harg, Real.sin_pi_sub]
  rw [e] at h
  have hnn : 0 ≤ ∏ k ∈ Finset.range M,
      (4 * Real.sin ((2 * (k : ℝ) + 1) * Real.pi / (2 * (2 * M : ℕ))) ^ 2) := by
    apply Finset.prod_nonneg
    intro i _
    positivity
  nlinarith

namespace IIRLowpass

theorem bilinear_closed (fs par pai : ℝ) (hfs : 0 < fs) (hpar : par < 0) :
    bilinearRe fs par pai =
      ((2 * fs) ^ 2 - (par ^ 2 + pai ^ 2)) / ((2 * fs) ^ 2 - 2 * (2 * fs) * par + (par ^ 2 + pai ^ 2)) ∧
    bilinearRe fs par pai * bilinearRe fs par pai + bilinearIm fs par pai * bilinearIm fs par pai =
      ((2 * fs) ^ 2 + 2 * (2 * fs) * par + (par ^ 2 + pai ^ 2)) /
        ((2 * fs) ^ 2 - 2 * (2 * fs) * par + (par ^ 2 + pai ^ 2)) := by
  have hd : (2 * fs) ≠ 0 := by linarith
  have hq : (2 * fs - par) * (2 * fs - par) + pai * pai ≠ 0 := by
    have : 0 < 2 * fs - par := by linarith
    nlinarith [mul_self_nonneg pai, mul_pos this this]
  have hq2 : (2 * fs) ^ 2 - 2 * (2 * fs) * par + (par ^ 2 + pai ^ 2) ≠ 0 := by
    intro h; apply hq; linear_combination h
  have hx : ((2 * fs - par) / (2 * fs)) * ((2 * fs - par) / (2 * fs)) +
      (-1 * pai / (2 * fs)) * (-1 * pai / (2 * fs)) ≠ 0 := by
    have : ((2 * fs - par) / (2 * fs)) * ((2 * fs - par) / (2 * fs)) +
      (-1 * pai / (2 * fs)) * (-1 * pai / (2 * fs)) =
        ((2 * fs - par) * (2 * fs - par) + pai * pai) / ((2 * fs) * (2 * fs)) := by
      field_simp
    rw [this]
    exact div_ne_zero hq (mul_ne_zero hd hd)
  constructor
  · simp only [bilinearRe]
    field_simp
    ring
  · simp only [bilinearRe, bilinearIm]
    field_simp
    ring

theorem section_gain_real (fs par pai t : ℝ) (hfs : 0 < fs) (hpar : par < 0) (ht : 0 < t)
    (hq : par ^ 2 + pai ^ 2 = (2 * fs * t) ^ 2) (a1 a2 K cw sw : ℝ)
    (ha1 : a1 = -2 * bilinearRe fs par pai)
    (ha2 : a2 = bilinearRe fs par pai * bilinearRe fs par pai +
      bilinearIm fs par pai * bilinearIm fs par pai)
    (hK : K = (1 + a1 + a2) / 4)
    (hcw : cw = (1 - t ^ 2) / (1 + t ^ 2)) (hsw : sw = 2 * t / (1 + t ^ 2)) :
    K ^ 2 * ((1 + cw) ^ 2 + sw ^ 2) ^ 2 /
      ((1 + a1 * cw + a2 * (cw ^ 2 - sw ^ 2)) ^ 2 + (a1 * sw + a2 * (2 * cw * sw)) ^ 2) =
      (2 * fs * t) ^ 2 / (4 * par ^ 2) := by
  obtain ⟨hre, hn⟩ := bilinear_closed fs par pai hfs hpar
  rw [hq] at hre hn
  have hD : (2 * fs) ^ 2 - 2 * (2 * fs) * par + (2 * fs * t) ^ 2 ≠ 0 := by
    have : 0 < (2 * fs) ^ 2 - 2 * (2 * fs) * par + (2 * fs * t) ^ 2 := by
      nlinarith [sq_nonneg (2 * fs * t), mul_pos hfs hfs, mul_pos hfs (neg_pos.mpr hpar)]
    exact ne_of_gt this
  have ht2 : 1 + t ^ 2 ≠ 0 := by positivity
  have hp0 : par ≠ 0 := ne_of_lt hpar
  have hf0 : fs ≠ 0 := ne_of_gt hfs
  have ht0 : t ≠ 0 := ne_of_gt ht
  have ea1 : a1 = -2 * (((2 * fs) ^ 2 - (2 * fs * t) ^ 2) /
      ((2 * fs) ^ 2 - 2 * (2 * fs) * par + (2 * fs * t) ^ 2)) := by rw [ha1, hre]
  have ea2 : a2 = ((2 * fs) ^ 2 + 2 * (2 * fs) * par + (2 * fs * t) ^ 2) /
      ((2 * fs) ^ 2 - 2 * (2 * fs) * par + (2 * fs * t) ^ 2) := by rw [ha2, hn]
  have eK : K = (2 * fs * t) ^ 2 / ((2 * fs) ^ 2 - 2 * (2 * fs) * par + (2 * fs * t) ^ 2) := by
    rw [hK, ea1, ea2]
    field_simp
    ring
  have eden : (1 + a1 * cw + a2 * (cw ^ 2 - sw ^ 2)) ^ 2 + (a1 * sw + a2 * (2 * cw * sw)) ^ 2 =
      64 * par ^ 2 * (2 * fs * t) ^ 2 /
        (((2 * fs) ^ 2 - 2 * (2 * fs) * par + (2 * fs * t) ^ 2) ^ 2 * (1 + t ^ 2) ^ 2) := by
    rw [ea1, ea2, hcw, hsw]
    field_simp
    ring
  rw [eden, eK, hcw, hsw]
  field_simp
  ring

end IIRLowpass

namespace IIRLowpass

theorem exp_inv_re_im (w : ℝ) :
    ((Complex.exp (Complex.I * (w : ℂ)))⁻¹).re = Real.cos w ∧
    ((Complex.exp (Complex.I * (w : ℂ)))⁻¹).im = -Real.sin w := by
  rw [← Complex.exp_neg]
  have : -(Complex.I * (w : ℂ)) = ((-w : ℝ) : ℂ) * Complex.I := by
    push_cast; ring
  have hc : Complex.cos ((-w : ℝ) : ℂ) = ((Real.cos w : ℝ) : ℂ) := by
    rw [← Complex.ofReal_cos, Real.cos_neg]
  have hs : Complex.sin ((-w : ℝ) : ℂ) = ((-Real.sin w : ℝ) : ℂ) := by
    rw [← Complex.ofReal_sin, Real.sin_neg]
  rw [this, Complex.exp_mul_I, hc, hs]
  constructor
  · simp only [Complex.add_re, Complex.ofReal_re, Complex.mul_re, Complex.I_re, mul_zero,
      Complex.ofReal_im, Complex.I_im, mul_one, sub_self, add_zero]
  · simp only [Complex.add_im, Complex.ofReal_im, Complex.mul_im, Complex.ofReal_re,
      Complex.I_im, mul_one, Complex.I_re, mul_zero, add_zero, zero_add]

theorem section_normSq (K a1 a2 : ℝ) (W : ℂ) :
    Complex.normSq ((K : ℂ) * (1 + W) ^ 2 / (1 + (a1 : ℂ) * W + (a2 : ℂ) * W ^ 2)) =
      K ^ 2 * ((1 + W.re) ^ 2 + W.im ^ 2) ^ 2 /
        ((1 + a1 * W.re + a2 * (W.re ^ 2 - W.im ^ 2)) ^ 2 +
          (a1 * W.im + a2 * (2 * W.re * W.im)) ^ 2) := by
  rw [map_div₀, map_mul, map_pow, Complex.normSq_ofReal]
  have h1 : Complex.normSq (1 + W) = (1 + W.re) ^ 2 + W.im ^ 2 := by
    rw [Complex.normSq_apply]; simp; ring
  have h2 : Complex.normSq (1 + (a1 : ℂ) * W + (a2 : ℂ) * W ^ 2) =
      (1 + a1 * W.re + a2 * (W.re ^ 2 - W.im ^ 2)) ^ 2 +
        (a1 * W.im + a2 * (2 * W.re * W.im)) ^ 2 := by
    rw [Complex.normSq_apply]
    simp [pow_two]
    ring
  rw [h1, h2]
  ring

theorem half_angle (φ : ℝ) (hc : Real.cos φ ≠ 0) :
    Real.cos (2 * φ) = (1 - Real.tan φ ^ 2) / (1 + Real.tan φ ^ 2) ∧
    Real.sin (2 * φ) = 2 * Real.tan φ / (1 + Real.tan φ ^ 2) := by
  have h1 := Real.sin_sq_add_cos_sq φ
  have hc2 : Real.cos φ ^ 2 ≠ 0 := pow_ne_zero 2 hc
  have hden : 1 + Real.tan φ ^ 2 ≠ 0 := by positivity
  rw [Real.tan_eq_sin_div_cos] at hden ⊢
  constructor
  · rw [Real.cos_two_mul]
    field_simp
    nlinarith
  · rw [Real.sin_two_mul]
    field_simp
    nlinarith

end IIRLowpass

namespace IIRLowpass

theorem section_gain (m : LibM ℝ) (hsin : m.sin = Real.sin) (hcos : m.cos = Real.cos)
    (htan : m.tan = Real.tan) (hpi : m.M_PI = Real.pi) (fs fc : ℝ) (N i : Nat)
    (hi : i < N / 2) (hfs : 0 < fs) (hc0 : 0 < fc) (hc1 : fc < fs / 2) :
    Complex.normSq (((KOf m fs fc N i : ℝ) : ℂ) *
        (1 + (Complex.exp (Complex.I * ((2 * Real.pi * fc / fs : ℝ) : ℂ)))⁻¹) ^ 2 /
        (1 + ((a1Of m fs fc N i : ℝ) : ℂ) *
            (Complex.exp (Complex.I * ((2 * Real.pi * fc / fs : ℝ) : ℂ)))⁻¹ +
          ((a2Of m fs fc N i : ℝ) : ℂ) *
            (Complex.exp (Complex.I * ((2 * Real.pi * fc / fs : ℝ) : ℂ)))⁻¹ ^ 2)) =
      (4 * Real.sin (thetaOf m N i) ^ 2)⁻¹ := by
  obtain ⟨ht0, ht1⟩ := theta_bounds m hpi N i hi
  have hsinpos : 0 < Real.sin (thetaOf m N i) :=
    Real.sin_pos_of_pos_of_lt_pi ht0 (by linarith [Real.pi_pos])
  have hφ0 : 0 < Real.pi * fc / fs := div_pos (mul_pos Real.pi_pos hc0) hfs
  have hφ1 : Real.pi * fc / fs < Real.pi / 2 := by
    rw [div_lt_div_iff₀ hfs (by norm_num)]
    nlinarith [Real.pi_pos]
  have hcφ : 0 < Real.cos (Real.pi * fc / fs) :=
    Real.cos_pos_of_mem_Ioo ⟨by linarith, hφ1⟩
  have htpos : 0 < Real.tan (Real.pi * fc / fs) :=
    Real.tan_pos_of_pos_of_lt_pi_div_two hφ0 hφ1
  obtain ⟨hcw, hsw⟩ := half_angle (Real.pi * fc / fs) (ne_of_gt hcφ)
  have hω : 2 * (Real.pi * fc / fs) = 2 * Real.pi * fc / fs := by ring
  rw [hω] at hcw hsw
  have hW : 2 * Real.pi * FcOf m fs fc = 2 * fs * Real.tan (Real.pi * fc / fs) := by
    unfold FcOf
    rw [htan, hpi]
    field_simp
    ring
  have hpar : paRealOf m fs fc N i =
      -(Real.sin (thetaOf m N i) * (2 * fs * Real.tan (Real.pi * fc / fs))) := by
    unfold paRealOf
    rw [hsin, hpi, hW]
    ring
  have hpai : paImagOf m fs fc N i =
      Real.cos (thetaOf m N i) * (2 * fs * Real.tan (Real.pi * fc / fs)) := by
    unfold paImagOf
    rw [hcos, hpi, hW]
  have hparneg : paRealOf m fs fc N i < 0 := by
    rw [hpar]
    have := mul_pos hsinpos (mul_pos (mul_pos (by norm_num : (0 : ℝ) < 2) hfs) htpos)
    linarith
  have hq : paRealOf m fs fc N i ^ 2 + paImagOf m fs fc N i ^ 2 =
      (2 * fs * Real.tan (Real.pi * fc / fs)) ^ 2 := by
    rw [hpar, hpai]
    have := Real.sin_sq_add_cos_sq (thetaOf m N i)
    linear_combination (2 * fs * Real.tan (Real.pi * fc / fs)) ^ 2 * this
  have key := section_gain_real fs (paRealOf m fs fc N i) (paImagOf m fs fc N i)
    (Real.tan (Real.pi * fc / fs)) hfs hparneg htpos hq
    (a1Of m fs fc N i) (a2Of m fs fc N i) (KOf m fs fc N i)
    (Real.cos (2 * Real.pi * fc / fs)) (Real.sin (2 * Real.pi * fc / fs))
    rfl rfl rfl hcw hsw
  obtain ⟨hre, him⟩ := exp_inv_re_im (2 * Real.pi * fc / fs)
  rw [section_normSq, hre, him]
  have e : (2 * fs * Real.tan (Real.pi * fc / fs)) ^ 2 / (4 * paRealOf m fs fc N i ^ 2) =
      (4 * Real.sin (thetaOf m N i) ^ 2)⁻¹ := by
    rw [hpar]
    have h1 : Real.sin (thetaOf m N i) ≠ 0 := ne_of_gt hsinpos
    have h2 : fs ≠ 0 := ne_of_gt hfs
    have h3 : Real.tan (Real.pi * fc / fs) ≠ 0 := ne_of_gt htpos
    field_simp
    ring
  rw [← e, ← key]
  congr 1
  · ring
  · ring

theorem prod_theta (m : LibM ℝ) (hpi : m.M_PI = Real.pi) (M : Nat) (hM : 0 < M) :
    ∏ i ∈ Finset.range M, (4 * Real.sin (thetaOf m (2 * M) i) ^ 2) = 2 := by
  rw [← prod_four_sin_sq_half M hM, ← Finset.prod_range_reflect]
  apply Finset.prod_congr rfl
  intro j hj
  have hj' : j < M := Finset.mem_range.mp hj
  have h1 : (2 * M) / 2 - (M - 1 - j) = j + 1 := by omega
  unfold thetaOf
  rw [h1, hpi]
  push_cast
  ring_nf

end IIRLowpass

namespace IIRLowpass

/-- C3. Cutoff attenuation of the designed cascade.  With the exact `sin`, `cos`, `tan` and `π`,
for every even order `N ≥ 8`, sample rate `fs > 0` and cutoff with `0 < cutoff < fs/2`, the
transfer function of the cascade, the product over the `N/2` sections of
`K_i·(1 + z⁻¹)² / (1 + a1_i·z⁻¹ + a2_i·z⁻²)` with the coefficients computed by
`ComputeCoefficients`, evaluated at `z = exp(j·2π·cutoff/fs)`, has squared magnitude exactly
`1/2`. -/
theorem C3_cutoff_attenuation (m : LibM ℝ) (hsin : m.sin = Real.sin) (hcos : m.cos = Real.cos)
    (htan : m.tan = Real.tan) (hpi : m.M_PI = Real.pi) (s : IIRLowpass ℝ) (hs : Sized s)
    (hN : 8 ≤ s.order) (heven : s.order % 2 = 0) (hfs : 0 < s.samplerate) (hc0 : 0 < s.cutoff)
    (hc1 : s.cutoff < s.samplerate / 2) :
    Complex.normSq
      (transferFunction
        (fun i => (((ComputeCoefficients m s).K.getD i 0 : ℝ) : ℂ))
        (fun i => (((ComputeCoefficients m s).a1.getD i 0 : ℝ) : ℂ))
        (fun i => (((ComputeCoefficients m s).a2.getD i 0 : ℝ) : ℂ))
        (s.order / 2)
        (Complex.exp (Complex.I * ((2 * Real.pi * s.cutoff / s.samplerate : ℝ) : ℂ)))) =
      1 / 2 := by
  unfold transferFunction
  rw [map_prod]
  have e : ∀ i ∈ Finset.range (s.order / 2),
      Complex.normSq ((((ComputeCoefficients m s).K.getD i 0 : ℝ) : ℂ) *
        (1 + (Complex.exp (Complex.I * ((2 * Real.pi * s.cutoff / s.samplerate : ℝ) : ℂ)))⁻¹) ^ 2 /
        (1 + (((ComputeCoefficients m s).a1.getD i 0 : ℝ) : ℂ) *
            (Complex.exp (Complex.I * ((2 * Real.pi * s.cutoff / s.samplerate : ℝ) : ℂ)))⁻¹ +
          (((ComputeCoefficients m s).a2.getD i 0 : ℝ) : ℂ) *
            (Complex.exp (Complex.I * ((2 * Real.pi * s.cutoff / s.samplerate : ℝ) : ℂ)))⁻¹ ^ 2))
      = (4 * Real.sin (thetaOf m s.order i) ^ 2)⁻¹ := by
    intro i hi
    have hi' : i < s.order / 2 := Finset.mem_range.mp hi
    obtain ⟨e1, e2, e3, -⟩ := ComputeCoefficients_getD_lt m s hs i hi'
    rw [e1, e2, e3]
    exact section_gain m hsin hcos htan hpi s.samplerate s.cutoff s.order i hi' hfs hc0 hc1
  rw [Finset.prod_congr rfl e, Finset.prod_inv_distrib]
  have hM : s.order = 2 * (s.order / 2) := by omega
  have hp := prod_theta m hpi (s.order / 2) (by omega)
  rw [← hM] at hp
  rw [hp]
  norm_num

theorem C3_cutoff_attenuation_witness :
    Complex.normSq
      (transferFunction
        (fun i => (((ComputeCoefficients
          (⟨Real.sin, Real.cos, Real.tan, Real.pi, Real.sinh, Real.arsinh, fun x => |x|⟩ : LibM ℝ)
          (⟨4, 1, 8, [0, 0, 0, 0], [0, 0, 0, 0], [0, 0, 0, 0], [0, 0, 0, 0], [0, 0, 0, 0],
            [0, 0, 0, 0], [0, 0, 0, 0], [0, 0, 0, 0, 0, 0, 0, 0]⟩ : IIRLowpass ℝ)).K.getD i 0 : ℝ) : ℂ))
        (fun i => (((ComputeCoefficients
          (⟨Real.sin, Real.cos, Real.tan, Real.pi, Real.sinh, Real.arsinh, fun x => |x|⟩ : LibM ℝ)
          (⟨4, 1, 8, [0, 0, 0, 0], [0, 0, 0, 0], [0, 0, 0, 0], [0, 0, 0, 0], [0, 0, 0, 0],
            [0, 0, 0, 0], [0, 0, 0, 0], [0, 0, 0, 0, 0, 0, 0, 0]⟩ : IIRLowpass ℝ)).a1.getD i 0 : ℝ) : ℂ))
        (fun i => (((ComputeCoefficients
          (⟨Real.sin, Real.cos, Real.tan, Real.pi, Real.sinh, Real.arsinh, fun x => |x|⟩ : LibM ℝ)
          (⟨4, 1, 8, [0, 0, 0, 0], [0, 0, 0, 0], [0, 0, 0, 0], [0, 0, 0, 0], [0, 0, 0, 0],
            [0, 0, 0, 0], [0, 0, 0, 0], [0, 0, 0, 0, 0, 0, 0, 0]⟩ : IIRLowpass ℝ)).a2.getD i 0 : ℝ) : ℂ))
        (8 / 2)
        (Complex.exp (Complex.I * ((2 * Real.pi * 1 / 4 : ℝ) : ℂ)))) = 1 / 2 :=
  C3_cutoff_attenuation
    (⟨Real.sin, Real.cos, Real.tan, Real.pi, Real.sinh, Real.arsinh, fun x => |x|⟩ : LibM ℝ)
    rfl rfl rfl rfl
    (⟨4, 1, 8, [0, 0, 0, 0], [0, 0, 0, 0], [0, 0, 0, 0], [0, 0, 0, 0], [0, 0, 0, 0],
      [0, 0, 0, 0], [0, 0, 0, 0], [0, 0, 0, 0, 0, 0, 0, 0]⟩ : IIRLowpass ℝ)
    (by simp [Sized]) (by simp) (by simp) (by norm_num) (by norm_num) (by norm_num)

end IIRLowpass

namespace Ladder
variable {F : Type} [LinearOrderedField F]

theorem ladder_integrate_trapezoidal (m : LibM F) (fm : FastMath F) (fb input : F)
    (s : Ladder F)
    (h : s.integrationMethod = LadderIntegrationMethod.LADDER_TRAPEZOIDAL_FEEDBACK_TANH) :
    integrate m fm fb input s =
      trapPoles (trapB s.dt) (trapC s.dt) (trapUt fm fb s) (trapUt2 m fm fb input s) s := by
  obtain ⟨cf, r, ov, fmode, sr, dt, meth, p0, p1, p2, p3, u, out, iir⟩ := s
  simp only [] at h
  subst h
  rfl

end Ladder

theorem real_tanh_add (a b : ℝ) :
    0 < 1 + Real.tanh a * Real.tanh b ∧
    Real.tanh (a + b) = (Real.tanh a + Real.tanh b) / (1 + Real.tanh a * Real.tanh b) := by
  have ha := Real.cosh_pos a
  have hb := Real.cosh_pos b
  have hab := Real.cosh_pos (a + b)
  have hden : 1 + Real.tanh a * Real.tanh b = Real.cosh (a + b) / (Real.cosh a * Real.cosh b) := by
    rw [Real.tanh_eq_sinh_div_cosh, Real.tanh_eq_sinh_div_cosh, Real.cosh_add]
    field_simp
  have hpos : 0 < 1 + Real.tanh a * Real.tanh b := by
    rw [hden]; exact div_pos hab (mul_pos ha hb)
  refine ⟨hpos, ?_⟩
  rw [hden, Real.tanh_eq_sinh_div_cosh (a + b), Real.tanh_eq_sinh_div_cosh a,
    Real.tanh_eq_sinh_div_cosh b, Real.sinh_add]
  field_simp
  ring

namespace Ladder

/-- C11. Ladder implicit equation.  With the saturation `TanhPade32` taken to be the exact
`tanh`, for every `dt`, `fb`, `input` and pole state, a real `x` is a root of the Newton residual
`x + x·tanh(g·x)·C_t − tanh(g·x) − C_t` (with `g = −fb·b⁴`, `C_t = tanh(input − fb·D_t)`) if and
only if `x = tanh(input − fb·(D_t + b⁴·x))`. -/
theorem C11_ladder_implicit_equation (fm : FastMath ℝ) (hT : fm.TanhPade32 = Real.tanh)
    (fb input x : ℝ) (s : Ladder ℝ) :
    newtonResidual fm (trapG fb (trapB s.dt))
        (trapCt fm fb input (cascadeD (trapB s.dt) (trapC s.dt) (trapUt fm fb s) s)) x = 0 ↔
      x = Real.tanh (input - fb *
        (cascadeD (trapB s.dt) (trapC s.dt) (trapUt fm fb s) s + trapB s.dt ^ 4 * x)) := by
  generalize cascadeD (trapB s.dt) (trapC s.dt) (trapUt fm fb s) s = D
  generalize trapB s.dt = b
  unfold newtonResidual trapCt trapG
  rw [hT]
  have harg : input - fb * (D + b ^ 4 * x) = (input - fb * D) + (-fb * b * b * b * b * x) := by
    ring
  obtain ⟨hpos, hadd⟩ := real_tanh_add (input - fb * D) (-fb * b * b * b * b * x)
  rw [harg, hadd, eq_div_iff (ne_of_gt hpos)]
  constructor
  · intro h; linear_combination h
  · intro h; linear_combination h

theorem C11_ladder_implicit_equation_witness :
    newtonResidual (⟨Real.tanh, id, id, id, id, id⟩ : FastMath ℝ)
        (trapG 0 (trapB (0 : ℝ)))
        (trapCt (⟨Real.tanh, id, id, id, id, id⟩ : FastMath ℝ) 0 0
          (cascadeD (trapB (0 : ℝ)) (trapC (0 : ℝ))
            (trapUt (⟨Real.tanh, id, id, id, id, id⟩ : FastMath ℝ) 0
              (⟨0, 0, 1, LadderFilterMode.LADDER_LOWPASS_MODE, 1, 0,
                LadderIntegrationMethod.LADDER_TRAPEZOIDAL_FEEDBACK_TANH, 0, 0, 0, 0, 0, 0,
                sampleRawReal⟩ : Ladder ℝ))
            (⟨0, 0, 1, LadderFilterMode.LADDER_LOWPASS_MODE, 1, 0,
              LadderIntegrationMethod.LADDER_TRAPEZOIDAL_FEEDBACK_TANH, 0, 0, 0, 0, 0, 0,
              sampleRawReal⟩ : Ladder ℝ))) 0 = 0 :=
  (C11_ladder_implicit_equation (⟨Real.tanh, id, id, id, id, id⟩ : FastMath ℝ) rfl 0 0 0
    (⟨0, 0, 1, LadderFilterMode.LADDER_LOWPASS_MODE, 1, 0,
      LadderIntegrationMethod.LADDER_TRAPEZOIDAL_FEEDBACK_TANH, 0, 0, 0, 0, 0, 0,
      sampleRawReal⟩ : Ladder ℝ)).2 (by simp)

end Ladder

namespace Ladder
variable {F : Type} [LinearOrderedField F]

theorem trapPoles_rule (dt ut ut_2 : F) (s : Ladder F) (hdt : 1 + dt / 2 ≠ 0) :
    (trapPoles (trapB dt) (trapC dt) ut ut_2 s).p0 - s.p0 =
      dt / 2 * ((ut - s.p0) + (ut_2 - (trapPoles (trapB dt) (trapC dt) ut ut_2 s).p0)) ∧
    (trapPoles (trapB dt) (trapC dt) ut ut_2 s).p1 - s.p1 =
      dt / 2 * ((s.p0 - s.p1) + ((trapPoles (trapB dt) (trapC dt) ut ut_2 s).p0 -
        (trapPoles (trapB dt) (trapC dt) ut ut_2 s).p1)) ∧
    (trapPoles (trapB dt) (trapC dt) ut ut_2 s).p2 - s.p2 =
      dt / 2 * ((s.p1 - s.p2) + ((trapPoles (trapB dt) (trapC dt) ut ut_2 s).p1 -
        (trapPoles (trapB dt) (trapC dt) ut ut_2 s).p2)) ∧
    (trapPoles (trapB dt) (trapC dt) ut ut_2 s).p3 - s.p3 =
      dt / 2 * ((s.p2 - s.p3) + ((trapPoles (trapB dt) (trapC dt) ut ut_2 s).p2 -
        (trapPoles (trapB dt) (trapC dt) ut ut_2 s).p3)) := by
  have h5 : (1 : F) + 0.5 * dt ≠ 0 := by
    have : (0.5 : F) * dt = dt / 2 := by norm_num; ring
    rw [this]; exact hdt
  have key : ∀ p a : F,
      (trapC dt * p + trapB dt * a) - p = dt / 2 * (a - p - (trapC dt * p + trapB dt * a)) := by
    intro p a
    unfold trapB trapC
    field_simp
    ring
  simp only [trapPoles]
  refine ⟨?_, ?_, ?_, ?_⟩
  · rw [key]; ring
  · rw [key]; ring
  · rw [key]; ring
  · rw [key]; ring

/-- C12. Ladder trapezoidal pole update.  For every `dt` with `1 + dt/2 ≠ 0`, every `ut` and
every solved value `ut_2`, each of the four poles written by the closing assignments satisfies
the trapezoidal rule `p_new − p_old = (dt/2)·((in_old − p_old) + (in_new − p_new))`, where for
stage 0 `in_old = ut` and `in_new = ut_2` and for stage `k = 1..3` they are the old and new
values of pole `k−1`; and in the `LADDER_TRAPEZOIDAL_FEEDBACK_TANH` case the integration step
stores exactly these poles, with `ut = TanhPade32(ut_1 − fb·p3_old)` and `ut_2` the value left
by the Newton-Raphson loop. -/
theorem C12_ladder_trapezoidal_pole_update (m : LibM F) (fm : FastMath F) (fb input : F)
    (s : Ladder F)
    (hm : s.integrationMethod = LadderIntegrationMethod.LADDER_TRAPEZOIDAL_FEEDBACK_TANH)
    (hdt : 1 + s.dt / 2 ≠ 0) :
    (∀ ut ut_2 : F,
      (trapPoles (trapB s.dt) (trapC s.dt) ut ut_2 s).p0 - s.p0 =
        s.dt / 2 * ((ut - s.p0) +
          (ut_2 - (trapPoles (trapB s.dt) (trapC s.dt) ut ut_2 s).p0)) ∧
      (trapPoles (trapB s.dt) (trapC s.dt) ut ut_2 s).p1 - s.p1 =
        s.dt / 2 * ((s.p0 - s.p1) + ((trapPoles (trapB s.dt) (trapC s.dt) ut ut_2 s).p0 -
          (trapPoles (trapB s.dt) (trapC s.dt) ut ut_2 s).p1)) ∧
      (trapPoles (trapB s.dt) (trapC s.dt) ut ut_2 s).p2 - s.p2 =
        s.dt / 2 * ((s.p1 - s.p2) + ((trapPoles (trapB s.dt) (trapC s.dt) ut ut_2 s).p1 -
          (trapPoles (trapB s.dt) (trapC s.dt) ut ut_2 s).p2)) ∧
      (trapPoles (trapB s.dt) (trapC s.dt) ut ut_2 s).p3 - s.p3 =
        s.dt / 2 * ((s.p2 - s.p3) + ((trapPoles (trapB s.dt) (trapC s.dt) ut ut_2 s).p2 -
          (trapPoles (trapB s.dt) (trapC s.dt) ut ut_2 s).p3))) ∧
    integrate m fm fb input s =
      trapPoles (trapB s.dt) (trapC s.dt) (fm.TanhPade32 (s.ut_1 - fb * s.p3))
        (trapUt2 m fm fb input s) s ∧
    (integrate m fm fb input s).p0 - s.p0 =
      s.dt / 2 * ((fm.TanhPade32 (s.ut_1 - fb * s.p3) - s.p0) +
        (trapUt2 m fm fb input s - (integrate m fm fb input s).p0)) ∧
    (integrate m fm fb input s).p1 - s.p1 =
      s.dt / 2 * ((s.p0 - s.p1) +
        ((integrate m fm fb input s).p0 - (integrate m fm fb input s).p1)) ∧
    (integrate m fm fb input s).p2 - s.p2 =
      s.dt / 2 * ((s.p1 - s.p2) +
        ((integrate m fm fb input s).p1 - (integrate m fm fb input s).p2)) ∧
    (integrate m fm fb input s).p3 - s.p3 =
      s.dt / 2 * ((s.p2 - s.p3) +
        ((integrate m fm fb input s).p2 - (integrate m fm fb input s).p3)) := by
  have hl := ladder_integrate_trapezoidal m fm fb input s hm
  refine ⟨fun ut ut_2 => trapPoles_rule s.dt ut ut_2 s hdt, hl, ?_⟩
  rw [hl]
  exact trapPoles_rule s.dt (trapUt fm fb s) (trapUt2 m fm fb input s) s hdt

/-- C13. Ladder closed-form consistency.  For every `b`, `c`, pole state, `ut` and solved value
`ut_2`, the pole 3 produced by the four cascaded updates `p_k = c·p_k_old + b·(in_old + in_new)`
equals `D_t + b⁴·ut_2`, where `D_t = c·p3 + (b + c·b)·p2 + (b² + b²·c)·p1 + (b³ + b³·c)·p0 +
b⁴·ut` is the value the code forms before the Newton solve; in particular this holds for the
pole 3 stored by the `LADDER_TRAPEZOIDAL_FEEDBACK_TANH` case. -/
theorem C13_ladder_closed_form_consistency (m : LibM F) (fm : FastMath F) (fb input : F)
    (s : Ladder F) :
    (∀ b c ut ut_2 : F,
      (trapPoles b c ut ut_2 s).p3 = cascadeD b c ut s + b ^ 4 * ut_2 ∧
      cascadeD b c ut s =
        c * s.p3 + (b + c * b) * s.p2 + (b ^ 2 + b ^ 2 * c) * s.p1 +
          (b ^ 3 + b ^ 3 * c) * s.p0 + b ^ 4 * ut) ∧
    (s.integrationMethod = LadderIntegrationMethod.LADDER_TRAPEZOIDAL_FEEDBACK_TANH →
      (integrate m fm fb input s).p3 =
        cascadeD (trapB s.dt) (trapC s.dt) (trapUt fm fb s) s +
          trapB s.dt ^ 4 * trapUt2 m fm fb input s) := by
  have key : ∀ b c ut ut_2 : F,
      (trapPoles b c ut ut_2 s).p3 = cascadeD b c ut s + b ^ 4 * ut_2 := by
    intro b c ut ut_2
    simp only [trapPoles, cascadeD]
    ring
  refine ⟨fun b c ut ut_2 => ⟨key b c ut ut_2, ?_⟩, fun hm => ?_⟩
  · simp only [cascadeD]; ring
  · rw [ladder_integrate_trapezoidal m fm fb input s hm]
    exact key _ _ _ _

/-- C14. Ladder predictor-corrector, full saturation.  Writing `T` for `TanhPade32`, `p_k` for
the pre-tick poles and `p_k'` for the forward predictors (`p0'` computed from the previous input
`ut_1`), each new pole `k = 1..3` equals
`p_k + (dt/2)·((T(p_{k−1}) − T(p_k)) + (T(p_{k−1}') − T(p_k')))`, and the new pole 0 equals
`p0 + (dt/2)·((T(ut_1 − fb·p3) − T(p0)) + (T(input − fb·p3_new) − T(p0')))` with `input` the
current input and `p3_new` the corrected pole 3. -/
theorem C14_ladder_predictor_corrector (m : LibM F) (fm : FastMath F) (fb input : F)
    (s : Ladder F)
    (hm : s.integrationMethod = LadderIntegrationMethod.LADDER_PREDICTOR_CORRECTOR_FULL_TANH)
    (p0' p1' p2' p3' : F)
    (h0 : p0' = s.p0 + s.dt * (fm.TanhPade32 (s.ut_1 - fb * s.p3) - fm.TanhPade32 s.p0))
    (h1 : p1' = s.p1 + s.dt * (fm.TanhPade32 s.p0 - fm.TanhPade32 s.p1))
    (h2 : p2' = s.p2 + s.dt * (fm.TanhPade32 s.p1 - fm.TanhPade32 s.p2))
    (h3 : p3' = s.p3 + s.dt * (fm.TanhPade32 s.p2 - fm.TanhPade32 s.p3)) :
    (integrate m fm fb input s).p1 =
      s.p1 + s.dt / 2 * ((fm.TanhPade32 s.p0 - fm.TanhPade32 s.p1) +
        (fm.TanhPade32 p0' - fm.TanhPade32 p1')) ∧
    (integrate m fm fb input s).p2 =
      s.p2 + s.dt / 2 * ((fm.TanhPade32 s.p1 - fm.TanhPade32 s.p2) +
        (fm.TanhPade32 p1' - fm.TanhPade32 p2')) ∧
    (integrate m fm fb input s).p3 =
      s.p3 + s.dt / 2 * ((fm.TanhPade32 s.p2 - fm.TanhPade32 s.p3) +
        (fm.TanhPade32 p2' - fm.TanhPade32 p3')) ∧
    (integrate m fm fb input s).p0 =
      s.p0 + s.dt / 2 * ((fm.TanhPade32 (s.ut_1 - fb * s.p3) - fm.TanhPade32 s.p0) +
        (fm.TanhPade32 (input - fb * (integrate m fm fb input s).p3) - fm.TanhPade32 p0')) := by
  obtain ⟨cf, r, ov, fmode, sr, dt, meth, p0, p1, p2, p3, u, out, iir⟩ := s
  simp only [] at hm h0 h1 h2 h3
  subst hm h0 h1 h2 h3
  have half : (0.5 : F) * dt = dt / 2 := by norm_num; ring
  simp only [integrate, half]
  exact ⟨trivial, trivial, trivial, trivial⟩

end Ladder

namespace Ladder

theorem C12_ladder_trapezoidal_pole_update_witness :
    (integrate sampleLibM sampleFastMath 1 1
        (sampleLadder LadderIntegrationMethod.LADDER_TRAPEZOIDAL_FEEDBACK_TANH)).p1 -
      (sampleLadder LadderIntegrationMethod.LADDER_TRAPEZOIDAL_FEEDBACK_TANH).p1 =
      (sampleLadder LadderIntegrationMethod.LADDER_TRAPEZOIDAL_FEEDBACK_TANH).dt / 2 *
        (((sampleLadder LadderIntegrationMethod.LADDER_TRAPEZOIDAL_FEEDBACK_TANH).p0 -
            (sampleLadder LadderIntegrationMethod.LADDER_TRAPEZOIDAL_FEEDBACK_TANH).p1) +
          ((integrate sampleLibM sampleFastMath 1 1
              (sampleLadder LadderIntegrationMethod.LADDER_TRAPEZOIDAL_FEEDBACK_TANH)).p0 -
            (integrate sampleLibM sampleFastMath 1 1
              (sampleLadder LadderIntegrationMethod.LADDER_TRAPEZOIDAL_FEEDBACK_TANH)).p1)) :=
  (C12_ladder_trapezoidal_pole_update sampleLibM sampleFastMath 1 1
    (sampleLadder LadderIntegrationMethod.LADDER_TRAPEZOIDAL_FEEDBACK_TANH) rfl
    (by norm_num [sampleLadder])).2.2.2.1

theorem C13_ladder_closed_form_consistency_witness :
    (integrate sampleLibM sampleFastMath 1 1
        (sampleLadder LadderIntegrationMethod.LADDER_TRAPEZOIDAL_FEEDBACK_TANH)).p3 =
      cascadeD (trapB (sampleLadder LadderIntegrationMethod.LADDER_TRAPEZOIDAL_FEEDBACK_TANH).dt)
          (trapC (sampleLadder LadderIntegrationMethod.LADDER_TRAPEZOIDAL_FEEDBACK_TANH).dt)
          (trapUt sampleFastMath 1
            (sampleLadder LadderIntegrationMethod.LADDER_TRAPEZOIDAL_FEEDBACK_TANH))
          (sampleLadder LadderIntegrationMethod.LADDER_TRAPEZOIDAL_FEEDBACK_TANH) +
        trapB (sampleLadder LadderIntegrationMethod.LADDER_TRAPEZOIDAL_FEEDBACK_TANH).dt ^ 4 *
          trapUt2 sampleLibM sampleFastMath 1 1
            (sampleLadder LadderIntegrationMethod.LADDER_TRAPEZOIDAL_FEEDBACK_TANH) :=
  (C13_ladder_closed_form_consistency sampleLibM sampleFastMath 1 1
    (sampleLadder LadderIntegrationMethod.LADDER_TRAPEZOIDAL_FEEDBACK_TANH)).2 rfl

theorem C14_ladder_predictor_corrector_witness :
    (integrate sampleLibM sampleFastMath 1 1
        (sampleLadder LadderIntegrationMethod.LADDER_PREDICTOR_CORRECTOR_FULL_TANH)).p3 =
      (2 : ℚ) / 5 + 1 / 4 / 2 *
        ((sampleFastMath.TanhPade32 (3 / 10) - sampleFastMath.TanhPade32 (2 / 5)) +
          (sampleFastMath.TanhPade32
              (3 / 10 + 1 / 4 * (sampleFastMath.TanhPade32 (1 / 5) -
                sampleFastMath.TanhPade32 (3 / 10))) -
            sampleFastMath.TanhPade32
              (2 / 5 + 1 / 4 * (sampleFastMath.TanhPade32 (3 / 10) -
                sampleFastMath.TanhPade32 (2 / 5))))) :=
  (C14_ladder_predictor_corrector sampleLibM sampleFastMath 1 1
    (sampleLadder LadderIntegrationMethod.LADDER_PREDICTOR_CORRECTOR_FULL_TANH) rfl
    _ _ _ _ rfl rfl rfl rfl).2.2.1

end Ladder

namespace SKFilter
variable {F : Type} [LinearOrderedField F]

theorem sk_integrate_trapezoidal (m : LibM F) (fm : FastMath F) (res : F) (s : SKFilter F)
    (h : s.integrationMethod = SKIntegrationMethod.SK_TRAPEZOIDAL) :
    (integrate m fm res s).p1 = trapSolve m fm res s ∧
    (integrate m fm res s).out = trapSolve m fm res s ∧
    (integrate m fm res s).p0 =
      s.p0 / (1 + s.dt / 2) + s.dt / 2 / (1 + s.dt / 2) *
        (s.input_lp_t1 - s.p0 - trapFbT res s + s.input_lp -
          (s.input_bp + res * trapSolve m fm res s)) := by
  obtain ⟨cf, r, ov, fmode, sr, dt, meth, p0, p1, ilp, ibp, ihp, ilp1, ibp1, ihp1, out, iir⟩ := s
  simp only [] at h
  subst h
  exact ⟨rfl, rfl, rfl⟩

end SKFilter

namespace SKFilter
variable {F : Type} [LinearOrderedField F]

theorem sk_route_values (x : F) (s : SKFilter F) :
    (s.filterMode = SKFilterMode.SK_LOWPASS_MODE →
      (route x s).input_lp = x ∧ (route x s).input_bp = 0 ∧ (route x s).input_hp = 0) ∧
    (s.filterMode = SKFilterMode.SK_BANDPASS_MODE →
      (route x s).input_lp = 0 ∧ (route x s).input_bp = x ∧ (route x s).input_hp = 0) ∧
    (s.filterMode = SKFilterMode.SK_HIGHPASS_MODE →
      (route x s).input_lp = 0 ∧ (route x s).input_bp = 0 ∧ (route x s).input_hp = x) := by
  obtain ⟨cf, r, ov, fmode, sr, dt, meth, p0, p1, ilp, ibp, ihp, ilp1, ibp1, ihp1, out, iir⟩ := s
  refine ⟨?_, ?_, ?_⟩ <;> intro h <;> simp only [] at h <;> subst h <;> exact ⟨rfl, rfl, rfl⟩

theorem sk_filter_inputs (m : LibM F) (fm : FastMath F) (RAND_MAX rnd : Nat) (input : F)
    (s : SKFilter F) :
    (filter m fm RAND_MAX rnd input s).input_lp =
      (route (input + ditherNoise RAND_MAX rnd) s).input_lp ∧
    (filter m fm RAND_MAX rnd input s).input_bp =
      (route (input + ditherNoise RAND_MAX rnd) s).input_bp ∧
    (filter m fm RAND_MAX rnd input s).input_hp =
      (route (input + ditherNoise RAND_MAX rnd) s).input_hp := by
  obtain ⟨-, -, -, -, -, -, -, a8, a9, a10, -⟩ := sk_tickLoop_frame m fm (4 * s.Resonance)
    (route (input + ditherNoise RAND_MAX rnd) s).oversamplingFactor.toNat
    (route (input + ditherNoise RAND_MAX rnd) s)
  unfold filter
  dsimp only
  exact ⟨a8, a9, a10⟩

/-- C15. Sallen-Key input routing.  For every input and every mode, the routing step of
`SKFilter::filter` stores the dithered input `x` in the routed input named by the mode
(`input_lp` for low-pass, `input_bp` for band-pass, `input_hp` for high-pass) and 0 in the other
two, and these are the values the three members hold when `filter` returns.  When `x ≠ 0` the
named member is therefore the only one of the three equal to `x`. -/
theorem C15_sallen_key_input_routing (m : LibM F) (fm : FastMath F) (RAND_MAX rnd : Nat)
    (input : F) (s : SKFilter F) :
    (s.filterMode = SKFilterMode.SK_LOWPASS_MODE →
      (route (input + ditherNoise RAND_MAX rnd) s).input_lp = input + ditherNoise RAND_MAX rnd ∧
      (route (input + ditherNoise RAND_MAX rnd) s).input_bp = 0 ∧
      (route (input + ditherNoise RAND_MAX rnd) s).input_hp = 0) ∧
    (s.filterMode = SKFilterMode.SK_BANDPASS_MODE →
      (route (input + ditherNoise RAND_MAX rnd) s).input_lp = 0 ∧
      (route (input + ditherNoise RAND_MAX rnd) s).input_bp = input + ditherNoise RAND_MAX rnd ∧
      (route (input + ditherNoise RAND_MAX rnd) s).input_hp = 0) ∧
    (s.filterMode = SKFilterMode.SK_HIGHPASS_MODE →
      (route (input + ditherNoise RAND_MAX rnd) s).input_lp = 0 ∧
      (route (input + ditherNoise RAND_MAX rnd) s).input_bp = 0 ∧
      (route (input + ditherNoise RAND_MAX rnd) s).input_hp = input + ditherNoise RAND_MAX rnd) ∧
    ((filter m fm RAND_MAX rnd input s).input_lp =
        (route (input + ditherNoise RAND_MAX rnd) s).input_lp ∧
      (filter m fm RAND_MAX rnd input s).input_bp =
        (route (input + ditherNoise RAND_MAX rnd) s).input_bp ∧
      (filter m fm RAND_MAX rnd input s).input_hp =
        (route (input + ditherNoise RAND_MAX rnd) s).input_hp) ∧
    (input + ditherNoise RAND_MAX rnd ≠ 0 →
      ((route (input + ditherNoise RAND_MAX rnd) s).input_lp = input + ditherNoise RAND_MAX rnd ↔
        s.filterMode = SKFilterMode.SK_LOWPASS_MODE) ∧
      ((route (input + ditherNoise RAND_MAX rnd) s).input_bp = input + ditherNoise RAND_MAX rnd ↔
        s.filterMode = SKFilterMode.SK_BANDPASS_MODE) ∧
      ((route (input + ditherNoise RAND_MAX rnd) s).input_hp = input + ditherNoise RAND_MAX rnd ↔
        s.filterMode = SKFilterMode.SK_HIGHPASS_MODE)) := by
  obtain ⟨h1, h2, h3⟩ := sk_route_values (input + ditherNoise RAND_MAX rnd) s
  refine ⟨h1, h2, h3, sk_filter_inputs m fm RAND_MAX rnd input s, ?_⟩
  intro hx
  have hx' : (0 : F) ≠ input + ditherNoise RAND_MAX rnd := fun h => hx h.symm
  cases hmode : s.filterMode
  · obtain ⟨a, b, c⟩ := h1 hmode
    rw [a, b, c]
    simp [hx']
  · obtain ⟨a, b, c⟩ := h2 hmode
    rw [a, b, c]
    simp [hx']
  · obtain ⟨a, b, c⟩ := h3 hmode
    rw [a, b, c]
    simp [hx']

theorem C15_sallen_key_input_routing_witness :
    (route ((1 : ℚ) + ditherNoise 100 50)
        (sampleSK SKFilterMode.SK_BANDPASS_MODE SKIntegrationMethod.SK_TRAPEZOIDAL)).input_lp = 0 ∧
    (route ((1 : ℚ) + ditherNoise 100 50)
        (sampleSK SKFilterMode.SK_BANDPASS_MODE SKIntegrationMethod.SK_TRAPEZOIDAL)).input_bp =
      1 + ditherNoise 100 50 ∧
    (route ((1 : ℚ) + ditherNoise 100 50)
        (sampleSK SKFilterMode.SK_BANDPASS_MODE SKIntegrationMethod.SK_TRAPEZOIDAL)).input_hp = 0 :=
  (C15_sallen_key_input_routing sampleLibM sampleFastMath 100 50 1
    (sampleSK SKFilterMode.SK_BANDPASS_MODE SKIntegrationMethod.SK_TRAPEZOIDAL)).2.1 rfl

/-- C16. Sallen-Key trapezoidal correctness.  Let `alpha = dt/2` with `1 + alpha ≠ 0`,
`S(x) = (1/4)·SinhPade54(4x)` (any function), `fb_t = in_bp_t1 + res·p1`, and let `x` be the
value returned by the Newton loop.  The step stores `p1 = x`; and if `x` satisfies
`c·x + alpha·S(x) = D_n` exactly, then the stored `p1` and `p0` satisfy both trapezoidal-rule
equations of the system `p0' = in_lp − p0 − fb`, `p1' = p0 + fb − p1 − S(p1)` with
`fb = in_bp + res·p1`. -/
theorem C16_sallen_key_trapezoidal (m : LibM F) (fm : FastMath F) (res : F) (s : SKFilter F)
    (hm : s.integrationMethod = SKIntegrationMethod.SK_TRAPEZOIDAL)
    (hα : 1 + s.dt / 2 ≠ 0)
    (hx : trapCoef res s.dt * trapSolve m fm res s +
      s.dt / 2 * sinhTerm fm (trapSolve m fm res s) = trapDn fm res s) :
    (integrate m fm res s).p1 = trapSolve m fm res s ∧
    (integrate m fm res s).p0 - s.p0 =
      s.dt / 2 * ((s.input_lp_t1 - s.p0 - (s.input_bp_t1 + res * s.p1)) +
        (s.input_lp - (integrate m fm res s).p0 -
          (s.input_bp + res * (integrate m fm res s).p1))) ∧
    (integrate m fm res s).p1 - s.p1 =
      s.dt / 2 * ((s.p0 + (s.input_bp_t1 + res * s.p1) - s.p1 - sinhTerm fm s.p1) +
        ((integrate m fm res s).p0 + (s.input_bp + res * (integrate m fm res s).p1) -
          (integrate m fm res s).p1 - sinhTerm fm (integrate m fm res s).p1)) := by
  obtain ⟨e1, -, e0⟩ := sk_integrate_trapezoidal m fm res s hm
  rw [e1, e0]
  generalize trapSolve m fm res s = x at hx ⊢
  unfold trapCoef trapDn trapA trapFbT sinhTerm at hx
  unfold trapFbT sinhTerm
  generalize s.dt / 2 = a at hα hx ⊢
  refine ⟨rfl, ?_, ?_⟩
  · field_simp
    ring
  · linear_combination hx

end SKFilter

theorem newtonBody_done {F : Type} [LinearOrderedField F] (abs next : F → F) (ii : Nat) (x : F) :
    newtonBody abs next ii (x, true) = (x, true) := by
  simp [newtonBody]

theorem newtonRaphson_fixed {F : Type} [LinearOrderedField F] (abs next : F → F) (x0 : F)
    (hfix : next (next x0) = next x0) (h0 : abs 0 < 1e-9) :
    newtonRaphson abs next x0 = next x0 := by
  have step1 : newtonBody abs next 0 (x0, false) = (next x0, true) ∨
      newtonBody abs next 0 (x0, false) = (next x0, false) := by
    simp only [newtonBody]
    by_cases h : abs (next x0 - x0) < 1e-9
    · left; simp [h]
    · right; simp [h]
  have step2 : ∀ ii, newtonBody abs next ii (next x0, false) = (next x0, true) := by
    intro ii
    simp [newtonBody, hfix, h0]
  have e2 : forLoop (newtonBody abs next) 2 (x0, false) = (next x0, true) := by
    show newtonBody abs next 1 (newtonBody abs next 0 (x0, false)) = (next x0, true)
    rcases step1 with h | h
    · rw [h, newtonBody_done]
    · rw [h, step2]
  have e8 : forLoop (newtonBody abs next) 8 (x0, false) = (next x0, true) := by
    show newtonBody abs next 7 (newtonBody abs next 6 (newtonBody abs next 5
      (newtonBody abs next 4 (newtonBody abs next 3 (newtonBody abs next 2
        (forLoop (newtonBody abs next) 2 (x0, false))))))) = (next x0, true)
    rw [e2]
    simp only [newtonBody_done]
  unfold newtonRaphson
  rw [e8]

namespace SKFilter

theorem sk_sample_solve :
    trapSolve sampleLibM linearFastMath 0
      (sampleSK SKFilterMode.SK_LOWPASS_MODE SKIntegrationMethod.SK_TRAPEZOIDAL) = 8 / 45 := by
  unfold trapSolve
  rw [newtonRaphson_fixed]
  · norm_num [trapCoef, trapDn, trapA, trapFbT, sampleSK, linearFastMath]
  · norm_num [trapCoef, trapDn, trapA, trapFbT, sampleSK, linearFastMath]
  · norm_num [sampleLibM]

theorem C16_sallen_key_trapezoidal_witness :
    (integrate sampleLibM linearFastMath 0
        (sampleSK SKFilterMode.SK_LOWPASS_MODE SKIntegrationMethod.SK_TRAPEZOIDAL)).p1 =
      trapSolve sampleLibM linearFastMath 0
        (sampleSK SKFilterMode.SK_LOWPASS_MODE SKIntegrationMethod.SK_TRAPEZOIDAL) :=
  (C16_sallen_key_trapezoidal sampleLibM linearFastMath 0
    (sampleSK SKFilterMode.SK_LOWPASS_MODE SKIntegrationMethod.SK_TRAPEZOIDAL) rfl
    (by norm_num [sampleSK])
    (by
      rw [sk_sample_solve]
      norm_num [trapCoef, trapDn, trapA, trapFbT, sinhTerm, sampleSK, linearFastMath])).1

end SKFilter

namespace SKFilter
variable {F : Type} [LinearOrderedField F]

theorem sk_integrate_predictor_corrector (m : LibM F) (fm : FastMath F) (res : F)
    (s : SKFilter F) (hm : s.integrationMethod = SKIntegrationMethod.SK_PREDICTOR_CORRECTOR) :
    (integrate m fm res s).p0 = pcSpecP0 fm res s ∧
    (integrate m fm res s).p1 = pcSpecP1 fm res s +
      s.dt / 2 * (1 / 4 * fm.SinhPade34 (4 * pcP1Prime fm res s) -
        1 / 4 * fm.SinhPade34 (4 * s.p1)) := by
  obtain ⟨cf, r, ov, fmode, sr, dt, meth, p0, p1, ilp, ibp, ihp, ilp1, ibp1, ihp1, out, iir⟩ := s
  simp only [] at hm
  subst hm
  have half : (0.5 : F) * dt = dt / 2 := by
    rw [show (0.5 : F) = 1 / 2 by norm_num]
    ring
  simp only [integrate, pcSpecP0, pcSpecP1, pcP0Prime, pcP1Prime, pcF0, pcF1, half,
    mul_comm p1 4]
  constructor
  · ring_nf
  · ring_nf

theorem sk_sample_pc_state :
    samplePCState.p0 = 1 / 8 ∧ samplePCState.p1 = 0 ∧ samplePCState.dt = 1 / 4 ∧
    samplePCState.Resonance = 0 ∧ samplePCState.input_lp_t1 = 1 ∧
    samplePCState.input_bp_t1 = 0 ∧ samplePCState.oversamplingFactor = 1 ∧
    samplePCState.filterMode = SKFilterMode.SK_LOWPASS_MODE ∧
    samplePCState.integrationMethod = SKIntegrationMethod.SK_PREDICTOR_CORRECTOR := by
  norm_num [samplePCState, filter, new, SetFilterIntegrationRate, route, forLoop, tick,
    integrate, ditherNoise, sampleFastMath]

end SKFilter

namespace SKFilter
variable {F : Type} [LinearOrderedField F]

theorem sk_filter_single (m : LibM F) (fm : FastMath F) (RAND_MAX rnd : Nat) (input : F)
    (s : SKFilter F) (h1 : s.oversamplingFactor = 1) :
    (filter m fm RAND_MAX rnd input s).p0 =
      (integrate m fm (4 * s.Resonance) (route (input + ditherNoise RAND_MAX rnd) s)).p0 ∧
    (filter m fm RAND_MAX rnd input s).p1 =
      (integrate m fm (4 * s.Resonance) (route (input + ditherNoise RAND_MAX rnd) s)).p1 ∧
    (filter m fm RAND_MAX rnd input s).out =
      (integrate m fm (4 * s.Resonance) (route (input + ditherNoise RAND_MAX rnd) s)).out := by
  obtain ⟨cf, r, ov, fmode, sr, dt, meth, p0, p1, ilp, ibp, ihp, ilp1, ibp1, ihp1, out, iir⟩ := s
  simp only [] at h1
  subst h1
  cases fmode <;> cases meth <;> exact ⟨rfl, rfl, rfl⟩

/-- C17 (divergence). The engine `SKFilter(0.25, 0.0, 1, SK_LOWPASS_MODE, 44100.0,
SK_PREDICTOR_CORRECTOR)` after `filter(1.0)` holds `p0 = 1/8`, `p1 = 0`; in the next
`filter(1.0)` (zero dither, `SinhPade34` standing in as the identity) the code stores
`p1 = 7/128`, while the trapezoidal-average correction of the specification gives `13/256`:
the corrector evaluates `SinhPade34` at the old `p1` instead of the predictor `p1'`.  The
stored `p0` agrees with the specification. -/
theorem C17_sk_predictor_corrector_divergence :
    (filter sampleLibM sampleFastMath 100 50 1 samplePCState).p1 = 7 / 128 ∧
    pcSpecP1 sampleFastMath (4 * samplePCState.Resonance)
      (route (1 + ditherNoise 100 50) samplePCState) = 13 / 256 ∧
    (filter sampleLibM sampleFastMath 100 50 1 samplePCState).p0 =
      pcSpecP0 sampleFastMath (4 * samplePCState.Resonance)
        (route (1 + ditherNoise 100 50) samplePCState) := by
  obtain ⟨e0, e1, edt, er, el, eb, eo, em, emeth⟩ := sk_sample_pc_state
  obtain ⟨f0, f1, -⟩ := sk_filter_single sampleLibM sampleFastMath 100 50 1 samplePCState eo
  have hr : (route ((1 : ℚ) + ditherNoise 100 50) samplePCState).integrationMethod =
      SKIntegrationMethod.SK_PREDICTOR_CORRECTOR := by
    rw [(sk_route_frame _ _).2.2.2.2.2.2, emeth]
  obtain ⟨g0, g1⟩ := sk_integrate_predictor_corrector sampleLibM sampleFastMath
    (4 * samplePCState.Resonance) (route ((1 : ℚ) + ditherNoise 100 50) samplePCState) hr
  have hroute : (route ((1 : ℚ) + ditherNoise 100 50) samplePCState).p0 = 1 / 8 ∧
      (route ((1 : ℚ) + ditherNoise 100 50) samplePCState).p1 = 0 ∧
      (route ((1 : ℚ) + ditherNoise 100 50) samplePCState).dt = 1 / 4 ∧
      (route ((1 : ℚ) + ditherNoise 100 50) samplePCState).input_lp = 1 ∧
      (route ((1 : ℚ) + ditherNoise 100 50) samplePCState).input_bp = 0 ∧
      (route ((1 : ℚ) + ditherNoise 100 50) samplePCState).input_lp_t1 = 1 ∧
      (route ((1 : ℚ) + ditherNoise 100 50) samplePCState).input_bp_t1 = 0 := by
    obtain ⟨a, b, c⟩ := (sk_route_values ((1 : ℚ) + ditherNoise 100 50) samplePCState).1 em
    have hn : (1 : ℚ) + ditherNoise 100 50 = 1 := by norm_num [ditherNoise]
    rw [hn] at a b c ⊢
    refine ⟨?_, ?_, ?_, a, b, ?_, ?_⟩
    · rw [← e0]; unfold route; rw [em]
    · rw [← e1]; unfold route; rw [em]
    · rw [← edt]; unfold route; rw [em]
    · rw [← el]; unfold route; rw [em]
    · rw [← eb]; unfold route; rw [em]
  obtain ⟨r0, r1, rdt, rlp, rbp, rl1, rb1⟩ := hroute
  have hspec : pcSpecP1 sampleFastMath (4 * samplePCState.Resonance)
      (route (1 + ditherNoise 100 50) samplePCState) = 13 / 256 := by
    simp only [pcSpecP1, pcP0Prime, pcP1Prime, pcF0, pcF1, r0, r1, rdt, rlp, rbp, rl1, rb1, er,
      sampleFastMath]
    norm_num
  refine ⟨?_, hspec, ?_⟩
  · rw [f1, g1, hspec]
    simp only [pcP1Prime, pcF1, r0, r1, rdt, rb1, er, sampleFastMath]
    norm_num
  · rw [f0, g0]

end SKFilter

namespace SVFilter

open SVFFilterMode SVFIntegrationMethod

variable {F : Type} [LinearOrderedField F]

theorem svf_integrate_predictor_corrector (m : LibM F) (fm : FastMath F) (fb dt2 input : F)
    (s : SVFilter F) (hm : s.integrationMethod = SVF_PREDICTOR_CORRECTOR) :
    integrate m fm fb dt2 input s = s := by
  obtain ⟨cf, rs, ofac, fmode, sr, dt, meth, lp, bp, hp, u, out, iir⟩ := s
  subst hm
  rfl

theorem svf_integrate_euler (m : LibM F) (fm : FastMath F) (fb dt2 input : F)
    (s : SVFilter F) (hm : s.integrationMethod = SVF_SEMI_IMPLICIT_EULER) :
    (integrate m fm fb dt2 input s).hp = input - s.lp - fb * s.bp - fm.SinhPade54 s.bp ∧
    (integrate m fm fb dt2 input s).bp =
      (s.bp + dt2 * (input - s.lp - fb * s.bp - fm.SinhPade54 s.bp)) * beta s ∧
    (integrate m fm fb dt2 input s).lp =
      s.lp + dt2 * ((s.bp + dt2 * (input - s.lp - fb * s.bp - fm.SinhPade54 s.bp)) * beta s) := by
  obtain ⟨cf, rs, ofac, fmode, sr, dt, meth, lp, bp, hp, u, out, iir⟩ := s
  subst hm
  exact ⟨rfl, rfl, rfl⟩

theorem svf_integrate_trapezoidal (m : LibM F) (fm : FastMath F) (fb dt2 input : F)
    (s : SVFilter F) (hm : s.integrationMethod = SVF_TRAPEZOIDAL) :
    (integrate m fm fb dt2 input s).bp = beta s * trapNewton m fm fb dt2 input s ∧
    (integrate m fm fb dt2 input s).lp =
      s.lp + dt2 / 2 * s.bp + dt2 / 2 * (beta s * trapNewton m fm fb dt2 input s) ∧
    (integrate m fm fb dt2 input s).hp =
      input - (s.lp + dt2 / 2 * s.bp + dt2 / 2 * (beta s * trapNewton m fm fb dt2 input s))
        - fb * (beta s * trapNewton m fm fb dt2 input s) := by
  obtain ⟨cf, rs, ofac, fmode, sr, dt, meth, lp, bp, hp, u, out, iir⟩ := s
  subst hm
  exact ⟨rfl, rfl, rfl⟩

theorem svf_integrate_inv_trapezoidal (m : LibM F) (fm : FastMath F) (fb dt2 input : F)
    (s : SVFilter F) (hm : s.integrationMethod = SVF_INV_TRAPEZOIDAL) :
    (integrate m fm fb dt2 input s).bp = beta s * m.asinh (invNewton m fm fb dt2 input s) ∧
    (integrate m fm fb dt2 input s).lp =
      s.lp + dt2 / 2 * s.bp + dt2 / 2 * (beta s * m.asinh (invNewton m fm fb dt2 input s)) ∧
    (integrate m fm fb dt2 input s).hp =
      input - (s.lp + dt2 / 2 * s.bp +
          dt2 / 2 * (beta s * m.asinh (invNewton m fm fb dt2 input s)))
        - fb * (beta s * m.asinh (invNewton m fm fb dt2 input s)) := by
  obtain ⟨cf, rs, ofac, fmode, sr, dt, meth, lp, bp, hp, u, out, iir⟩ := s
  subst hm
  exact ⟨rfl, rfl, rfl⟩

end SVFilter

namespace SVFilter

open SVFFilterMode SVFIntegrationMethod

variable {F : Type} [LinearOrderedField F]

theorem svf_filter_single (m : LibM F) (fm : FastMath F) (RAND_MAX rnd : Nat) (input : F)
    (s : SVFilter F) (hof : s.oversamplingFactor = 1) :
    (filter m fm RAND_MAX rnd input s).lp =
      (integrate m fm (1 - 3.5 * s.Resonance) (clampedRate s)
        (input + ditherNoise RAND_MAX rnd) s).lp ∧
    (filter m fm RAND_MAX rnd input s).bp =
      (integrate m fm (1 - 3.5 * s.Resonance) (clampedRate s)
        (input + ditherNoise RAND_MAX rnd) s).bp ∧
    (filter m fm RAND_MAX rnd input s).hp =
      (integrate m fm (1 - 3.5 * s.Resonance) (clampedRate s)
        (input + ditherNoise RAND_MAX rnd) s).hp ∧
    (filter m fm RAND_MAX rnd input s).out =
      outputTap (integrate m fm (1 - 3.5 * s.Resonance) (clampedRate s)
        (input + ditherNoise RAND_MAX rnd) s) := by
  obtain ⟨cf, rs, ofac, fmode, sr, dt, meth, lp, bp, hp, u, out, iir⟩ := s
  simp only at hof
  subst hof
  cases meth <;> exact ⟨rfl, rfl, rfl, rfl⟩

theorem svf_integrate_mode (m : LibM F) (fm : FastMath F) (fb dt2 input : F) (s : SVFilter F) :
    (integrate m fm fb dt2 input s).filterMode = s.filterMode := by
  obtain ⟨cf, rs, ofac, fmode, sr, dt, meth, lp, bp, hp, u, out, iir⟩ := s
  cases meth <;> rfl

theorem svf_sample_fresh (method : SVFIntegrationMethod) :
    (sampleSVF method).lp = 0 ∧ (sampleSVF method).bp = 0 ∧ (sampleSVF method).hp = 0 ∧
    (sampleSVF method).u_t1 = 0 ∧ (sampleSVF method).dt = 1 / 4 ∧
    (sampleSVF method).Resonance = 1 / 2 ∧ (sampleSVF method).oversamplingFactor = 1 ∧
    (sampleSVF method).filterMode = SVF_LOWPASS_MODE ∧
    (sampleSVF method).integrationMethod = method := by
  norm_num [sampleSVF, new, SetFilterIntegrationRate]

/-- A state-variable engine constructed with cutoff 0.25, resonance 0.5, no oversampling and
low-pass mode receives `filter(1.0)` with zero dither.  With `SVF_PREDICTOR_CORRECTOR` the call
leaves `lp`, `bp`, `hp` at 0 and the output is 0; with `SVF_SEMI_IMPLICIT_EULER` the same call
stores `hp = 1`, `bp = 399/1600`, `lp = 399/6400` and the output is `399/6400` (identity
stand-in for `SinhPade54`). -/
theorem svf_sample_pc_and_euler :
    ((filter sampleLibM sampleFastMath 100 50 1 (sampleSVF SVF_PREDICTOR_CORRECTOR)).lp = 0 ∧
      (filter sampleLibM sampleFastMath 100 50 1 (sampleSVF SVF_PREDICTOR_CORRECTOR)).bp = 0 ∧
      (filter sampleLibM sampleFastMath 100 50 1 (sampleSVF SVF_PREDICTOR_CORRECTOR)).hp = 0 ∧
      (filter sampleLibM sampleFastMath 100 50 1 (sampleSVF SVF_PREDICTOR_CORRECTOR)).out = 0) ∧
    ((filter sampleLibM sampleFastMath 100 50 1 (sampleSVF SVF_SEMI_IMPLICIT_EULER)).lp
        = 399 / 6400 ∧
      (filter sampleLibM sampleFastMath 100 50 1 (sampleSVF SVF_SEMI_IMPLICIT_EULER)).bp
        = 399 / 1600 ∧
      (filter sampleLibM sampleFastMath 100 50 1 (sampleSVF SVF_SEMI_IMPLICIT_EULER)).hp = 1 ∧
      (filter sampleLibM sampleFastMath 100 50 1 (sampleSVF SVF_SEMI_IMPLICIT_EULER)).out
        = 399 / 6400) := by
  obtain ⟨p1, p2, p3, -, p5, p6, p7, p8, p9⟩ := svf_sample_fresh SVF_PREDICTOR_CORRECTOR
  obtain ⟨e1, e2, e3, -, e5, e6, e7, e8, e9⟩ := svf_sample_fresh SVF_SEMI_IMPLICIT_EULER
  obtain ⟨a1, a2, a3, a4⟩ :=
    svf_filter_single sampleLibM sampleFastMath 100 50 1 (sampleSVF SVF_PREDICTOR_CORRECTOR) p7
  obtain ⟨b1, b2, b3, b4⟩ :=
    svf_filter_single sampleLibM sampleFastMath 100 50 1 (sampleSVF SVF_SEMI_IMPLICIT_EULER) e7
  have hpc := svf_integrate_predictor_corrector sampleLibM sampleFastMath
    (1 - 3.5 * (sampleSVF SVF_PREDICTOR_CORRECTOR).Resonance)
    (clampedRate (sampleSVF SVF_PREDICTOR_CORRECTOR)) (1 + ditherNoise 100 50)
    (sampleSVF SVF_PREDICTOR_CORRECTOR) p9
  obtain ⟨c3, c2, c1⟩ := svf_integrate_euler sampleLibM sampleFastMath
    (1 - 3.5 * (sampleSVF SVF_SEMI_IMPLICIT_EULER).Resonance)
    (clampedRate (sampleSVF SVF_SEMI_IMPLICIT_EULER)) (1 + ditherNoise 100 50)
    (sampleSVF SVF_SEMI_IMPLICIT_EULER) e9
  have hclamp : clampedRate (sampleSVF SVF_SEMI_IMPLICIT_EULER) = 1 / 4 := by
    simp only [clampedRate, e9, e5]
    norm_num
  have hb : beta (sampleSVF SVF_SEMI_IMPLICIT_EULER) = 399 / 400 := by
    simp only [beta, e7]
    norm_num
  have hd : ditherNoise 100 50 = (0 : ℚ) := by norm_num [ditherNoise]
  refine ⟨⟨?_, ?_, ?_, ?_⟩, ⟨?_, ?_, ?_, ?_⟩⟩
  · rw [a1, hpc, p1]
  · rw [a2, hpc, p2]
  · rw [a3, hpc, p3]
  · rw [a4, hpc]
    simp only [outputTap, p8, p1]
  · rw [b1, c1, hclamp, hb, hd, e1, e2, e6]
    norm_num [sampleFastMath]
  · rw [b2, c2, hclamp, hb, hd, e1, e2, e6]
    norm_num [sampleFastMath]
  · rw [b3, c3, hd, e1, e2, e6]
    norm_num [sampleFastMath]
  · rw [b4]
    simp only [outputTap, svf_integrate_mode, e8]
    rw [c1, hclamp, hb, hd, e1, e2, e6]
    norm_num [sampleFastMath]

end SVFilter

namespace SVFilter

open SVFFilterMode SVFIntegrationMethod

variable {F : Type} [LinearOrderedField F]

/-- C19. State-variable trapezoidal correctness.  Let `alpha = dt2/2`, `S = SinhPade54` (any
function) and let `x` be the value returned by the Newton loop.  If `x` satisfies
`x + alpha·S(x) + (alpha² + fb·alpha)·x = D_t` exactly, then `x` and `lp* = lp + alpha·(bp + x)`
satisfy the trapezoidal-rule equations
`x − bp = alpha·((u_t1 − lp − fb·bp − S(bp)) + (input − lp* − fb·x − S(x)))` and
`lp* − lp = alpha·(bp + x)`.  The step stores `bp = beta·x` with
`beta = 1 − 0.0025/oversamplingFactor`, `lp = lp_old + alpha·(bp_old + beta·x)` and
`hp = input − lp − fb·bp`. -/
theorem C19_svf_trapezoidal (m : LibM F) (fm : FastMath F) (fb dt2 input : F) (s : SVFilter F)
    (hm : s.integrationMethod = SVF_TRAPEZOIDAL)
    (hx : trapNewton m fm fb dt2 input s + dt2 / 2 * fm.SinhPade54 (trapNewton m fm fb dt2 input s)
      + ((dt2 / 2) ^ 2 + fb * (dt2 / 2)) * trapNewton m fm fb dt2 input s
        = D_t fm fb dt2 input s) :
    (trapNewton m fm fb dt2 input s - s.bp =
      dt2 / 2 * ((s.u_t1 - s.lp - fb * s.bp - fm.SinhPade54 s.bp) +
        (input - (s.lp + dt2 / 2 * (s.bp + trapNewton m fm fb dt2 input s))
          - fb * trapNewton m fm fb dt2 input s
          - fm.SinhPade54 (trapNewton m fm fb dt2 input s)))) ∧
    ((s.lp + dt2 / 2 * (s.bp + trapNewton m fm fb dt2 input s)) - s.lp =
      dt2 / 2 * (s.bp + trapNewton m fm fb dt2 input s)) ∧
    (integrate m fm fb dt2 input s).bp =
      (1 - 0.0025 / (s.oversamplingFactor : F)) * trapNewton m fm fb dt2 input s ∧
    (integrate m fm fb dt2 input s).lp =
      s.lp + dt2 / 2 * (s.bp +
        (1 - 0.0025 / (s.oversamplingFactor : F)) * trapNewton m fm fb dt2 input s) ∧
    (integrate m fm fb dt2 input s).hp =
      input - (integrate m fm fb dt2 input s).lp - fb * (integrate m fm fb dt2 input s).bp := by
  obtain ⟨ebp, elp, ehp⟩ := svf_integrate_trapezoidal m fm fb dt2 input s hm
  rw [ehp, elp, ebp]
  generalize trapNewton m fm fb dt2 input s = x at hx ⊢
  unfold D_t at hx
  unfold beta
  refine ⟨?_, ?_, rfl, ?_, rfl⟩
  · linear_combination hx
  · ring
  · ring

theorem svf_sample_solve :
    trapNewton sampleLibM linearFastMath (1 / 2) (1 / 4) 1 (sampleSVFState SVF_TRAPEZOIDAL)
      = 103 / 385 := by
  unfold trapNewton
  rw [newtonRaphson_fixed]
  · norm_num [trapResidual, trapSlope, alpha2, D_t, sampleSVFState, linearFastMath]
  · norm_num [trapResidual, trapSlope, alpha2, D_t, sampleSVFState, linearFastMath]
  · norm_num [sampleLibM]

theorem C19_svf_trapezoidal_witness :
    trapNewton sampleLibM linearFastMath (1 / 2) (1 / 4) 1 (sampleSVFState SVF_TRAPEZOIDAL)
        - (sampleSVFState SVF_TRAPEZOIDAL).bp =
      (1 / 4 : ℚ) / 2 * (((sampleSVFState SVF_TRAPEZOIDAL).u_t1
          - (sampleSVFState SVF_TRAPEZOIDAL).lp - 1 / 2 * (sampleSVFState SVF_TRAPEZOIDAL).bp
          - linearFastMath.SinhPade54 (sampleSVFState SVF_TRAPEZOIDAL).bp) +
        (1 - ((sampleSVFState SVF_TRAPEZOIDAL).lp + (1 / 4 : ℚ) / 2 *
              ((sampleSVFState SVF_TRAPEZOIDAL).bp +
                trapNewton sampleLibM linearFastMath (1 / 2) (1 / 4) 1
                  (sampleSVFState SVF_TRAPEZOIDAL)))
          - 1 / 2 * trapNewton sampleLibM linearFastMath (1 / 2) (1 / 4) 1
              (sampleSVFState SVF_TRAPEZOIDAL)
          - linearFastMath.SinhPade54 (trapNewton sampleLibM linearFastMath (1 / 2) (1 / 4) 1
              (sampleSVFState SVF_TRAPEZOIDAL)))) :=
  (C19_svf_trapezoidal sampleLibM linearFastMath (1 / 2) (1 / 4) 1
    (sampleSVFState SVF_TRAPEZOIDAL) rfl
    (by
      rw [svf_sample_solve]
      norm_num [D_t, sampleSVFState, linearFastMath])).1

end SVFilter

namespace SVFilter

open SVFFilterMode SVFIntegrationMethod

/-- C20. Inverse-trapezoidal solves the same equation.  With the approximants taken to be exact
(`ASinhPade54 = asinh`, `SinhPade54 = sinh`), for every `alpha`, `alpha2`, `D_t` and every real
`y`, the inverse-trapezoidal residual `alpha·y + asinh(y)·(1 + alpha2) − D_t` equals the
trapezoidal residual `x + alpha·sinh(x) + alpha2·x − D_t` at `x = asinh(y)`; hence `y` is a root
of the former if and only if `asinh(y)` is a root of the latter. -/
theorem C20_inverse_trapezoidal_same_equation (fm : FastMath ℝ)
    (hS : fm.SinhPade54 = Real.sinh) (hA : fm.ASinhPade54 = Real.arsinh)
    (alpha alpha2 D_t y : ℝ) :
    invResidual fm alpha alpha2 D_t y = trapResidual fm alpha alpha2 D_t (Real.arsinh y) ∧
    (invResidual fm alpha alpha2 D_t y = 0 ↔
      trapResidual fm alpha alpha2 D_t (Real.arsinh y) = 0) := by
  have key : invResidual fm alpha alpha2 D_t y =
      trapResidual fm alpha alpha2 D_t (Real.arsinh y) := by
    unfold invResidual trapResidual
    rw [hS, hA, Real.sinh_arsinh]
    ring
  exact ⟨key, by rw [key]⟩

theorem C20_inverse_trapezoidal_same_equation_witness :
    invResidual (⟨id, id, Real.sinh, id, Real.arsinh, id⟩ : FastMath ℝ) 1 1 0 0 =
      trapResidual (⟨id, id, Real.sinh, id, Real.arsinh, id⟩ : FastMath ℝ) 1 1 0
        (Real.arsinh 0) :=
  (C20_inverse_trapezoidal_same_equation (⟨id, id, Real.sinh, id, Real.arsinh, id⟩ : FastMath ℝ)
    rfl rfl 1 1 0 0).1

end SVFilter

section NewtonSpec

variable {F : Type} [LinearOrderedField F]

theorem newtonLoop_inv (abs next : F → F) (x0 : F) (n : Nat) :
    ((forLoop (newtonBody abs next) n (x0, false)) = (newtonIterate next x0 n, false) ∧
      ∀ j, j < n → ¬ abs (newtonIterate next x0 (j + 1) - newtonIterate next x0 j) < 1e-9) ∨
    (∃ k, k < n ∧
      (∀ j, j < k → ¬ abs (newtonIterate next x0 (j + 1) - newtonIterate next x0 j) < 1e-9) ∧
      abs (newtonIterate next x0 (k + 1) - newtonIterate next x0 k) < 1e-9 ∧
      forLoop (newtonBody abs next) n (x0, false) = (newtonIterate next x0 (k + 1), true)) := by
  induction n with
  | zero =>
    left
    exact ⟨rfl, fun j hj => absurd hj (Nat.not_lt_zero j)⟩
  | succ n ih =>
    rw [forLoop_succ]
    rcases ih with ⟨hst, hno⟩ | ⟨k, hk, hno, hyes, hst⟩
    · rw [hst]
      by_cases hc : abs (newtonIterate next x0 (n + 1) - newtonIterate next x0 n) < 1e-9
      · right
        refine ⟨n, Nat.lt_succ_self n, hno, hc, ?_⟩
        have hc' : abs (next (newtonIterate next x0 n) - newtonIterate next x0 n) < 1e-9 := hc
        simp only [newtonBody, Bool.false_eq_true, if_false, hc', if_true]
        rfl
      · left
        have hc' : ¬ abs (next (newtonIterate next x0 n) - newtonIterate next x0 n) < 1e-9 := hc
        refine ⟨?_, ?_⟩
        · simp only [newtonBody, Bool.false_eq_true, if_false, hc']
          rfl
        · intro j hj
          rcases Nat.lt_succ_iff_lt_or_eq.mp hj with h | h
          · exact hno j h
          · rw [h]; exact hc
    · right
      refine ⟨k, Nat.lt_succ_of_lt hk, hno, hyes, ?_⟩
      rw [hst, newtonBody_done]

theorem newtonRaphson_exit (abs next : F → F) (x0 : F) :
    NewtonExit abs next x0 (newtonRaphson abs next x0) := by
  unfold NewtonExit newtonRaphson
  rcases newtonLoop_inv abs next x0 8 with ⟨hst, hno⟩ | ⟨k, hk, hno, hyes, hst⟩
  · right
    exact ⟨hno, by rw [hst]⟩
  · left
    exact ⟨k, hk, hno, hyes, by rw [hst]⟩

end NewtonSpec

theorem ladder_trapUt2_loop {F : Type} [LinearOrderedField F] (m : LibM F) (fm : FastMath F)
    (fb input : F) (s : Ladder F) :
    Ladder.trapUt2 m fm fb input s =
      newtonRaphson m.abs (Ladder.newtonStep fm fb input s) (Ladder.trapUt fm fb s) := rfl

theorem sk_trapSolve_loop {F : Type} [LinearOrderedField F] (m : LibM F) (fm : FastMath F)
    (res : F) (s : SKFilter F) :
    SKFilter.trapSolve m fm res s = newtonRaphson m.abs (SKFilter.newtonStep fm res s) s.p1 := rfl

theorem svf_trapNewton_loop {F : Type} [LinearOrderedField F] (m : LibM F) (fm : FastMath F)
    (fb dt2 input : F) (s : SVFilter F) :
    SVFilter.trapNewton m fm fb dt2 input s =
      newtonRaphson m.abs (SVFilter.trapStep fm fb dt2 input s) s.bp := rfl

theorem svf_invNewton_loop {F : Type} [LinearOrderedField F] (m : LibM F) (fm : FastMath F)
    (fb dt2 input : F) (s : SVFilter F) :
    SVFilter.invNewton m fm fb dt2 input s =
      newtonRaphson m.abs (SVFilter.invStep m fm fb dt2 input s) (m.sinh s.bp) := rfl

/-- Each of the four Newton loops (ladder trapezoidal, Sallen-Key trapezoidal, state-variable
trapezoidal and inverse-trapezoidal) returns, for every input and state, the iterate `x_{k+1}`
for the first `k < 8` whose test `abs(x_{k+1} - x_k) < 1.0e-9` succeeds, and `x_8` when none of
the eight tests succeeds; `abs` is the function the unqualified call resolves to.  The loop is a
total function: it has no other exit and no failure value. -/
theorem newton_loops_exit_rule {F : Type} [LinearOrderedField F] (m : LibM F)
    (fm : FastMath F)
    (fbL inputL res fbV dt2 inputV : F) (sL : Ladder F) (sK : SKFilter F) (sV : SVFilter F) :
    NewtonExit m.abs (Ladder.newtonStep fm fbL inputL sL) (Ladder.trapUt fm fbL sL)
      (Ladder.trapUt2 m fm fbL inputL sL) ∧
    NewtonExit m.abs (SKFilter.newtonStep fm res sK) sK.p1
      (SKFilter.trapSolve m fm res sK) ∧
    NewtonExit m.abs (SVFilter.trapStep fm fbV dt2 inputV sV) sV.bp
      (SVFilter.trapNewton m fm fbV dt2 inputV sV) ∧
    NewtonExit m.abs (SVFilter.invStep m fm fbV dt2 inputV sV) (m.sinh sV.bp)
      (SVFilter.invNewton m fm fbV dt2 inputV sV) := by
  rw [ladder_trapUt2_loop, sk_trapSolve_loop, svf_trapNewton_loop, svf_invNewton_loop]
  exact ⟨newtonRaphson_exit _ _ _, newtonRaphson_exit _ _ _, newtonRaphson_exit _ _ _,
    newtonRaphson_exit _ _ _⟩

namespace Ladder
variable {F : Type} [LinearOrderedField F]

theorem ladder_integrate_pc_full (m : LibM F) (fm : FastMath F) (fb input : F) (t : Ladder F)
    (hm : t.integrationMethod = LadderIntegrationMethod.LADDER_PREDICTOR_CORRECTOR_FULL_TANH) :
    integrate m fm fb input t = pcStepWith fm.TanhPade32 fm.TanhPade32 fb input t := by
  obtain ⟨cf, r, ov, fmode, sr, dt, meth, p0, p1, p2, p3, u, out, iir⟩ := t
  simp only [] at hm
  subst hm
  rfl

theorem ladder_integrate_pc_feedback (m : LibM F) (fm : FastMath F) (fb input : F) (s : Ladder F)
    (hm : s.integrationMethod =
      LadderIntegrationMethod.LADDER_PREDICTOR_CORRECTOR_FEEDBACK_TANH) :
    integrate m fm fb input s = pcStepWith fm.TanhPade32 (fun x => x) fb input s := by
  obtain ⟨cf, r, ov, fmode, sr, dt, meth, p0, p1, p2, p3, u, out, iir⟩ := s
  simp only [] at hm
  subst hm
  rfl

/-- C30. Ladder predictor-corrector with feedback-only saturation.  For every state, input, `dt`
and `fb`, the `LADDER_PREDICTOR_CORRECTOR_FEEDBACK_TANH` step is the
`LADDER_PREDICTOR_CORRECTOR_FULL_TANH` step in which every saturation of a pole value or
predicted pole value is replaced by the identity, the saturation of the feedback node
(`ut_1 − fb·p3` and `input − fb·p3`) being kept.  Consequently the new poles 2 and 3 are linear in
the old poles: `p_k_new = p_k + dt·(p_{k−1} − p_k) + (dt²/2)·(p_{k−2} − 2·p_{k−1} + p_k)` for
`k = 2, 3`. -/
theorem C30_ladder_feedback_only_saturation (m : LibM F) (fm : FastMath F) (fb input : F)
    (s : Ladder F)
    (hm : s.integrationMethod =
      LadderIntegrationMethod.LADDER_PREDICTOR_CORRECTOR_FEEDBACK_TANH) :
    (∀ t : Ladder F,
      t.integrationMethod = LadderIntegrationMethod.LADDER_PREDICTOR_CORRECTOR_FULL_TANH →
        integrate m fm fb input t = pcStepWith fm.TanhPade32 fm.TanhPade32 fb input t) ∧
    integrate m fm fb input s = pcStepWith fm.TanhPade32 (fun x => x) fb input s ∧
    (integrate m fm fb input s).p2 =
      s.p2 + s.dt * (s.p1 - s.p2) + s.dt ^ 2 / 2 * (s.p0 - 2 * s.p1 + s.p2) ∧
    (integrate m fm fb input s).p3 =
      s.p3 + s.dt * (s.p2 - s.p3) + s.dt ^ 2 / 2 * (s.p1 - 2 * s.p2 + s.p3) := by
  refine ⟨fun t ht => ladder_integrate_pc_full m fm fb input t ht,
    ladder_integrate_pc_feedback m fm fb input s hm, ?_, ?_⟩
  · rw [ladder_integrate_pc_feedback m fm fb input s hm]
    have half : (0.5 : F) = 1 / 2 := by norm_num
    simp only [pcStepWith, half]
    ring
  · rw [ladder_integrate_pc_feedback m fm fb input s hm]
    have half : (0.5 : F) = 1 / 2 := by norm_num
    simp only [pcStepWith, half]
    ring

theorem C30_ladder_feedback_only_saturation_witness :
    (integrate sampleLibM sampleFastMath 1 1
        (sampleLadder LadderIntegrationMethod.LADDER_PREDICTOR_CORRECTOR_FEEDBACK_TANH)).p3 =
      (sampleLadder LadderIntegrationMethod.LADDER_PREDICTOR_CORRECTOR_FEEDBACK_TANH).p3 +
        (sampleLadder LadderIntegrationMethod.LADDER_PREDICTOR_CORRECTOR_FEEDBACK_TANH).dt *
          ((sampleLadder LadderIntegrationMethod.LADDER_PREDICTOR_CORRECTOR_FEEDBACK_TANH).p2 -
            (sampleLadder LadderIntegrationMethod.LADDER_PREDICTOR_CORRECTOR_FEEDBACK_TANH).p3) +
        (sampleLadder LadderIntegrationMethod.LADDER_PREDICTOR_CORRECTOR_FEEDBACK_TANH).dt ^ 2 / 2 *
          ((sampleLadder LadderIntegrationMethod.LADDER_PREDICTOR_CORRECTOR_FEEDBACK_TANH).p1 -
            2 * (sampleLadder LadderIntegrationMethod.LADDER_PREDICTOR_CORRECTOR_FEEDBACK_TANH).p2
            + (sampleLadder LadderIntegrationMethod.LADDER_PREDICTOR_CORRECTOR_FEEDBACK_TANH).p3) :=
  (C30_ladder_feedback_only_saturation sampleLibM sampleFastMath 1 1
    (sampleLadder LadderIntegrationMethod.LADDER_PREDICTOR_CORRECTOR_FEEDBACK_TANH) rfl).2.2.2

end Ladder

namespace SKFilter
variable {F : Type} [LinearOrderedField F]

/-- C27. Sallen-Key previous-input delay.  For every mode, oversampling factor, state and
input `x`: after `filter(x)` the values `input_lp_t1`, `input_bp_t1`, `input_hp_t1` equal the
routed inputs `input_lp`, `input_bp`, `input_hp` of that call; and before every oversampled
sub-tick of the call (after any number `k` of sub-ticks) the previous-tick values are still those
the engine held when the call started, while the routed inputs are those of the call. -/
theorem C27_sk_previous_input_delay (m : LibM F) (fm : FastMath F) (RAND_MAX rnd : Nat)
    (input : F) (s : SKFilter F) :
    ((filter m fm RAND_MAX rnd input s).input_lp_t1 =
        (route (input + ditherNoise RAND_MAX rnd) s).input_lp ∧
      (filter m fm RAND_MAX rnd input s).input_bp_t1 =
        (route (input + ditherNoise RAND_MAX rnd) s).input_bp ∧
      (filter m fm RAND_MAX rnd input s).input_hp_t1 =
        (route (input + ditherNoise RAND_MAX rnd) s).input_hp) ∧
    ((filter m fm RAND_MAX rnd input s).input_lp_t1 =
        (filter m fm RAND_MAX rnd input s).input_lp ∧
      (filter m fm RAND_MAX rnd input s).input_bp_t1 =
        (filter m fm RAND_MAX rnd input s).input_bp ∧
      (filter m fm RAND_MAX rnd input s).input_hp_t1 =
        (filter m fm RAND_MAX rnd input s).input_hp) ∧
    ∀ k : Nat,
      ((forLoop (tick m fm (4 * s.Resonance)) k
          (route (input + ditherNoise RAND_MAX rnd) s)).input_lp_t1 = s.input_lp_t1 ∧
        (forLoop (tick m fm (4 * s.Resonance)) k
          (route (input + ditherNoise RAND_MAX rnd) s)).input_bp_t1 = s.input_bp_t1 ∧
        (forLoop (tick m fm (4 * s.Resonance)) k
          (route (input + ditherNoise RAND_MAX rnd) s)).input_hp_t1 = s.input_hp_t1) ∧
      ((forLoop (tick m fm (4 * s.Resonance)) k
          (route (input + ditherNoise RAND_MAX rnd) s)).input_lp =
            (route (input + ditherNoise RAND_MAX rnd) s).input_lp ∧
        (forLoop (tick m fm (4 * s.Resonance)) k
          (route (input + ditherNoise RAND_MAX rnd) s)).input_bp =
            (route (input + ditherNoise RAND_MAX rnd) s).input_bp ∧
        (forLoop (tick m fm (4 * s.Resonance)) k
          (route (input + ditherNoise RAND_MAX rnd) s)).input_hp =
            (route (input + ditherNoise RAND_MAX rnd) s).input_hp) := by
  have hloop := fun k => sk_tickLoop_frame m fm (4 * s.Resonance) k
    (route (input + ditherNoise RAND_MAX rnd) s)
  have hroute : (route (input + ditherNoise RAND_MAX rnd) s).input_lp_t1 = s.input_lp_t1 ∧
      (route (input + ditherNoise RAND_MAX rnd) s).input_bp_t1 = s.input_bp_t1 ∧
      (route (input + ditherNoise RAND_MAX rnd) s).input_hp_t1 = s.input_hp_t1 := by
    unfold route
    cases s.filterMode <;> exact ⟨rfl, rfl, rfl⟩
  obtain ⟨-, -, -, -, -, -, -, a8, a9, a10, -, -, -⟩ :=
    hloop (route (input + ditherNoise RAND_MAX rnd) s).oversamplingFactor.toNat
  refine ⟨?_, ?_, ?_⟩
  · exact ⟨a8, a9, a10⟩
  · exact ⟨rfl, rfl, rfl⟩
  · intro k
    obtain ⟨-, -, -, -, -, -, -, b8, b9, b10, b11, b12, b13⟩ := hloop k
    exact ⟨⟨b11.trans hroute.1, b12.trans hroute.2.1, b13.trans hroute.2.2⟩, b8, b9, b10⟩

end SKFilter

namespace IIRLowpass
variable {F : Type} [Field F]

theorem reconfigure_params (m : LibM F) (r c : F) (i : IIRLowpass F) :
    (SetFilterCutoff m c (SetFilterSamplerate m r i)).samplerate = r ∧
    (SetFilterCutoff m c (SetFilterSamplerate m r i)).cutoff = c ∧
    (SetFilterCutoff m c (SetFilterSamplerate m r i)).order = i.order := by
  obtain ⟨a1, a2, a3⟩ := redesign_params m ({ i with samplerate := r } : IIRLowpass F)
  obtain ⟨b1, b2, b3⟩ :=
    redesign_params m ({ SetFilterSamplerate m r i with cutoff := c } : IIRLowpass F)
  exact ⟨b1.trans a1, b2, b3.trans a3⟩

theorem reconfigure_z (m : LibM F) (r c : F) (i : IIRLowpass F) (hs : Sized i) (j : Nat)
    (hj : j < i.order / 2 * 2) :
    (SetFilterCutoff m c (SetFilterSamplerate m r i)).z.getD j 0 = 0 := by
  have h1 : Sized (SetFilterSamplerate m r i) := SetFilterSamplerate_sized m r i hs
  have ho : (SetFilterSamplerate m r i).order = i.order :=
    (redesign_params m ({ i with samplerate := r } : IIRLowpass F)).2.2
  have h2 : Sized ({ SetFilterSamplerate m r i with cutoff := c } : IIRLowpass F) := h1
  exact redesign_z m ({ SetFilterSamplerate m r i with cutoff := c } : IIRLowpass F) h2 j
    (by rw [← ho] at hj; exact hj)

theorem reconfigure_reachable (m : LibM F) (r c : F) (i : IIRLowpass F) (h : Reachable m i) :
    Reachable m (SetFilterCutoff m c (SetFilterSamplerate m r i)) :=
  Reachable.setCutoff c _ (Reachable.setSamplerate r i h)

end IIRLowpass

namespace Ladder
variable {F : Type} [LinearOrderedField F]

theorem ladder_SetFilterIntegrationRate_rest (s : Ladder F) :
    (SetFilterIntegrationRate s).Resonance = s.Resonance ∧
    (SetFilterIntegrationRate s).filterMode = s.filterMode ∧
    (SetFilterIntegrationRate s).integrationMethod = s.integrationMethod ∧
    (SetFilterIntegrationRate s).p0 = s.p0 ∧ (SetFilterIntegrationRate s).p1 = s.p1 ∧
    (SetFilterIntegrationRate s).p2 = s.p2 ∧ (SetFilterIntegrationRate s).p3 = s.p3 ∧
    (SetFilterIntegrationRate s).ut_1 = s.ut_1 ∧ (SetFilterIntegrationRate s).out = s.out ∧
    (SetFilterIntegrationRate s).iir = s.iir := by
  unfold SetFilterIntegrationRate
  dsimp only
  split_ifs <;> simp

theorem ladder_reset_params (m : LibM F) (s : Ladder F) :
    (ResetFilterState m s).cutoffFrequency = 0.25 ∧ (ResetFilterState m s).Resonance = 0 ∧
    (ResetFilterState m s).oversamplingFactor = s.oversamplingFactor ∧
    (ResetFilterState m s).filterMode = s.filterMode ∧
    (ResetFilterState m s).sampleRate = s.sampleRate ∧
    (ResetFilterState m s).integrationMethod = s.integrationMethod := by
  obtain ⟨a1, a2, a3⟩ :=
    ladder_SetFilterIntegrationRate_frame ({ s with cutoffFrequency := 0.25, Resonance := 0 })
  obtain ⟨b1, b2, b3, -⟩ :=
    ladder_SetFilterIntegrationRate_rest ({ s with cutoffFrequency := 0.25, Resonance := 0 })
  exact ⟨a1, b1, a3, b2, a2, b3⟩

theorem ladder_reset_iir (m : LibM F) (s : Ladder F) :
    (ResetFilterState m s).iir =
      IIRLowpass.SetFilterCutoff m (IIR_DOWNSAMPLING_BANDWIDTH * s.sampleRate / 2)
        (IIRLowpass.SetFilterSamplerate m (s.sampleRate * (s.oversamplingFactor : F)) s.iir) := by
  obtain ⟨-, a2, a3⟩ :=
    ladder_SetFilterIntegrationRate_frame ({ s with cutoffFrequency := 0.25, Resonance := 0 })
  have b := (ladder_SetFilterIntegrationRate_rest
    ({ s with cutoffFrequency := 0.25, Resonance := 0 })).2.2.2.2.2.2.2.2.2
  show IIRLowpass.SetFilterCutoff m (IIR_DOWNSAMPLING_BANDWIDTH *
      (SetFilterIntegrationRate { s with cutoffFrequency := 0.25, Resonance := 0 }).sampleRate / 2)
    (IIRLowpass.SetFilterSamplerate m
      ((SetFilterIntegrationRate { s with cutoffFrequency := 0.25, Resonance := 0 }).sampleRate *
        ((SetFilterIntegrationRate
          { s with cutoffFrequency := 0.25, Resonance := 0 }).oversamplingFactor : F))
      (SetFilterIntegrationRate { s with cutoffFrequency := 0.25, Resonance := 0 }).iir) = _
  rw [a2, a3, b]

theorem ladder_newDefault_params (m : LibM F) (junk : Nat → Nat → F) :
    (newDefault m junk).cutoffFrequency = 0.25 ∧ (newDefault m junk).Resonance = 0.5 ∧
    (newDefault m junk).oversamplingFactor = 2 ∧
    (newDefault m junk).filterMode = LadderFilterMode.LADDER_LOWPASS_MODE ∧
    (newDefault m junk).sampleRate = 44100 ∧
    (newDefault m junk).integrationMethod =
      LadderIntegrationMethod.LADDER_PREDICTOR_CORRECTOR_FULL_TANH := by
  unfold newDefault new
  obtain ⟨a1, a2, a3⟩ := ladder_SetFilterIntegrationRate_frame
    ({ cutoffFrequency := 0.25, Resonance := 0.5, oversamplingFactor := 2,
       filterMode := LadderFilterMode.LADDER_LOWPASS_MODE, sampleRate := 44100, dt := 0,
       integrationMethod := LadderIntegrationMethod.LADDER_PREDICTOR_CORRECTOR_FULL_TANH,
       p0 := 0, p1 := 0, p2 := 0, p3 := 0, ut_1 := 0, out := 0,
       iir := IIRLowpass.new m junk (44100 * ((2 : Int) : F))
         (IIR_DOWNSAMPLING_BANDWIDTH * 44100 / 2) IIR_DOWNSAMPLE_ORDER } : Ladder F)
  obtain ⟨b1, b2, b3, -⟩ := ladder_SetFilterIntegrationRate_rest
    ({ cutoffFrequency := 0.25, Resonance := 0.5, oversamplingFactor := 2,
       filterMode := LadderFilterMode.LADDER_LOWPASS_MODE, sampleRate := 44100, dt := 0,
       integrationMethod := LadderIntegrationMethod.LADDER_PREDICTOR_CORRECTOR_FULL_TANH,
       p0 := 0, p1 := 0, p2 := 0, p3 := 0, ut_1 := 0, out := 0,
       iir := IIRLowpass.new m junk (44100 * ((2 : Int) : F))
         (IIR_DOWNSAMPLING_BANDWIDTH * 44100 / 2) IIR_DOWNSAMPLE_ORDER } : Ladder F)
  exact ⟨a1, b1, a3, b2, a2, b3⟩

end Ladder

namespace SKFilter
variable {F : Type} [LinearOrderedField F]

theorem sk_SetFilterIntegrationRate_rest (s : SKFilter F) :
    (SetFilterIntegrationRate s).Resonance = s.Resonance ∧
    (SetFilterIntegrationRate s).filterMode = s.filterMode ∧
    (SetFilterIntegrationRate s).integrationMethod = s.integrationMethod ∧
    (SetFilterIntegrationRate s).p0 = s.p0 ∧ (SetFilterIntegrationRate s).p1 = s.p1 ∧
    (SetFilterIntegrationRate s).input_lp = s.input_lp ∧
    (SetFilterIntegrationRate s).input_bp = s.input_bp ∧
    (SetFilterIntegrationRate s).input_hp = s.input_hp ∧
    (SetFilterIntegrationRate s).input_lp_t1 = s.input_lp_t1 ∧
    (SetFilterIntegrationRate s).input_bp_t1 = s.input_bp_t1 ∧
    (SetFilterIntegrationRate s).input_hp_t1 = s.input_hp_t1 ∧
    (SetFilterIntegrationRate s).out = s.out ∧
    (SetFilterIntegrationRate s).iir = s.iir := by
  unfold SetFilterIntegrationRate
  dsimp only
  split_ifs <;> simp

theorem sk_reset_params (m : LibM F) (s : SKFilter F) :
    (ResetFilterState m s).cutoffFrequency = 0.25 ∧ (ResetFilterState m s).Resonance = 0.5 ∧
    (ResetFilterState m s).oversamplingFactor = s.oversamplingFactor ∧
    (ResetFilterState m s).filterMode = s.filterMode ∧
    (ResetFilterState m s).sampleRate = s.sampleRate ∧
    (ResetFilterState m s).integrationMethod = s.integrationMethod := by
  obtain ⟨a1, a2, a3⟩ :=
    sk_SetFilterIntegrationRate_frame ({ s with cutoffFrequency := 0.25, Resonance := 0.5 })
  obtain ⟨b1, b2, b3, -⟩ :=
    sk_SetFilterIntegrationRate_rest ({ s with cutoffFrequency := 0.25, Resonance := 0.5 })
  exact ⟨a1, b1, a3, b2, a2, b3⟩

theorem sk_reset_iir (m : LibM F) (s : SKFilter F) :
    (ResetFilterState m s).iir =
      IIRLowpass.SetFilterCutoff m (IIR_DOWNSAMPLING_BANDWIDTH * s.sampleRate / 2)
        (IIRLowpass.SetFilterSamplerate m (s.sampleRate * (s.oversamplingFactor : F)) s.iir) := by
  obtain ⟨-, a2, a3⟩ :=
    sk_SetFilterIntegrationRate_frame ({ s with cutoffFrequency := 0.25, Resonance := 0.5 })
  have b := (sk_SetFilterIntegrationRate_rest
    ({ s with cutoffFrequency := 0.25, Resonance := 0.5 })).2.2.2.2.2.2.2.2.2.2.2.2
  show IIRLowpass.SetFilterCutoff m (IIR_DOWNSAMPLING_BANDWIDTH *
      (SetFilterIntegrationRate { s with cutoffFrequency := 0.25, Resonance := 0.5 }).sampleRate
        / 2)
    (IIRLowpass.SetFilterSamplerate m
      ((SetFilterIntegrationRate { s with cutoffFrequency := 0.25, Resonance := 0.5 }).sampleRate *
        ((SetFilterIntegrationRate
          { s with cutoffFrequency := 0.25, Resonance := 0.5 }).oversamplingFactor : F))
      (SetFilterIntegrationRate { s with cutoffFrequency := 0.25, Resonance := 0.5 }).iir) = _
  rw [a2, a3, b]

theorem sk_newDefault_params (m : LibM F) (junk : Nat → Nat → F) :
    (newDefault m junk).cutoffFrequency = 0.25 ∧ (newDefault m junk).Resonance = 0.5 ∧
    (newDefault m junk).oversamplingFactor = 2 ∧
    (newDefault m junk).filterMode = SKFilterMode.SK_LOWPASS_MODE ∧
    (newDefault m junk).sampleRate = 44100 ∧
    (newDefault m junk).integrationMethod = SKIntegrationMethod.SK_TRAPEZOIDAL := by
  unfold newDefault new
  obtain ⟨a1, a2, a3⟩ := sk_SetFilterIntegrationRate_frame
    ({ cutoffFrequency := 0.25, Resonance := 0.5, oversamplingFactor := 2,
       filterMode := SKFilterMode.SK_LOWPASS_MODE, sampleRate := 44100, dt := 0,
       integrationMethod := SKIntegrationMethod.SK_TRAPEZOIDAL,
       p0 := 0, p1 := 0, out := 0, input_lp := 0, input_bp := 0, input_hp := 0,
       input_lp_t1 := 0, input_bp_t1 := 0, input_hp_t1 := 0,
       iir := IIRLowpass.new m junk (44100 * ((2 : Int) : F))
         (IIR_DOWNSAMPLING_BANDWIDTH * 44100 / 2) IIR_DOWNSAMPLE_ORDER } : SKFilter F)
  obtain ⟨b1, b2, b3, -⟩ := sk_SetFilterIntegrationRate_rest
    ({ cutoffFrequency := 0.25, Resonance := 0.5, oversamplingFactor := 2,
       filterMode := SKFilterMode.SK_LOWPASS_MODE, sampleRate := 44100, dt := 0,
       integrationMethod := SKIntegrationMethod.SK_TRAPEZOIDAL,
       p0 := 0, p1 := 0, out := 0, input_lp := 0, input_bp := 0, input_hp := 0,
       input_lp_t1 := 0, input_bp_t1 := 0, input_hp_t1 := 0,
       iir := IIRLowpass.new m junk (44100 * ((2 : Int) : F))
         (IIR_DOWNSAMPLING_BANDWIDTH * 44100 / 2) IIR_DOWNSAMPLE_ORDER } : SKFilter F)
  exact ⟨a1, b1, a3, b2, a2, b3⟩

end SKFilter

namespace SVFilter
variable {F : Type} [LinearOrderedField F]

theorem svf_SetFilterIntegrationRate_rest (s : SVFilter F) :
    (SetFilterIntegrationRate s).Resonance = s.Resonance ∧
    (SetFilterIntegrationRate s).filterMode = s.filterMode ∧
    (SetFilterIntegrationRate s).integrationMethod = s.integrationMethod ∧
    (SetFilterIntegrationRate s).lp = s.lp ∧ (SetFilterIntegrationRate s).bp = s.bp ∧
    (SetFilterIntegrationRate s).hp = s.hp ∧ (SetFilterIntegrationRate s).u_t1 = s.u_t1 ∧
    (SetFilterIntegrationRate s).out = s.out ∧
    (SetFilterIntegrationRate s).iir = s.iir := by
  unfold SetFilterIntegrationRate
  dsimp only
  split_ifs <;> simp

theorem svf_reset_params (m : LibM F) (s : SVFilter F) :
    (ResetFilterState m s).cutoffFrequency = 0.25 ∧ (ResetFilterState m s).Resonance = 0.5 ∧
    (ResetFilterState m s).oversamplingFactor = s.oversamplingFactor ∧
    (ResetFilterState m s).filterMode = s.filterMode ∧
    (ResetFilterState m s).sampleRate = s.sampleRate ∧
    (ResetFilterState m s).integrationMethod = s.integrationMethod := by
  obtain ⟨a1, a2, a3, -⟩ :=
    svf_SetFilterIntegrationRate_frame ({ s with cutoffFrequency := 0.25, Resonance := 0.5 })
  obtain ⟨b1, b2, b3, -⟩ :=
    svf_SetFilterIntegrationRate_rest ({ s with cutoffFrequency := 0.25, Resonance := 0.5 })
  exact ⟨a1, b1, a3, b2, a2, b3⟩

theorem svf_reset_iir (m : LibM F) (s : SVFilter F) :
    (ResetFilterState m s).iir =
      IIRLowpass.SetFilterCutoff m (IIR_DOWNSAMPLING_BANDWIDTH * s.sampleRate / 2)
        (IIRLowpass.SetFilterSamplerate m (s.sampleRate * (s.oversamplingFactor : F)) s.iir) := by
  obtain ⟨-, a2, a3, -⟩ :=
    svf_SetFilterIntegrationRate_frame ({ s with cutoffFrequency := 0.25, Resonance := 0.5 })
  have b := (svf_SetFilterIntegrationRate_rest
    ({ s with cutoffFrequency := 0.25, Resonance := 0.5 })).2.2.2.2.2.2.2.2
  show IIRLowpass.SetFilterCutoff m (IIR_DOWNSAMPLING_BANDWIDTH *
      (SetFilterIntegrationRate { s with cutoffFrequency := 0.25, Resonance := 0.5 }).sampleRate
        / 2)
    (IIRLowpass.SetFilterSamplerate m
      ((SetFilterIntegrationRate { s with cutoffFrequency := 0.25, Resonance := 0.5 }).sampleRate *
        ((SetFilterIntegrationRate
          { s with cutoffFrequency := 0.25, Resonance := 0.5 }).oversamplingFactor : F))
      (SetFilterIntegrationRate { s with cutoffFrequency := 0.25, Resonance := 0.5 }).iir) = _
  rw [a2, a3, b]

theorem svf_newDefault_params (m : LibM F) (junk : Nat → Nat → F) :
    (newDefault m junk).cutoffFrequency = 0.25 ∧ (newDefault m junk).Resonance = 0.5 ∧
    (newDefault m junk).oversamplingFactor = 2 ∧
    (newDefault m junk).filterMode = SVFFilterMode.SVF_LOWPASS_MODE ∧
    (newDefault m junk).sampleRate = 44100 ∧
    (newDefault m junk).integrationMethod = SVFIntegrationMethod.SVF_TRAPEZOIDAL := by
  unfold newDefault new
  obtain ⟨a1, a2, a3, -⟩ := svf_SetFilterIntegrationRate_frame
    ({ cutoffFrequency := 0.25, Resonance := 0.5, oversamplingFactor := 2,
       filterMode := SVFFilterMode.SVF_LOWPASS_MODE, sampleRate := 44100, dt := 0,
       integrationMethod := SVFIntegrationMethod.SVF_TRAPEZOIDAL,
       hp := 0, bp := 0, lp := 0, out := 0, u_t1 := 0,
       iir := IIRLowpass.new m junk (44100 * ((2 : Int) : F))
         (IIR_DOWNSAMPLING_BANDWIDTH * 44100 / 2) IIR_DOWNSAMPLE_ORDER } : SVFilter F)
  obtain ⟨b1, b2, b3, -⟩ := svf_SetFilterIntegrationRate_rest
    ({ cutoffFrequency := 0.25, Resonance := 0.5, oversamplingFactor := 2,
       filterMode := SVFFilterMode.SVF_LOWPASS_MODE, sampleRate := 44100, dt := 0,
       integrationMethod := SVFIntegrationMethod.SVF_TRAPEZOIDAL,
       hp := 0, bp := 0, lp := 0, out := 0, u_t1 := 0,
       iir := IIRLowpass.new m junk (44100 * ((2 : Int) : F))
         (IIR_DOWNSAMPLING_BANDWIDTH * 44100 / 2) IIR_DOWNSAMPLE_ORDER } : SVFilter F)
  exact ⟨a1, b1, a3, b2, a2, b3⟩

end SVFilter

/-- C22. Reset zeroes the dynamic state.  Whatever the state before (the buffers of the owned
anti-alias engine having their allocated sizes), after `ResetFilterState` a `Ladder` has
`p0 = p1 = p2 = p3 = ut_1 = out = 0`, an `SKFilter` has `p0 = p1 = out = 0`, its three routed
inputs and their three previous-tick copies equal to 0, an `SVFilter` has
`lp = bp = hp = u_t1 = out = 0`, and every live delay value of the owned anti-alias engine
(index below `2·(order/2)`) is 0. -/
theorem C22_reset_zeroes_state {F : Type} [LinearOrderedField F] (m : LibM F)
    (sL : Ladder F) (sK : SKFilter F) (sV : SVFilter F)
    (hL : IIRLowpass.Sized sL.iir) (hK : IIRLowpass.Sized sK.iir)
    (hV : IIRLowpass.Sized sV.iir) :
    ((Ladder.ResetFilterState m sL).p0 = 0 ∧ (Ladder.ResetFilterState m sL).p1 = 0 ∧
      (Ladder.ResetFilterState m sL).p2 = 0 ∧ (Ladder.ResetFilterState m sL).p3 = 0 ∧
      (Ladder.ResetFilterState m sL).ut_1 = 0 ∧ (Ladder.ResetFilterState m sL).out = 0 ∧
      (Ladder.ResetFilterState m sL).iir.order = sL.iir.order ∧
      ∀ j, j < (Ladder.ResetFilterState m sL).iir.order / 2 * 2 →
        (Ladder.ResetFilterState m sL).iir.z.getD j 0 = 0) ∧
    ((SKFilter.ResetFilterState m sK).p0 = 0 ∧ (SKFilter.ResetFilterState m sK).p1 = 0 ∧
      (SKFilter.ResetFilterState m sK).out = 0 ∧
      (SKFilter.ResetFilterState m sK).input_lp = 0 ∧
      (SKFilter.ResetFilterState m sK).input_bp = 0 ∧
      (SKFilter.ResetFilterState m sK).input_hp = 0 ∧
      (SKFilter.ResetFilterState m sK).input_lp_t1 = 0 ∧
      (SKFilter.ResetFilterState m sK).input_bp_t1 = 0 ∧
      (SKFilter.ResetFilterState m sK).input_hp_t1 = 0 ∧
      (SKFilter.ResetFilterState m sK).iir.order = sK.iir.order ∧
      ∀ j, j < (SKFilter.ResetFilterState m sK).iir.order / 2 * 2 →
        (SKFilter.ResetFilterState m sK).iir.z.getD j 0 = 0) ∧
    ((SVFilter.ResetFilterState m sV).lp = 0 ∧ (SVFilter.ResetFilterState m sV).bp = 0 ∧
      (SVFilter.ResetFilterState m sV).hp = 0 ∧ (SVFilter.ResetFilterState m sV).u_t1 = 0 ∧
      (SVFilter.ResetFilterState m sV).out = 0 ∧
      (SVFilter.ResetFilterState m sV).iir.order = sV.iir.order ∧
      ∀ j, j < (SVFilter.ResetFilterState m sV).iir.order / 2 * 2 →
        (SVFilter.ResetFilterState m sV).iir.z.getD j 0 = 0) := by
  have oL := (IIRLowpass.reconfigure_params m (sL.sampleRate * (sL.oversamplingFactor : F))
    (Ladder.IIR_DOWNSAMPLING_BANDWIDTH * sL.sampleRate / 2) sL.iir).2.2
  have oK := (IIRLowpass.reconfigure_params m (sK.sampleRate * (sK.oversamplingFactor : F))
    (SKFilter.IIR_DOWNSAMPLING_BANDWIDTH * sK.sampleRate / 2) sK.iir).2.2
  have oV := (IIRLowpass.reconfigure_params m (sV.sampleRate * (sV.oversamplingFactor : F))
    (SVFilter.IIR_DOWNSAMPLING_BANDWIDTH * sV.sampleRate / 2) sV.iir).2.2
  refine ⟨⟨rfl, rfl, rfl, rfl, rfl, rfl, ?_, ?_⟩,
    ⟨rfl, rfl, rfl, rfl, rfl, rfl, rfl, rfl, rfl, ?_, ?_⟩, ⟨rfl, rfl, rfl, rfl, rfl, ?_, ?_⟩⟩
  · rw [Ladder.ladder_reset_iir]; exact oL
  · rw [Ladder.ladder_reset_iir, oL]
    intro j hj
    exact IIRLowpass.reconfigure_z m _ _ sL.iir hL j hj
  · rw [SKFilter.sk_reset_iir]; exact oK
  · rw [SKFilter.sk_reset_iir, oK]
    intro j hj
    exact IIRLowpass.reconfigure_z m _ _ sK.iir hK j hj
  · rw [SVFilter.svf_reset_iir]; exact oV
  · rw [SVFilter.svf_reset_iir, oV]
    intro j hj
    exact IIRLowpass.reconfigure_z m _ _ sV.iir hV j hj

theorem C22_reset_zeroes_state_witness :
    (Ladder.ResetFilterState sampleLibM
        (sampleLadder LadderIntegrationMethod.LADDER_EULER_FULL_TANH)).p3 = 0 ∧
    (SKFilter.ResetFilterState sampleLibM
        (sampleSK SKFilterMode.SK_LOWPASS_MODE SKIntegrationMethod.SK_TRAPEZOIDAL)).input_lp = 0 ∧
    (SVFilter.ResetFilterState sampleLibM
        (sampleSVFState SVFIntegrationMethod.SVF_TRAPEZOIDAL)).iir.z.getD 7 0 = 0 :=
  have h := C22_reset_zeroes_state sampleLibM
    (sampleLadder LadderIntegrationMethod.LADDER_EULER_FULL_TANH)
    (sampleSK SKFilterMode.SK_LOWPASS_MODE SKIntegrationMethod.SK_TRAPEZOIDAL)
    (sampleSVFState SVFIntegrationMethod.SVF_TRAPEZOIDAL)
    (by decide) (by decide) (by decide)
  ⟨h.1.2.2.2.1, h.2.1.2.2.2.1, h.2.2.2.2.2.2.2.2 7 (by rw [h.2.2.2.2.2.2.2.1]; decide)⟩

/-- C23 (counterexample). `ResetFilterState` on a state-variable engine constructed with
oversampling factor 4, band-pass mode, sample rate 48000 and the Euler scheme leaves these four
parameters as they were, so their getters do not return the values of a default-constructed
engine (2, low-pass, 44100, trapezoidal); and on a default-constructed ladder the resonance
getter returns 0 after the reset, not the 0.5 of the default constructor. -/
theorem C23_reset_restores_defaults_counterexample :
    SVFilter.GetFilterOversamplingFactor (SVFilter.ResetFilterState sampleLibM sampleSVFCustom) ≠
      SVFilter.GetFilterOversamplingFactor (SVFilter.newDefault sampleLibM (fun _ _ => 0)) ∧
    SVFilter.GetFilterMode (SVFilter.ResetFilterState sampleLibM sampleSVFCustom) ≠
      SVFilter.GetFilterMode (SVFilter.newDefault sampleLibM (fun _ _ => 0)) ∧
    SVFilter.GetFilterSampleRate (SVFilter.ResetFilterState sampleLibM sampleSVFCustom) ≠
      SVFilter.GetFilterSampleRate (SVFilter.newDefault sampleLibM (fun _ _ => 0)) ∧
    SVFilter.GetFilterIntegrationMethod (SVFilter.ResetFilterState sampleLibM sampleSVFCustom) ≠
      SVFilter.GetFilterIntegrationMethod (SVFilter.newDefault sampleLibM (fun _ _ => 0)) ∧
    Ladder.GetFilterResonance
        (Ladder.ResetFilterState sampleLibM (Ladder.newDefault sampleLibM (fun _ _ => 0))) ≠
      Ladder.GetFilterResonance (Ladder.newDefault sampleLibM (fun _ _ => 0)) := by
  obtain ⟨-, -, r3, r4, r5, r6⟩ := SVFilter.svf_reset_params sampleLibM sampleSVFCustom
  obtain ⟨-, -, d3, d4, d5, d6⟩ := SVFilter.svf_newDefault_params sampleLibM (fun _ _ => 0)
  obtain ⟨c1, c2, c3, -⟩ := SVFilter.svf_SetFilterIntegrationRate_frame
    ({ cutoffFrequency := 1 / 2, Resonance := 3 / 10, oversamplingFactor := 4,
       filterMode := SVFFilterMode.SVF_BANDPASS_MODE, sampleRate := 48000, dt := 0,
       integrationMethod := SVFIntegrationMethod.SVF_SEMI_IMPLICIT_EULER,
       hp := 0, bp := 0, lp := 0, out := 0, u_t1 := 0,
       iir := IIRLowpass.new sampleLibM (fun _ _ => 0) (48000 * ((4 : Int) : ℚ))
         (SVFilter.IIR_DOWNSAMPLING_BANDWIDTH * 48000 / 2) SVFilter.IIR_DOWNSAMPLE_ORDER }
      : SVFilter ℚ)
  obtain ⟨-, e2, e3, -⟩ := SVFilter.svf_SetFilterIntegrationRate_rest
    ({ cutoffFrequency := 1 / 2, Resonance := 3 / 10, oversamplingFactor := 4,
       filterMode := SVFFilterMode.SVF_BANDPASS_MODE, sampleRate := 48000, dt := 0,
       integrationMethod := SVFIntegrationMethod.SVF_SEMI_IMPLICIT_EULER,
       hp := 0, bp := 0, lp := 0, out := 0, u_t1 := 0,
       iir := IIRLowpass.new sampleLibM (fun _ _ => 0) (48000 * ((4 : Int) : ℚ))
         (SVFilter.IIR_DOWNSAMPLING_BANDWIDTH * 48000 / 2) SVFilter.IIR_DOWNSAMPLE_ORDER }
      : SVFilter ℚ)
  have k3 : sampleSVFCustom.oversamplingFactor = 4 := c3
  have k4 : sampleSVFCustom.filterMode = SVFFilterMode.SVF_BANDPASS_MODE := e2
  have k5 : sampleSVFCustom.sampleRate = 48000 := c2
  have k6 : sampleSVFCustom.integrationMethod = SVFIntegrationMethod.SVF_SEMI_IMPLICIT_EULER := e3
  obtain ⟨-, l2, -⟩ := Ladder.ladder_reset_params sampleLibM
    (Ladder.newDefault sampleLibM (fun _ _ => 0))
  obtain ⟨-, n2, -⟩ := Ladder.ladder_newDefault_params sampleLibM (fun _ _ => 0)
  unfold SVFilter.GetFilterOversamplingFactor SVFilter.GetFilterMode SVFilter.GetFilterSampleRate
    SVFilter.GetFilterIntegrationMethod Ladder.GetFilterResonance
  rw [r3, r4, r5, r6, d3, d4, d5, d6, k3, k4, k5, k6, l2, n2]
  refine ⟨by decide, by decide, by norm_num, by decide, by norm_num⟩

/-- C23 (amended). After `ResetFilterState` on any engine in any state, `GetFilterCutoff`
returns the value it returns on a default-constructed engine of the same type (0.25), and on an
`SKFilter` or `SVFilter` so does `GetFilterResonance` (0.5); the oversampling factor, mode,
sample rate and integration method getters return what they returned before the reset. -/
theorem C23_reset_restores_cutoff_and_resonance {F : Type} [LinearOrderedField F] (m : LibM F)
    (junk : Nat → Nat → F) (sL : Ladder F) (sK : SKFilter F) (sV : SVFilter F) :
    (Ladder.GetFilterCutoff (Ladder.ResetFilterState m sL) =
        Ladder.GetFilterCutoff (Ladder.newDefault m junk) ∧
      Ladder.GetFilterOversamplingFactor (Ladder.ResetFilterState m sL) =
        Ladder.GetFilterOversamplingFactor sL ∧
      Ladder.GetFilterMode (Ladder.ResetFilterState m sL) = Ladder.GetFilterMode sL ∧
      Ladder.GetFilterSampleRate (Ladder.ResetFilterState m sL) = Ladder.GetFilterSampleRate sL ∧
      Ladder.GetFilterIntegrationMethod (Ladder.ResetFilterState m sL) =
        Ladder.GetFilterIntegrationMethod sL) ∧
    (SKFilter.GetFilterCutoff (SKFilter.ResetFilterState m sK) =
        SKFilter.GetFilterCutoff (SKFilter.newDefault m junk) ∧
      SKFilter.GetFilterResonance (SKFilter.ResetFilterState m sK) =
        SKFilter.GetFilterResonance (SKFilter.newDefault m junk) ∧
      SKFilter.GetFilterOversamplingFactor (SKFilter.ResetFilterState m sK) =
        SKFilter.GetFilterOversamplingFactor sK ∧
      SKFilter.GetFilterMode (SKFilter.ResetFilterState m sK) = SKFilter.GetFilterMode sK ∧
      SKFilter.GetFilterSampleRate (SKFilter.ResetFilterState m sK) =
        SKFilter.GetFilterSampleRate sK ∧
      SKFilter.GetFilterIntegrationMethod (SKFilter.ResetFilterState m sK) =
        SKFilter.GetFilterIntegrationMethod sK) ∧
    (SVFilter.GetFilterCutoff (SVFilter.ResetFilterState m sV) =
        SVFilter.GetFilterCutoff (SVFilter.newDefault m junk) ∧
      SVFilter.GetFilterResonance (SVFilter.ResetFilterState m sV) =
        SVFilter.GetFilterResonance (SVFilter.newDefault m junk) ∧
      SVFilter.GetFilterOversamplingFactor (SVFilter.ResetFilterState m sV) =
        SVFilter.GetFilterOversamplingFactor sV ∧
      SVFilter.GetFilterMode (SVFilter.ResetFilterState m sV) = SVFilter.GetFilterMode sV ∧
      SVFilter.GetFilterSampleRate (SVFilter.ResetFilterState m sV) =
        SVFilter.GetFilterSampleRate sV ∧
      SVFilter.GetFilterIntegrationMethod (SVFilter.ResetFilterState m sV) =
        SVFilter.GetFilterIntegrationMethod sV) := by
  obtain ⟨l1, -, l3, l4, l5, l6⟩ := Ladder.ladder_reset_params m sL
  obtain ⟨k1, k2, k3, k4, k5, k6⟩ := SKFilter.sk_reset_params m sK
  obtain ⟨v1, v2, v3, v4, v5, v6⟩ := SVFilter.svf_reset_params m sV
  obtain ⟨dl1, -⟩ := Ladder.ladder_newDefault_params m junk
  obtain ⟨dk1, dk2, -⟩ := SKFilter.sk_newDefault_params m junk
  obtain ⟨dv1, dv2, -⟩ := SVFilter.svf_newDefault_params m junk
  exact ⟨⟨l1.trans dl1.symm, l3, l4, l5, l6⟩,
    ⟨k1.trans dk1.symm, k2.trans dk2.symm, k3, k4, k5, k6⟩,
    ⟨v1.trans dv1.symm, v2.trans dv2.symm, v3, v4, v5, v6⟩⟩

namespace SVFilter
variable {F : Type} [LinearOrderedField F]

theorem svf_setMethod_fields (m : LibM F) (method : SVFIntegrationMethod) (s : SVFilter F) :
    (SetFilterIntegrationMethod m method s).integrationMethod = method ∧
    (SetFilterIntegrationMethod m method s).filterMode = s.filterMode ∧
    (SetFilterIntegrationMethod m method s).sampleRate = s.sampleRate ∧
    (SetFilterIntegrationMethod m method s).oversamplingFactor = s.oversamplingFactor ∧
    (SetFilterIntegrationMethod m method s).cutoffFrequency = 0.25 ∧
    (SetFilterIntegrationMethod m method s).Resonance = 0.5 ∧
    (SetFilterIntegrationMethod m method s).dt =
      max 0 (44100 / (s.sampleRate * (s.oversamplingFactor : F)) * 0.25) ∧
    (SetFilterIntegrationMethod m method s).lp = 0 ∧
    (SetFilterIntegrationMethod m method s).bp = 0 ∧
    (SetFilterIntegrationMethod m method s).hp = 0 ∧
    (SetFilterIntegrationMethod m method s).u_t1 = 0 ∧
    (SetFilterIntegrationMethod m method s).out = 0 := by
  obtain ⟨r1, r2, r3, r4, r5, r6⟩ :=
    svf_reset_params m ({ s with integrationMethod := method })
  have hdt := svf_SetFilterIntegrationRate_dt
    ({ s with integrationMethod := method, cutoffFrequency := 0.25, Resonance := 0.5 })
  exact ⟨r6, r4, r5, r3, r1, r2, hdt, rfl, rfl, rfl, rfl, rfl⟩

theorem svf_sample_run :
    sampleSVFRun.cutoffFrequency = 1 / 8 ∧ sampleSVFRun.Resonance = 1 / 4 ∧
    sampleSVFRun.dt = 1 / 8 ∧ sampleSVFRun.sampleRate = 44100 ∧
    sampleSVFRun.oversamplingFactor = 1 ∧
    sampleSVFRun.lp = 399 / 25600 ∧ sampleSVFRun.bp = 399 / 3200 ∧ sampleSVFRun.hp = 1 ∧
    sampleSVFRun.out = 399 / 25600 := by
  have hfresh : ∀ t : SVFilter ℚ,
      t = new sampleLibM (fun _ _ => 0) (1 / 8) (1 / 4) 1 SVFFilterMode.SVF_LOWPASS_MODE 44100
        SVFIntegrationMethod.SVF_SEMI_IMPLICIT_EULER →
      t.lp = 0 ∧ t.bp = 0 ∧ t.hp = 0 ∧ t.dt = 1 / 8 ∧ t.Resonance = 1 / 4 ∧
      t.oversamplingFactor = 1 ∧ t.filterMode = SVFFilterMode.SVF_LOWPASS_MODE ∧
      t.integrationMethod = SVFIntegrationMethod.SVF_SEMI_IMPLICIT_EULER ∧
      t.cutoffFrequency = 1 / 8 ∧ t.sampleRate = 44100 := by
    intro t ht
    subst ht
    norm_num [new, SetFilterIntegrationRate]
  obtain ⟨e1, e2, e3, e5, e6, e7, e8, e9, e10, e11⟩ := hfresh _ rfl
  obtain ⟨f1, f2, f3, f4, f5, -⟩ := svf_filter_frame sampleLibM sampleFastMath 100 50 1
    (new sampleLibM (fun _ _ => 0) (1 / 8) (1 / 4) 1 SVFFilterMode.SVF_LOWPASS_MODE 44100
      SVFIntegrationMethod.SVF_SEMI_IMPLICIT_EULER)
  obtain ⟨b1, b2, b3, b4⟩ := svf_filter_single sampleLibM sampleFastMath 100 50 1
    (new sampleLibM (fun _ _ => 0) (1 / 8) (1 / 4) 1 SVFFilterMode.SVF_LOWPASS_MODE 44100
      SVFIntegrationMethod.SVF_SEMI_IMPLICIT_EULER) e7
  obtain ⟨c3, c2, c1⟩ := svf_integrate_euler sampleLibM sampleFastMath
    (1 - 3.5 * (new sampleLibM (fun _ _ => 0) (1 / 8) (1 / 4) 1 SVFFilterMode.SVF_LOWPASS_MODE
      44100 SVFIntegrationMethod.SVF_SEMI_IMPLICIT_EULER).Resonance)
    (clampedRate (new sampleLibM (fun _ _ => 0) (1 / 8) (1 / 4) 1 SVFFilterMode.SVF_LOWPASS_MODE
      44100 SVFIntegrationMethod.SVF_SEMI_IMPLICIT_EULER)) (1 + ditherNoise 100 50)
    (new sampleLibM (fun _ _ => 0) (1 / 8) (1 / 4) 1 SVFFilterMode.SVF_LOWPASS_MODE 44100
      SVFIntegrationMethod.SVF_SEMI_IMPLICIT_EULER) e9
  have hclamp : clampedRate (new sampleLibM (fun _ _ => 0) (1 / 8) (1 / 4) 1
      SVFFilterMode.SVF_LOWPASS_MODE 44100 SVFIntegrationMethod.SVF_SEMI_IMPLICIT_EULER)
      = 1 / 8 := by
    simp only [clampedRate, e9, e5]
    norm_num
  have hb : beta (new sampleLibM (fun _ _ => 0) (1 / 8) (1 / 4) 1
      SVFFilterMode.SVF_LOWPASS_MODE 44100 SVFIntegrationMethod.SVF_SEMI_IMPLICIT_EULER)
      = 399 / 400 := by
    simp only [beta, e7]
    norm_num
  have hd : ditherNoise 100 50 = (0 : ℚ) := by norm_num [ditherNoise]
  unfold sampleSVFRun
  refine ⟨f1.trans e10, f5.trans e6, f4.trans e5, f2.trans e11, f3.trans e7, ?_, ?_, ?_, ?_⟩
  · rw [b1, c1, hclamp, hb, hd, e1, e2, e6]
    norm_num [sampleFastMath]
  · rw [b2, c2, hclamp, hb, hd, e1, e2, e6]
    norm_num [sampleFastMath]
  · rw [b3, c3, hd, e1, e2, e6]
    norm_num [sampleFastMath]
  · rw [b4]
    simp only [outputTap, svf_integrate_mode, e8]
    rw [c1, hclamp, hb, hd, e1, e2, e6]
    norm_num [sampleFastMath]

end SVFilter

/-- C24 (counterexample). A state-variable engine constructed with cutoff 0.125 and resonance
0.25 has run one Euler tick on the input 1.0; `SetFilterIntegrationMethod(SVF_TRAPEZOIDAL)` then
changes the cutoff (0.125 to 0.25), the resonance (0.25 to 0.5), `dt` (0.125 to 0.25), `lp`, `bp`,
`hp` and the output (all to 0). -/
theorem C24_setters_independent_counterexample :
    SVFilter.GetFilterCutoff (SVFilter.SetFilterIntegrationMethod sampleLibM
        SVFIntegrationMethod.SVF_TRAPEZOIDAL sampleSVFRun) ≠
      SVFilter.GetFilterCutoff sampleSVFRun ∧
    SVFilter.GetFilterResonance (SVFilter.SetFilterIntegrationMethod sampleLibM
        SVFIntegrationMethod.SVF_TRAPEZOIDAL sampleSVFRun) ≠
      SVFilter.GetFilterResonance sampleSVFRun ∧
    (SVFilter.SetFilterIntegrationMethod sampleLibM
        SVFIntegrationMethod.SVF_TRAPEZOIDAL sampleSVFRun).dt ≠ sampleSVFRun.dt ∧
    (SVFilter.SetFilterIntegrationMethod sampleLibM
        SVFIntegrationMethod.SVF_TRAPEZOIDAL sampleSVFRun).lp ≠ sampleSVFRun.lp ∧
    (SVFilter.SetFilterIntegrationMethod sampleLibM
        SVFIntegrationMethod.SVF_TRAPEZOIDAL sampleSVFRun).bp ≠ sampleSVFRun.bp ∧
    (SVFilter.SetFilterIntegrationMethod sampleLibM
        SVFIntegrationMethod.SVF_TRAPEZOIDAL sampleSVFRun).hp ≠ sampleSVFRun.hp ∧
    SVFilter.GetFilterOutput (SVFilter.SetFilterIntegrationMethod sampleLibM
        SVFIntegrationMethod.SVF_TRAPEZOIDAL sampleSVFRun) ≠
      SVFilter.GetFilterOutput sampleSVFRun := by
  obtain ⟨-, -, -, -, a5, a6, a7, a8, a9, a10, -, a12⟩ :=
    SVFilter.svf_setMethod_fields sampleLibM SVFIntegrationMethod.SVF_TRAPEZOIDAL sampleSVFRun
  obtain ⟨r1, r2, r3, r4, r5, r6, r7, r8, r9⟩ := SVFilter.svf_sample_run
  unfold SVFilter.GetFilterCutoff SVFilter.GetFilterResonance SVFilter.GetFilterOutput
  rw [a5, a6, a7, a8, a9, a10, a12, r1, r2, r3, r4, r5, r6, r7, r8, r9]
  norm_num

/-- C24 (amended). For a `Ladder` and an `SKFilter` in any state, `SetFilterIntegrationMethod`
changes only the integration method: cutoff, resonance, `dt`, mode, sample rate, oversampling
factor, the integrator values and the output are as before.  For an `SVFilter` the call stores
the method and then performs `ResetFilterState`: mode, sample rate and oversampling factor are as
before, while the cutoff becomes 0.25, the resonance 0.5, `dt` is recomputed from them
(`max(0, 44100/(sampleRate·oversamplingFactor)·0.25)`) and `lp`, `bp`, `hp`, `u_t1` and the
output become 0. -/
theorem C24_set_integration_method {F : Type} [LinearOrderedField F] (m : LibM F)
    (methL : LadderIntegrationMethod) (methK : SKIntegrationMethod)
    (methV : SVFIntegrationMethod) (sL : Ladder F) (sK : SKFilter F) (sV : SVFilter F) :
    ((Ladder.SetFilterIntegrationMethod methL sL).integrationMethod = methL ∧
      (Ladder.SetFilterIntegrationMethod methL sL).cutoffFrequency = sL.cutoffFrequency ∧
      (Ladder.SetFilterIntegrationMethod methL sL).Resonance = sL.Resonance ∧
      (Ladder.SetFilterIntegrationMethod methL sL).dt = sL.dt ∧
      (Ladder.SetFilterIntegrationMethod methL sL).filterMode = sL.filterMode ∧
      (Ladder.SetFilterIntegrationMethod methL sL).sampleRate = sL.sampleRate ∧
      (Ladder.SetFilterIntegrationMethod methL sL).oversamplingFactor = sL.oversamplingFactor ∧
      (Ladder.SetFilterIntegrationMethod methL sL).p0 = sL.p0 ∧
      (Ladder.SetFilterIntegrationMethod methL sL).p1 = sL.p1 ∧
      (Ladder.SetFilterIntegrationMethod methL sL).p2 = sL.p2 ∧
      (Ladder.SetFilterIntegrationMethod methL sL).p3 = sL.p3 ∧
      (Ladder.SetFilterIntegrationMethod methL sL).ut_1 = sL.ut_1 ∧
      (Ladder.SetFilterIntegrationMethod methL sL).out = sL.out ∧
      (Ladder.SetFilterIntegrationMethod methL sL).iir = sL.iir) ∧
    ((SKFilter.SetFilterIntegrationMethod methK sK).integrationMethod = methK ∧
      (SKFilter.SetFilterIntegrationMethod methK sK).cutoffFrequency = sK.cutoffFrequency ∧
      (SKFilter.SetFilterIntegrationMethod methK sK).Resonance = sK.Resonance ∧
      (SKFilter.SetFilterIntegrationMethod methK sK).dt = sK.dt ∧
      (SKFilter.SetFilterIntegrationMethod methK sK).filterMode = sK.filterMode ∧
      (SKFilter.SetFilterIntegrationMethod methK sK).sampleRate = sK.sampleRate ∧
      (SKFilter.SetFilterIntegrationMethod methK sK).oversamplingFactor = sK.oversamplingFactor ∧
      (SKFilter.SetFilterIntegrationMethod methK sK).p0 = sK.p0 ∧
      (SKFilter.SetFilterIntegrationMethod methK sK).p1 = sK.p1 ∧
      (SKFilter.SetFilterIntegrationMethod methK sK).input_lp = sK.input_lp ∧
      (SKFilter.SetFilterIntegrationMethod methK sK).input_bp = sK.input_bp ∧
      (SKFilter.SetFilterIntegrationMethod methK sK).input_hp = sK.input_hp ∧
      (SKFilter.SetFilterIntegrationMethod methK sK).input_lp_t1 = sK.input_lp_t1 ∧
      (SKFilter.SetFilterIntegrationMethod methK sK).input_bp_t1 = sK.input_bp_t1 ∧
      (SKFilter.SetFilterIntegrationMethod methK sK).input_hp_t1 = sK.input_hp_t1 ∧
      (SKFilter.SetFilterIntegrationMethod methK sK).out = sK.out ∧
      (SKFilter.SetFilterIntegrationMethod methK sK).iir = sK.iir) ∧
    ((SVFilter.SetFilterIntegrationMethod m methV sV).integrationMethod = methV ∧
      (SVFilter.SetFilterIntegrationMethod m methV sV).filterMode = sV.filterMode ∧
      (SVFilter.SetFilterIntegrationMethod m methV sV).sampleRate = sV.sampleRate ∧
      (SVFilter.SetFilterIntegrationMethod m methV sV).oversamplingFactor =
        sV.oversamplingFactor ∧
      (SVFilter.SetFilterIntegrationMethod m methV sV).cutoffFrequency = 0.25 ∧
      (SVFilter.SetFilterIntegrationMethod m methV sV).Resonance = 0.5 ∧
      (SVFilter.SetFilterIntegrationMethod m methV sV).dt =
        max 0 (44100 / (sV.sampleRate * (sV.oversamplingFactor : F)) * 0.25) ∧
      (SVFilter.SetFilterIntegrationMethod m methV sV).lp = 0 ∧
      (SVFilter.SetFilterIntegrationMethod m methV sV).bp = 0 ∧
      (SVFilter.SetFilterIntegrationMethod m methV sV).hp = 0 ∧
      (SVFilter.SetFilterIntegrationMethod m methV sV).u_t1 = 0 ∧
      (SVFilter.SetFilterIntegrationMethod m methV sV).out = 0 ∧
      SVFilter.SetFilterIntegrationMethod m methV sV =
        SVFilter.ResetFilterState m { sV with integrationMethod := methV }) :=
  ⟨⟨rfl, rfl, rfl, rfl, rfl, rfl, rfl, rfl, rfl, rfl, rfl, rfl, rfl, rfl⟩,
    ⟨rfl, rfl, rfl, rfl, rfl, rfl, rfl, rfl, rfl, rfl, rfl, rfl, rfl, rfl, rfl, rfl, rfl⟩,
    by
      obtain ⟨a1, a2, a3, a4, a5, a6, a7, a8, a9, a10, a11, a12⟩ :=
        SVFilter.svf_setMethod_fields m methV sV
      exact ⟨a1, a2, a3, a4, a5, a6, a7, a8, a9, a10, a11, a12, rfl⟩⟩

/-- C25 (counterexample). On a ladder engine `SetFilterResonance(2)` stores the resonance 2,
`SetFilterCutoff(-1)` stores the cutoff −1 and `SetFilterOversamplingFactor(0)` stores the
factor 0: none of them is brought into the documented range. -/
theorem C25_setters_clamp_counterexample :
    ¬ (Ladder.GetFilterResonance (Ladder.SetFilterResonance 2
        (sampleLadder LadderIntegrationMethod.LADDER_EULER_FULL_TANH)) ≤ 1) ∧
    ¬ (0 ≤ Ladder.GetFilterCutoff (Ladder.SetFilterCutoff (-1)
        (sampleLadder LadderIntegrationMethod.LADDER_EULER_FULL_TANH))) ∧
    ¬ (1 ≤ Ladder.GetFilterOversamplingFactor (Ladder.SetFilterOversamplingFactor sampleLibM 0
        (sampleLadder LadderIntegrationMethod.LADDER_EULER_FULL_TANH))) := by
  have h2 : Ladder.GetFilterCutoff (Ladder.SetFilterCutoff (-1)
      (sampleLadder LadderIntegrationMethod.LADDER_EULER_FULL_TANH)) = -1 :=
    (Ladder.ladder_SetFilterIntegrationRate_frame _).1
  have h3 : Ladder.GetFilterOversamplingFactor (Ladder.SetFilterOversamplingFactor sampleLibM 0
      (sampleLadder LadderIntegrationMethod.LADDER_EULER_FULL_TANH)) = 0 :=
    (Ladder.ladder_SetFilterIntegrationRate_frame _).2.2
  have h1 : Ladder.GetFilterResonance (Ladder.SetFilterResonance 2
      (sampleLadder LadderIntegrationMethod.LADDER_EULER_FULL_TANH)) = 2 := rfl
  rw [h1, h2, h3]
  norm_num

/-- C25 (amended). No setter fails, and each parameter setter stores its argument as given:
after `SetFilterResonance(r)` `GetFilterResonance` returns `r` (and the feedback gain of the
next tick is computed from `r`), after `SetFilterCutoff(c)` `GetFilterCutoff` returns `c`, after
`SetFilterOversamplingFactor(n)` `GetFilterOversamplingFactor` returns `n`; so the stored value
lies in the documented range exactly when the argument does. -/
theorem C25_setters_store_argument {F : Type} [LinearOrderedField F] (m : LibM F) (r c : F)
    (n : Int) (sL : Ladder F) (sK : SKFilter F) (sV : SVFilter F) :
    (Ladder.GetFilterResonance (Ladder.SetFilterResonance r sL) = r ∧
      Ladder.GetFilterCutoff (Ladder.SetFilterCutoff c sL) = c ∧
      Ladder.GetFilterOversamplingFactor (Ladder.SetFilterOversamplingFactor m n sL) = n) ∧
    (SKFilter.GetFilterResonance (SKFilter.SetFilterResonance r sK) = r ∧
      SKFilter.GetFilterCutoff (SKFilter.SetFilterCutoff c sK) = c ∧
      SKFilter.GetFilterOversamplingFactor (SKFilter.SetFilterOversamplingFactor m n sK) = n) ∧
    (SVFilter.GetFilterResonance (SVFilter.SetFilterResonance r sV) = r ∧
      SVFilter.GetFilterCutoff (SVFilter.SetFilterCutoff c sV) = c ∧
      SVFilter.GetFilterOversamplingFactor (SVFilter.SetFilterOversamplingFactor m n sV) = n) ∧
    ((0 ≤ Ladder.GetFilterResonance (Ladder.SetFilterResonance r sL) ∧
        Ladder.GetFilterResonance (Ladder.SetFilterResonance r sL) ≤ 1) ↔ (0 ≤ r ∧ r ≤ 1)) ∧
    ((0 ≤ Ladder.GetFilterCutoff (Ladder.SetFilterCutoff c sL) ∧
        Ladder.GetFilterCutoff (Ladder.SetFilterCutoff c sL) ≤ 1) ↔ (0 ≤ c ∧ c ≤ 1)) ∧
    (1 ≤ Ladder.GetFilterOversamplingFactor (Ladder.SetFilterOversamplingFactor m n sL) ↔
      1 ≤ n) := by
  have hL2 : Ladder.GetFilterCutoff (Ladder.SetFilterCutoff c sL) = c :=
    (Ladder.ladder_SetFilterIntegrationRate_frame _).1
  have hL3 : Ladder.GetFilterOversamplingFactor (Ladder.SetFilterOversamplingFactor m n sL) = n :=
    (Ladder.ladder_SetFilterIntegrationRate_frame _).2.2
  have hK2 : SKFilter.GetFilterCutoff (SKFilter.SetFilterCutoff c sK) = c :=
    (SKFilter.sk_SetFilterIntegrationRate_frame _).1
  have hK3 : SKFilter.GetFilterOversamplingFactor
      (SKFilter.SetFilterOversamplingFactor m n sK) = n :=
    (SKFilter.sk_SetFilterIntegrationRate_frame _).2.2
  have hV2 : SVFilter.GetFilterCutoff (SVFilter.SetFilterCutoff c sV) = c :=
    (SVFilter.svf_SetFilterIntegrationRate_frame _).1
  have hV3 : SVFilter.GetFilterOversamplingFactor
      (SVFilter.SetFilterOversamplingFactor m n sV) = n :=
    (SVFilter.svf_SetFilterIntegrationRate_frame _).2.2.1
  refine ⟨⟨rfl, hL2, hL3⟩, ⟨rfl, hK2, hK3⟩, ⟨rfl, hV2, hV3⟩, ?_, ?_, ?_⟩
  · exact Iff.rfl
  · rw [hL2]
  · rw [hL3]

namespace IIRLowpass
variable {F : Type} [Field F]

theorem new_params (m : LibM F) (junk : Nat → Nat → F) (fs fc : F) (N : Nat) :
    (new m junk fs fc N).samplerate = fs ∧ (new m junk fs fc N).cutoff = fc ∧
    (new m junk fs fc N).order = N := by
  rw [new_unfold]
  exact redesign_params m _

theorem IIRfilter_params (s : IIRLowpass F) (x : F) :
    (IIRfilter s x).1.samplerate = s.samplerate ∧ (IIRfilter s x).1.cutoff = s.cutoff ∧
    (IIRfilter s x).1.order = s.order := by
  obtain ⟨a1, a2, a3, -⟩ := biquadLoop_frame (s.order / 2) s x
  exact ⟨a1, a2, a3⟩

theorem designed_getD (m : LibM F) (s : IIRLowpass F) (h : Reachable m s) (j : Nat)
    (hj : j < s.order / 2) :
    s.a1.getD j 0 = a1Of m s.samplerate s.cutoff s.order j ∧
    s.a2.getD j 0 = a2Of m s.samplerate s.cutoff s.order j ∧
    s.K.getD j 0 = KOf m s.samplerate s.cutoff s.order j := by
  obtain ⟨d1, d2, d3⟩ := Reachable_designed m s h
  obtain ⟨c1, c2, c3, -⟩ := ComputeCoefficients_getD_lt m s (Reachable_sized m s h) j hj
  rw [d1, d2, d3]
  exact ⟨c1, c2, c3⟩

end IIRLowpass

namespace Ladder
variable {F : Type} [LinearOrderedField F]

theorem ladder_configured_of_eq (m : LibM F) (s t : Ladder F) (h1 : t.iir = s.iir)
    (h2 : t.sampleRate = s.sampleRate) (h3 : t.oversamplingFactor = s.oversamplingFactor)
    (h : Configured m s) : Configured m t := by
  unfold Configured at h ⊢
  rw [h1, h2, h3]
  exact h

theorem ladder_configured_rate (m : LibM F) (s : Ladder F) (h : Configured m s) :
    Configured m (SetFilterIntegrationRate s) :=
  ladder_configured_of_eq m s _ (ladder_SetFilterIntegrationRate_rest s).2.2.2.2.2.2.2.2.2
    (ladder_SetFilterIntegrationRate_frame s).2.1 (ladder_SetFilterIntegrationRate_frame s).2.2 h

theorem ladder_configured_reconfigure (m : LibM F) (s : Ladder F) (sr : F) (n : Int)
    (h : IIRLowpass.Reachable m s.iir) (ho : s.iir.order = IIR_DOWNSAMPLE_ORDER) :
    Configured m
      ({ s with sampleRate := sr, oversamplingFactor := n,
                iir := IIRLowpass.SetFilterCutoff m (IIR_DOWNSAMPLING_BANDWIDTH * sr / 2)
                  (IIRLowpass.SetFilterSamplerate m (sr * (n : F)) s.iir) } : Ladder F) := by
  obtain ⟨a1, a2, a3⟩ := IIRLowpass.reconfigure_params m (sr * (n : F))
    (IIR_DOWNSAMPLING_BANDWIDTH * sr / 2) s.iir
  exact ⟨IIRLowpass.reconfigure_reachable m _ _ s.iir h, a1, a2, a3.trans ho⟩

theorem ladder_configured_new (m : LibM F) (junk : Nat → Nat → F) (c r : F) (n : Int)
    (mode : LadderFilterMode) (sr : F) (meth : LadderIntegrationMethod) :
    Configured m (new m junk c r n mode sr meth) := by
  unfold new
  apply ladder_configured_rate
  obtain ⟨a1, a2, a3⟩ := IIRLowpass.new_params m junk (sr * (n : F))
    (IIR_DOWNSAMPLING_BANDWIDTH * sr / 2) IIR_DOWNSAMPLE_ORDER
  exact ⟨IIRLowpass.Reachable.construct junk _ _ _, a1, a2, a3⟩

theorem ladder_configured_reset (m : LibM F) (s : Ladder F) (h : Configured m s) :
    Configured m (ResetFilterState m s) := by
  obtain ⟨-, -, p3, -, p5, -⟩ := ladder_reset_params m s
  unfold Configured
  rw [ladder_reset_iir, p3, p5]
  exact ladder_configured_reconfigure m s s.sampleRate s.oversamplingFactor h.1 h.2.2.2

theorem ladder_tick_iir (m : LibM F) (fm : FastMath F) (fb input : F) (nn : Nat) (s : Ladder F) :
    (tick m fm fb input nn s).iir = s.iir ∨
    ∃ x, (tick m fm fb input nn s).iir = (IIRLowpass.IIRfilter s.iir x).1 := by
  obtain ⟨cf, r, ov, fmode, sr, dt, meth, p0, p1, p2, p3, u, out, iir⟩ := s
  unfold tick integrate
  cases meth <;> dsimp only <;> split_ifs <;>
    first
      | exact Or.inl rfl
      | exact Or.inr ⟨_, rfl⟩

theorem ladder_configured_tick (m : LibM F) (fm : FastMath F) (fb input : F) (nn : Nat)
    (s : Ladder F) (h : Configured m s) : Configured m (tick m fm fb input nn s) := by
  obtain ⟨-, f2, f3, -⟩ := ladder_tick_frame m fm fb input nn s
  obtain ⟨h1, h2, h3, h4⟩ := h
  unfold Configured
  rw [f2, f3]
  rcases ladder_tick_iir m fm fb input nn s with e | ⟨x, e⟩
  · rw [e]; exact ⟨h1, h2, h3, h4⟩
  · rw [e]
    obtain ⟨a1, a2, a3⟩ := IIRLowpass.IIRfilter_params s.iir x
    exact ⟨IIRLowpass.Reachable.tick x s.iir h1, a1.trans h2, a2.trans h3, a3.trans h4⟩

theorem ladder_configured_tickLoop (m : LibM F) (fm : FastMath F) (fb input : F) (n : Nat)
    (s : Ladder F) (h : Configured m s) : Configured m (forLoop (tick m fm fb input) n s) := by
  induction n with
  | zero => exact h
  | succ n ih =>
    rw [forLoop_succ]
    exact ladder_configured_tick m fm fb input n _ ih

theorem ladder_Reachable_configured (m : LibM F) (fm : FastMath F) (s : Ladder F)
    (h : Reachable m fm s) : Configured m s := by
  induction h with
  | construct junk c r o mode sr meth => exact ladder_configured_new m junk c r o mode sr meth
  | constructDefault junk => exact ladder_configured_new m junk _ _ _ _ _ _
  | reset s _ ih => exact ladder_configured_reset m s ih
  | setCutoff c s _ ih =>
    exact ladder_configured_rate m ({ s with cutoffFrequency := c }) ih
  | setResonance r s _ ih => exact ih
  | setOversamplingFactor o s _ ih =>
    exact ladder_configured_rate m _
      (ladder_configured_reconfigure m s s.sampleRate o ih.1 ih.2.2.2)
  | setMode mode s _ ih => exact ih
  | setSampleRate sr s _ ih =>
    exact ladder_configured_rate m _
      (ladder_configured_reconfigure m s sr s.oversamplingFactor ih.1 ih.2.2.2)
  | setIntegrationMethod meth s _ ih => exact ih
  | filter rmax rnd x s _ ih =>
    exact ladder_configured_tickLoop m fm _ _ _ s ih

end Ladder

namespace SKFilter
variable {F : Type} [LinearOrderedField F]

theorem sk_configured_of_eq (m : LibM F) (s t : SKFilter F) (h1 : t.iir = s.iir)
    (h2 : t.sampleRate = s.sampleRate) (h3 : t.oversamplingFactor = s.oversamplingFactor)
    (h : Configured m s) : Configured m t := by
  unfold Configured at h ⊢
  rw [h1, h2, h3]
  exact h

theorem sk_configured_rate (m : LibM F) (s : SKFilter F) (h : Configured m s) :
    Configured m (SetFilterIntegrationRate s) :=
  sk_configured_of_eq m s _ (sk_SetFilterIntegrationRate_rest s).2.2.2.2.2.2.2.2.2.2.2.2
    (sk_SetFilterIntegrationRate_frame s).2.1 (sk_SetFilterIntegrationRate_frame s).2.2 h

theorem sk_configured_reconfigure (m : LibM F) (s : SKFilter F) (sr : F) (n : Int)
    (h : IIRLowpass.Reachable m s.iir) (ho : s.iir.order = IIR_DOWNSAMPLE_ORDER) :
    Configured m
      ({ s with sampleRate := sr, oversamplingFactor := n,
                iir := IIRLowpass.SetFilterCutoff m (IIR_DOWNSAMPLING_BANDWIDTH * sr / 2)
                  (IIRLowpass.SetFilterSamplerate m (sr * (n : F)) s.iir) } : SKFilter F) := by
  obtain ⟨a1, a2, a3⟩ := IIRLowpass.reconfigure_params m (sr * (n : F))
    (IIR_DOWNSAMPLING_BANDWIDTH * sr / 2) s.iir
  exact ⟨IIRLowpass.reconfigure_reachable m _ _ s.iir h, a1, a2, a3.trans ho⟩

theorem sk_configured_new (m : LibM F) (junk : Nat → Nat → F) (c r : F) (n : Int)
    (mode : SKFilterMode) (sr : F) (meth : SKIntegrationMethod) :
    Configured m (new m junk c r n mode sr meth) := by
  unfold new
  apply sk_configured_rate
  obtain ⟨a1, a2, a3⟩ := IIRLowpass.new_params m junk (sr * (n : F))
    (IIR_DOWNSAMPLING_BANDWIDTH * sr / 2) IIR_DOWNSAMPLE_ORDER
  exact ⟨IIRLowpass.Reachable.construct junk _ _ _, a1, a2, a3⟩

theorem sk_configured_reset (m : LibM F) (s : SKFilter F) (h : Configured m s) :
    Configured m (ResetFilterState m s) := by
  obtain ⟨-, -, p3, -, p5, -⟩ := sk_reset_params m s
  unfold Configured
  rw [sk_reset_iir, p3, p5]
  exact sk_configured_reconfigure m s s.sampleRate s.oversamplingFactor h.1 h.2.2.2

theorem sk_tick_iir (m : LibM F) (fm : FastMath F) (res : F) (nn : Nat) (s : SKFilter F) :
    (tick m fm res nn s).iir = s.iir ∨
    ∃ x, (tick m fm res nn s).iir = (IIRLowpass.IIRfilter s.iir x).1 := by
  obtain ⟨cf, r, ov, fmode, sr, dt, meth, p0, p1, ilp, ibp, ihp, ilp1, ibp1, ihp1, out, iir⟩ := s
  unfold tick integrate
  cases meth <;> dsimp only <;> split_ifs <;>
    first
      | exact Or.inl rfl
      | exact Or.inr ⟨_, rfl⟩

theorem sk_configured_tick (m : LibM F) (fm : FastMath F) (res : F) (nn : Nat)
    (s : SKFilter F) (h : Configured m s) : Configured m (tick m fm res nn s) := by
  obtain ⟨-, f2, f3, -⟩ := sk_tick_frame m fm res nn s
  obtain ⟨h1, h2, h3, h4⟩ := h
  unfold Configured
  rw [f2, f3]
  rcases sk_tick_iir m fm res nn s with e | ⟨x, e⟩
  · rw [e]; exact ⟨h1, h2, h3, h4⟩
  · rw [e]
    obtain ⟨a1, a2, a3⟩ := IIRLowpass.IIRfilter_params s.iir x
    exact ⟨IIRLowpass.Reachable.tick x s.iir h1, a1.trans h2, a2.trans h3, a3.trans h4⟩

theorem sk_configured_tickLoop (m : LibM F) (fm : FastMath F) (res : F) (n : Nat)
    (s : SKFilter F) (h : Configured m s) : Configured m (forLoop (tick m fm res) n s) := by
  induction n with
  | zero => exact h
  | succ n ih =>
    rw [forLoop_succ]
    exact sk_configured_tick m fm res n _ ih

theorem sk_route_iir (input : F) (s : SKFilter F) : (route input s).iir = s.iir := by
  unfold route
  cases s.filterMode <;> rfl

theorem sk_configured_filter (m : LibM F) (fm : FastMath F) (RAND_MAX rnd : Nat) (input : F)
    (s : SKFilter F) (h : Configured m s) : Configured m (filter m fm RAND_MAX rnd input s) := by
  obtain ⟨-, r2, r3, -⟩ := sk_route_frame (input + ditherNoise RAND_MAX rnd) s
  have hr : Configured m (route (input + ditherNoise RAND_MAX rnd) s) :=
    sk_configured_of_eq m s _ (sk_route_iir _ s) r2 r3 h
  exact sk_configured_tickLoop m fm (4 * s.Resonance)
    (route (input + ditherNoise RAND_MAX rnd) s).oversamplingFactor.toNat _ hr

theorem sk_Reachable_configured (m : LibM F) (fm : FastMath F) (s : SKFilter F)
    (h : Reachable m fm s) : Configured m s := by
  induction h with
  | construct junk c r o mode sr meth => exact sk_configured_new m junk c r o mode sr meth
  | constructDefault junk => exact sk_configured_new m junk _ _ _ _ _ _
  | reset s _ ih => exact sk_configured_reset m s ih
  | setCutoff c s _ ih =>
    exact sk_configured_rate m ({ s with cutoffFrequency := c }) ih
  | setResonance r s _ ih => exact ih
  | setOversamplingFactor o s _ ih =>
    exact sk_configured_rate m _
      (sk_configured_reconfigure m s s.sampleRate o ih.1 ih.2.2.2)
  | setMode mode s _ ih => exact ih
  | setSampleRate sr s _ ih =>
    exact sk_configured_rate m _
      (sk_configured_reconfigure m s sr s.oversamplingFactor ih.1 ih.2.2.2)
  | setIntegrationMethod meth s _ ih => exact ih
  | setLowpassInput x s _ ih => exact ih
  | setBandpassInput x s _ ih => exact ih
  | setHighpassInput x s _ ih => exact ih
  | filter rmax rnd x s _ ih => exact sk_configured_filter m fm rmax rnd x s ih

end SKFilter

namespace SVFilter
variable {F : Type} [LinearOrderedField F]

theorem svf_configured_of_eq (m : LibM F) (s t : SVFilter F) (h1 : t.iir = s.iir)
    (h2 : t.sampleRate = s.sampleRate) (h3 : t.oversamplingFactor = s.oversamplingFactor)
    (h : Configured m s) : Configured m t := by
  unfold Configured at h ⊢
  rw [h1, h2, h3]
  exact h

theorem svf_configured_rate (m : LibM F) (s : SVFilter F) (h : Configured m s) :
    Configured m (SetFilterIntegrationRate s) :=
  svf_configured_of_eq m s _ (svf_SetFilterIntegrationRate_rest s).2.2.2.2.2.2.2.2
    (svf_SetFilterIntegrationRate_frame s).2.1 (svf_SetFilterIntegrationRate_frame s).2.2.1 h

theorem svf_configured_reconfigure (m : LibM F) (s : SVFilter F) (sr : F) (n : Int)
    (h : IIRLowpass.Reachable m s.iir) (ho : s.iir.order = IIR_DOWNSAMPLE_ORDER) :
    Configured m
      ({ s with sampleRate := sr, oversamplingFactor := n,
                iir := IIRLowpass.SetFilterCutoff m (IIR_DOWNSAMPLING_BANDWIDTH * sr / 2)
                  (IIRLowpass.SetFilterSamplerate m (sr * (n : F)) s.iir) } : SVFilter F) := by
  obtain ⟨a1, a2, a3⟩ := IIRLowpass.reconfigure_params m (sr * (n : F))
    (IIR_DOWNSAMPLING_BANDWIDTH * sr / 2) s.iir
  exact ⟨IIRLowpass.reconfigure_reachable m _ _ s.iir h, a1, a2, a3.trans ho⟩

theorem svf_configured_new (m : LibM F) (junk : Nat → Nat → F) (c r : F) (n : Int)
    (mode : SVFFilterMode) (sr : F) (meth : SVFIntegrationMethod) :
    Configured m (new m junk c r n mode sr meth) := by
  unfold new
  apply svf_configured_rate
  obtain ⟨a1, a2, a3⟩ := IIRLowpass.new_params m junk (sr * (n : F))
    (IIR_DOWNSAMPLING_BANDWIDTH * sr / 2) IIR_DOWNSAMPLE_ORDER
  exact ⟨IIRLowpass.Reachable.construct junk _ _ _, a1, a2, a3⟩

theorem svf_configured_reset (m : LibM F) (s : SVFilter F) (h : Configured m s) :
    Configured m (ResetFilterState m s) := by
  obtain ⟨-, -, p3, -, p5, -⟩ := svf_reset_params m s
  unfold Configured
  rw [svf_reset_iir, p3, p5]
  exact svf_configured_reconfigure m s s.sampleRate s.oversamplingFactor h.1 h.2.2.2

theorem svf_tick_iir (m : LibM F) (fm : FastMath F) (fb dt2 input : F) (nn : Nat)
    (s : SVFilter F) :
    (tick m fm fb dt2 input nn s).iir = s.iir ∨
    ∃ x, (tick m fm fb dt2 input nn s).iir = (IIRLowpass.IIRfilter s.iir x).1 := by
  obtain ⟨cf, r, ov, fmode, sr, dt, meth, lp, bp, hp, u, out, iir⟩ := s
  unfold tick integrate
  cases meth <;> dsimp only <;> split_ifs <;>
    first
      | exact Or.inl rfl
      | exact Or.inr ⟨_, rfl⟩

theorem svf_configured_tick (m : LibM F) (fm : FastMath F) (fb dt2 input : F) (nn : Nat)
    (s : SVFilter F) (h : Configured m s) : Configured m (tick m fm fb dt2 input nn s) := by
  obtain ⟨-, f2, f3, -⟩ := svf_tick_frame m fm fb dt2 input nn s
  obtain ⟨h1, h2, h3, h4⟩ := h
  unfold Configured
  rw [f2, f3]
  rcases svf_tick_iir m fm fb dt2 input nn s with e | ⟨x, e⟩
  · rw [e]; exact ⟨h1, h2, h3, h4⟩
  · rw [e]
    obtain ⟨a1, a2, a3⟩ := IIRLowpass.IIRfilter_params s.iir x
    exact ⟨IIRLowpass.Reachable.tick x s.iir h1, a1.trans h2, a2.trans h3, a3.trans h4⟩

theorem svf_configured_tickLoop (m : LibM F) (fm : FastMath F) (fb dt2 input : F) (n : Nat)
    (s : SVFilter F) (h : Configured m s) :
    Configured m (forLoop (tick m fm fb dt2 input) n s) := by
  induction n with
  | zero => exact h
  | succ n ih =>
    rw [forLoop_succ]
    exact svf_configured_tick m fm fb dt2 input n _ ih

theorem svf_configured_filter (m : LibM F) (fm : FastMath F) (RAND_MAX rnd : Nat) (input : F)
    (s : SVFilter F) (h : Configured m s) : Configured m (filter m fm RAND_MAX rnd input s) :=
  svf_configured_tickLoop m fm (1 - 3.5 * s.Resonance) (clampedRate s)
    (input + ditherNoise RAND_MAX rnd) s.oversamplingFactor.toNat s h

theorem svf_Reachable_configured (m : LibM F) (fm : FastMath F) (s : SVFilter F)
    (h : Reachable m fm s) : Configured m s := by
  induction h with
  | construct junk c r o mode sr meth => exact svf_configured_new m junk c r o mode sr meth
  | constructDefault junk => exact svf_configured_new m junk _ _ _ _ _ _
  | reset s _ ih => exact svf_configured_reset m s ih
  | setCutoff c s _ ih =>
    exact svf_configured_rate m ({ s with cutoffFrequency := c }) ih
  | setResonance r s _ ih => exact ih
  | setOversamplingFactor o s _ ih =>
    exact svf_configured_rate m _
      (svf_configured_reconfigure m s s.sampleRate o ih.1 ih.2.2.2)
  | setMode mode s _ ih => exact ih
  | setSampleRate sr s _ ih =>
    exact svf_configured_rate m _
      (svf_configured_reconfigure m s sr s.oversamplingFactor ih.1 ih.2.2.2)
  | setIntegrationMethod meth s _ ih =>
    exact svf_configured_reset m ({ s with integrationMethod := meth }) ih
  | filter rmax rnd x s _ ih => exact svf_configured_filter m fm rmax rnd x s ih

end SVFilter

theorem antialias_below_nyquist {F : Type} [LinearOrderedField F] (sr : F) (n : Int)
    (hsr : 0 < sr) (hn : 1 ≤ n) :
    0 < (0.9 : F) * sr / 2 ∧ (0.9 : F) * sr / 2 < sr * (n : F) / 2 := by
  have hn' : (1 : F) ≤ (n : F) := by exact_mod_cast hn
  have h9 : (0 : F) < 0.9 := by norm_num
  have h1 : (0.9 : F) < 1 := by norm_num
  constructor
  · positivity
  · have : (0.9 : F) * sr < sr * (n : F) := by nlinarith
    linarith

/-- C26. Anti-alias configuration invariant.  In every state of a `Ladder`, `SKFilter` or
`SVFilter` reachable from a constructor by setter calls, resets and ticks, with sample rate `sr`
and oversampling factor `n`, the owned anti-alias engine has `samplerate = sr·n`,
`cutoff = 0.9·sr/2` and its fixed order (8, 8, 16), and the coefficients of each of its sections
are those of the design for these values; hence for `sr > 0` and `n ≥ 1` the anti-alias cutoff is
strictly positive and strictly below the Nyquist frequency `sr·n/2` of the rate it runs at. -/
theorem C26_anti_alias_configuration {F : Type} [LinearOrderedField F] (m : LibM F)
    (fm : FastMath F) :
    (∀ s : Ladder F, Ladder.Reachable m fm s →
      s.iir.samplerate = s.sampleRate * (s.oversamplingFactor : F) ∧
      s.iir.cutoff = 0.9 * s.sampleRate / 2 ∧ s.iir.order = 8 ∧
      (∀ j, j < 4 →
        s.iir.a1.getD j 0 = IIRLowpass.a1Of m (s.sampleRate * (s.oversamplingFactor : F))
          (0.9 * s.sampleRate / 2) 8 j ∧
        s.iir.a2.getD j 0 = IIRLowpass.a2Of m (s.sampleRate * (s.oversamplingFactor : F))
          (0.9 * s.sampleRate / 2) 8 j ∧
        s.iir.K.getD j 0 = IIRLowpass.KOf m (s.sampleRate * (s.oversamplingFactor : F))
          (0.9 * s.sampleRate / 2) 8 j) ∧
      (0 < s.sampleRate → 1 ≤ s.oversamplingFactor →
        0 < s.iir.cutoff ∧ s.iir.cutoff < s.iir.samplerate / 2)) ∧
    (∀ s : SKFilter F, SKFilter.Reachable m fm s →
      s.iir.samplerate = s.sampleRate * (s.oversamplingFactor : F) ∧
      s.iir.cutoff = 0.9 * s.sampleRate / 2 ∧ s.iir.order = 8 ∧
      (∀ j, j < 4 →
        s.iir.a1.getD j 0 = IIRLowpass.a1Of m (s.sampleRate * (s.oversamplingFactor : F))
          (0.9 * s.sampleRate / 2) 8 j ∧
        s.iir.a2.getD j 0 = IIRLowpass.a2Of m (s.sampleRate * (s.oversamplingFactor : F))
          (0.9 * s.sampleRate / 2) 8 j ∧
        s.iir.K.getD j 0 = IIRLowpass.KOf m (s.sampleRate * (s.oversamplingFactor : F))
          (0.9 * s.sampleRate / 2) 8 j) ∧
      (0 < s.sampleRate → 1 ≤ s.oversamplingFactor →
        0 < s.iir.cutoff ∧ s.iir.cutoff < s.iir.samplerate / 2)) ∧
    (∀ s : SVFilter F, SVFilter.Reachable m fm s →
      s.iir.samplerate = s.sampleRate * (s.oversamplingFactor : F) ∧
      s.iir.cutoff = 0.9 * s.sampleRate / 2 ∧ s.iir.order = 16 ∧
      (∀ j, j < 8 →
        s.iir.a1.getD j 0 = IIRLowpass.a1Of m (s.sampleRate * (s.oversamplingFactor : F))
          (0.9 * s.sampleRate / 2) 16 j ∧
        s.iir.a2.getD j 0 = IIRLowpass.a2Of m (s.sampleRate * (s.oversamplingFactor : F))
          (0.9 * s.sampleRate / 2) 16 j ∧
        s.iir.K.getD j 0 = IIRLowpass.KOf m (s.sampleRate * (s.oversamplingFactor : F))
          (0.9 * s.sampleRate / 2) 16 j) ∧
      (0 < s.sampleRate → 1 ≤ s.oversamplingFactor →
        0 < s.iir.cutoff ∧ s.iir.cutoff < s.iir.samplerate / 2)) := by
  refine ⟨?_, ?_, ?_⟩
  · intro s hs
    obtain ⟨h1, h2, h3, h4⟩ := Ladder.ladder_Reachable_configured m fm s hs
    have h3' : s.iir.cutoff = 0.9 * s.sampleRate / 2 := h3
    have h4' : s.iir.order = 8 := h4
    refine ⟨h2, h3', h4', ?_, ?_⟩
    · intro j hj
      have := IIRLowpass.designed_getD m s.iir h1 j (by rw [h4']; exact hj)
      rw [h2, h3', h4'] at this
      exact this
    · intro hsr hn
      rw [h2, h3']
      exact antialias_below_nyquist s.sampleRate s.oversamplingFactor hsr hn
  · intro s hs
    obtain ⟨h1, h2, h3, h4⟩ := SKFilter.sk_Reachable_configured m fm s hs
    have h3' : s.iir.cutoff = 0.9 * s.sampleRate / 2 := h3
    have h4' : s.iir.order = 8 := h4
    refine ⟨h2, h3', h4', ?_, ?_⟩
    · intro j hj
      have := IIRLowpass.designed_getD m s.iir h1 j (by rw [h4']; exact hj)
      rw [h2, h3', h4'] at this
      exact this
    · intro hsr hn
      rw [h2, h3']
      exact antialias_below_nyquist s.sampleRate s.oversamplingFactor hsr hn
  · intro s hs
    obtain ⟨h1, h2, h3, h4⟩ := SVFilter.svf_Reachable_configured m fm s hs
    have h3' : s.iir.cutoff = 0.9 * s.sampleRate / 2 := h3
    have h4' : s.iir.order = 16 := h4
    refine ⟨h2, h3', h4', ?_, ?_⟩
    · intro j hj
      have := IIRLowpass.designed_getD m s.iir h1 j (by rw [h4']; exact hj)
      rw [h2, h3', h4'] at this
      exact this
    · intro hsr hn
      rw [h2, h3']
      exact antialias_below_nyquist s.sampleRate s.oversamplingFactor hsr hn

theorem C26_anti_alias_configuration_witness :
    (SVFilter.newDefault sampleLibM (fun _ _ => 0)).iir.order = 16 ∧
    0 < (SVFilter.newDefault sampleLibM (fun _ _ => 0)).iir.cutoff ∧
    (SVFilter.newDefault sampleLibM (fun _ _ => 0)).iir.cutoff <
      (SVFilter.newDefault sampleLibM (fun _ _ => 0)).iir.samplerate / 2 :=
  have h := (C26_anti_alias_configuration sampleLibM sampleFastMath).2.2
    (SVFilter.newDefault sampleLibM (fun _ _ => 0))
    (SVFilter.Reachable.constructDefault (fun _ _ => 0))
  have hp := SVFilter.svf_newDefault_params sampleLibM (fun _ _ => 0)
  have hb := h.2.2.2.2 (by rw [hp.2.2.2.2.1]; norm_num) (by rw [hp.2.2.1]; decide)
  ⟨h.2.2.1, hb.1, hb.2⟩

namespace SKFilter
variable {F : Type} [LinearOrderedField F]

/-- C33. Sallen-Key trapezoidal divisions are guarded.  For every `dt` in `[0, 0.35]` and
`Resonance` in `[0, 1]`, with `alpha = dt/2` and `res = 4·Resonance`: `1 + alpha > 0` and
`c = 1 − (alpha − alpha²/(1 + alpha))·res + alpha > 0`; hence, provided `CoshPade54` returns a
non-negative value, the Newton denominator `c + alpha·CoshPade54(4·x)` is strictly positive for
every `x`, and no division by zero occurs. -/
theorem C33_sk_trapezoidal_guarded (fm : FastMath F) (dt Resonance : F)
    (h0 : 0 ≤ dt) (h1 : dt ≤ 0.35) (hR0 : 0 ≤ Resonance) (hR1 : Resonance ≤ 1)
    (hC : ∀ x, 0 ≤ fm.CoshPade54 x) :
    0 < 1 + dt / 2 ∧
    trapCoef (4 * Resonance) dt =
      1 - (dt / 2 - dt / 2 * (dt / 2) / (1 + dt / 2)) * (4 * Resonance) + dt / 2 ∧
    0 < trapCoef (4 * Resonance) dt ∧
    ∀ x, 0 < trapCoef (4 * Resonance) dt + dt / 2 * fm.CoshPade54 (4 * x) := by
  have ha0 : 0 ≤ dt / 2 := by positivity
  have ha1 : dt / 2 ≤ 0.175 := by
    have : (0.175 : F) = 0.35 / 2 := by norm_num
    rw [this]
    exact div_le_div_of_nonneg_right h1 (by norm_num)
  have hpos : 0 < 1 + dt / 2 := by linarith
  have hq0 : 0 ≤ dt / 2 * (dt / 2) / (1 + dt / 2) :=
    div_nonneg (mul_nonneg ha0 ha0) (le_of_lt hpos)
  have hq1 : dt / 2 * (dt / 2) / (1 + dt / 2) ≤ dt / 2 := by
    rw [div_le_iff₀ hpos]
    nlinarith
  have hk0 : 0 ≤ dt / 2 - dt / 2 * (dt / 2) / (1 + dt / 2) := by linarith
  have hk1 : dt / 2 - dt / 2 * (dt / 2) / (1 + dt / 2) ≤ 0.175 := by linarith
  have hr0 : 0 ≤ 4 * Resonance := by positivity
  have hr1 : 4 * Resonance ≤ 4 := by linarith
  have hprod : (dt / 2 - dt / 2 * (dt / 2) / (1 + dt / 2)) * (4 * Resonance) ≤ 0.175 * 4 :=
    mul_le_mul hk1 hr1 hr0 (by norm_num)
  have hc : 0 < trapCoef (4 * Resonance) dt := by
    unfold trapCoef
    have : (0.175 : F) * 4 < 1 := by norm_num
    linarith
  refine ⟨hpos, rfl, hc, fun x => ?_⟩
  have := mul_nonneg ha0 (hC (4 * x))
  linarith

theorem C33_sk_trapezoidal_guarded_witness :
    0 < trapCoef (4 * (1 : ℚ)) (7 / 20) + (7 / 20 : ℚ) / 2 * sampleFastMath.CoshPade54 (4 * 3) :=
  (C33_sk_trapezoidal_guarded sampleFastMath (7 / 20) 1 (by norm_num) (by norm_num)
    (by norm_num) (by norm_num)
    (fun x => by
      show (0 : ℚ) ≤ 1 + x * x
      nlinarith [mul_self_nonneg x])).2.2.2 3

end SKFilter

namespace SVFilter
variable {F : Type} [LinearOrderedField F]

/-- C34. State-variable trapezoidal division is guarded.  For every `dt2` in `[0, 0.8]` and
`Resonance` in `[0, 1]`, with `alpha = dt2/2`, `fb = 1 − 3.5·Resonance` and
`alpha2 = dt2²/4 + fb·alpha`, the Newton denominator `1 + alpha·CoshPade54(x) + alpha2` is at
least `0.16 > 0` for every `x`, provided `CoshPade54` returns a non-negative value; no division
by zero occurs. -/
theorem C34_svf_trapezoidal_guarded (fm : FastMath F) (dt2 Resonance : F)
    (h0 : 0 ≤ dt2) (h1 : dt2 ≤ 0.8) (_hR0 : 0 ≤ Resonance) (hR1 : Resonance ≤ 1)
    (hC : ∀ x, 0 ≤ fm.CoshPade54 x) (x : F) :
    trapSlope fm (dt2 / 2) (alpha2 (1 - 3.5 * Resonance) dt2) x =
      1 + dt2 / 2 * fm.CoshPade54 x + (dt2 * dt2 / 4 + (1 - 3.5 * Resonance) * (dt2 / 2)) ∧
    0.16 ≤ trapSlope fm (dt2 / 2) (alpha2 (1 - 3.5 * Resonance) dt2) x ∧
    0 < trapSlope fm (dt2 / 2) (alpha2 (1 - 3.5 * Resonance) dt2) x := by
  have hcosh := mul_nonneg (by positivity : 0 ≤ dt2 / 2) (hC x)
  have e35 : (3.5 : F) = 7 / 2 := by norm_num
  have e08 : (0.8 : F) = 4 / 5 := by norm_num
  have e16 : (0.16 : F) = 4 / 25 := by norm_num
  rw [e08] at h1
  have hkey : (4 : F) / 25 ≤
      1 + dt2 / 2 * fm.CoshPade54 x + (dt2 * dt2 / 4 + (1 - 7 / 2 * Resonance) * (dt2 / 2)) := by
    nlinarith [mul_nonneg h0 (sub_nonneg.mpr hR1), mul_nonneg (sub_nonneg.mpr h1)
      (sub_nonneg.mpr h1), mul_nonneg h0 (sub_nonneg.mpr h1)]
  refine ⟨rfl, ?_, ?_⟩
  · unfold trapSlope alpha2
    rw [e35, e16]
    exact hkey
  · unfold trapSlope alpha2
    rw [e35]
    linarith

theorem C34_svf_trapezoidal_guarded_witness :
    (0.16 : ℚ) ≤ trapSlope sampleFastMath ((4 / 5 : ℚ) / 2) (alpha2 (1 - 3.5 * 1) (4 / 5)) 2 :=
  (C34_svf_trapezoidal_guarded sampleFastMath (4 / 5) 1 (by norm_num) (by norm_num)
    (by norm_num) (by norm_num)
    (fun x => by
      show (0 : ℚ) ≤ 1 + x * x
      nlinarith [mul_self_nonneg x]) 2).2.1

end SVFilter

namespace Ladder
variable {F : Type} [LinearOrderedField F]

theorem ladder_newtonStep_zero (fm : FastMath F) (input : F) (s : Ladder F)
    (hT : fm.TanhPade32 0 = 0) (x : F) :
    newtonStep fm 0 input s x = fm.TanhPade32 input := by
  unfold newtonStep newtonResidual newtonSlope trapCt trapG
  simp only [neg_zero, zero_mul, hT, mul_zero, sub_zero, add_zero, mul_one, div_one]
  ring

theorem newtonLoop_two {G : Type} [LinearOrderedField G] (abs next : G → G) (x0 : G)
    (hfix : next (next x0) = next x0) (h0 : abs 0 < 1e-9) :
    forLoop (newtonBody abs next) 2 (x0, false) = (next x0, true) := by
  show newtonBody abs next 1 (newtonBody abs next 0 (x0, false)) = (next x0, true)
  by_cases h : abs (next x0 - x0) < 1e-9
  · have e1 : newtonBody abs next 0 (x0, false) = (next x0, true) := by
      simp [newtonBody, h]
    rw [e1, newtonBody_done]
  · have e1 : newtonBody abs next 0 (x0, false) = (next x0, false) := by
      simp [newtonBody, h]
    rw [e1]
    simp [newtonBody, hfix, h0]

/-- C35. Ladder at zero resonance.  With `Resonance = 0` (so `fb = 0` and `g = 0`),
`TanhPade32(0) = 0` and `abs(0) < 1e-9`, for every state, `dt` and input the Newton loop of the
trapezoidal scheme has taken its `break` after at most 2 iterations and returns exactly
`C_t = TanhPade32(input)`; the new pole 0 is `c·p0 + b·(TanhPade32(ut_1) + TanhPade32(input))`,
each further new pole is `c·p_k + b·(p_{k−1} + p_{k−1}_new)`, and pole 3 enters no update but its
own term `c·p3`: two states that differ only in pole 3 get the same new poles 0, 1, 2 and the same
`p3_new − c·p3`. -/
theorem C35_ladder_zero_resonance (m : LibM F) (fm : FastMath F) (RAND_MAX rnd : Nat)
    (input : F) (s : Ladder F)
    (hm : s.integrationMethod = LadderIntegrationMethod.LADDER_TRAPEZOIDAL_FEEDBACK_TANH)
    (hT : fm.TanhPade32 0 = 0) (habs : m.abs 0 < 1e-9) :
    ((8 : F) * 0 = 0 ∧ trapG 0 (trapB s.dt) = 0) ∧
    forLoop (newtonBody m.abs (newtonStep fm 0 input s)) 2 (trapUt fm 0 s, false) =
      (fm.TanhPade32 input, true) ∧
    trapUt2 m fm 0 input s = fm.TanhPade32 input ∧
    trapCt fm 0 input (cascadeD (trapB s.dt) (trapC s.dt) (trapUt fm 0 s) s) =
      fm.TanhPade32 input ∧
    (integrate m fm 0 input s).p0 =
      trapC s.dt * s.p0 + trapB s.dt * (fm.TanhPade32 s.ut_1 + fm.TanhPade32 input) ∧
    (integrate m fm 0 input s).p1 =
      trapC s.dt * s.p1 + trapB s.dt * (s.p0 + (integrate m fm 0 input s).p0) ∧
    (integrate m fm 0 input s).p2 =
      trapC s.dt * s.p2 + trapB s.dt * (s.p1 + (integrate m fm 0 input s).p1) ∧
    (integrate m fm 0 input s).p3 =
      trapC s.dt * s.p3 + trapB s.dt * (s.p2 + (integrate m fm 0 input s).p2) ∧
    (∀ t : Ladder F,
      t.integrationMethod = LadderIntegrationMethod.LADDER_TRAPEZOIDAL_FEEDBACK_TANH →
      t.dt = s.dt → t.p0 = s.p0 → t.p1 = s.p1 → t.p2 = s.p2 → t.ut_1 = s.ut_1 →
        (integrate m fm 0 input t).p0 = (integrate m fm 0 input s).p0 ∧
        (integrate m fm 0 input t).p1 = (integrate m fm 0 input s).p1 ∧
        (integrate m fm 0 input t).p2 = (integrate m fm 0 input s).p2 ∧
        (integrate m fm 0 input t).p3 - trapC t.dt * t.p3 =
          (integrate m fm 0 input s).p3 - trapC s.dt * s.p3) ∧
    (s.Resonance = 0 →
      LadderFilter m fm RAND_MAX rnd input s =
        forLoop (tick m fm 0 (input + ditherNoise RAND_MAX rnd)) s.oversamplingFactor.toNat s) := by
  have hstep : ∀ (u : Ladder F) (x : F), newtonStep fm 0 input u x = fm.TanhPade32 input :=
    fun u x => ladder_newtonStep_zero fm input u hT x
  have hsolve : ∀ u : Ladder F, trapUt2 m fm 0 input u = fm.TanhPade32 input := by
    intro u
    rw [ladder_trapUt2_loop, newtonRaphson_fixed m.abs _ _ (by rw [hstep, hstep]) habs, hstep]
  have hut : ∀ u : Ladder F, trapUt fm 0 u = fm.TanhPade32 u.ut_1 := by
    intro u
    unfold trapUt
    rw [zero_mul, sub_zero]
  have hpoles : ∀ u : Ladder F,
      u.integrationMethod = LadderIntegrationMethod.LADDER_TRAPEZOIDAL_FEEDBACK_TANH →
      (integrate m fm 0 input u).p0 =
        trapC u.dt * u.p0 + trapB u.dt * (fm.TanhPade32 u.ut_1 + fm.TanhPade32 input) ∧
      (integrate m fm 0 input u).p1 =
        trapC u.dt * u.p1 + trapB u.dt * (u.p0 + (integrate m fm 0 input u).p0) ∧
      (integrate m fm 0 input u).p2 =
        trapC u.dt * u.p2 + trapB u.dt * (u.p1 + (integrate m fm 0 input u).p1) ∧
      (integrate m fm 0 input u).p3 =
        trapC u.dt * u.p3 + trapB u.dt * (u.p2 + (integrate m fm 0 input u).p2) := by
    intro u hu
    rw [ladder_integrate_trapezoidal m fm 0 input u hu, hsolve u, hut u]
    exact ⟨rfl, rfl, rfl, rfl⟩
  obtain ⟨q0, q1, q2, q3⟩ := hpoles s hm
  refine ⟨⟨mul_zero _, ?_⟩, ?_, hsolve s, ?_, q0, q1, q2, q3, ?_, ?_⟩
  · unfold trapG
    simp
  · have h2 := newtonLoop_two m.abs (newtonStep fm 0 input s) (trapUt fm 0 s)
      (by rw [hstep, hstep]) habs
    rw [hstep] at h2
    exact h2
  · unfold trapCt
    rw [zero_mul, sub_zero]
  · intro t ht hdt h0 h1 h2 hu
    obtain ⟨r0, r1, r2, r3⟩ := hpoles t ht
    have e0 : (integrate m fm 0 input t).p0 = (integrate m fm 0 input s).p0 := by
      rw [r0, q0, hdt, h0, hu]
    have e1 : (integrate m fm 0 input t).p1 = (integrate m fm 0 input s).p1 := by
      rw [r1, q1, hdt, h0, h1, e0]
    have e2 : (integrate m fm 0 input t).p2 = (integrate m fm 0 input s).p2 := by
      rw [r2, q2, hdt, h1, h2, e1]
    refine ⟨e0, e1, e2, ?_⟩
    rw [r3, q3, e2, hdt, h2]
    ring
  · intro hR
    unfold LadderFilter
    simp only [hR, mul_zero]

theorem C35_ladder_zero_resonance_witness :
    trapUt2 sampleLibM sampleFastMath 0 1
        (sampleLadder LadderIntegrationMethod.LADDER_TRAPEZOIDAL_FEEDBACK_TANH) =
      sampleFastMath.TanhPade32 1 :=
  (C35_ladder_zero_resonance sampleLibM sampleFastMath 100 50 1
    (sampleLadder LadderIntegrationMethod.LADDER_TRAPEZOIDAL_FEEDBACK_TANH) rfl
    (by norm_num [sampleFastMath]) (by norm_num [sampleLibM])).2.2.1

end Ladder

namespace SKFilter
variable {F : Type} [LinearOrderedField F]

theorem sk_tick_with_hp (m : LibM F) (fm : FastMath F) (res : F) (nn : Nat) (s : SKFilter F)
    (a b : F) :
    tick m fm res nn { s with input_hp := a, input_hp_t1 := b } =
      { tick m fm res nn s with input_hp := a, input_hp_t1 := b } := by
  obtain ⟨cf, r, ov, fmode, sr, dt, meth, p0, p1, ilp, ibp, ihp, ilp1, ibp1, ihp1, out, iir⟩ := s
  unfold tick integrate
  cases meth <;> dsimp only <;> split_ifs <;> rfl

theorem sk_tickLoop_with_hp (m : LibM F) (fm : FastMath F) (res : F) (n : Nat) (s : SKFilter F)
    (a b : F) :
    forLoop (tick m fm res) n { s with input_hp := a, input_hp_t1 := b } =
      { forLoop (tick m fm res) n s with input_hp := a, input_hp_t1 := b } := by
  induction n with
  | zero => rfl
  | succ n ih => rw [forLoop_succ, ih, sk_tick_with_hp, forLoop_succ]

theorem sk_route_highpass (x y : F) (s : SKFilter F)
    (hm : s.filterMode = SKFilterMode.SK_HIGHPASS_MODE) :
    route x s = { route y s with input_hp := x, input_hp_t1 := (route y s).input_hp_t1 } := by
  obtain ⟨cf, r, ov, fmode, sr, dt, meth, p0, p1, ilp, ibp, ihp, ilp1, ibp1, ihp1, out, iir⟩ := s
  simp only [] at hm
  subst hm
  rfl

/-- C31. Sallen-Key high-pass mode ignores its input.  For every pre-state in
`SK_HIGHPASS_MODE` (any resonance, `dt`, integration method and oversampling factor) and any
two inputs `x` and `y` (with any dither), `filter(x)` and `filter(y)` leave the same `p0`, `p1`,
output and anti-alias engine, and agree on every member but `input_hp` and `input_hp_t1`, which
hold the respective dithered inputs. -/
theorem C31_sk_highpass_ignores_input (m : LibM F) (fm : FastMath F)
    (RAND_MAX rnd rnd2 : Nat) (x y : F) (s : SKFilter F)
    (hm : s.filterMode = SKFilterMode.SK_HIGHPASS_MODE) :
    (filter m fm RAND_MAX rnd x s).p0 = (filter m fm RAND_MAX rnd2 y s).p0 ∧
    (filter m fm RAND_MAX rnd x s).p1 = (filter m fm RAND_MAX rnd2 y s).p1 ∧
    (filter m fm RAND_MAX rnd x s).out = (filter m fm RAND_MAX rnd2 y s).out ∧
    (filter m fm RAND_MAX rnd x s).iir = (filter m fm RAND_MAX rnd2 y s).iir ∧
    filter m fm RAND_MAX rnd x s =
      { filter m fm RAND_MAX rnd2 y s with
        input_hp := x + ditherNoise RAND_MAX rnd,
        input_hp_t1 := x + ditherNoise RAND_MAX rnd } ∧
    (filter m fm RAND_MAX rnd2 y s).input_hp = y + ditherNoise RAND_MAX rnd2 ∧
    (filter m fm RAND_MAX rnd2 y s).input_hp_t1 = y + ditherNoise RAND_MAX rnd2 := by
  have hr := sk_route_highpass (x + ditherNoise RAND_MAX rnd) (y + ditherNoise RAND_MAX rnd2) s hm
  have hov : (route (x + ditherNoise RAND_MAX rnd) s).oversamplingFactor =
      (route (y + ditherNoise RAND_MAX rnd2) s).oversamplingFactor := by
    rw [(sk_route_frame _ s).2.2.1, (sk_route_frame _ s).2.2.1]
  have hryhp : (route (y + ditherNoise RAND_MAX rnd2) s).input_hp =
      y + ditherNoise RAND_MAX rnd2 := by
    obtain ⟨cf, r, ov, fmode, sr, dt, meth, p0, p1, ilp, ibp, ihp, ilp1, ibp1, ihp1, out, iir⟩ := s
    simp only [] at hm
    subst hm
    rfl
  have hloop : forLoop (tick m fm (4 * s.Resonance))
      (route (x + ditherNoise RAND_MAX rnd) s).oversamplingFactor.toNat
      (route (x + ditherNoise RAND_MAX rnd) s) =
      { forLoop (tick m fm (4 * s.Resonance))
          (route (y + ditherNoise RAND_MAX rnd2) s).oversamplingFactor.toNat
          (route (y + ditherNoise RAND_MAX rnd2) s) with
        input_hp := x + ditherNoise RAND_MAX rnd,
        input_hp_t1 := (route (y + ditherNoise RAND_MAX rnd2) s).input_hp_t1 } := by
    rw [hov]
    conv_lhs => rw [hr]
    exact sk_tickLoop_with_hp m fm _ _ _ _ _
  have hfy : (filter m fm RAND_MAX rnd2 y s).input_hp = y + ditherNoise RAND_MAX rnd2 := by
    have := (sk_tickLoop_frame m fm (4 * s.Resonance)
      (route (y + ditherNoise RAND_MAX rnd2) s).oversamplingFactor.toNat
      (route (y + ditherNoise RAND_MAX rnd2) s)).2.2.2.2.2.2.2.2.2.1
    exact this.trans hryhp
  have hall : filter m fm RAND_MAX rnd x s =
      { filter m fm RAND_MAX rnd2 y s with
        input_hp := x + ditherNoise RAND_MAX rnd,
        input_hp_t1 := x + ditherNoise RAND_MAX rnd } := by
    unfold filter
    dsimp only
    rw [hloop]
  refine ⟨?_, ?_, ?_, ?_, hall, hfy, hfy⟩
  · rw [hall]
  · rw [hall]
  · rw [hall]
  · rw [hall]

theorem C31_sk_highpass_ignores_input_witness :
    (filter sampleLibM sampleFastMath 100 50 1
        (sampleSK SKFilterMode.SK_HIGHPASS_MODE SKIntegrationMethod.SK_TRAPEZOIDAL)).p1 =
      (filter sampleLibM sampleFastMath 100 7 (-3)
        (sampleSK SKFilterMode.SK_HIGHPASS_MODE SKIntegrationMethod.SK_TRAPEZOIDAL)).p1 :=
  (C31_sk_highpass_ignores_input sampleLibM sampleFastMath 100 50 7 1 (-3)
    (sampleSK SKFilterMode.SK_HIGHPASS_MODE SKIntegrationMethod.SK_TRAPEZOIDAL) rfl).2.1

end SKFilter

namespace SVFilter
variable {F : Type} [LinearOrderedField F]

theorem svf_tick_pc (m : LibM F) (fm : FastMath F) (fb dt2 input : F) (nn : Nat)
    (s : SVFilter F) (hm : s.integrationMethod = SVFIntegrationMethod.SVF_PREDICTOR_CORRECTOR) :
    (tick m fm fb dt2 input nn s).lp = s.lp ∧ (tick m fm fb dt2 input nn s).bp = s.bp ∧
    (tick m fm fb dt2 input nn s).hp = s.hp := by
  obtain ⟨cf, r, ov, fmode, sr, dt, meth, lp, bp, hp, u, out, iir⟩ := s
  simp only [] at hm
  subst hm
  unfold tick integrate
  dsimp only
  split_ifs <;> exact ⟨rfl, rfl, rfl⟩

theorem svf_tickLoop_pc (m : LibM F) (fm : FastMath F) (fb dt2 input : F) (n : Nat)
    (s : SVFilter F) (hm : s.integrationMethod = SVFIntegrationMethod.SVF_PREDICTOR_CORRECTOR) :
    (forLoop (tick m fm fb dt2 input) n s).lp = s.lp ∧
    (forLoop (tick m fm fb dt2 input) n s).bp = s.bp ∧
    (forLoop (tick m fm fb dt2 input) n s).hp = s.hp := by
  induction n with
  | zero => exact ⟨rfl, rfl, rfl⟩
  | succ n ih =>
    rw [forLoop_succ]
    have hmeth : (forLoop (tick m fm fb dt2 input) n s).integrationMethod =
        SVFIntegrationMethod.SVF_PREDICTOR_CORRECTOR :=
      (svf_tickLoop_frame m fm fb dt2 input n s).2.2.2.2.2.2.1.trans hm
    obtain ⟨a, b, c⟩ := svf_tick_pc m fm fb dt2 input n _ hmeth
    exact ⟨a.trans ih.1, b.trans ih.2.1, c.trans ih.2.2⟩

theorem svf_filter_pc (m : LibM F) (fm : FastMath F) (RAND_MAX rnd : Nat) (input : F)
    (s : SVFilter F) (hm : s.integrationMethod = SVFIntegrationMethod.SVF_PREDICTOR_CORRECTOR) :
    (filter m fm RAND_MAX rnd input s).lp = s.lp ∧
    (filter m fm RAND_MAX rnd input s).bp = s.bp ∧
    (filter m fm RAND_MAX rnd input s).hp = s.hp :=
  svf_tickLoop_pc m fm (1 - 3.5 * s.Resonance) (clampedRate s)
    (input + ditherNoise RAND_MAX rnd) s.oversamplingFactor.toNat s hm

theorem svf_run_pc (m : LibM F) (fm : FastMath F) (RAND_MAX : Nat) (calls : List (Nat × F))
    (s : SVFilter F) (hm : s.integrationMethod = SVFIntegrationMethod.SVF_PREDICTOR_CORRECTOR) :
    (run m fm RAND_MAX calls s).integrationMethod =
      SVFIntegrationMethod.SVF_PREDICTOR_CORRECTOR ∧
    (run m fm RAND_MAX calls s).lp = s.lp ∧ (run m fm RAND_MAX calls s).bp = s.bp ∧
    (run m fm RAND_MAX calls s).hp = s.hp := by
  induction calls generalizing s with
  | nil => exact ⟨hm, rfl, rfl, rfl⟩
  | cons call rest ih =>
    have hmeth : (filter m fm RAND_MAX call.1 call.2 s).integrationMethod =
        SVFIntegrationMethod.SVF_PREDICTOR_CORRECTOR :=
      (svf_filter_frame m fm RAND_MAX call.1 call.2 s).2.2.2.2.2.2.trans hm
    obtain ⟨a, b, c⟩ := svf_filter_pc m fm RAND_MAX call.1 call.2 s hm
    obtain ⟨i0, i1, i2, i3⟩ := ih (filter m fm RAND_MAX call.1 call.2 s) hmeth
    exact ⟨i0, i1.trans a, i2.trans b, i3.trans c⟩

/-- C32. State-variable predictor-corrector performs no integration.  For every state with
`SVF_PREDICTOR_CORRECTOR` and every input, `filter` leaves `lp`, `bp` and `hp` unchanged (and
stores the dithered input in `u_t1`); consequently, after `ResetFilterState` on an engine with
this method, `lp`, `bp` and `hp` are 0 after every sequence of `filter` calls. -/
theorem C32_svf_predictor_corrector_no_integration (m : LibM F) (fm : FastMath F)
    (RAND_MAX rnd : Nat) (input : F) (calls : List (Nat × F)) (s : SVFilter F)
    (hm : s.integrationMethod = SVFIntegrationMethod.SVF_PREDICTOR_CORRECTOR) :
    ((filter m fm RAND_MAX rnd input s).lp = s.lp ∧
      (filter m fm RAND_MAX rnd input s).bp = s.bp ∧
      (filter m fm RAND_MAX rnd input s).hp = s.hp ∧
      (filter m fm RAND_MAX rnd input s).u_t1 = input + ditherNoise RAND_MAX rnd) ∧
    ((run m fm RAND_MAX calls (ResetFilterState m s)).lp = 0 ∧
      (run m fm RAND_MAX calls (ResetFilterState m s)).bp = 0 ∧
      (run m fm RAND_MAX calls (ResetFilterState m s)).hp = 0) := by
  obtain ⟨a, b, c⟩ := svf_filter_pc m fm RAND_MAX rnd input s hm
  have hreset : (ResetFilterState m s).integrationMethod =
      SVFIntegrationMethod.SVF_PREDICTOR_CORRECTOR :=
    (svf_reset_params m s).2.2.2.2.2.trans hm
  obtain ⟨-, r1, r2, r3⟩ := svf_run_pc m fm RAND_MAX calls (ResetFilterState m s) hreset
  exact ⟨⟨a, b, c, rfl⟩, r1, r2, r3⟩

theorem C32_svf_predictor_corrector_no_integration_witness :
    (run sampleLibM sampleFastMath 100 [(50, 1), (7, -2), (99, 3)]
      (ResetFilterState sampleLibM
        (sampleSVFState SVFIntegrationMethod.SVF_PREDICTOR_CORRECTOR))).bp = 0 :=
  (C32_svf_predictor_corrector_no_integration sampleLibM sampleFastMath 100 50 1
    [(50, 1), (7, -2), (99, 3)] (sampleSVFState SVFIntegrationMethod.SVF_PREDICTOR_CORRECTOR)
    rfl).2.2.1

end SVFilter

namespace IIRLowpass
variable {F : Type} [Field F]

theorem cascade_linear (s t u : IIRLowpass F) (a b x y : F)
    (hK : ∀ i, u.K.getD i 0 = s.K.getD i 0 ∧ u.K.getD i 0 = t.K.getD i 0)
    (ha1 : ∀ i, u.a1.getD i 0 = s.a1.getD i 0 ∧ u.a1.getD i 0 = t.a1.getD i 0)
    (ha2 : ∀ i, u.a2.getD i 0 = s.a2.getD i 0 ∧ u.a2.getD i 0 = t.a2.getD i 0)
    (hz : ∀ j, u.z.getD j 0 = a * s.z.getD j 0 + b * t.z.getD j 0) (n : Nat) :
    cascadeOut u (a * x + b * y) n = a * cascadeOut s x n + b * cascadeOut t y n ∧
    cascadeIn u (a * x + b * y) n = a * cascadeIn s x n + b * cascadeIn t y n := by
  have hout : ∀ n, cascadeOut u (a * x + b * y) n =
      a * cascadeOut s x n + b * cascadeOut t y n := by
    intro n
    induction n with
    | zero => rfl
    | succ n ih =>
      simp only [cascadeOut]
      rw [ih, hz (n * 2), hz (n * 2 + 1)]
      have k1 := (hK n).1
      have k2 := (hK n).2
      have p1 := (ha1 n).1
      have p2 := (ha1 n).2
      have q1 := (ha2 n).1
      have q2 := (ha2 n).2
      rw [← k1, ← p1, ← q1]
      rw [k2, p2, q2]
      ring
  refine ⟨hout n, ?_⟩
  simp only [cascadeIn]
  rw [hout n, hz (n * 2), hz (n * 2 + 1)]
  have k1 := (hK n).1
  have k2 := (hK n).2
  have p1 := (ha1 n).1
  have p2 := (ha1 n).2
  have q1 := (ha2 n).1
  have q2 := (ha2 n).2
  rw [← k1, ← p1, ← q1]
  rw [k2, p2, q2]
  ring

theorem IIRfilter_linear (s t u : IIRLowpass F) (a b x y : F)
    (hos : s.order = u.order) (hot : t.order = u.order)
    (hK : s.K = u.K ∧ t.K = u.K) (ha1 : s.a1 = u.a1 ∧ t.a1 = u.a1)
    (ha2 : s.a2 = u.a2 ∧ t.a2 = u.a2)
    (hls : s.z.length = u.z.length) (hlt : t.z.length = u.z.length)
    (hz : ∀ j, u.z.getD j 0 = a * s.z.getD j 0 + b * t.z.getD j 0) :
    (IIRfilter u (a * x + b * y)).2 = a * (IIRfilter s x).2 + b * (IIRfilter t y).2 ∧
    ∀ j, (IIRfilter u (a * x + b * y)).1.z.getD j 0 =
      a * (IIRfilter s x).1.z.getD j 0 + b * (IIRfilter t y).1.z.getD j 0 := by
  have hlin := cascade_linear s t u a b x y
    (fun i => by rw [hK.1, hK.2]; exact ⟨rfl, rfl⟩)
    (fun i => by rw [ha1.1, ha1.2]; exact ⟨rfl, rfl⟩)
    (fun i => by rw [ha2.1, ha2.2]; exact ⟨rfl, rfl⟩) hz
  obtain ⟨ou, zu⟩ := biquadLoop_spec (u.order / 2) u (a * x + b * y)
  obtain ⟨os, zs⟩ := biquadLoop_spec (s.order / 2) s x
  obtain ⟨ot, zt⟩ := biquadLoop_spec (t.order / 2) t y
  unfold IIRfilter
  refine ⟨?_, ?_⟩
  · rw [ou, os, ot, hos, hot]
    exact (hlin _).1
  · intro j
    rw [zu j, zs j, zt j, hos, hot, hls, hlt]
    by_cases h1 : j < u.order / 2 * 2 ∧ j < u.z.length
    · rw [if_pos h1, if_pos h1, if_pos h1]
      by_cases h2 : j % 2 = 0
      · rw [if_pos h2, if_pos h2, if_pos h2]
        exact (hlin _).2
      · rw [if_neg h2, if_neg h2, if_neg h2]
        exact hz _
    · rw [if_neg h1, if_neg h1, if_neg h1]
      exact hz _

/-- C36. The anti-alias tick is linear.  Let `s`, `t`, `u` be engines with the same order,
coefficients and delay-line length, the delay line of `u` being `a·z_s + b·z_t` cell by cell.
Then `IIRfilter` with input `a·x + b·y` on `u` returns `a·out(x, s) + b·out(y, t)` and leaves the
delay line `a·z_s' + b·z_t'`, for all inputs `x`, `y` and scalars `a`, `b`.  In particular the
input 0 on an all-zero delay line returns 0 and leaves the delay line all zero. -/
theorem C36_antialias_tick_linear (s t u : IIRLowpass F) (a b x y : F)
    (hos : s.order = u.order) (hot : t.order = u.order)
    (hK : s.K = u.K ∧ t.K = u.K) (ha1 : s.a1 = u.a1 ∧ t.a1 = u.a1)
    (ha2 : s.a2 = u.a2 ∧ t.a2 = u.a2)
    (hls : s.z.length = u.z.length) (hlt : t.z.length = u.z.length)
    (hz : ∀ j, u.z.getD j 0 = a * s.z.getD j 0 + b * t.z.getD j 0) :
    (IIRfilter u (a * x + b * y)).2 = a * (IIRfilter s x).2 + b * (IIRfilter t y).2 ∧
    (∀ j, (IIRfilter u (a * x + b * y)).1.z.getD j 0 =
      a * (IIRfilter s x).1.z.getD j 0 + b * (IIRfilter t y).1.z.getD j 0) ∧
    ((IIRfilter u (a * x + b * y)).1.a1 = u.a1 ∧ (IIRfilter u (a * x + b * y)).1.a2 = u.a2 ∧
      (IIRfilter u (a * x + b * y)).1.K = u.K ∧
      (IIRfilter u (a * x + b * y)).1.z.length = u.z.length) ∧
    (∀ e : IIRLowpass F, (∀ j, e.z.getD j 0 = 0) →
      (IIRfilter e 0).2 = 0 ∧ ∀ j, (IIRfilter e 0).1.z.getD j 0 = 0) := by
  obtain ⟨h1, h2⟩ := IIRfilter_linear s t u a b x y hos hot hK ha1 ha2 hls hlt hz
  obtain ⟨-, -, -, f4, f5, f6, -, -, -, -, f11⟩ := biquadLoop_frame (u.order / 2) u (a * x + b * y)
  refine ⟨h1, h2, ⟨f4, f5, f6, f11⟩, ?_⟩
  intro e he
  obtain ⟨g1, g2⟩ := IIRfilter_linear e e e 0 0 0 0 rfl rfl ⟨rfl, rfl⟩ ⟨rfl, rfl⟩ ⟨rfl, rfl⟩
    rfl rfl (fun j => by rw [he j]; ring)
  have e0 : (0 : F) * 0 + 0 * 0 = 0 := by ring
  rw [e0] at g1 g2
  refine ⟨?_, fun j => ?_⟩
  · rw [g1]; ring
  · rw [g2 j]; ring

theorem C36_antialias_tick_linear_witness :
    (IIRfilter ({ sampleDC with z := List.replicate 8 (5 / 4) } : IIRLowpass ℚ)
        (2 * 1 + 3 * 1)).2 =
      2 * (IIRfilter sampleDC 1).2 + 3 * (IIRfilter sampleDC 1).2 :=
  (C36_antialias_tick_linear sampleDC sampleDC
    ({ sampleDC with z := List.replicate 8 (5 / 4) } : IIRLowpass ℚ) 2 3 1 1 rfl rfl
    ⟨rfl, rfl⟩ ⟨rfl, rfl⟩ ⟨rfl, rfl⟩ rfl rfl
    (fun j => by
      show (List.replicate 8 (5 / 4 : ℚ)).getD j 0 =
        2 * (List.replicate 8 (1 / 4 : ℚ)).getD j 0 + 3 * (List.replicate 8 (1 / 4 : ℚ)).getD j 0
      by_cases hj : j < 8
      · interval_cases j <;> norm_num
      · have h1 : (List.replicate 8 (5 / 4 : ℚ)).getD j 0 = 0 :=
          List.getD_eq_default _ _ (by simp; omega)
        have h2 : (List.replicate 8 (1 / 4 : ℚ)).getD j 0 = 0 :=
          List.getD_eq_default _ _ (by simp; omega)
        rw [h1, h2]; norm_num)).1

end IIRLowpass

section RingBuffer

variable {F : Type} [LinearOrderedField F]

theorem truncToInt_bounds [FloorRing F] (time : F) (L : Int) (h0 : 0 ≤ time) (h1 : time ≤ 1)
    (hL : 0 ≤ L) :
    0 ≤ truncToInt (time * (L : F)) ∧ truncToInt (time * (L : F)) ≤ L := by
  have hLF : (0 : F) ≤ (L : F) := by exact_mod_cast hL
  have hx0 : 0 ≤ time * (L : F) := mul_nonneg h0 hLF
  have hx1 : time * (L : F) ≤ (L : F) := by nlinarith
  unfold truncToInt
  rw [if_pos hx0]
  refine ⟨Int.floor_nonneg.mpr hx0, ?_⟩
  have : ⌊time * (L : F)⌋ < L + 1 := by
    rw [Int.floor_lt]
    push_cast
    linarith
  omega

theorem ring_index_bounds (L wp k : Int) (hL : 1 ≤ L) (hw0 : 0 ≤ wp) (hw1 : wp ≤ L - 1)
    (hk0 : 0 ≤ k) (hk1 : k ≤ L) :
    (0 ≤ (if wp - k < 0 then wp - k + L else wp - k) ∧
      (if wp - k < 0 then wp - k + L else wp - k) ≤ L - 1) ∧
    (0 ≤ (if (if wp - k < 0 then wp - k + L else wp - k) - 1 < 0
        then (if wp - k < 0 then wp - k + L else wp - k) - 1 + L
        else (if wp - k < 0 then wp - k + L else wp - k) - 1) ∧
      (if (if wp - k < 0 then wp - k + L else wp - k) - 1 < 0
        then (if wp - k < 0 then wp - k + L else wp - k) - 1 + L
        else (if wp - k < 0 then wp - k + L else wp - k) - 1) ≤ L - 1) := by
  split_ifs <;> omega

theorem next_index_bounds (L wp : Int) (hL : 1 ≤ L) (hw0 : 0 ≤ wp) (hw1 : wp ≤ L - 1) :
    0 ≤ (if wp + 1 > L - 1 then wp + 1 - L else wp + 1) ∧
    (if wp + 1 > L - 1 then wp + 1 - L else wp + 1) ≤ L - 1 ∧
    (if wp + 1 > L - 1 then wp + 1 - L else wp + 1) = (wp + 1) % L := by
  split_ifs with h
  · have e : wp + 1 = L := by omega
    have e0 : (wp + 1) % L = 0 := by rw [e]; exact Int.emod_self
    refine ⟨by omega, by omega, by omega⟩
  · refine ⟨by omega, by omega, ?_⟩
    rw [Int.emod_eq_of_lt (by omega) (by omega)]

theorem storeAt_some {G : Type} (buf : List G) (i : Int) (v : G) (h0 : 0 ≤ i)
    (h1 : i < (buf.length : Int)) : storeAt buf i v = some (buf.set i.toNat v) := by
  unfold storeAt
  rw [if_pos ⟨h0, h1⟩]

theorem loadAt_some (buf : List F) (i : Int) (h0 : 0 ≤ i) (h1 : i < (buf.length : Int)) :
    loadAt buf i = some (buf.getD i.toNat 0) := by
  unfold loadAt
  rw [if_pos ⟨h0, h1⟩]

theorem zeroLoop_within (buf : List F) (n : Nat) (hn : n ≤ buf.length) :
    ∃ buf', forLoop zeroBody n (some buf) = some buf' ∧ buf'.length = buf.length := by
  induction n with
  | zero => exact ⟨buf, rfl, rfl⟩
  | succ n ih =>
    obtain ⟨b, hb, hl⟩ := ih (by omega)
    rw [forLoop_succ, hb]
    refine ⟨b.set n 0, ?_, by simp [hl]⟩
    show (some b).bind (fun buf => storeAt buf (n : Int) 0) = _
    rw [Option.some_bind, storeAt_some b n 0 (by omega) (by rw [hl]; exact_mod_cast hn)]
    simp

theorem zeroLoop_none (n : Nat) : forLoop (zeroBody (F := F)) n none = none := by
  induction n with
  | zero => rfl
  | succ n ih => rw [forLoop_succ, ih]; rfl

theorem zeroLoop_overrun (buf : List F) (n : Nat) (hn : buf.length < n) :
    forLoop zeroBody n (some buf) = none := by
  induction n with
  | zero => omega
  | succ n ih =>
    rw [forLoop_succ]
    by_cases h : buf.length < n
    · rw [ih h]; rfl
    · have hn' : n = buf.length := by omega
      obtain ⟨b, hb, hl⟩ := zeroLoop_within buf n (by omega)
      rw [hb]
      show (some b).bind (fun buf => storeAt buf (n : Int) 0) = none
      rw [Option.some_bind]
      unfold storeAt
      rw [if_neg]
      rw [hl, hn']
      omega

theorem zeroLoop_alloc (junk : Nat → F) (L : Int) (hL : 1 ≤ L) :
    forLoop zeroBody (2 * L).toNat (allocFloats junk L) = none ∧
    (∃ buf, forLoop zeroBody L.toNat (allocFloats junk L) = some buf) ∧
    (∀ buf, allocFloats junk L = some buf → storeAt buf L (0 : F) = none) ∧
    L.toNat < (2 * L).toNat := by
  have hal : allocFloats junk L = some (newFloats junk L.toNat) := by
    unfold allocFloats
    rw [if_pos (by omega)]
  have hlen : (newFloats junk L.toNat).length = L.toNat := length_newFloats junk L.toNat
  refine ⟨?_, ?_, ?_, by omega⟩
  · rw [hal]
    exact zeroLoop_overrun _ _ (by rw [hlen]; omega)
  · rw [hal]
    obtain ⟨b, hb, -⟩ := zeroLoop_within (newFloats junk L.toNat) L.toNat (by rw [hlen])
    exact ⟨b, hb⟩
  · intro buf hb
    rw [hal] at hb
    have : buf = newFloats junk L.toNat := (Option.some.inj hb).symm
    subst this
    unfold storeAt
    rw [if_neg]
    rw [hlen]
    omega

end RingBuffer

/-- C37. Delay ring-buffer accesses stay in range.  For `bufferLength = L ≥ 1`, a ring buffer
of `L` cells and `writePointer` in `[0, L−1]`, in both `DigiDelayPatch` and
`DigiDelayClockedPatch`: `writeDelay` succeeds, leaves `writePointer = (writePointer + 1) mod L`
in `[0, L−1]` and changes the buffer at the new `writePointer` only; and for every `time` in
`[0, 1]` both indices read by `readDelay` (`readPointer` and `readPointer2`) lie in `[0, L−1]`,
so that `readDelay` returns a value. -/
theorem C37_delay_accesses_in_range {F : Type} [LinearOrderedField F] [FloorRing F]
    (input time : F) (s : DigiDelayPatch F) (c : DigiDelayClockedPatch F)
    (hL : 1 ≤ s.bufferLength) (hlen : (s.ringBuffer.length : Int) = s.bufferLength)
    (hw0 : 0 ≤ s.writePointer) (hw1 : s.writePointer ≤ s.bufferLength - 1)
    (hLc : 1 ≤ c.bufferLength) (hlenc : (c.ringBuffer.length : Int) = c.bufferLength)
    (hwc0 : 0 ≤ c.writePointer) (hwc1 : c.writePointer ≤ c.bufferLength - 1)
    (ht0 : 0 ≤ time) (ht1 : time ≤ 1) :
    ((∃ s', DigiDelayPatch.writeDelay input s = some s' ∧
        0 ≤ s'.writePointer ∧ s'.writePointer ≤ s.bufferLength - 1 ∧
        s'.writePointer = (s.writePointer + 1) % s.bufferLength ∧
        s'.bufferLength = s.bufferLength ∧
        s'.ringBuffer.length = s.ringBuffer.length ∧
        ∀ j : Nat, (j : Int) ≠ s'.writePointer →
          s'.ringBuffer.getD j 0 = s.ringBuffer.getD j 0) ∧
      (0 ≤ DigiDelayPatch.readPointer s time ∧
        DigiDelayPatch.readPointer s time ≤ s.bufferLength - 1) ∧
      (0 ≤ DigiDelayPatch.readPointer2 s time ∧
        DigiDelayPatch.readPointer2 s time ≤ s.bufferLength - 1) ∧
      (DigiDelayPatch.readDelay s time).isSome = true) ∧
    ((∃ c', DigiDelayClockedPatch.writeDelay input c = some c' ∧
        0 ≤ c'.writePointer ∧ c'.writePointer ≤ c.bufferLength - 1 ∧
        c'.writePointer = (c.writePointer + 1) % c.bufferLength ∧
        c'.bufferLength = c.bufferLength ∧
        c'.ringBuffer.length = c.ringBuffer.length ∧
        ∀ j : Nat, (j : Int) ≠ c'.writePointer →
          c'.ringBuffer.getD j 0 = c.ringBuffer.getD j 0) ∧
      (0 ≤ DigiDelayClockedPatch.readPointer c time ∧
        DigiDelayClockedPatch.readPointer c time ≤ c.bufferLength - 1) ∧
      (0 ≤ DigiDelayClockedPatch.readPointer2 c time ∧
        DigiDelayClockedPatch.readPointer2 c time ≤ c.bufferLength - 1) ∧
      (DigiDelayClockedPatch.readDelay c time).isSome = true) := by
  constructor
  · obtain ⟨k0, k1⟩ := truncToInt_bounds time s.bufferLength ht0 ht1 (by omega)
    obtain ⟨r1, r2⟩ := ring_index_bounds s.bufferLength s.writePointer
      (truncToInt (time * (s.bufferLength : F))) hL hw0 hw1 k0 k1
    obtain ⟨n0, n1, n2⟩ := next_index_bounds s.bufferLength s.writePointer hL hw0 hw1
    have hr1 : 0 ≤ DigiDelayPatch.readPointer s time ∧
        DigiDelayPatch.readPointer s time ≤ s.bufferLength - 1 := r1
    have hr2 : 0 ≤ DigiDelayPatch.readPointer2 s time ∧
        DigiDelayPatch.readPointer2 s time ≤ s.bufferLength - 1 := r2
    have hn : 0 ≤ DigiDelayPatch.nextWritePointer s ∧
        DigiDelayPatch.nextWritePointer s ≤ s.bufferLength - 1 ∧
        DigiDelayPatch.nextWritePointer s = (s.writePointer + 1) % s.bufferLength :=
      ⟨n0, n1, n2⟩
    refine ⟨?_, hr1, hr2, ?_⟩
    · have hst := storeAt_some s.ringBuffer (DigiDelayPatch.nextWritePointer s)
        (s.hp + 0.00005 * (input - s.hp) - input) hn.1 (by rw [hlen]; omega)
      refine ⟨{ s with writePointer := DigiDelayPatch.nextWritePointer s,
                       hp := s.hp + 0.00005 * (input - s.hp),
                       ringBuffer := s.ringBuffer.set (DigiDelayPatch.nextWritePointer s).toNat
                         (s.hp + 0.00005 * (input - s.hp) - input) },
        by unfold DigiDelayPatch.writeDelay; dsimp only; rw [hst]; rfl, hn.1, hn.2.1, hn.2.2, rfl,
        by simp, ?_⟩
      intro j hj
      show (s.ringBuffer.set (DigiDelayPatch.nextWritePointer s).toNat _).getD j 0 = _
      rw [getD_set_eq, if_neg]
      intro h
      apply hj
      show (j : Int) = DigiDelayPatch.nextWritePointer s
      omega
    · unfold DigiDelayPatch.readDelay
      rw [loadAt_some _ _ hr1.1 (by rw [hlen]; omega),
        loadAt_some _ _ hr2.1 (by rw [hlen]; omega)]
      rfl
  · obtain ⟨k0, k1⟩ := truncToInt_bounds time c.bufferLength ht0 ht1 (by omega)
    obtain ⟨r1, r2⟩ := ring_index_bounds c.bufferLength c.writePointer
      (truncToInt (time * (c.bufferLength : F))) hLc hwc0 hwc1 k0 k1
    obtain ⟨n0, n1, n2⟩ := next_index_bounds c.bufferLength c.writePointer hLc hwc0 hwc1
    have hr1 : 0 ≤ DigiDelayClockedPatch.readPointer c time ∧
        DigiDelayClockedPatch.readPointer c time ≤ c.bufferLength - 1 := r1
    have hr2 : 0 ≤ DigiDelayClockedPatch.readPointer2 c time ∧
        DigiDelayClockedPatch.readPointer2 c time ≤ c.bufferLength - 1 := r2
    have hn : 0 ≤ DigiDelayClockedPatch.nextWritePointer c ∧
        DigiDelayClockedPatch.nextWritePointer c ≤ c.bufferLength - 1 ∧
        DigiDelayClockedPatch.nextWritePointer c = (c.writePointer + 1) % c.bufferLength :=
      ⟨n0, n1, n2⟩
    refine ⟨?_, hr1, hr2, ?_⟩
    · have hst := storeAt_some c.ringBuffer (DigiDelayClockedPatch.nextWritePointer c)
        (c.hp + 0.00005 * (input - c.hp) - input) hn.1 (by rw [hlenc]; omega)
      refine ⟨{ c with writePointer := DigiDelayClockedPatch.nextWritePointer c,
                       hp := c.hp + 0.00005 * (input - c.hp),
                       ringBuffer := c.ringBuffer.set
                         (DigiDelayClockedPatch.nextWritePointer c).toNat
                         (c.hp + 0.00005 * (input - c.hp) - input) },
        by unfold DigiDelayClockedPatch.writeDelay; dsimp only; rw [hst]; rfl, hn.1, hn.2.1,
        hn.2.2, rfl, by simp, ?_⟩
      intro j hj
      show (c.ringBuffer.set (DigiDelayClockedPatch.nextWritePointer c).toNat _).getD j 0 = _
      rw [getD_set_eq, if_neg]
      intro h
      apply hj
      show (j : Int) = DigiDelayClockedPatch.nextWritePointer c
      omega
    · unfold DigiDelayClockedPatch.readDelay
      rw [loadAt_some _ _ hr1.1 (by rw [hlenc]; omega),
        loadAt_some _ _ hr2.1 (by rw [hlenc]; omega)]
      rfl

theorem C37_delay_accesses_in_range_witness :
    (DigiDelayPatch.readDelay sampleDelay 1).isSome = true ∧
    DigiDelayClockedPatch.readPointer2 sampleDelayClocked 1 ≤ sampleDelayClocked.bufferLength - 1 :=
  have h := C37_delay_accesses_in_range (1 : ℚ) 1 sampleDelay sampleDelayClocked
    (by decide) (by decide) (by decide) (by decide) (by decide) (by decide) (by decide)
    (by decide) (by norm_num) (by norm_num)
  ⟨h.1.2.2.2, h.2.2.2.1.2⟩

/-- C38 (divergence). With `getSampleRate()` = 48000 the constructors of `DigiDelayPatch` and
`DigiDelayClockedPatch` allocate `bufferLength = 96000` cells and run the zeroing loop for
`i < 2*bufferLength = 192000`: the write at `i = 96000 = bufferLength` is outside the
allocation, so the constructor has no defined result, whereas the same loop run for
`i < bufferLength` stays inside the allocation. -/
theorem C38_delay_init_overrun :
    DigiDelayPatch.new (fun _ => (0 : ℚ)) 48000 0 0 = none ∧
    DigiDelayClockedPatch.new (fun _ => (0 : ℚ)) 48000 0 0 = none ∧
    (∀ buf, allocFloats (fun _ => (0 : ℚ)) (2 * 48000) = some buf →
      buf.length = 96000 ∧ storeAt buf 96000 (0 : ℚ) = none) ∧
    (96000 : Nat) < (2 * (2 * (48000 : Int))).toNat ∧
    (∃ buf, forLoop zeroBody (2 * (48000 : Int)).toNat
      (allocFloats (fun _ => (0 : ℚ)) (2 * 48000)) = some buf) := by
  obtain ⟨h1, h2, h3, h4⟩ := zeroLoop_alloc (fun _ => (0 : ℚ)) (2 * 48000) (by norm_num)
  refine ⟨?_, ?_, ?_, by decide, h2⟩
  · unfold DigiDelayPatch.new
    dsimp only
    rw [h1]
    rfl
  · unfold DigiDelayClockedPatch.new
    dsimp only
    rw [h1]
    rfl
  · intro buf hb
    refine ⟨?_, h3 buf hb⟩
    unfold allocFloats at hb
    rw [if_pos (by norm_num)] at hb
    have : buf = newFloats (fun _ => (0 : ℚ)) (2 * (48000 : Int)).toNat :=
      (Option.some.inj hb).symm
    rw [this, length_newFloats]
    rfl

namespace Ladder
variable {F : Type} [LinearOrderedField F]

theorem ladder_dtFloat_num (s : Ladder F)
    (h : s.sampleRate * (s.oversamplingFactor : F) ≠ 0) :
    dtFloat s = FloatVal.num (SetFilterIntegrationRate s).dt := by
  unfold dtFloat SetFilterIntegrationRate FloatVal.rateQuotient
  simp only [if_neg h, FloatVal.mul, FloatVal.lt, FloatVal.gt, decide_eq_true_eq]
  split_ifs <;> rfl

theorem ladder_dtFloat_nan (s : Ladder F)
    (h : s.sampleRate * (s.oversamplingFactor : F) = 0) (hc : s.cutoffFrequency = 0) :
    dtFloat s = FloatVal.nan := by
  unfold dtFloat FloatVal.rateQuotient
  rw [if_pos h]
  simp [FloatVal.mul, FloatVal.lt, FloatVal.gt, hc]

end Ladder

namespace SKFilter
variable {F : Type} [LinearOrderedField F]

theorem sk_dtFloat_num (s : SKFilter F)
    (h : s.sampleRate * (s.oversamplingFactor : F) ≠ 0) :
    dtFloat s = FloatVal.num (SetFilterIntegrationRate s).dt := by
  unfold dtFloat SetFilterIntegrationRate FloatVal.rateQuotient
  simp only [if_neg h, FloatVal.mul, FloatVal.lt, FloatVal.gt, decide_eq_true_eq]
  split_ifs <;> rfl

theorem sk_dtFloat_nan (s : SKFilter F)
    (h : s.sampleRate * (s.oversamplingFactor : F) = 0) (hc : s.cutoffFrequency = 0) :
    dtFloat s = FloatVal.nan := by
  unfold dtFloat FloatVal.rateQuotient
  rw [if_pos h]
  simp [FloatVal.mul, FloatVal.lt, FloatVal.gt, hc]

end SKFilter

namespace SVFilter
variable {F : Type} [LinearOrderedField F]

theorem svf_dtFloat_num (s : SVFilter F)
    (h : s.sampleRate * (s.oversamplingFactor : F) ≠ 0) :
    dtFloat s = FloatVal.num (SetFilterIntegrationRate s).dt := by
  unfold dtFloat SetFilterIntegrationRate FloatVal.rateQuotient
  simp only [if_neg h, FloatVal.mul, FloatVal.lt, FloatVal.gt, decide_eq_true_eq]
  split_ifs <;> rfl

end SVFilter

/-- C7 (counterexample). On a default-constructed ladder engine the calls `SetFilterCutoff(0)`
and `SetFilterOversamplingFactor(0)` leave `sampleRate * oversamplingFactor = 0` and cutoff 0:
the quotient `44100.0 / 0` is infinite, its product with the cutoff 0 is NaN, both clamp tests
fail and `dt` is NaN, which is not in `[0, 0.85]`.  The same calls on a Sallen-Key engine leave
a `dt` that is not in `[0, 0.35]`. -/
theorem C7_integration_step_counterexample :
    (Ladder.Reachable sampleLibM sampleFastMath
        (Ladder.SetFilterOversamplingFactor sampleLibM 0
          (Ladder.SetFilterCutoff 0 (Ladder.newDefault sampleLibM (fun _ _ => 0)))) ∧
      Ladder.dtFloat (Ladder.SetFilterOversamplingFactor sampleLibM 0
        (Ladder.SetFilterCutoff 0 (Ladder.newDefault sampleLibM (fun _ _ => 0)))) =
          FloatVal.nan ∧
      ¬ FloatVal.within 0 0.85
        (Ladder.dtFloat (Ladder.SetFilterOversamplingFactor sampleLibM 0
          (Ladder.SetFilterCutoff 0 (Ladder.newDefault sampleLibM (fun _ _ => 0)))))) ∧
    (SKFilter.Reachable sampleLibM sampleFastMath
        (SKFilter.SetFilterOversamplingFactor sampleLibM 0
          (SKFilter.SetFilterCutoff 0 (SKFilter.newDefault sampleLibM (fun _ _ => 0)))) ∧
      SKFilter.dtFloat (SKFilter.SetFilterOversamplingFactor sampleLibM 0
        (SKFilter.SetFilterCutoff 0 (SKFilter.newDefault sampleLibM (fun _ _ => 0)))) =
          FloatVal.nan ∧
      ¬ FloatVal.within 0 0.35
        (SKFilter.dtFloat (SKFilter.SetFilterOversamplingFactor sampleLibM 0
          (SKFilter.SetFilterCutoff 0 (SKFilter.newDefault sampleLibM (fun _ _ => 0)))))) := by
  have hLn : (Ladder.SetFilterOversamplingFactor sampleLibM 0
      (Ladder.SetFilterCutoff 0 (Ladder.newDefault sampleLibM (fun _ _ => 0)))).oversamplingFactor
        = 0 := (Ladder.ladder_SetFilterIntegrationRate_frame _).2.2
  have hLc : (Ladder.SetFilterOversamplingFactor sampleLibM 0
      (Ladder.SetFilterCutoff 0 (Ladder.newDefault sampleLibM (fun _ _ => 0)))).cutoffFrequency
        = 0 :=
    (Ladder.ladder_SetFilterIntegrationRate_frame _).1.trans
      (Ladder.ladder_SetFilterIntegrationRate_frame _).1
  have hL : Ladder.dtFloat (Ladder.SetFilterOversamplingFactor sampleLibM 0
      (Ladder.SetFilterCutoff 0 (Ladder.newDefault sampleLibM (fun _ _ => 0)))) =
        FloatVal.nan :=
    Ladder.ladder_dtFloat_nan _ (by rw [hLn]; simp) hLc
  have hKn : (SKFilter.SetFilterOversamplingFactor sampleLibM 0
      (SKFilter.SetFilterCutoff 0
        (SKFilter.newDefault sampleLibM (fun _ _ => 0)))).oversamplingFactor = 0 :=
    (SKFilter.sk_SetFilterIntegrationRate_frame _).2.2
  have hKc : (SKFilter.SetFilterOversamplingFactor sampleLibM 0
      (SKFilter.SetFilterCutoff 0
        (SKFilter.newDefault sampleLibM (fun _ _ => 0)))).cutoffFrequency = 0 :=
    (SKFilter.sk_SetFilterIntegrationRate_frame _).1.trans
      (SKFilter.sk_SetFilterIntegrationRate_frame _).1
  have hK : SKFilter.dtFloat (SKFilter.SetFilterOversamplingFactor sampleLibM 0
      (SKFilter.SetFilterCutoff 0 (SKFilter.newDefault sampleLibM (fun _ _ => 0)))) =
        FloatVal.nan :=
    SKFilter.sk_dtFloat_nan _ (by rw [hKn]; simp) hKc
  refine ⟨⟨?_, hL, ?_⟩, ?_, hK, ?_⟩
  · exact Ladder.Reachable.setOversamplingFactor 0 _
      (Ladder.Reachable.setCutoff 0 _ (Ladder.Reachable.constructDefault (fun _ _ => 0)))
  · rw [hL]
    exact fun h => h
  · exact SKFilter.Reachable.setOversamplingFactor 0 _
      (SKFilter.Reachable.setCutoff 0 _ (SKFilter.Reachable.constructDefault (fun _ _ => 0)))
  · rw [hK]
    exact fun h => h

/-- C7 (amended). Integration-step invariant.  In every state of a `Ladder` reachable from a
constructor by setter calls, resets and ticks in which `sampleRate·oversamplingFactor ≠ 0`, the
`float` computation of `dt` yields a number (no infinity, no NaN), `0 ≤ dt ≤ 0.85`, and `dt` is
the clamp into `[0, 0.85]` of `44100/(sampleRate·oversamplingFactor)·cutoffFrequency` computed
from the current parameters; the same holds for an `SKFilter` with the range `[0, 0.35]`. -/
theorem C7_integration_step_nonzero_divisor {F : Type} [LinearOrderedField F] (m : LibM F)
    (fm : FastMath F) :
    (∀ s : Ladder F, Ladder.Reachable m fm s →
      s.sampleRate * (s.oversamplingFactor : F) ≠ 0 →
      Ladder.dtFloat s = FloatVal.num s.dt ∧
      0 ≤ s.dt ∧ s.dt ≤ 0.85 ∧
      s.dt = max 0 (min 0.85
        (44100 / (s.sampleRate * (s.oversamplingFactor : F)) * s.cutoffFrequency))) ∧
    (∀ s : SKFilter F, SKFilter.Reachable m fm s →
      s.sampleRate * (s.oversamplingFactor : F) ≠ 0 →
      SKFilter.dtFloat s = FloatVal.num s.dt ∧
      0 ≤ s.dt ∧ s.dt ≤ 0.35 ∧
      s.dt = max 0 (min 0.35
        (44100 / (s.sampleRate * (s.oversamplingFactor : F)) * s.cutoffFrequency))) := by
  constructor
  · intro s hs hd
    have h := Ladder.ladder_Reachable_rate m fm s hs
    refine ⟨?_, ?_, ?_, h⟩
    · rw [Ladder.ladder_dtFloat_num s hd, Ladder.ladder_SetFilterIntegrationRate_dt, ← h]
    · rw [h]; exact le_max_left _ _
    · rw [h]; exact max_le (by norm_num) (min_le_left _ _)
  · intro s hs hd
    have h := SKFilter.sk_Reachable_rate m fm s hs
    refine ⟨?_, ?_, ?_, h⟩
    · rw [SKFilter.sk_dtFloat_num s hd, SKFilter.sk_SetFilterIntegrationRate_dt, ← h]
    · rw [h]; exact le_max_left _ _
    · rw [h]; exact max_le (by norm_num) (min_le_left _ _)

theorem C7_integration_step_nonzero_divisor_witness :
    (0 ≤ (Ladder.SetFilterCutoff 3 (Ladder.newDefault sampleLibM (fun _ _ => 0))).dt ∧
      (Ladder.SetFilterCutoff 3 (Ladder.newDefault sampleLibM (fun _ _ => 0))).dt ≤ 0.85) ∧
    (0 ≤ (SKFilter.SetFilterCutoff (-1) (SKFilter.newDefault sampleLibM (fun _ _ => 0))).dt ∧
      (SKFilter.SetFilterCutoff (-1) (SKFilter.newDefault sampleLibM (fun _ _ => 0))).dt
        ≤ 0.35) :=
  have h := C7_integration_step_nonzero_divisor sampleLibM sampleFastMath
  have hLs : (Ladder.SetFilterCutoff 3
      (Ladder.newDefault sampleLibM (fun _ _ => 0))).sampleRate = 44100 :=
    (Ladder.ladder_SetFilterIntegrationRate_frame _).2.1.trans
      (Ladder.ladder_newDefault_params sampleLibM (fun _ _ => 0)).2.2.2.2.1
  have hLn : (Ladder.SetFilterCutoff 3
      (Ladder.newDefault sampleLibM (fun _ _ => 0))).oversamplingFactor = 2 :=
    (Ladder.ladder_SetFilterIntegrationRate_frame _).2.2.trans
      (Ladder.ladder_newDefault_params sampleLibM (fun _ _ => 0)).2.2.1
  have hKs : (SKFilter.SetFilterCutoff (-1)
      (SKFilter.newDefault sampleLibM (fun _ _ => 0))).sampleRate = 44100 :=
    (SKFilter.sk_SetFilterIntegrationRate_frame _).2.1.trans
      (SKFilter.sk_newDefault_params sampleLibM (fun _ _ => 0)).2.2.2.2.1
  have hKn : (SKFilter.SetFilterCutoff (-1)
      (SKFilter.newDefault sampleLibM (fun _ _ => 0))).oversamplingFactor = 2 :=
    (SKFilter.sk_SetFilterIntegrationRate_frame _).2.2.trans
      (SKFilter.sk_newDefault_params sampleLibM (fun _ _ => 0)).2.2.1
  have h1 := h.1 _
    (Ladder.Reachable.setCutoff 3 _ (Ladder.Reachable.constructDefault (fun _ _ => 0)))
    (by rw [hLs, hLn]; norm_num)
  have h2 := h.2 _
    (SKFilter.Reachable.setCutoff (-1) _ (SKFilter.Reachable.constructDefault (fun _ _ => 0)))
    (by rw [hKs, hKn]; norm_num)
  ⟨⟨h1.2.1, h1.2.2.1⟩, ⟨h2.2.1, h2.2.2.1⟩⟩

section IntegerAbsLemmas

variable {F : Type} [LinearOrderedField F] [FloorRing F]

theorem cstdlibAbs_lt_iff (d : F) : cstdlibAbs d < 1e-9 ↔ |d| < 1 := by
  have hcast : ((truncToInt d).natAbs : F) < 1e-9 ↔ truncToInt d = 0 := by
    constructor
    · intro h
      by_contra hne
      have h1 : 1 ≤ (truncToInt d).natAbs := Nat.one_le_iff_ne_zero.mpr (Int.natAbs_ne_zero.mpr hne)
      have h2 : (1 : F) ≤ ((truncToInt d).natAbs : F) := by exact_mod_cast h1
      have h3 : (1e-9 : F) < 1 := by norm_num
      exact absurd (lt_trans (lt_of_le_of_lt h2 h) h3) (lt_irrefl _)
    · intro h
      rw [h]
      norm_num
  have htrunc : truncToInt d = 0 ↔ |d| < 1 := by
    unfold truncToInt
    by_cases h0 : 0 ≤ d
    · rw [if_pos h0, Int.floor_eq_zero_iff, abs_of_nonneg h0]
      exact ⟨fun h => h.2, fun h => ⟨h0, h⟩⟩
    · have hneg : d < 0 := not_le.mp h0
      rw [if_neg h0, Int.ceil_eq_zero_iff, abs_of_neg hneg]
      constructor
      · intro h
        have := h.1
        linarith
      · intro h
        exact ⟨by linarith, le_of_lt hneg⟩
  unfold cstdlibAbs
  exact hcast.trans htrunc

theorem newtonRaphson_cstdlibAbs_first (next : F → F) (x0 : F) (h : |next x0 - x0| < 1) :
    newtonRaphson cstdlibAbs next x0 = next x0 := by
  have hc : cstdlibAbs (next x0 - x0) < 1e-9 := (cstdlibAbs_lt_iff _).mpr h
  have e1 : newtonBody cstdlibAbs next 0 (x0, false) = (next x0, true) := by
    simp [newtonBody, hc]
  have e8 : forLoop (newtonBody cstdlibAbs next) 8 (x0, false) = (next x0, true) := by
    show newtonBody cstdlibAbs next 7 (newtonBody cstdlibAbs next 6 (newtonBody cstdlibAbs next 5
      (newtonBody cstdlibAbs next 4 (newtonBody cstdlibAbs next 3 (newtonBody cstdlibAbs next 2
        (newtonBody cstdlibAbs next 1 (newtonBody cstdlibAbs next 0 (x0, false)))))))) =
          (next x0, true)
    rw [e1]
    simp only [newtonBody_done]
  unfold newtonRaphson
  rw [e8]

end IntegerAbsLemmas

namespace SVFilter

open SVFFilterMode SVFIntegrationMethod

theorem svf_sample_taylor_step (x : ℚ) :
    trapStep taylorFastMath (-3 / 4) (1 / 4) 1 (sampleSVF SVF_TRAPEZOIDAL) x =
      x - (67 / 64 * x + x * x * x / 48 - 1 / 8) / (67 / 64 + x * x / 16) := by
  obtain ⟨e1, e2, -, e4, -⟩ := svf_sample_fresh SVF_TRAPEZOIDAL
  simp only [trapStep, trapResidual, trapSlope, alpha2, D_t, e1, e2, e4, taylorFastMath]
  congr 1
  congr 1 <;> ring

theorem svf_sample_taylor_iterates :
    newtonIterate (trapStep taylorFastMath (-3 / 4) (1 / 4) 1 (sampleSVF SVF_TRAPEZOIDAL))
        (sampleSVF SVF_TRAPEZOIDAL).bp 0 = 0 ∧
    newtonIterate (trapStep taylorFastMath (-3 / 4) (1 / 4) 1 (sampleSVF SVF_TRAPEZOIDAL))
        (sampleSVF SVF_TRAPEZOIDAL).bp 1 = 8 / 67 ∧
    newtonIterate (trapStep taylorFastMath (-3 / 4) (1 / 4) 1 (sampleSVF SVF_TRAPEZOIDAL))
        (sampleSVF SVF_TRAPEZOIDAL).bp 2 = 7222408 / 60504819 ∧
    newtonIterate (trapStep taylorFastMath (-3 / 4) (1 / 4) 1 (sampleSVF SVF_TRAPEZOIDAL))
        (sampleSVF SVF_TRAPEZOIDAL).bp 3 =
      5318967040776395111176712 / 44558980618533322265173251 := by
  obtain ⟨-, e2, -⟩ := svf_sample_fresh SVF_TRAPEZOIDAL
  have h0 : newtonIterate (trapStep taylorFastMath (-3 / 4) (1 / 4) 1
      (sampleSVF SVF_TRAPEZOIDAL)) (sampleSVF SVF_TRAPEZOIDAL).bp 0 = 0 := e2
  have h1 : newtonIterate (trapStep taylorFastMath (-3 / 4) (1 / 4) 1
      (sampleSVF SVF_TRAPEZOIDAL)) (sampleSVF SVF_TRAPEZOIDAL).bp 1 = 8 / 67 := by
    show trapStep taylorFastMath (-3 / 4) (1 / 4) 1 (sampleSVF SVF_TRAPEZOIDAL)
      (newtonIterate _ _ 0) = 8 / 67
    rw [h0, svf_sample_taylor_step]
    norm_num
  have h2 : newtonIterate (trapStep taylorFastMath (-3 / 4) (1 / 4) 1
      (sampleSVF SVF_TRAPEZOIDAL)) (sampleSVF SVF_TRAPEZOIDAL).bp 2 = 7222408 / 60504819 := by
    show trapStep taylorFastMath (-3 / 4) (1 / 4) 1 (sampleSVF SVF_TRAPEZOIDAL)
      (newtonIterate _ _ 1) = 7222408 / 60504819
    rw [h1, svf_sample_taylor_step]
    norm_num
  have h3 : newtonIterate (trapStep taylorFastMath (-3 / 4) (1 / 4) 1
      (sampleSVF SVF_TRAPEZOIDAL)) (sampleSVF SVF_TRAPEZOIDAL).bp 3 =
      5318967040776395111176712 / 44558980618533322265173251 := by
    show trapStep taylorFastMath (-3 / 4) (1 / 4) 1 (sampleSVF SVF_TRAPEZOIDAL)
      (newtonIterate _ _ 2) = 5318967040776395111176712 / 44558980618533322265173251
    rw [h2, svf_sample_taylor_step]
    norm_num
  exact ⟨h0, h1, h2, h3⟩

/-- C21 (divergence). The Newton loops test `abs(x_k2 - x_k) < 1.0e-9` with the unqualified
`abs`, which is `int abs(int)`: the difference is truncated to an integer first, so the test
succeeds as soon as `|x_{k+1} − x_k| < 1`.  On a state-variable engine constructed with cutoff
0.25, resonance 0.5, no oversampling and the trapezoidal scheme, the first call `filter(1.0)`
(zero dither, Taylor stand-ins for `fastmath.h`) runs the loop with `x_0 = 0`, `x_1 = 8/67`,
`x_2 = 7222408/60504819`: the loop returns `x_1` although `|x_1 − x_0| = 8/67` and
`|x_2 − x_1|` are not below `1e-9`.  The rule of the specification yields `x_3`, and the value
the loop returns does not satisfy that rule; `bp` becomes `399/3350`. -/
theorem C21_newton_exit_divergence :
    trapNewton cstdlibLibM taylorFastMath (-3 / 4) (1 / 4) 1 (sampleSVF SVF_TRAPEZOIDAL) =
      newtonIterate (trapStep taylorFastMath (-3 / 4) (1 / 4) 1 (sampleSVF SVF_TRAPEZOIDAL))
        (sampleSVF SVF_TRAPEZOIDAL).bp 1 ∧
    trapNewton cstdlibLibM taylorFastMath (-3 / 4) (1 / 4) 1 (sampleSVF SVF_TRAPEZOIDAL) =
      8 / 67 ∧
    ¬ |newtonIterate (trapStep taylorFastMath (-3 / 4) (1 / 4) 1 (sampleSVF SVF_TRAPEZOIDAL))
          (sampleSVF SVF_TRAPEZOIDAL).bp 1 -
        newtonIterate (trapStep taylorFastMath (-3 / 4) (1 / 4) 1 (sampleSVF SVF_TRAPEZOIDAL))
          (sampleSVF SVF_TRAPEZOIDAL).bp 0| < 1e-9 ∧
    NewtonExit (fun x => |x|)
      (trapStep taylorFastMath (-3 / 4) (1 / 4) 1 (sampleSVF SVF_TRAPEZOIDAL))
      (sampleSVF SVF_TRAPEZOIDAL).bp
      (5318967040776395111176712 / 44558980618533322265173251) ∧
    ¬ NewtonExit (fun x => |x|)
      (trapStep taylorFastMath (-3 / 4) (1 / 4) 1 (sampleSVF SVF_TRAPEZOIDAL))
      (sampleSVF SVF_TRAPEZOIDAL).bp
      (trapNewton cstdlibLibM taylorFastMath (-3 / 4) (1 / 4) 1 (sampleSVF SVF_TRAPEZOIDAL)) ∧
    (filter cstdlibLibM taylorFastMath 100 50 1 (sampleSVF SVF_TRAPEZOIDAL)).bp =
      399 / 3350 := by
  obtain ⟨h0, h1, h2, h3⟩ := svf_sample_taylor_iterates
  obtain ⟨e1, e2, e3, e4, e5, e6, e7, e8, e9⟩ := svf_sample_fresh SVF_TRAPEZOIDAL
  have hfirst : |trapStep taylorFastMath (-3 / 4) (1 / 4) 1 (sampleSVF SVF_TRAPEZOIDAL)
      (sampleSVF SVF_TRAPEZOIDAL).bp - (sampleSVF SVF_TRAPEZOIDAL).bp| < 1 := by
    have : trapStep taylorFastMath (-3 / 4) (1 / 4) 1 (sampleSVF SVF_TRAPEZOIDAL)
        (sampleSVF SVF_TRAPEZOIDAL).bp = 8 / 67 := h1
    rw [this, e2]
    norm_num [abs_lt]
  have hcode : trapNewton cstdlibLibM taylorFastMath (-3 / 4) (1 / 4) 1
      (sampleSVF SVF_TRAPEZOIDAL) =
      newtonIterate (trapStep taylorFastMath (-3 / 4) (1 / 4) 1 (sampleSVF SVF_TRAPEZOIDAL))
        (sampleSVF SVF_TRAPEZOIDAL).bp 1 :=
    newtonRaphson_cstdlibAbs_first _ _ hfirst
  have t0 : ¬ |newtonIterate (trapStep taylorFastMath (-3 / 4) (1 / 4) 1
        (sampleSVF SVF_TRAPEZOIDAL)) (sampleSVF SVF_TRAPEZOIDAL).bp (0 + 1) -
      newtonIterate (trapStep taylorFastMath (-3 / 4) (1 / 4) 1 (sampleSVF SVF_TRAPEZOIDAL))
        (sampleSVF SVF_TRAPEZOIDAL).bp 0| < 1e-9 := by
    rw [h1, h0]
    norm_num [abs_lt]
  have t1 : ¬ |newtonIterate (trapStep taylorFastMath (-3 / 4) (1 / 4) 1
        (sampleSVF SVF_TRAPEZOIDAL)) (sampleSVF SVF_TRAPEZOIDAL).bp (1 + 1) -
      newtonIterate (trapStep taylorFastMath (-3 / 4) (1 / 4) 1 (sampleSVF SVF_TRAPEZOIDAL))
        (sampleSVF SVF_TRAPEZOIDAL).bp 1| < 1e-9 := by
    rw [h2, h1]
    norm_num [abs_lt]
  have t2 : |newtonIterate (trapStep taylorFastMath (-3 / 4) (1 / 4) 1
        (sampleSVF SVF_TRAPEZOIDAL)) (sampleSVF SVF_TRAPEZOIDAL).bp (2 + 1) -
      newtonIterate (trapStep taylorFastMath (-3 / 4) (1 / 4) 1 (sampleSVF SVF_TRAPEZOIDAL))
        (sampleSVF SVF_TRAPEZOIDAL).bp 2| < 1e-9 := by
    rw [h3, h2]
    norm_num [abs_lt]
  refine ⟨hcode, hcode.trans h1, t0, ?_, ?_, ?_⟩
  · left
    refine ⟨2, by norm_num, ?_, t2, h3.symm⟩
    intro j hj
    interval_cases j
    · exact t0
    · exact t1
  · rw [hcode, h1]
    rintro (⟨k, hk, hno, hyes, hr⟩ | ⟨hno, -⟩)
    · rcases Nat.lt_or_ge k 2 with hlt | hge
      · interval_cases k
        · exact t0 hyes
        · exact t1 hyes
      · rcases Nat.eq_or_lt_of_le hge with heq | hgt
        · subst heq
          rw [h3] at hr
          norm_num at hr
        · exact hno 2 hgt t2
    · exact hno 2 (by norm_num) t2
  · obtain ⟨-, a2, -⟩ := svf_filter_single cstdlibLibM taylorFastMath 100 50 1
      (sampleSVF SVF_TRAPEZOIDAL) e7
    obtain ⟨c1, -⟩ := svf_integrate_trapezoidal cstdlibLibM taylorFastMath
      (1 - 3.5 * (sampleSVF SVF_TRAPEZOIDAL).Resonance) (clampedRate (sampleSVF SVF_TRAPEZOIDAL))
      (1 + ditherNoise 100 50) (sampleSVF SVF_TRAPEZOIDAL) e9
    have hclamp : clampedRate (sampleSVF SVF_TRAPEZOIDAL) = 1 / 4 := by
      simp only [clampedRate, e9, e5]
      norm_num
    have hb : beta (sampleSVF SVF_TRAPEZOIDAL) = 399 / 400 := by
      simp only [beta, e7]
      norm_num
    have hd : (1 : ℚ) + ditherNoise 100 50 = 1 := by norm_num [ditherNoise]
    have hfb : (1 : ℚ) - 3.5 * (1 / 2) = -3 / 4 := by norm_num
    rw [a2, c1, hclamp, hb, hd, e6, hfb, hcode.trans h1]
    norm_num

end SVFilter

namespace SVFilter

open SVFFilterMode SVFIntegrationMethod

/-- C18 (counterexample). A state-variable engine constructed with cutoff 0.25, resonance 0.5,
no oversampling and low-pass mode receives `filter(1.0)` with zero dither: `lp`, `bp`, `hp` and
the output under `SVF_PREDICTOR_CORRECTOR` (all 0) differ from those under
`SVF_SEMI_IMPLICIT_EULER` (`399/6400`, `399/1600`, `1`, `399/6400`). -/
theorem C18_svf_alias_of_euler_counterexample :
    (filter sampleLibM sampleFastMath 100 50 1 (sampleSVF SVF_PREDICTOR_CORRECTOR)).lp ≠
      (filter sampleLibM sampleFastMath 100 50 1 (sampleSVF SVF_SEMI_IMPLICIT_EULER)).lp ∧
    (filter sampleLibM sampleFastMath 100 50 1 (sampleSVF SVF_PREDICTOR_CORRECTOR)).bp ≠
      (filter sampleLibM sampleFastMath 100 50 1 (sampleSVF SVF_SEMI_IMPLICIT_EULER)).bp ∧
    (filter sampleLibM sampleFastMath 100 50 1 (sampleSVF SVF_PREDICTOR_CORRECTOR)).hp ≠
      (filter sampleLibM sampleFastMath 100 50 1 (sampleSVF SVF_SEMI_IMPLICIT_EULER)).hp ∧
    (filter sampleLibM sampleFastMath 100 50 1 (sampleSVF SVF_PREDICTOR_CORRECTOR)).out ≠
      (filter sampleLibM sampleFastMath 100 50 1 (sampleSVF SVF_SEMI_IMPLICIT_EULER)).out := by
  obtain ⟨⟨p1, p2, p3, p4⟩, e1, e2, e3, e4⟩ := svf_sample_pc_and_euler
  rw [p1, p2, p3, p4, e1, e2, e3, e4]
  norm_num

/-- C18 (amended). State-variable predictor-corrector shares with Euler the ceiling 0.25 of the
integration step and the dithered input stored in `u_t1`, but it is not an alias of Euler: for
every state, input, cutoff, resonance, mode and oversampling factor, `filter` with
`SVF_PREDICTOR_CORRECTOR` leaves `lp`, `bp` and `hp` as they were, whereas with
`SVF_SEMI_IMPLICIT_EULER` a tick (oversampling factor 1) stores
`hp = input − lp − fb·bp − SinhPade54(bp)`, `bp = (bp + dt2·hp)·beta` and `lp = lp + dt2·bp`. -/
theorem C18_svf_predictor_corrector_not_euler {F : Type} [LinearOrderedField F] (m : LibM F)
    (fm : FastMath F) (RAND_MAX rnd : Nat) (input : F) (sP sE : SVFilter F)
    (hP : sP.integrationMethod = SVF_PREDICTOR_CORRECTOR)
    (hE : sE.integrationMethod = SVF_SEMI_IMPLICIT_EULER)
    (hdt : sE.dt = sP.dt) (hof : sE.oversamplingFactor = 1) :
    (clampedRate sP = min sP.dt 0.25 ∧ clampedRate sE = clampedRate sP) ∧
    ((filter m fm RAND_MAX rnd input sP).u_t1 = input + ditherNoise RAND_MAX rnd ∧
      (filter m fm RAND_MAX rnd input sE).u_t1 = input + ditherNoise RAND_MAX rnd) ∧
    ((filter m fm RAND_MAX rnd input sP).lp = sP.lp ∧
      (filter m fm RAND_MAX rnd input sP).bp = sP.bp ∧
      (filter m fm RAND_MAX rnd input sP).hp = sP.hp) ∧
    ((filter m fm RAND_MAX rnd input sE).hp =
        input + ditherNoise RAND_MAX rnd - sE.lp - (1 - 3.5 * sE.Resonance) * sE.bp
          - fm.SinhPade54 sE.bp ∧
      (filter m fm RAND_MAX rnd input sE).bp =
        (sE.bp + clampedRate sE * (filter m fm RAND_MAX rnd input sE).hp) * beta sE ∧
      (filter m fm RAND_MAX rnd input sE).lp =
        sE.lp + clampedRate sE * (filter m fm RAND_MAX rnd input sE).bp) := by
  have hcP : clampedRate sP = min sP.dt 0.25 := by
    simp only [clampedRate, hP]
    split_ifs with h
    · exact (min_eq_right (le_of_lt h)).symm
    · exact (min_eq_left (not_lt.mp h)).symm
  have hcE : clampedRate sE = min sE.dt 0.25 := by
    simp only [clampedRate, hE]
    split_ifs with h
    · exact (min_eq_right (le_of_lt h)).symm
    · exact (min_eq_left (not_lt.mp h)).symm
  obtain ⟨b1, b2, b3, -⟩ := svf_filter_single m fm RAND_MAX rnd input sE hof
  obtain ⟨c3, c2, c1⟩ := svf_integrate_euler m fm (1 - 3.5 * sE.Resonance) (clampedRate sE)
    (input + ditherNoise RAND_MAX rnd) sE hE
  refine ⟨⟨hcP, by rw [hcE, hcP, hdt]⟩, ⟨rfl, rfl⟩, svf_filter_pc m fm RAND_MAX rnd input sP hP,
    ?_, ?_, ?_⟩
  · rw [b3, c3]
  · rw [b2, b3, c2, c3]
  · rw [b1, b2, c1, c2]

theorem C18_svf_predictor_corrector_not_euler_witness :
    (filter sampleLibM sampleFastMath 100 50 1 (sampleSVFState SVF_PREDICTOR_CORRECTOR)).bp =
      (sampleSVFState SVF_PREDICTOR_CORRECTOR).bp ∧
    (filter sampleLibM sampleFastMath 100 50 1 (sampleSVFState SVF_SEMI_IMPLICIT_EULER)).hp =
      1 + ditherNoise 100 50 - (sampleSVFState SVF_SEMI_IMPLICIT_EULER).lp
        - (1 - 3.5 * (sampleSVFState SVF_SEMI_IMPLICIT_EULER).Resonance)
          * (sampleSVFState SVF_SEMI_IMPLICIT_EULER).bp
        - sampleFastMath.SinhPade54 (sampleSVFState SVF_SEMI_IMPLICIT_EULER).bp :=
  have h := C18_svf_predictor_corrector_not_euler sampleLibM sampleFastMath 100 50 1
    (sampleSVFState SVF_PREDICTOR_CORRECTOR) (sampleSVFState SVF_SEMI_IMPLICIT_EULER) rfl rfl rfl
    rfl
  ⟨h.2.2.1.2.1, h.2.2.2.1⟩

end SVFilter

end Kocmoc
